import Mathlib

/-!
Serial API frame engine of the Z-Wave NCP controller.

A shallow embedding of the queueing and acknowledge/retry logic of `app.c`
(`Request`, `RequestUnsolicited`, `PurgeCallbackQueue`, `PurgeCommandQueue`,
`Respond`, `PopCallBackQueue`, `PopCommandQueue`, `ApplicationInitSW`,
`SerialAPICommandHandler`, `SerialAPIStateHandler`), of its request builders
(`ApplicationNodeUpdate`, `ApplicationCommandHandler`,
`ApplicationCommandHandler_Bridge`, `request_protocol_cc_encryption`) and of
the setup command family of `cmds_management.c` (`func_id_serial_api_setup`),
followed by theorems about them.

Conventions of the embedding:

* `uint8_t` values are natural numbers; every increment that can wrap is
  written with an explicit `% 256`, every `(uint8_t)` cast likewise.
* The file-scope variables of `app.c` are the fields of `Machine`, and so is
  the function-scope `static` counter `sessionId` of the relay.
* Calls into collaborators that live outside `app.c` are recorded in the
  machine (`txLog`, `parseLog`, `notifyCnt`, `extCalls`); what such a call
  returns is supplied by `Env`.
* An array indexed outside its bounds and a failing `assert` do not produce
  a machine: they are the two failure outcomes of `Outcome`.
* `taskENTER_CRITICAL` / `taskEXIT_CRITICAL` have no effect on a sequential
  execution and are not represented in the machine; the bracketing of the
  command-queue writes is modelled apart, as sequences of `QueueStep`.
-/

namespace SerialAPI

/-! ## Build-time constants -/

/-- Constants and build switches that `app.c` takes from headers and from the
compiler command line. They are parameters of the embedding. -/
structure Config where
  /-- Size of the transmit work buffer and of every queue slot payload. -/
  BUF_SIZE_TX : Nat
  /-- Number of retransmissions allowed after the first transmission. -/
  MAX_SERIAL_RETRY : Nat
  /-- When `true`, `assert` expands to nothing. -/
  NDEBUG : Bool
  /-- Compile switch around `bTxStatusReportEnabled = true`. -/
  SUPPORT_SEND_DATA_TIMING : Bool
  /-- Compile switch around the startup notification. -/
  SUPPORT_SERIAL_API_STARTUP_NOTIFICATION : Bool
  /-- Compile switch `SUPPORT_ZW_WATCHDOG_START || SUPPORT_ZW_WATCHDOG_STOP`. -/
  SUPPORT_ZW_WATCHDOG : Bool
  /-- Command code of the startup notification. -/
  FUNC_ID_SERIAL_API_STARTED : Nat
  /-- Capability flag reported for a long-range region. -/
  SERIAL_API_STARTED_CAPABILITIES_L0NG_RANGE : Nat
  /-- Largest node-information length reported in a node update. -/
  MAX_NODE_INFO_LENGTH : Nat
  /-- Command code of the node-update notification. -/
  FUNC_ID_ZW_APPLICATION_UPDATE : Nat
  /-- Command code of the application-command delivery. -/
  FUNC_ID_APPLICATION_COMMAND_HANDLER : Nat
  /-- Value of `nodeIdBaseType` that selects 16-bit node IDs. -/
  SERIAL_API_SETUP_NODEID_BASE_TYPE_16_BIT : Nat
  /-- Value of `nodeIdBaseType` at start. -/
  SERIAL_API_SETUP_NODEID_BASE_TYPE_DEFAULT : Nat
  /-- Command code of the application-command delivery of a bridge controller. -/
  FUNC_ID_APPLICATION_COMMAND_HANDLER_BRIDGE : Nat
  /-- Bit of `rxStatus` that marks a multicast frame. -/
  RECEIVE_STATUS_TYPE_MULTI : Nat
  /-- Value of `sizeof (pReceiveMulti->Payload)`. -/
  sizeof_Payload : Nat
  /-- Length of the protocol metadata of an encryption request. -/
  PROTOCOL_METADATA_LENGTH : Nat
  /-- Command code of the encryption-request relay. -/
  FUNC_ID_ZW_REQUEST_PROTOCOL_CC_ENCRYPTION : Nat
deriving DecidableEq, Repr

/-- Default of `MAX_CALLBACK_QUEUE` in `app.c`. -/
def MAX_CALLBACK_QUEUE : Nat := 8

/-- Default of `MAX_UNSOLICITED_QUEUE` in `app.c`. -/
def MAX_UNSOLICITED_QUEUE : Nat := 8

/-! ## Outcomes -/

/-- Result of running a piece of the program: a value, or one of the two ways
in which the C code does not reach its end. -/
inductive Outcome (α : Type) where
  | ok (a : α)
  | assertFailed
  | outOfBounds
deriving DecidableEq, Repr

/-- Sequencing of outcomes. -/
def Outcome.bind {α β : Type} (x : Outcome α) (f : α → Outcome β) : Outcome β :=
  match x with
  | .ok a => f a
  | .assertFailed => .assertFailed
  | .outOfBounds => .outOfBounds

/-- The C `assert` macro: nothing under `NDEBUG`, otherwise abort when the
condition is false. -/
def cAssert (cfg : Config) (cond : Bool) : Outcome Unit :=
  if cfg.NDEBUG then .ok ()
  else if cond then .ok () else .assertFailed

/-- The bytes `memcpy (dst, src, n)` leaves in `dst`: the first `n` bytes of
`src`, then the old content of `dst` from offset `n` on. -/
def memcpy (dst src : List Nat) (n : Nat) : List Nat :=
  src.take n ++ dst.drop n

/-! ## Data model -/

/-- Slot of a queue (`CALLBACK_ELEMENT`). -/
structure CALLBACK_ELEMENT where
  wCmd : Nat
  wLen : Nat
  wBuf : List Nat
deriving DecidableEq, Repr

/-- Ring of queued frames (`REQUEST_QUEUE`; `REQUEST_UNSOLICITED_QUEUE` has the
same members). -/
structure REQUEST_QUEUE where
  requestOut : Nat
  requestIn : Nat
  requestCnt : Nat
  requestQueue : List CALLBACK_ELEMENT
deriving DecidableEq, Repr

/-- Values of the variable `state` that `SerialAPIStateHandler` switches on.
The enumeration is declared in a header; `other v` is any value `v` that is
none of the six constants (the initial `0xff`, `stateAppSuspend`). -/
inductive SerialState where
  | stateStartup
  | stateIdle
  | stateFrameParse
  | stateTxSerial
  | stateCallbackTxSerial
  | stateCommandTxSerial
  | other (v : Nat)
deriving DecidableEq, Repr

/-- Results of `comm_interface_parse_data` that `app.c` distinguishes; `other`
is every remaining result. -/
inductive ParseResult where
  | PARSE_FRAME_RECEIVED
  | PARSE_FRAME_SENT
  | PARSE_TX_TIMEOUT
  | other (v : Nat)
deriving DecidableEq, Repr

/-- Frame type argument of `comm_interface_transmit_frame`. -/
inductive FrameType where
  | REQUEST
  | RESPONSE
deriving DecidableEq, Repr

/-- One call of `comm_interface_transmit_frame (cmd, type, pData, len, NULL)`.
`pData` is `none` for a `NULL` pointer, otherwise the `len` bytes it points to. -/
structure TxCall where
  cmd : Nat
  type : FrameType
  pData : Option (List Nat)
  len : Nat
deriving DecidableEq, Repr

/-- Other collaborators called by the state handler, and the calls by which
the setup command handler persists a setting. -/
inductive ExtCall where
  | comm_interface_init
  | SetRFReceiveMode (mode : Nat)
  | AppTimerDeepSleepPersistentRegister
  | SaveApplicationRfRegion (rfRegion : Nat)
  | SaveApplicationTxPowerlevel (iTxPower iAdjust : Int)
  | SaveApplicationNodeIdBaseType (nodeIdBaseType : Nat)
  | SaveApplicationMaxLRTxPwr (iTxPower : Int)
deriving DecidableEq, Repr

/-- The file-scope variables of `app.c` and the record of calls made to the
collaborators. -/
structure Machine where
  state : SerialState
  retry : Nat
  lastRetVal : Nat
  compl_workbuf : List Nat
  callbackQueue : REQUEST_QUEUE
  commandQueue : REQUEST_QUEUE
  bTxStatusReportEnabled : Bool
  nodeIdBaseType : Nat
  /-- The `static uint8_t sessionId` of `request_protocol_cc_encryption`. -/
  sessionId : Nat
  /-- Calls of `comm_interface_transmit_frame`, oldest first. -/
  txLog : List TxCall
  /-- Arguments of the calls of `comm_interface_parse_data`, oldest first. -/
  parseLog : List Bool
  /-- Number of calls of `xTaskNotify`. -/
  notifyCnt : Nat
  /-- Remaining calls to collaborators, oldest first. -/
  extCalls : List ExtCall
deriving DecidableEq, Repr

/-- Data that `ApplicationInitSW` reads from its collaborators. -/
structure StartupInputs where
  g_eApplResetReason : Nat
  bWatchdogStarted : Nat
  DeviceOptionsMask : Nat
  generic : Nat
  specific : Nat
  /-- `CommandClasses.UnSecureIncludedCC.iListLength`. -/
  iListLength : Nat
  /-- `CommandClasses.UnSecureIncludedCC.pCommandClasses`. -/
  pCommandClasses : List Nat
  /-- Result of `ZAF_isLongRangeRegion (RadioConfig->eRegion)`. -/
  isLongRangeRegion : Bool
  /-- `zpal_retention_register_read`: `none` when the status is not
  `ZPAL_STATUS_OK`, otherwise the 32-bit value read. -/
  resetInfo : Option Nat
deriving DecidableEq, Repr

/-- What the collaborators answer during one run of the state handler. -/
structure Env where
  /-- Return value of `comm_interface_parse_data`. -/
  parse : ParseResult
  /-- Inputs of `ApplicationInitSW`. -/
  startup : StartupInputs
  /-- Command code of the frame in `serial_frame`. -/
  serial_frame_cmd : Nat
  /-- The handler registry: the handler registered for a command code, if any. -/
  lookup_handler : Nat → Option (Machine → Outcome Machine)

/-! ## Queue operations -/

/-- `set_state_and_notify`. -/
def set_state_and_notify (st : SerialState) (m : Machine) : Machine :=
  if m.state ≠ st then
    { m with notifyCnt := m.notifyCnt + 1, state := st }
  else m

/-- `set_state`. -/
def set_state (st : SerialState) (m : Machine) : Machine :=
  { m with state := st }

/-- `Request`: queue a frame on `callbackQueue`. The boolean is the return
value. -/
def Request (cfg : Config) (cmd : Nat) (pData : List Nat) (len : Nat) (m : Machine) :
    Outcome (Bool × Machine) :=
  let q := m.callbackQueue
  if q.requestCnt < MAX_CALLBACK_QUEUE then
    let cnt := (q.requestCnt + 1) % 256
    match q.requestQueue[q.requestIn]? with
    | none => .outOfBounds
    | some e =>
      (if len > cfg.BUF_SIZE_TX % 256 then
        (cAssert cfg (decide (cfg.BUF_SIZE_TX % 256 ≥ len))).bind fun _ =>
          .ok (cfg.BUF_SIZE_TX % 256)
      else .ok len).bind fun len1 =>
        let e1 : CALLBACK_ELEMENT := { wCmd := cmd, wLen := len1, wBuf := memcpy e.wBuf pData len1 }
        let i := (q.requestIn + 1) % 256
        .ok (true,
          { m with
            callbackQueue :=
              { requestOut := q.requestOut
                requestIn := if i ≥ MAX_CALLBACK_QUEUE then 0 else i
                requestCnt := cnt
                requestQueue := q.requestQueue.set q.requestIn e1 }
            notifyCnt := m.notifyCnt + 1 })
  else .ok (false, m)

/-- `RequestUnsolicited`: queue a frame on `commandQueue`. The boolean is the
return value. -/
def RequestUnsolicited (cfg : Config) (cmd : Nat) (pData : List Nat) (len : Nat) (m : Machine) :
    Outcome (Bool × Machine) :=
  let q := m.commandQueue
  if q.requestCnt < MAX_UNSOLICITED_QUEUE then
    let cnt := (q.requestCnt + 1) % 256
    match q.requestQueue[q.requestIn]? with
    | none => .outOfBounds
    | some e =>
      (if len > cfg.BUF_SIZE_TX % 256 then
        (cAssert cfg (decide (cfg.BUF_SIZE_TX % 256 ≥ len))).bind fun _ =>
          .ok (cfg.BUF_SIZE_TX % 256)
      else .ok len).bind fun len1 =>
        let e1 : CALLBACK_ELEMENT := { wCmd := cmd, wLen := len1, wBuf := memcpy e.wBuf pData len1 }
        let i := (q.requestIn + 1) % 256
        .ok (true,
          { m with
            commandQueue :=
              { requestOut := q.requestOut
                requestIn := if i ≥ MAX_UNSOLICITED_QUEUE then 0 else i
                requestCnt := cnt
                requestQueue := q.requestQueue.set q.requestIn e1 }
            notifyCnt := m.notifyCnt + 1 })
  else .ok (false, m)

/-- `PurgeCallbackQueue`. -/
def PurgeCallbackQueue (m : Machine) : Machine :=
  { m with callbackQueue :=
      { m.callbackQueue with requestOut := 0, requestIn := 0, requestCnt := 0 } }

/-- `PurgeCommandQueue`. -/
def PurgeCommandQueue (m : Machine) : Machine :=
  { m with commandQueue :=
      { m.commandQueue with requestOut := 0, requestIn := 0, requestCnt := 0 } }

/-- `PopCallBackQueue`. -/
def PopCallBackQueue (m : Machine) : Machine :=
  let q := m.callbackQueue
  let q1 : REQUEST_QUEUE :=
    if q.requestCnt ≠ 0 then
      let o := (q.requestOut + 1) % 256
      { q with
        requestCnt := q.requestCnt - 1
        requestOut := if o ≥ MAX_CALLBACK_QUEUE then 0 else o }
    else
      { q with requestOut := q.requestIn }
  set_state_and_notify .stateIdle { m with callbackQueue := q1, retry := 0 }

/-- `PopCommandQueue`. -/
def PopCommandQueue (m : Machine) : Machine :=
  let q := m.commandQueue
  let q1 : REQUEST_QUEUE :=
    if q.requestCnt ≠ 0 then
      let o := (q.requestOut + 1) % 256
      { q with
        requestCnt := q.requestCnt - 1
        requestOut := if o ≥ MAX_UNSOLICITED_QUEUE then 0 else o }
    else
      { q with requestOut := q.requestIn }
  set_state_and_notify .stateIdle { m with commandQueue := q1, retry := 0 }

/-! ## Transmission and the state handler -/

/-- Record a call of `comm_interface_transmit_frame`. -/
def comm_interface_transmit_frame (cmd : Nat) (type : FrameType) (pData : Option (List Nat))
    (len : Nat) (m : Machine) : Machine :=
  { m with txLog := m.txLog ++ [{ cmd := cmd, type := type, pData := pData, len := len }] }

/-- Record a call of `comm_interface_parse_data (ack)`; its return value is
`Env.parse`. -/
def comm_interface_parse_data (ack : Bool) (m : Machine) : Machine :=
  { m with parseLog := m.parseLog ++ [ack] }

/-- Record a call of one of the remaining collaborators. -/
def extCall (c : ExtCall) (m : Machine) : Machine :=
  { m with extCalls := m.extCalls ++ [c] }

/-- `Respond`: send an immediate response and wait for its acknowledge. With
`len = 0` the pointer handed over is a dummy that is not `NULL`. -/
def Respond (cmd : Nat) (pData : List Nat) (len : Nat) (m : Machine) : Machine :=
  set_state_and_notify .stateTxSerial
    (comm_interface_transmit_frame cmd .RESPONSE (some (pData.take len)) len m)

/-- `DoRespond`: respond with the single byte `retVal`, kept in `lastRetVal`
for retransmission. The command is that of the frame in `serial_frame`. -/
def DoRespond (env : Env) (retVal : Nat) (m : Machine) : Machine :=
  Respond env.serial_frame_cmd [retVal % 256] 1 { m with lastRetVal := retVal % 256 }

/-- `DoRespond_workbuf`: respond with the first `cnt` bytes of `compl_workbuf`. -/
def DoRespond_workbuf (env : Env) (cnt : Nat) (m : Machine) : Machine :=
  Respond env.serial_frame_cmd m.compl_workbuf cnt m

/-- The assignment `buf[i] = v` to an array of `uint8_t`. -/
def writeByte (buf : List Nat) (i : Nat) (v : Nat) : Outcome (List Nat) :=
  if i < buf.length then .ok (buf.set i (v % 256)) else .outOfBounds

/-- The loop `for (i = k; i < k + r; i++) buf[base + i] = src[i];`. -/
def forCopy (base : Nat) (src : List Nat) (k : Nat) : Nat → List Nat → Outcome (List Nat)
  | 0, buf => .ok buf
  | r + 1, buf =>
    match src[k]? with
    | none => .outOfBounds
    | some v => (writeByte buf (base + k) v).bind (forCopy base src (k + 1) r)

/-- `ApplicationInitSW`. -/
def ApplicationInitSW (cfg : Config) (inp : StartupInputs) (m : Machine) : Outcome Machine :=
  let m0 := extCall .comm_interface_init m
  let m1 := { m0 with bTxStatusReportEnabled := cfg.SUPPORT_SEND_DATA_TIMING }
  (if cfg.SUPPORT_SERIAL_API_STARTUP_NOTIFICATION then
    (writeByte m1.compl_workbuf 0 inp.g_eApplResetReason).bind fun b0 =>
    (writeByte b0 1 (if cfg.SUPPORT_ZW_WATCHDOG then inp.bWatchdogStarted else 0)).bind fun b1 =>
    (writeByte b1 2 inp.DeviceOptionsMask).bind fun b2 =>
    (writeByte b2 3 inp.generic).bind fun b3 =>
    (writeByte b3 4 inp.specific).bind fun b4 =>
    (writeByte b4 5 inp.iListLength).bind fun b5 =>
    (forCopy 6 inp.pCommandClasses 0 inp.iListLength b5).bind fun b6 =>
    let i := inp.iListLength
    let capabilities :=
      if inp.isLongRangeRegion then cfg.SERIAL_API_STARTED_CAPABILITIES_L0NG_RANGE else 0
    (writeByte b6 (6 + i) capabilities).bind fun b7 =>
    match inp.resetInfo with
    | none =>
      (Request cfg cfg.FUNC_ID_SERIAL_API_STARTED b7 ((7 + i) % 256)
        { m1 with compl_workbuf := b7 }).bind fun r => .ok r.2
    | some zpal_reset_info =>
      (writeByte b7 (7 + i) (zpal_reset_info / 2 ^ 24)).bind fun b8 =>
      (writeByte b8 (8 + i) (zpal_reset_info / 2 ^ 16)).bind fun b9 =>
      (writeByte b9 (9 + i) (zpal_reset_info / 2 ^ 8)).bind fun b10 =>
      (writeByte b10 (10 + i) zpal_reset_info).bind fun b11 =>
      (Request cfg cfg.FUNC_ID_SERIAL_API_STARTED b11 ((11 + i) % 256)
        { m1 with compl_workbuf := b11 }).bind fun r => .ok r.2
  else .ok m1).bind fun m2 =>
    .ok (extCall .AppTimerDeepSleepPersistentRegister m2)

/-- Modelled from the spec: `invoke_cmd_handler`, the dispatch over the handler
registry, is not part of `app.c`. The spec gives it as
`lookup_handler(cmd) -> Option<Handler>`: with no handler registered nothing
runs and the result is `false`; otherwise the handler runs and the result is
`true`. -/
def invoke_cmd_handler (env : Env) (m : Machine) : Outcome (Bool × Machine) :=
  match env.lookup_handler env.serial_frame_cmd with
  | none => .ok (false, m)
  | some h => (h m).bind fun m1 => .ok (true, m1)

/-- `SerialAPICommandHandler`. -/
def SerialAPICommandHandler (env : Env) (m : Machine) : Outcome Machine :=
  (invoke_cmd_handler env m).bind fun r =>
    if r.1 = false then .ok (set_state_and_notify .stateIdle r.2) else .ok r.2

/-- `SerialAPIStateHandler`: one run of the state handler. -/
def SerialAPIStateHandler (cfg : Config) (env : Env) (m : Machine) : Outcome Machine :=
  match m.state with
  | .stateStartup =>
    (ApplicationInitSW cfg env.startup m).bind fun m1 =>
      .ok (set_state_and_notify .stateIdle (extCall (.SetRFReceiveMode 1) m1))
  | .stateIdle =>
    if m.callbackQueue.requestCnt ≠ 0 then
      match m.callbackQueue.requestQueue[m.callbackQueue.requestOut]? with
      | none => .outOfBounds
      | some e =>
        .ok (set_state_and_notify .stateCallbackTxSerial
          (comm_interface_transmit_frame e.wCmd .REQUEST (some (e.wBuf.take e.wLen)) e.wLen m))
    else if m.commandQueue.requestCnt ≠ 0 then
      match m.commandQueue.requestQueue[m.commandQueue.requestOut]? with
      | none => .outOfBounds
      | some e =>
        .ok (set_state_and_notify .stateCommandTxSerial
          (comm_interface_transmit_frame e.wCmd .REQUEST (some (e.wBuf.take e.wLen)) e.wLen m))
    else
      let m1 := comm_interface_parse_data true m
      if env.parse = .PARSE_FRAME_RECEIVED then
        .ok (set_state_and_notify .stateFrameParse m1)
      else .ok m1
  | .stateFrameParse => SerialAPICommandHandler env m
  | .stateTxSerial =>
    let m1 := comm_interface_parse_data false m
    if env.parse = .PARSE_FRAME_SENT then
      .ok (set_state_and_notify .stateIdle { m1 with retry := 0 })
    else if env.parse = .PARSE_TX_TIMEOUT then
      let m2 := { m1 with retry := (m1.retry + 1) % 256 }
      if m1.retry < cfg.MAX_SERIAL_RETRY then
        .ok (comm_interface_transmit_frame 0 .REQUEST none 0 m2)
      else
        .ok (set_state_and_notify .stateIdle { m2 with retry := 0 })
    else .ok m1
  | .stateCallbackTxSerial =>
    let m1 := comm_interface_parse_data false m
    if env.parse = .PARSE_FRAME_SENT then
      .ok (PopCallBackQueue m1)
    else if env.parse = .PARSE_TX_TIMEOUT then
      let m2 := { m1 with retry := (m1.retry + 1) % 256 }
      if m1.retry < cfg.MAX_SERIAL_RETRY then
        .ok (comm_interface_transmit_frame 0 .REQUEST none 0 m2)
      else
        .ok (PopCallBackQueue m2)
    else .ok m1
  | .stateCommandTxSerial =>
    let m1 := comm_interface_parse_data false m
    if env.parse = .PARSE_FRAME_SENT then
      .ok (PopCommandQueue m1)
    else if env.parse = .PARSE_TX_TIMEOUT then
      let m2 := { m1 with retry := (m1.retry + 1) % 256 }
      if m1.retry < cfg.MAX_SERIAL_RETRY then
        .ok (comm_interface_transmit_frame 0 .REQUEST none 0 m2)
      else
        .ok (PopCommandQueue m2)
    else .ok m1
  | .other _ => .ok (set_state_and_notify .stateIdle m)

/-- Successive runs of the state handler, one per wake-up event, the answers of
the collaborators given run by run. -/
def runHandler (cfg : Config) : List Env → Machine → Outcome Machine
  | [], m => .ok m
  | env :: envs, m => (SerialAPIStateHandler cfg env m).bind (runHandler cfg envs)

/-! ## Sequences of queue operations -/

/-- Arguments of one call of `Request` or `RequestUnsolicited`. -/
structure Frame where
  cmd : Nat
  pData : List Nat
  len : Nat
deriving DecidableEq, Repr

/-- Successive calls of `Request`, no other operation in between; the return
values in call order and the machine after the last call. -/
def requestEach (cfg : Config) : List Frame → Machine → Outcome (List Bool × Machine)
  | [], m => .ok ([], m)
  | f :: fs, m =>
    (Request cfg f.cmd f.pData f.len m).bind fun r =>
      (requestEach cfg fs r.2).bind fun rs => .ok (r.1 :: rs.1, rs.2)

/-- Successive calls of `RequestUnsolicited`, no other operation in between. -/
def requestUnsolicitedEach (cfg : Config) : List Frame → Machine → Outcome (List Bool × Machine)
  | [], m => .ok ([], m)
  | f :: fs, m =>
    (RequestUnsolicited cfg f.cmd f.pData f.len m).bind fun r =>
      (requestUnsolicitedEach cfg fs r.2).bind fun rs => .ok (r.1 :: rs.1, rs.2)

/-- A zero-initialised queue (`= { 0 }`) with slots of `BUF_SIZE_TX` bytes. -/
def zeroQueue (cfg : Config) (n : Nat) : REQUEST_QUEUE :=
  { requestOut := 0
    requestIn := 0
    requestCnt := 0
    requestQueue := List.replicate n { wCmd := 0, wLen := 0, wBuf := List.replicate cfg.BUF_SIZE_TX 0 } }

/-- The machine as the C start-up code leaves it: `state = 0xff`, `retry = 0`,
both queues and the work buffer zeroed, nothing called yet. -/
def initMachine (cfg : Config) : Machine :=
  { state := .other 0xff
    retry := 0
    lastRetVal := 0
    compl_workbuf := List.replicate cfg.BUF_SIZE_TX 0
    callbackQueue := zeroQueue cfg MAX_CALLBACK_QUEUE
    commandQueue := zeroQueue cfg MAX_UNSOLICITED_QUEUE
    bTxStatusReportEnabled := false
    nodeIdBaseType := cfg.SERIAL_API_SETUP_NODEID_BASE_TYPE_DEFAULT
    sessionId := 0
    txLog := []
    parseLog := []
    notifyCnt := 0
    extCalls := [] }

/-- A small configuration with assertions compiled out, used to evaluate the
embedding on concrete inputs. -/
def cfgSmall : Config :=
  { BUF_SIZE_TX := 4
    MAX_SERIAL_RETRY := 2
    NDEBUG := true
    SUPPORT_SEND_DATA_TIMING := false
    SUPPORT_SERIAL_API_STARTUP_NOTIFICATION := true
    SUPPORT_ZW_WATCHDOG := false
    FUNC_ID_SERIAL_API_STARTED := 10
    SERIAL_API_STARTED_CAPABILITIES_L0NG_RANGE := 1
    MAX_NODE_INFO_LENGTH := 173
    FUNC_ID_ZW_APPLICATION_UPDATE := 0x49
    FUNC_ID_APPLICATION_COMMAND_HANDLER := 0x04
    SERIAL_API_SETUP_NODEID_BASE_TYPE_16_BIT := 2
    SERIAL_API_SETUP_NODEID_BASE_TYPE_DEFAULT := 1
    FUNC_ID_APPLICATION_COMMAND_HANDLER_BRIDGE := 0xA8
    RECEIVE_STATUS_TYPE_MULTI := 0x08
    sizeof_Payload := 170
    PROTOCOL_METADATA_LENGTH := 8
    FUNC_ID_ZW_REQUEST_PROTOCOL_CC_ENCRYPTION := 0x6C }

/-- The configuration `cfgSmall` with assertions compiled in. -/
def cfgSmallAssert : Config :=
  { cfgSmall with NDEBUG := false }

/-- Eight one-byte frames with commands `1 .. 8`. -/
def eightFrames : List Frame :=
  (List.range 8).map fun i => { cmd := i + 1, pData := [i], len := 1 }

/-- The machine of an outcome, or the given machine when there is none. -/
def Outcome.machineOr (x : Outcome (List Bool × Machine)) (m : Machine) : Machine :=
  match x with
  | .ok r => r.2
  | _ => m

/-- The start machine of `cfgSmall` after `eightFrames` went through `Request`. -/
def fullCallbackMachine : Machine :=
  (requestEach cfgSmall eightFrames (initMachine cfgSmall)).machineOr (initMachine cfgSmall)

/-- The start machine of `cfgSmall` after `eightFrames` went through
`RequestUnsolicited`. -/
def fullCommandMachine : Machine :=
  (requestUnsolicitedEach cfgSmall eightFrames (initMachine cfgSmall)).machineOr
    (initMachine cfgSmall)

/-- Read the slot at `requestOut` of the callback queue, then call
`PopCallBackQueue`; `k` times over. The slots read, in the order read. -/
def drainCallback : Nat → Machine → Outcome (List CALLBACK_ELEMENT × Machine)
  | 0, m => .ok ([], m)
  | k + 1, m =>
    match m.callbackQueue.requestQueue[m.callbackQueue.requestOut]? with
    | none => .outOfBounds
    | some e => (drainCallback k (PopCallBackQueue m)).bind fun r => .ok (e :: r.1, r.2)

/-- Read the slot at `requestOut` of the command queue, then call
`PopCommandQueue`; `k` times over. The slots read, in the order read. -/
def drainCommand : Nat → Machine → Outcome (List CALLBACK_ELEMENT × Machine)
  | 0, m => .ok ([], m)
  | k + 1, m =>
    match m.commandQueue.requestQueue[m.commandQueue.requestOut]? with
    | none => .outOfBounds
    | some e => (drainCommand k (PopCommandQueue m)).bind fun r => .ok (e :: r.1, r.2)

/-- Command, length and payload bytes carried by a slot. -/
def CALLBACK_ELEMENT.content (e : CALLBACK_ELEMENT) : Nat × Nat × List Nat :=
  (e.wCmd, e.wLen, e.wBuf.take e.wLen)

/-- Command, length and payload bytes offered by a producer. -/
def Frame.content (f : Frame) : Nat × Nat × List Nat :=
  (f.cmd, f.len, f.pData.take f.len)

/-- The pending entries of a ring, oldest first: the `requestCnt` slots from
`requestOut` on, wrapping at 8. -/
def REQUEST_QUEUE.entries (q : REQUEST_QUEUE) : List CALLBACK_ELEMENT :=
  (List.range q.requestCnt).map fun j =>
    (q.requestQueue[(q.requestOut + j) % 8]?).getD { wCmd := 0, wLen := 0, wBuf := [] }

/-- The ring invariant: at most eight entries, both indices inside the array of
eight slots, and `requestIn` ahead of `requestOut` by `requestCnt` modulo 8. -/
def QInv (q : REQUEST_QUEUE) : Prop :=
  q.requestCnt ≤ 8 ∧ q.requestIn < 8 ∧ q.requestOut < 8 ∧
    q.requestIn = (q.requestOut + q.requestCnt) % 8 ∧ q.requestQueue.length = 8

instance (q : REQUEST_QUEUE) : Decidable (QInv q) := by
  unfold QInv
  infer_instance

/-- Three frames with different commands, lengths and payloads. -/
def threeFrames : List Frame :=
  [ { cmd := 0x13, pData := [1, 2], len := 2 },
    { cmd := 0x49, pData := [3, 4, 5, 6], len := 4 },
    { cmd := 0x04, pData := [7, 8, 9], len := 1 } ]

/-- The start machine of `cfgSmall` with both rings empty at slot 6, so that
three entries wrap around the end of the array. -/
def emptyAtSixMachine : Machine :=
  { initMachine cfgSmall with
    callbackQueue := { zeroQueue cfgSmall 8 with requestOut := 6, requestIn := 6 }
    commandQueue := { zeroQueue cfgSmall 8 with requestOut := 6, requestIn := 6 } }

/-- Answers of the collaborators for a run in which `comm_interface_parse_data`
returns `p`, nothing special is read at start-up and no handler is registered. -/
def envOf (p : ParseResult) : Env :=
  { parse := p
    startup :=
      { g_eApplResetReason := 0
        bWatchdogStarted := 0
        DeviceOptionsMask := 0
        generic := 0
        specific := 0
        iListLength := 0
        pCommandClasses := []
        isLongRangeRegion := false
        resetInfo := none }
    serial_frame_cmd := 0
    lookup_handler := fun _ => none }

/-- One operation on the two queues. -/
inductive QueueOp where
  | request (f : Frame)
  | requestUnsolicited (f : Frame)
  | popCallBack
  | popCommand
  | purgeCallback
  | purgeCommand
deriving DecidableEq, Repr

/-- Run one queue operation. -/
def applyOp (cfg : Config) : QueueOp → Machine → Outcome Machine
  | .request f, m => (Request cfg f.cmd f.pData f.len m).bind fun r => .ok r.2
  | .requestUnsolicited f, m =>
    (RequestUnsolicited cfg f.cmd f.pData f.len m).bind fun r => .ok r.2
  | .popCallBack, m => .ok (PopCallBackQueue m)
  | .popCommand, m => .ok (PopCommandQueue m)
  | .purgeCallback, m => .ok (PurgeCallbackQueue m)
  | .purgeCommand, m => .ok (PurgeCommandQueue m)

/-- Run queue operations one after the other. -/
def applyOps (cfg : Config) : List QueueOp → Machine → Outcome Machine
  | [], m => .ok m
  | op :: ops, m => (applyOp cfg op m).bind (applyOps cfg ops)

/-- A machine with arbitrary, inconsistent ring indices and counters. -/
def scrambledMachine : Machine :=
  { initMachine cfgSmall with
    state := .stateIdle
    callbackQueue := { zeroQueue cfgSmall 8 with requestOut := 5, requestIn := 2, requestCnt := 7 }
    commandQueue := { zeroQueue cfgSmall 8 with requestOut := 3, requestIn := 3, requestCnt := 200 } }

/-- A run of queue operations that fills the callback ring past the end of
the array, empties part of it, purges the command ring and pops an empty ring. -/
def sampleOps : List QueueOp :=
  (eightFrames.map QueueOp.request) ++
    [.request { cmd := 9, pData := [9], len := 1 },
     .popCallBack, .popCallBack,
     .requestUnsolicited { cmd := 7, pData := [1, 2], len := 2 },
     .request { cmd := 10, pData := [10], len := 1 },
     .purgeCommand, .popCommand, .popCallBack]

/-- The machine of an outcome, or the given machine when there is none. -/
def Outcome.getD (x : Outcome Machine) (m : Machine) : Machine :=
  match x with
  | .ok r => r
  | _ => m

/-- The call `comm_interface_transmit_frame (0, REQUEST, NULL, 0, NULL)` that
asks for the last frame to be sent again. -/
def retransmit : TxCall :=
  { cmd := 0, type := .REQUEST, pData := none, len := 0 }

/-- The call of `comm_interface_transmit_frame` that sends a queue slot as a
`REQUEST` frame. -/
def requestFrameOf (e : CALLBACK_ELEMENT) : TxCall :=
  { cmd := e.wCmd, type := .REQUEST, pData := some (e.wBuf.take e.wLen), len := e.wLen }

/-- The start machine of `cfgSmall`, in `stateIdle`. -/
def idleMachine : Machine :=
  { initMachine cfgSmall with state := .stateIdle }

/-- The Idle machine of `cfgSmall` with one two-byte entry in the callback
queue. -/
def oneCallbackMachine : Machine :=
  (requestEach cfgSmall [{ cmd := 0x13, pData := [1, 2], len := 2 }] idleMachine).machineOr
    idleMachine

/-- The Idle machine of `cfgSmall` with one three-byte entry in the command
queue. -/
def oneCommandMachine : Machine :=
  (requestUnsolicitedEach cfgSmall [{ cmd := 0x04, pData := [7, 8, 9], len := 3 }]
    idleMachine).machineOr idleMachine

/-- A configuration with a 168-byte buffer, three retries and assertions
compiled in. -/
def cfgAssert168 : Config :=
  { BUF_SIZE_TX := 168
    MAX_SERIAL_RETRY := 3
    NDEBUG := false
    SUPPORT_SEND_DATA_TIMING := true
    SUPPORT_SERIAL_API_STARTUP_NOTIFICATION := true
    SUPPORT_ZW_WATCHDOG := false
    FUNC_ID_SERIAL_API_STARTED := 10
    SERIAL_API_STARTED_CAPABILITIES_L0NG_RANGE := 1
    MAX_NODE_INFO_LENGTH := 173
    FUNC_ID_ZW_APPLICATION_UPDATE := 0x49
    FUNC_ID_APPLICATION_COMMAND_HANDLER := 0x04
    SERIAL_API_SETUP_NODEID_BASE_TYPE_16_BIT := 2
    SERIAL_API_SETUP_NODEID_BASE_TYPE_DEFAULT := 1
    FUNC_ID_APPLICATION_COMMAND_HANDLER_BRIDGE := 0xA8
    RECEIVE_STATUS_TYPE_MULTI := 0x08
    sizeof_Payload := 170
    PROTOCOL_METADATA_LENGTH := 8
    FUNC_ID_ZW_REQUEST_PROTOCOL_CC_ENCRYPTION := 0x6C }

/-- Apply a function to the value of an outcome. -/
def Outcome.map {α β : Type} (f : α → β) (x : Outcome α) : Outcome β :=
  match x with
  | .ok a => .ok (f a)
  | .assertFailed => .assertFailed
  | .outOfBounds => .outOfBounds

/-- Exchange the roles of the two queues: the two queue records change places,
and so do the two states that wait for the acknowledge of a queued frame. -/
def swapQueues (m : Machine) : Machine :=
  { m with
    callbackQueue := m.commandQueue
    commandQueue := m.callbackQueue
    state :=
      match m.state with
      | .stateCallbackTxSerial => .stateCommandTxSerial
      | .stateCommandTxSerial => .stateCallbackTxSerial
      | s => s }

/-- The Idle machine of `cfgSmall` with three entries in the command queue,
waiting in `stateCommandTxSerial` for the acknowledge of the first. -/
def commandInFlightMachine : Machine :=
  { (requestUnsolicitedEach cfgSmall threeFrames idleMachine).machineOr idleMachine with
    state := .stateCommandTxSerial }

/-- The operations `app.c` offers to the command handlers: the three ways to
respond, the two enqueue functions, the two purges, and the return to
`stateIdle` of a handler that has nothing to send. -/
inductive HandlerAction where
  | respond (cmd : Nat) (pData : List Nat) (len : Nat)
  | doRespond (retVal : Nat)
  | doRespondWorkbuf (cnt : Nat)
  | request (f : Frame)
  | requestUnsolicited (f : Frame)
  | purgeCallback
  | purgeCommand
  | setStateIdle
  | setStateAndNotifyIdle
deriving DecidableEq, Repr

/-- Run one operation of a handler. -/
def runAction (cfg : Config) (env : Env) : HandlerAction → Machine → Outcome Machine
  | .respond cmd pData len, m => .ok (Respond cmd pData len m)
  | .doRespond retVal, m => .ok (DoRespond env retVal m)
  | .doRespondWorkbuf cnt, m => .ok (DoRespond_workbuf env cnt m)
  | .request f, m => (Request cfg f.cmd f.pData f.len m).bind fun r => .ok r.2
  | .requestUnsolicited f, m =>
    (RequestUnsolicited cfg f.cmd f.pData f.len m).bind fun r => .ok r.2
  | .purgeCallback, m => .ok (PurgeCallbackQueue m)
  | .purgeCommand, m => .ok (PurgeCommandQueue m)
  | .setStateIdle, m => .ok (set_state .stateIdle m)
  | .setStateAndNotifyIdle, m => .ok (set_state_and_notify .stateIdle m)

/-- Run the operations of a handler in order. -/
def runActions (cfg : Config) (env : Env) : List HandlerAction → Machine → Outcome Machine
  | [], m => .ok m
  | a :: as, m => (runAction cfg env a m).bind (runActions cfg env as)

/-- Every handler of the registry acts on the machine only through the
operations of `HandlerAction`. -/
def HandlersUseActions (cfg : Config) (env : Env) : Prop :=
  ∀ c h, env.lookup_handler c = some h → ∃ acts, ∀ m, h m = runActions cfg env acts m

/-- What happens to the machine over time: a wake-up of the task, which runs
the state handler once, or an enqueue from a completion callback or from the
protocol. -/
inductive SystemEvent where
  | wake (env : Env)
  | request (f : Frame)
  | requestUnsolicited (f : Frame)

/-- Run one event. -/
def runEvent (cfg : Config) : SystemEvent → Machine → Outcome Machine
  | .wake env, m => SerialAPIStateHandler cfg env m
  | .request f, m => (Request cfg f.cmd f.pData f.len m).bind fun r => .ok r.2
  | .requestUnsolicited f, m =>
    (RequestUnsolicited cfg f.cmd f.pData f.len m).bind fun r => .ok r.2

/-- Run events in order. -/
def runEvents (cfg : Config) : List SystemEvent → Machine → Outcome Machine
  | [], m => .ok m
  | ev :: evs, m => (runEvent cfg ev m).bind (runEvents cfg evs)

/-- The handlers met by an event act through the operations of `HandlerAction`. -/
def SystemEvent.handlersOk (cfg : Config) : SystemEvent → Prop
  | .wake env => HandlersUseActions cfg env
  | _ => True

/-- The state is one of the three that wait for an acknowledge. -/
def SerialState.isTxWait : SerialState → Bool
  | .stateTxSerial => true
  | .stateCallbackTxSerial => true
  | .stateCommandTxSerial => true
  | _ => false

/-- The machine right after `ApplicationTask` has set `stateStartup`. -/
def startedMachine (cfg : Config) : Machine :=
  set_state_and_notify .stateStartup (initMachine cfg)

/-- A configuration with a 16-byte buffer, three retries and assertions
compiled out. -/
def cfg16 : Config :=
  { cfgSmall with BUF_SIZE_TX := 16, MAX_SERIAL_RETRY := 3 }

/-- The answers of `envOf p` with a registry whose only handler, for command
`0x0B`, responds with one byte. -/
def envResponding (p : ParseResult) : Env :=
  { envOf p with
    serial_frame_cmd := 0x0B
    lookup_handler := fun c =>
      if c = 0x0B then some (fun m => .ok (Respond 0x0B [1] 1 m)) else none }

/-- A boot followed by the start-up notification (one timeout, then
acknowledged), a received frame whose handler responds, and two timeouts on
that response. -/
def bootEvents : List SystemEvent :=
  [ .wake (envOf (.other 0)),
    .wake (envOf (.other 0)),
    .wake (envOf .PARSE_TX_TIMEOUT),
    .requestUnsolicited { cmd := 0x49, pData := [1, 2, 3], len := 3 },
    .wake (envOf .PARSE_FRAME_SENT),
    .wake (envOf (.other 0)),
    .wake (envOf .PARSE_FRAME_SENT),
    .wake (envResponding .PARSE_FRAME_RECEIVED),
    .wake (envResponding .PARSE_FRAME_RECEIVED),
    .wake (envOf .PARSE_TX_TIMEOUT),
    .wake (envOf .PARSE_TX_TIMEOUT) ]

/-! ## Request builders -/

/-- The cast `(uint8_t) x` of a C `int`. -/
def uint8 (x : Int) : Nat := (x % 256).toNat

/-- The node-ID field that every builder writes at index 1 of the work buffer:
two bytes, most significant first, when `nodeIdBaseType` selects 16-bit node
IDs, the low byte alone otherwise. The result is the buffer and `offset`, the
number of bytes by which the fields that follow are shifted. -/
def writeNodeId (cfg : Config) (nodeIdBaseType : Nat) (nodeID : Nat) (buf : List Nat) :
    Outcome (List Nat × Nat) :=
  if cfg.SERIAL_API_SETUP_NODEID_BASE_TYPE_16_BIT = nodeIdBaseType then
    (writeByte buf 1 (nodeID / 256)).bind fun b1 =>
    (writeByte b1 2 (nodeID % 256)).bind fun b2 => .ok (b2, 1)
  else
    (writeByte buf 1 (nodeID % 256)).bind fun b1 => .ok (b1, 0)

/-- `ApplicationNodeUpdate` up to its call of `RequestUnsolicited`: the work
buffer it leaves and the length it passes. `pCmd` is `none` for a `NULL`
pointer. -/
def ApplicationNodeUpdate_workbuf (cfg : Config) (nodeIdBaseType : Nat) (bStatus nodeID : Nat)
    (pCmd : Option (List Nat)) (bLen : Nat) (buf : List Nat) : Outcome (List Nat × Nat) :=
  (writeByte buf 0 bStatus).bind fun b0 =>
  (writeNodeId cfg nodeIdBaseType nodeID b0).bind fun r =>
    let offset := r.2
    let bLen1 := (if bLen > cfg.MAX_NODE_INFO_LENGTH then cfg.MAX_NODE_INFO_LENGTH else bLen) % 256
    let bLen2 :=
      if bLen1 > uint8 ((cfg.BUF_SIZE_TX : Int) - ((offset : Int) + 3)) then
        uint8 ((cfg.BUF_SIZE_TX : Int) - ((offset : Int) + 3))
      else bLen1
    (writeByte r.1 (offset + 2) bLen2).bind fun b3 =>
    (match pCmd with
      | some info => if bLen2 > 0 then forCopy (offset + 3) info 0 bLen2 b3 else .ok b3
      | none => .ok b3).bind fun b4 =>
    .ok (b4, (offset + bLen2 + 3) % 256)

/-- `ApplicationNodeUpdate`. -/
def ApplicationNodeUpdate (cfg : Config) (bStatus nodeID : Nat) (pCmd : Option (List Nat))
    (bLen : Nat) (m : Machine) : Outcome Machine :=
  (ApplicationNodeUpdate_workbuf cfg m.nodeIdBaseType bStatus nodeID pCmd bLen
      m.compl_workbuf).bind fun r =>
    (RequestUnsolicited cfg cfg.FUNC_ID_ZW_APPLICATION_UPDATE r.1 r.2
      { m with compl_workbuf := r.1 }).bind fun q => .ok q.2

/-- The members of `RECEIVE_OPTIONS_TYPE` that the builders read. The three
signed members are integers. -/
structure RECEIVE_OPTIONS_TYPE where
  rxStatus : Nat
  securityKey : Nat
  rxRSSIVal : Int
  bSourceTxPower : Int
  bSourceNoiseFloor : Int
  sourceNode : Nat
  destNode : Nat
deriving DecidableEq, Repr

/-- The members of `pRxPackage->uReceiveParams.Rx` that
`ApplicationCommandHandler` reads. -/
structure SReceiveSingle where
  Payload : List Nat
  iLength : Nat
  RxOptions : RECEIVE_OPTIONS_TYPE
deriving DecidableEq, Repr

/-- `ApplicationCommandHandler` up to its call of `RequestUnsolicited`: the
work buffer it leaves and the length it passes. -/
def ApplicationCommandHandler_workbuf (cfg : Config) (nodeIdBaseType : Nat) (rx : SReceiveSingle)
    (buf : List Nat) : Outcome (List Nat × Nat) :=
  (writeByte buf 0 rx.RxOptions.rxStatus).bind fun b0 =>
  (writeNodeId cfg nodeIdBaseType rx.RxOptions.sourceNode b0).bind fun r =>
    let offset := r.2
    let cmdLength :=
      if rx.iLength % 256 > uint8 ((cfg.BUF_SIZE_TX : Int) - ((offset : Int) + 5)) then
        uint8 ((cfg.BUF_SIZE_TX : Int) - ((offset : Int) + 5))
      else rx.iLength % 256
    (writeByte r.1 (offset + 2) cmdLength).bind fun b3 =>
    (forCopy (offset + 3) rx.Payload 0 cmdLength b3).bind fun b4 =>
    (writeByte b4 (offset + 3 + cmdLength) (uint8 rx.RxOptions.rxRSSIVal)).bind fun b5 =>
    (writeByte b5 (offset + 4 + cmdLength) rx.RxOptions.securityKey).bind fun b6 =>
    (writeByte b6 (offset + 5 + cmdLength) (uint8 rx.RxOptions.bSourceTxPower)).bind fun b7 =>
    (writeByte b7 (offset + 6 + cmdLength) (uint8 rx.RxOptions.bSourceNoiseFloor)).bind fun b8 =>
    .ok (b8, (offset + 7 + cmdLength) % 256)

/-- `ApplicationCommandHandler`. -/
def ApplicationCommandHandler (cfg : Config) (rx : SReceiveSingle) (m : Machine) :
    Outcome Machine :=
  (ApplicationCommandHandler_workbuf cfg m.nodeIdBaseType rx m.compl_workbuf).bind fun r =>
    (RequestUnsolicited cfg cfg.FUNC_ID_APPLICATION_COMMAND_HANDLER r.1 r.2
      { m with compl_workbuf := r.1 }).bind fun q => .ok q.2

/-- A configuration with a 100-byte buffer and `MAX_NODE_INFO_LENGTH = 173`. -/
def cfg100 : Config :=
  { cfgSmall with BUF_SIZE_TX := 100, MAX_NODE_INFO_LENGTH := 173 }

/-- The bytes `0, 1, ..., n - 1` (modulo 256). -/
def countingBytes (n : Nat) : List Nat :=
  (List.range n).map (· % 256)

/-- Width in bytes of a node-ID field: 2 when `nodeIdBaseType` selects 16-bit
node IDs, 1 otherwise. -/
def nodeIdWidth (cfg : Config) (nodeIdBaseType : Nat) : Nat :=
  if cfg.SERIAL_API_SETUP_NODEID_BASE_TYPE_16_BIT = nodeIdBaseType then 2 else 1

/-- The bytes of a node-ID field as the spec lays them out: high byte then low
byte for 16-bit node IDs, the low byte alone for 8-bit node IDs. -/
def nodeIdBytes (cfg : Config) (nodeIdBaseType : Nat) (nodeID : Nat) : List Nat :=
  if cfg.SERIAL_API_SETUP_NODEID_BASE_TYPE_16_BIT = nodeIdBaseType then
    [(nodeID / 256) % 256, nodeID % 256]
  else [nodeID % 256]

/-- The number of node-information bytes a node update carries according to
the spec: the length offered, clamped to `MAX_NODE_INFO_LENGTH` and to the
space left in the buffer after the fixed fields. -/
def nodeUpdateInfoLength (cfg : Config) (nodeIdBaseType : Nat) (bLen : Nat) : Nat :=
  min bLen (min cfg.MAX_NODE_INFO_LENGTH
    (cfg.BUF_SIZE_TX - (nodeIdWidth cfg nodeIdBaseType + 2)))

/-! ## The application-command builder of a bridge controller -/

/-- The members of `SReceiveMulti` that `ApplicationCommandHandler_Bridge`
reads. -/
structure SReceiveMulti where
  NodeMask : List Nat
  Payload : List Nat
  iCommandLength : Nat
  RxOptions : RECEIVE_OPTIONS_TYPE
deriving DecidableEq, Repr

/-- First part of `ApplicationCommandHandler_Bridge` (app.c:979-991): the two
node-ID fields behind `rxStatus`. The result is the buffer and `offset`. -/
def Bridge_writeNodeIds (cfg : Config) (nodeIdBaseType : Nat) (rxOpt : RECEIVE_OPTIONS_TYPE)
    (b0 : List Nat) : Outcome (List Nat × Nat) :=
  if cfg.SERIAL_API_SETUP_NODEID_BASE_TYPE_16_BIT = nodeIdBaseType then
    (writeByte b0 1 (rxOpt.destNode / 256)).bind fun b1 =>
    (writeByte b1 2 (rxOpt.destNode % 256)).bind fun b2 =>
    (writeByte b2 3 (rxOpt.sourceNode / 256)).bind fun b3 =>
    (writeByte b3 4 (rxOpt.sourceNode % 256)).bind fun b4 => .ok (b4, 6)
  else
    (writeByte b0 1 rxOpt.destNode).bind fun b1 =>
    (writeByte b1 2 rxOpt.sourceNode).bind fun b2 => .ok (b2, 4)

/-- The two clamps of the `uint32_t cmdLength` (app.c:993-1001). -/
def Bridge_clampCmdLength (cfg : Config) (iCommandLength : Nat) (offset : Nat) : Nat :=
  let cmdLength0 := iCommandLength % 2 ^ 32
  let cmdLength1 :=
    if cmdLength0 > cfg.sizeof_Payload % 2 ^ 32 then cfg.sizeof_Payload % 2 ^ 32
    else cmdLength0
  if cmdLength1 > uint8 ((cfg.BUF_SIZE_TX : Int) - (offset : Int)) then
    uint8 ((cfg.BUF_SIZE_TX : Int) - (offset : Int))
  else cmdLength1

/-- The node-mask part of `ApplicationCommandHandler_Bridge` (app.c:1006-1032):
for a multicast frame the node-mask header and the node mask, otherwise a zero
header. The result is the buffer and the `uint8_t i`. -/
def Bridge_writeNodeMask (cfg : Config) (rx : SReceiveMulti) (offset cmdLength : Nat)
    (b6 : List Nat) : Outcome (List Nat × Nat) :=
  if rx.RxOptions.rxStatus &&& cfg.RECEIVE_STATUS_TYPE_MULTI ≠ 0 then
    let i0 : Nat := 29 + 1
    let i1 :=
      if i0 > uint8 ((cfg.BUF_SIZE_TX : Int) - ((offset : Int) + (cmdLength : Int))) then
        uint8 ((cfg.BUF_SIZE_TX : Int) - ((offset : Int) + (cmdLength : Int) + 1))
      else i0
    if i1 > 0 then
      (writeByte b6 (offset + cmdLength) (i1 - 1)).bind fun b7 =>
      (forCopy (offset + 1 + cmdLength) rx.NodeMask 0 (i1 - 1) b7).bind fun b8 =>
      .ok (b8, (i1 + cmdLength % 256) % 256)
    else .ok (b6, i1)
  else
    let ci :=
      if cmdLength ≥ uint8 ((cfg.BUF_SIZE_TX : Int) - (offset : Int)) then
        (uint8 ((cfg.BUF_SIZE_TX : Int) - (offset : Int) - 1),
          uint8 ((cfg.BUF_SIZE_TX : Int) - (offset : Int) - 1))
      else (cmdLength, (cmdLength + 1) % 256)
    (writeByte b6 ((offset + ci.1) % 256) 0).bind fun b7 => .ok (b7, ci.2)

/-- The bytes behind the RSSI byte (app.c:1035-1039), written for 16-bit node
IDs only. The result is the buffer and the `uint8_t i`. -/
def Bridge_writeTrailer (cfg : Config) (nodeIdBaseType : Nat) (rxOpt : RECEIVE_OPTIONS_TYPE)
    (offset i : Nat) (b9 : List Nat) : Outcome (List Nat × Nat) :=
  if cfg.SERIAL_API_SETUP_NODEID_BASE_TYPE_16_BIT = nodeIdBaseType then
    let i1 := (i + 1) % 256
    (writeByte b9 (offset + i1) rxOpt.securityKey).bind fun b10 =>
    let i2 := (i1 + 1) % 256
    (writeByte b10 (offset + i2) (uint8 rxOpt.bSourceTxPower)).bind fun b11 =>
    let i3 := (i2 + 1) % 256
    (writeByte b11 (offset + i3) (uint8 rxOpt.bSourceNoiseFloor)).bind fun b12 =>
    .ok (b12, i3)
  else .ok (b9, i)

/-- `ApplicationCommandHandler_Bridge` up to its call of `RequestUnsolicited`:
the work buffer it leaves and the length it passes. `cmdLength` is a
`uint32_t`, `offset` and `i` are `uint8_t`; a `memcpy` is the copy loop over
its bytes. -/
def ApplicationCommandHandler_Bridge_workbuf (cfg : Config) (nodeIdBaseType : Nat)
    (rx : SReceiveMulti) (buf : List Nat) : Outcome (List Nat × Nat) :=
  (writeByte buf 0 rx.RxOptions.rxStatus).bind fun b0 =>
  (Bridge_writeNodeIds cfg nodeIdBaseType rx.RxOptions b0).bind fun r =>
    let offset := r.2
    let cmdLength := Bridge_clampCmdLength cfg rx.iCommandLength offset
    (writeByte r.1 (offset - 1) cmdLength).bind fun b5 =>
    (forCopy offset rx.Payload 0 cmdLength b5).bind fun b6 =>
    (Bridge_writeNodeMask cfg rx offset cmdLength b6).bind fun s =>
    (writeByte s.1 (offset + s.2) (uint8 rx.RxOptions.rxRSSIVal)).bind fun b9 =>
    (Bridge_writeTrailer cfg nodeIdBaseType rx.RxOptions offset s.2 b9).bind fun u =>
    .ok (u.1, (offset + 1 + u.2) % 256)

/-- `ApplicationCommandHandler_Bridge`. -/
def ApplicationCommandHandler_Bridge (cfg : Config) (rx : SReceiveMulti) (m : Machine) :
    Outcome Machine :=
  (ApplicationCommandHandler_Bridge_workbuf cfg m.nodeIdBaseType rx m.compl_workbuf).bind fun r =>
    (RequestUnsolicited cfg cfg.FUNC_ID_APPLICATION_COMMAND_HANDLER_BRIDGE r.1 r.2
      { m with compl_workbuf := r.1 }).bind fun q => .ok q.2

/-- Receive options of the sample packages: source node `0x0102`, destination
node `0x0304`, an RSSI of `-70`. -/
def sampleRxOptions (rxStatus : Nat) : RECEIVE_OPTIONS_TYPE :=
  { rxStatus := rxStatus, securityKey := 4, rxRSSIVal := -70, bSourceTxPower := 13,
    bSourceNoiseFloor := -98, sourceNode := 0x0102, destNode := 0x0304 }

/-- A received package with the given status byte and command length; the
command bytes count up from 0, the node-mask bytes from 200. -/
def samplePackage (rxStatus n : Nat) : SReceiveMulti :=
  { NodeMask := (List.range 29).map (· + 200), Payload := countingBytes 170,
    iCommandLength := n, RxOptions := sampleRxOptions rxStatus }

/-- The node-mask header and node mask of a bridge frame: `29` and the 29
node-mask bytes for a multicast frame, a zero header otherwise. -/
def bridgeMaskPart (cfg : Config) (rx : SReceiveMulti) : List Nat :=
  if rx.RxOptions.rxStatus &&& cfg.RECEIVE_STATUS_TYPE_MULTI ≠ 0 then
    29 :: (rx.NodeMask.take 29).map (· % 256)
  else [0]

/-- The bytes of a bridge frame behind the RSSI byte: `securityKey`,
`bSourceTxPower`, `bSourceNoiseFloor` for 16-bit node IDs, nothing otherwise. -/
def bridgeTrailer (cfg : Config) (nodeIdBaseType : Nat) (rxOpt : RECEIVE_OPTIONS_TYPE) :
    List Nat :=
  if cfg.SERIAL_API_SETUP_NODEID_BASE_TYPE_16_BIT = nodeIdBaseType then
    [rxOpt.securityKey % 256, uint8 rxOpt.bSourceTxPower, uint8 rxOpt.bSourceNoiseFloor]
  else []

/-- The bridge frame up to and including the RSSI byte, as the layout comment
of `ApplicationCommandHandler_Bridge` gives it. -/
def bridgeFrameToRssi (cfg : Config) (nodeIdBaseType : Nat) (rx : SReceiveMulti) : List Nat :=
  [rx.RxOptions.rxStatus % 256] ++ nodeIdBytes cfg nodeIdBaseType rx.RxOptions.destNode
    ++ nodeIdBytes cfg nodeIdBaseType rx.RxOptions.sourceNode
    ++ [rx.iCommandLength] ++ (rx.Payload.take rx.iCommandLength).map (· % 256)
    ++ bridgeMaskPart cfg rx ++ [uint8 rx.RxOptions.rxRSSIVal]

/-- Length of the node-mask part of a bridge frame: header and 29 mask bytes
for a multicast frame, the zero header alone otherwise. -/
def bridgeMaskLength (cfg : Config) (rx : SReceiveMulti) : Nat :=
  if rx.RxOptions.rxStatus &&& cfg.RECEIVE_STATUS_TYPE_MULTI ≠ 0 then 30 else 1

/-- Number of bytes of a bridge frame behind the RSSI byte. -/
def bridgeTrailerLength (cfg : Config) (nodeIdBaseType : Nat) : Nat :=
  if cfg.SERIAL_API_SETUP_NODEID_BASE_TYPE_16_BIT = nodeIdBaseType then 3 else 0

/-- Length of the whole bridge frame for a command that is not cut. -/
def bridgeFrameLength (cfg : Config) (nodeIdBaseType : Nat) (rx : SReceiveMulti) : Nat :=
  2 * nodeIdWidth cfg nodeIdBaseType + 2 + rx.iCommandLength + bridgeMaskLength cfg rx + 1
    + bridgeTrailerLength cfg nodeIdBaseType

/-- The frame held by a slot of the command queue: the first `wLen` bytes of
its buffer. -/
def queuedFrame (slot : Nat) (m : Machine) : Option (List Nat) :=
  (m.commandQueue.requestQueue[slot]?).map fun e => e.wBuf.take e.wLen

/-- Two consecutive builds of the same bridge frame, `nodeIdBaseType` being
set to 16-bit node IDs in between. -/
def bridgeBuildBothWidths (cfg : Config) (rx : SReceiveMulti) (m : Machine) : Outcome Machine :=
  (ApplicationCommandHandler_Bridge cfg rx m).bind fun m1 =>
    ApplicationCommandHandler_Bridge cfg rx
      { m1 with nodeIdBaseType := cfg.SERIAL_API_SETUP_NODEID_BASE_TYPE_16_BIT }

/-- Two consecutive builds of the same node update, `nodeIdBaseType` being set
to 16-bit node IDs in between. -/
def nodeUpdateBuildBothWidths (cfg : Config) (bStatus nodeID : Nat) (pCmd : Option (List Nat))
    (bLen : Nat) (m : Machine) : Outcome Machine :=
  (ApplicationNodeUpdate cfg bStatus nodeID pCmd bLen m).bind fun m1 =>
    ApplicationNodeUpdate cfg bStatus nodeID pCmd bLen
      { m1 with nodeIdBaseType := cfg.SERIAL_API_SETUP_NODEID_BASE_TYPE_16_BIT }

/-- The node-information bytes of a node-update frame: the first `L` bytes of
the buffer `pCmd` points to, none for a `NULL` pointer. -/
def nodeUpdateInfoBytes (pCmd : Option (List Nat)) (L : Nat) : List Nat :=
  match pCmd with
  | some info => (info.take L).map (· % 256)
  | none => []

/-- Start-up inputs with reset reason 3, a command-class list of two bytes
(out of an array of three), a long-range region and the given result of the
retention-register read. -/
def sampleStartup (resetInfo : Option Nat) : StartupInputs :=
  { g_eApplResetReason := 3
    bWatchdogStarted := 1
    DeviceOptionsMask := 1
    generic := 2
    specific := 7
    iListLength := 2
    pCommandClasses := [0x5E, 0x98, 0x9F]
    isLongRangeRegion := true
    resetInfo := resetInfo }

/-! ## The setup command family (`cmds_management.c`) -/

/-! The values of `eSerialAPISetupCmd`, as the comments of
`func_id_serial_api_setup` give them (cmds_management.c:253-269). -/

def SERIAL_API_SETUP_CMD_SUPPORTED : Nat := 1
def SERIAL_API_SETUP_CMD_TX_STATUS_REPORT : Nat := 2
def SERIAL_API_SETUP_CMD_MAX_LR_TX_PWR_SET : Nat := 3
def SERIAL_API_SETUP_CMD_TX_POWERLEVEL_SET : Nat := 4
def SERIAL_API_SETUP_CMD_MAX_LR_TX_PWR_GET : Nat := 5
def SERIAL_API_SETUP_CMD_TX_POWERLEVEL_GET : Nat := 8
def SERIAL_API_SETUP_CMD_TX_GET_MAX_PAYLOAD_SIZE : Nat := 16
def SERIAL_API_SETUP_CMD_TX_GET_MAX_LR_PAYLOAD_SIZE : Nat := 17
def SERIAL_API_SETUP_CMD_TX_POWERLEVEL_SET_16_BIT : Nat := 18
def SERIAL_API_SETUP_CMD_TX_POWERLEVEL_GET_16_BIT : Nat := 19
def SERIAL_API_SETUP_CMD_GET_SUPPORTED_REGION : Nat := 21
def SERIAL_API_SETUP_CMD_GET_REGION_INFO : Nat := 22
def SERIAL_API_SETUP_CMD_RF_REGION_GET : Nat := 32
def SERIAL_API_SETUP_CMD_RF_REGION_SET : Nat := 64
def SERIAL_API_SETUP_CMD_NODEID_BASETYPE_SET : Nat := 128

/-- One row of `regions_info`
(`serial_api_setup_cmd_get_region_info_answer_t`). -/
structure RegionInfo where
  region : Nat
  zw_classic : Nat
  zw_lr : Nat
  reserved : Nat
  included_region : Nat
deriving DecidableEq, Repr

/-- Constants, enumeration values and type layouts that `cmds_management.c`
takes from headers outside the repository. -/
structure SetupConfig where
  SERIAL_API_SETUP_CMD_UNSUPPORTED : Nat
  SERIAL_API_SETUP_CMD_TX_STATUS_REPORT_CMD_LENGTH_MIN : Nat
  SERIAL_API_SETUP_CMD_RF_REGION_SET_CMD_LENGTH_MIN : Nat
  SERIAL_API_SETUP_CMD_TX_POWERLEVEL_SET_CMD_LENGTH_MIN : Nat
  SERIAL_API_SETUP_CMD_NODEID_BASETYPE_SET_CMD_LENGTH_MIN : Nat
  SERIAL_API_SETUP_NODEID_BASE_TYPE_LAST : Nat
  SAPI_SETUP_GET_REGION_INFO_RX_IDX_REGION : Nat
  ZW_TX_POWER_10DBM : Nat
  REGION_EU : Nat
  REGION_US : Nat
  REGION_ANZ : Nat
  REGION_HK : Nat
  REGION_IN : Nat
  REGION_IL : Nat
  REGION_RU : Nat
  REGION_CN : Nat
  REGION_US_LR : Nat
  REGION_EU_LR : Nat
  REGION_JP : Nat
  REGION_KR : Nat
  REGION_UNDEFINED : Nat
  REGION_2CH_FIRST : Nat
  REGION_2CH_END : Nat
  REGION_3CH_FIRST : Nat
  REGION_3CH_END : Nat
  /-- `REGION_INFO_SIZE`, the size of a row of `regions_info`. -/
  REGION_INFO_SIZE : Nat
  /-- The bytes of a row of `regions_info` as it lies in memory. -/
  region_info_image : RegionInfo → List Nat

/-- What the collaborators of `func_id_serial_api_setup` answer. -/
structure SetupEnv where
  /-- `ReadApplicationRfRegion`: `none` when it returns `false`, otherwise the
  region read. -/
  ReadApplicationRfRegion : Option Nat
  isRfRegionValid : Nat → Bool
  /-- Return value of `SaveApplicationRfRegion`. -/
  SaveApplicationRfRegion : Nat → Bool
  /-- Return value of `SaveApplicationTxPowerlevel`. -/
  SaveApplicationTxPowerlevel : Int → Int → Bool
  /-- The values `ReadApplicationTxPowerlevel` leaves in `iPowerLevel` and
  `iPower0dbmMeasured`. -/
  ReadApplicationTxPowerlevel : Int × Int
  GetMaxSupportedTxPower : Int
  /-- `ZAF_getAppHandle ()->pNetworkInfo->MaxPayloadSize`. -/
  MaxPayloadSize : Nat
  /-- `ZAF_getAppHandle ()->pLongRangeInfo->MaxLongRangePayloadSize`. -/
  MaxLongRangePayloadSize : Nat
  /-- Return value of `SaveApplicationMaxLRTxPwr`. -/
  SaveApplicationMaxLRTxPwr : Int → Bool
  /-- The value `ReadApplicationMaxLRTxPwr` leaves in `readout`. -/
  ReadApplicationMaxLRTxPwr : Int

/-- The table `regions_info`. -/
def regions_info (sc : SetupConfig) : List RegionInfo :=
  [ { region := sc.REGION_EU, zw_classic := 1, zw_lr := 0, reserved := 0,
      included_region := sc.REGION_UNDEFINED },
    { region := sc.REGION_US, zw_classic := 1, zw_lr := 0, reserved := 0,
      included_region := sc.REGION_UNDEFINED },
    { region := sc.REGION_ANZ, zw_classic := 1, zw_lr := 0, reserved := 0,
      included_region := sc.REGION_UNDEFINED },
    { region := sc.REGION_HK, zw_classic := 1, zw_lr := 0, reserved := 0,
      included_region := sc.REGION_UNDEFINED },
    { region := sc.REGION_IN, zw_classic := 1, zw_lr := 0, reserved := 0,
      included_region := sc.REGION_UNDEFINED },
    { region := sc.REGION_IL, zw_classic := 1, zw_lr := 0, reserved := 0,
      included_region := sc.REGION_UNDEFINED },
    { region := sc.REGION_RU, zw_classic := 1, zw_lr := 0, reserved := 0,
      included_region := sc.REGION_UNDEFINED },
    { region := sc.REGION_CN, zw_classic := 1, zw_lr := 0, reserved := 0,
      included_region := sc.REGION_UNDEFINED },
    { region := sc.REGION_US_LR, zw_classic := 1, zw_lr := 1, reserved := 0,
      included_region := sc.REGION_US },
    { region := sc.REGION_EU_LR, zw_classic := 1, zw_lr := 1, reserved := 0,
      included_region := sc.REGION_EU },
    { region := sc.REGION_JP, zw_classic := 1, zw_lr := 0, reserved := 0,
      included_region := sc.REGION_UNDEFINED },
    { region := sc.REGION_KR, zw_classic := 1, zw_lr := 0, reserved := 0,
      included_region := sc.REGION_UNDEFINED } ]

/-- The answer `unknown_region_info` for a region that is not in the table. -/
def unknown_region_info (sc : SetupConfig) : RegionInfo :=
  { region := sc.REGION_UNDEFINED, zw_classic := 0, zw_lr := 0, reserved := 0,
    included_region := 0 }

/-- The read `buf[i]` of an array of `uint8_t`. -/
def readByte (buf : List Nat) (i : Nat) : Outcome Nat :=
  match buf[i]? with
  | some v => .ok (v % 256)
  | none => .outOfBounds

/-- The cast `(int8_t) x` of a byte. -/
def int8 (x : Nat) : Int :=
  if x % 256 < 128 then (x % 256 : Nat) else (x % 256 : Nat) - 256

/-- The cast `(int16_t) x` (`zpal_tx_power_t`) of a 16-bit value. -/
def int16 (x : Nat) : Int :=
  if x % 65536 < 32768 then (x % 65536 : Nat) else (x % 65536 : Nat) - 65536

/-- The macro `GET_16BIT_VALUE (&buf[k])`, declared outside the repository: the
16-bit value of two bytes, most significant first, as the comments on the
16-bit subcommands give the byte order. -/
def GET_16BIT_VALUE (buf : List Nat) (k : Nat) : Outcome Nat :=
  (readByte buf k).bind fun hi =>
  (readByte buf (k + 1)).bind fun lo => .ok (hi * 256 + lo)

/-- The macro `BYTE_INDEX`. -/
def BYTE_INDEX (x : Nat) : Nat := (x - 1) / 8

/-- The macro `BYTE_OFFSET`. -/
def BYTE_OFFSET (x : Nat) : Nat := 1 <<< ((x - 1) % 8)

/-- The macro `BITMASK_ADD_CMD` on an array of `uint8_t`. -/
def BITMASK_ADD_CMD (bitmask : List Nat) (cmd : Nat) : List Nat :=
  bitmask.set (BYTE_INDEX cmd) ((bitmask.getD (BYTE_INDEX cmd) 0 ||| BYTE_OFFSET cmd) % 256)

/-- A `bool` stored in the `uint8_t cmdRes`. -/
def boolByte (b : Bool) : Nat := if b then 1 else 0

/-- The loop `for (rfRegion = first; rfRegion < end; rfRegion++)` of the
subcommand `GET_SUPPORTED_REGION`, over the values `rfRegion` takes: every
valid region is counted and written at `pOutputBuffer[i++]`. The state is the
output buffer, `i` and `supported_region_count`. -/
def supportedRegionLoop (env : SetupEnv) :
    List Nat → List Nat × Nat × Nat → Outcome (List Nat × Nat × Nat)
  | [], st => .ok st
  | rfRegion :: rest, (out, i, count) =>
    if env.isRfRegionValid rfRegion = true then
      (writeByte out i rfRegion).bind fun o =>
        supportedRegionLoop env rest (o, (i + 1) % 256, (count + 1) % 256)
    else supportedRegionLoop env rest (out, i, count)

/-- The search loop of the subcommand `GET_REGION_INFO`: the first row of the
table whose region is `r`, if any. -/
def findRegionInfo (table : List RegionInfo) (r : Nat) : Option RegionInfo :=
  table.find? fun row => row.region % 256 = r

/-- Case `SERIAL_API_SETUP_CMD_SUPPORTED` of `func_id_serial_api_setup`. -/
def setup_SUPPORTED_case (o1 : List Nat) (m : Machine) : Outcome (List Nat × Nat × Machine) :=
  (writeByte o1 1 (SERIAL_API_SETUP_CMD_TX_STATUS_REPORT ||| SERIAL_API_SETUP_CMD_RF_REGION_GET
      ||| SERIAL_API_SETUP_CMD_RF_REGION_SET ||| SERIAL_API_SETUP_CMD_TX_POWERLEVEL_SET
      ||| SERIAL_API_SETUP_CMD_TX_POWERLEVEL_GET
      ||| SERIAL_API_SETUP_CMD_TX_GET_MAX_PAYLOAD_SIZE
      ||| SERIAL_API_SETUP_CMD_NODEID_BASETYPE_SET ||| SERIAL_API_SETUP_CMD_SUPPORTED)).bind
    fun o2 =>
  let supportedBitmask :=
    [ SERIAL_API_SETUP_CMD_SUPPORTED, SERIAL_API_SETUP_CMD_TX_STATUS_REPORT,
      SERIAL_API_SETUP_CMD_TX_POWERLEVEL_SET, SERIAL_API_SETUP_CMD_TX_POWERLEVEL_GET,
      SERIAL_API_SETUP_CMD_TX_GET_MAX_PAYLOAD_SIZE, SERIAL_API_SETUP_CMD_RF_REGION_GET,
      SERIAL_API_SETUP_CMD_RF_REGION_SET, SERIAL_API_SETUP_CMD_NODEID_BASETYPE_SET,
      SERIAL_API_SETUP_CMD_MAX_LR_TX_PWR_SET, SERIAL_API_SETUP_CMD_MAX_LR_TX_PWR_GET,
      SERIAL_API_SETUP_CMD_TX_GET_MAX_LR_PAYLOAD_SIZE,
      SERIAL_API_SETUP_CMD_TX_POWERLEVEL_SET_16_BIT,
      SERIAL_API_SETUP_CMD_TX_POWERLEVEL_GET_16_BIT,
      SERIAL_API_SETUP_CMD_GET_SUPPORTED_REGION,
      SERIAL_API_SETUP_CMD_GET_REGION_INFO ].foldl BITMASK_ADD_CMD (List.replicate 32 0)
  (forCopy 2 supportedBitmask 0 (SERIAL_API_SETUP_CMD_NODEID_BASETYPE_SET / 8 + 1) o2).bind
    fun o3 =>
  .ok (o3, (2 + (SERIAL_API_SETUP_CMD_NODEID_BASETYPE_SET / 8 + 1)) % 256, m)

/-- Case `SERIAL_API_SETUP_CMD_TX_STATUS_REPORT`. -/
def setup_TX_STATUS_REPORT_case (sc : SetupConfig) (inputLength : Nat)
    (pInputBuffer o1 : List Nat) (m : Machine) : Outcome (List Nat × Nat × Machine) :=
  (if sc.SERIAL_API_SETUP_CMD_TX_STATUS_REPORT_CMD_LENGTH_MIN ≤ inputLength then
    (readByte pInputBuffer 1).bind fun v =>
      .ok (({ m with bTxStatusReportEnabled := decide (0 ≠ v) } : Machine), boolByte true)
  else .ok (m, boolByte false)).bind fun r =>
  (writeByte o1 1 r.2).bind fun o2 => .ok (o2, 2, r.1)

/-- Case `SERIAL_API_SETUP_CMD_RF_REGION_GET`. -/
def setup_RF_REGION_GET_case (sc : SetupConfig) (env : SetupEnv) (o1 : List Nat) (m : Machine) :
    Outcome (List Nat × Nat × Machine) :=
  let rfRegion :=
    match env.ReadApplicationRfRegion with
    | none => sc.REGION_UNDEFINED
    | some r => r
  (writeByte o1 1 rfRegion).bind fun o2 => .ok (o2, 2, m)

/-- Case `SERIAL_API_SETUP_CMD_RF_REGION_SET`. -/
def setup_RF_REGION_SET_case (sc : SetupConfig) (env : SetupEnv) (inputLength : Nat)
    (pInputBuffer o1 : List Nat) (m : Machine) : Outcome (List Nat × Nat × Machine) :=
  (if sc.SERIAL_API_SETUP_CMD_RF_REGION_SET_CMD_LENGTH_MIN ≤ inputLength then
    (readByte pInputBuffer 1).bind fun rfRegion =>
      if env.isRfRegionValid rfRegion = true then
        .ok (extCall (.SaveApplicationRfRegion rfRegion) m,
          boolByte (env.SaveApplicationRfRegion rfRegion))
      else .ok (m, boolByte false)
  else .ok (m, boolByte false)).bind fun r =>
  (writeByte o1 1 r.2).bind fun o2 => .ok (o2, 2, r.1)

/-- Case `SERIAL_API_SETUP_CMD_GET_SUPPORTED_REGION`. -/
def setup_GET_SUPPORTED_REGION_case (sc : SetupConfig) (env : SetupEnv) (o1 : List Nat)
    (m : Machine) : Outcome (List Nat × Nat × Machine) :=
  let region_count_index := 1
  (supportedRegionLoop env
      (List.range' sc.REGION_2CH_FIRST (sc.REGION_2CH_END - sc.REGION_2CH_FIRST))
      (o1, 2, 0)).bind fun s1 =>
  (supportedRegionLoop env
      (List.range' sc.REGION_3CH_FIRST (sc.REGION_3CH_END - sc.REGION_3CH_FIRST)) s1).bind
    fun s2 =>
  (writeByte s2.1 region_count_index s2.2.2).bind fun o2 => .ok (o2, s2.2.1, m)

/-- Case `SERIAL_API_SETUP_CMD_GET_REGION_INFO`. -/
def setup_GET_REGION_INFO_case (sc : SetupConfig) (pInputBuffer o1 : List Nat) (m : Machine) :
    Outcome (List Nat × Nat × Machine) :=
  (readByte pInputBuffer sc.SAPI_SETUP_GET_REGION_INFO_RX_IDX_REGION).bind fun r =>
  let answer :=
    match findRegionInfo (regions_info sc) r with
    | some row => row
    | none => unknown_region_info sc
  (forCopy 1 (sc.region_info_image answer) 0 sc.REGION_INFO_SIZE o1).bind fun o2 =>
  .ok (o2, (1 + sc.REGION_INFO_SIZE) % 256, m)

/-- Case `SERIAL_API_SETUP_CMD_TX_POWERLEVEL_SET`. -/
def setup_TX_POWERLEVEL_SET_case (sc : SetupConfig) (env : SetupEnv) (inputLength : Nat)
    (pInputBuffer o1 : List Nat) (m : Machine) : Outcome (List Nat × Nat × Machine) :=
  (if sc.SERIAL_API_SETUP_CMD_TX_POWERLEVEL_SET_CMD_LENGTH_MIN ≤ inputLength then
    (readByte pInputBuffer 1).bind fun v1 =>
    (readByte pInputBuffer 2).bind fun v2 =>
      let iTxPower := int8 v1
      let iAdjust := int8 v2
      .ok (extCall (.SaveApplicationTxPowerlevel iTxPower iAdjust) m,
        boolByte (env.SaveApplicationTxPowerlevel iTxPower iAdjust))
  else .ok (m, boolByte false)).bind fun r =>
  (writeByte o1 1 r.2).bind fun o2 => .ok (o2, 2, r.1)

/-- The clamp of a power value to the range of `int8_t`. -/
def clampInt8 (x : Int) : Int :=
  if x > 127 then 127 else if x < -128 then -128 else x

/-- Case `SERIAL_API_SETUP_CMD_TX_POWERLEVEL_GET`. -/
def setup_TX_POWERLEVEL_GET_case (env : SetupEnv) (o1 : List Nat) (m : Machine) :
    Outcome (List Nat × Nat × Machine) :=
  let iPowerLevel := clampInt8 env.ReadApplicationTxPowerlevel.1
  let iPower0dbmMeasured := clampInt8 env.ReadApplicationTxPowerlevel.2
  (writeByte o1 1 (uint8 iPowerLevel)).bind fun o2 =>
  (writeByte o2 2 (uint8 iPower0dbmMeasured)).bind fun o3 => .ok (o3, 3, m)

/-- Case `SERIAL_API_SETUP_CMD_TX_POWERLEVEL_SET_16_BIT`. -/
def setup_TX_POWERLEVEL_SET_16_BIT_case (sc : SetupConfig) (env : SetupEnv)
    (inputLength : Nat) (pInputBuffer o1 : List Nat) (m : Machine) :
    Outcome (List Nat × Nat × Machine) :=
  (if sc.SERIAL_API_SETUP_CMD_TX_POWERLEVEL_SET_CMD_LENGTH_MIN ≤ inputLength then
    (GET_16BIT_VALUE pInputBuffer 1).bind fun v1 =>
    (GET_16BIT_VALUE pInputBuffer 3).bind fun v2 =>
      let iTxPower := int16 v1
      let iAdjust := int16 v2
      let iTxPowerMaxSupported := env.GetMaxSupportedTxPower
      if iTxPower ≥ -(sc.ZW_TX_POWER_10DBM : Int) ∧ iTxPower ≤ iTxPowerMaxSupported
          ∧ iAdjust ≥ -(sc.ZW_TX_POWER_10DBM : Int) ∧ iAdjust ≤ (sc.ZW_TX_POWER_10DBM : Int) then
        .ok (extCall (.SaveApplicationTxPowerlevel iTxPower iAdjust) m,
          boolByte (env.SaveApplicationTxPowerlevel iTxPower iAdjust))
      else .ok (m, boolByte false)
  else .ok (m, boolByte false)).bind fun r =>
  (writeByte o1 1 r.2).bind fun o2 => .ok (o2, 2, r.1)

/-- Case `SERIAL_API_SETUP_CMD_TX_POWERLEVEL_GET_16_BIT`. The shift `>> 8` of
a signed value is the division by 256 rounding down. -/
def setup_TX_POWERLEVEL_GET_16_BIT_case (env : SetupEnv) (o1 : List Nat) (m : Machine) :
    Outcome (List Nat × Nat × Machine) :=
  let iPowerLevel := env.ReadApplicationTxPowerlevel.1
  let iPower0dbmMeasured := env.ReadApplicationTxPowerlevel.2
  (writeByte o1 1 (uint8 (iPowerLevel / 256))).bind fun o2 =>
  (writeByte o2 2 (uint8 iPowerLevel)).bind fun o3 =>
  (writeByte o3 3 (uint8 (iPower0dbmMeasured / 256))).bind fun o4 =>
  (writeByte o4 4 (uint8 iPower0dbmMeasured)).bind fun o5 => .ok (o5, 5, m)

/-- Case `SERIAL_API_SETUP_CMD_TX_GET_MAX_PAYLOAD_SIZE`. -/
def setup_TX_GET_MAX_PAYLOAD_SIZE_case (env : SetupEnv) (o1 : List Nat) (m : Machine) :
    Outcome (List Nat × Nat × Machine) :=
  (writeByte o1 1 env.MaxPayloadSize).bind fun o2 => .ok (o2, 2, m)

/-- Case `SERIAL_API_SETUP_CMD_TX_GET_MAX_LR_PAYLOAD_SIZE`. -/
def setup_TX_GET_MAX_LR_PAYLOAD_SIZE_case (env : SetupEnv) (o1 : List Nat) (m : Machine) :
    Outcome (List Nat × Nat × Machine) :=
  (writeByte o1 1 env.MaxLongRangePayloadSize).bind fun o2 => .ok (o2, 2, m)

/-- Case `SERIAL_API_SETUP_CMD_NODEID_BASETYPE_SET`. -/
def setup_NODEID_BASETYPE_SET_case (cfg : Config) (sc : SetupConfig) (inputLength : Nat)
    (pInputBuffer o1 : List Nat) (m : Machine) : Outcome (List Nat × Nat × Machine) :=
  let m0 : Machine := { m with nodeIdBaseType := cfg.SERIAL_API_SETUP_NODEID_BASE_TYPE_DEFAULT }
  (if sc.SERIAL_API_SETUP_CMD_NODEID_BASETYPE_SET_CMD_LENGTH_MIN ≤ inputLength then
    (readByte pInputBuffer 1).bind fun v =>
      if 0 < v ∧ sc.SERIAL_API_SETUP_NODEID_BASE_TYPE_LAST > v then
        .ok (extCall (.SaveApplicationNodeIdBaseType v)
          ({ m0 with nodeIdBaseType := v } : Machine), boolByte true)
      else .ok (m0, boolByte false)
  else .ok (m0, boolByte false)).bind fun r =>
  (writeByte o1 1 r.2).bind fun o2 => .ok (o2, 2, r.1)

/-- Case `SERIAL_API_SETUP_CMD_MAX_LR_TX_PWR_SET`. -/
def setup_MAX_LR_TX_PWR_SET_case (sc : SetupConfig) (env : SetupEnv) (inputLength : Nat)
    (pInputBuffer o1 : List Nat) (m : Machine) : Outcome (List Nat × Nat × Machine) :=
  (if sc.SERIAL_API_SETUP_CMD_TX_POWERLEVEL_SET_CMD_LENGTH_MIN ≤ inputLength then
    (GET_16BIT_VALUE pInputBuffer 1).bind fun v1 =>
      let iTxPower := int16 v1
      let iTxPowerMaxSupported := env.GetMaxSupportedTxPower
      if iTxPower ≥ -(sc.ZW_TX_POWER_10DBM : Int) ∧ iTxPower ≤ iTxPowerMaxSupported then
        .ok (extCall (.SaveApplicationMaxLRTxPwr iTxPower) m,
          boolByte (env.SaveApplicationMaxLRTxPwr iTxPower))
      else .ok (m, boolByte false)
  else .ok (m, boolByte false)).bind fun r =>
  (writeByte o1 1 r.2).bind fun o2 => .ok (o2, 2, r.1)

/-- Case `SERIAL_API_SETUP_CMD_MAX_LR_TX_PWR_GET`. -/
def setup_MAX_LR_TX_PWR_GET_case (env : SetupEnv) (o1 : List Nat) (m : Machine) :
    Outcome (List Nat × Nat × Machine) :=
  let readout := env.ReadApplicationMaxLRTxPwr
  (writeByte o1 1 (uint8 (readout / 256))).bind fun o2 =>
  (writeByte o2 2 (uint8 readout)).bind fun o3 => .ok (o3, 3, m)

/-- The `default` case: the marker for an unsupported subcommand replaces the
first output byte and the subcommand follows it. -/
def setup_default_case (sc : SetupConfig) (c : Nat) (o1 : List Nat) (m : Machine) :
    Outcome (List Nat × Nat × Machine) :=
  (writeByte o1 0 sc.SERIAL_API_SETUP_CMD_UNSUPPORTED).bind fun o2 =>
  (writeByte o2 1 c).bind fun o3 => .ok (o3, 2, m)

/-- The subcommand values that have a `case` in `func_id_serial_api_setup`. -/
def setupSubcommands : List Nat :=
  [ SERIAL_API_SETUP_CMD_SUPPORTED, SERIAL_API_SETUP_CMD_TX_STATUS_REPORT,
    SERIAL_API_SETUP_CMD_RF_REGION_GET, SERIAL_API_SETUP_CMD_RF_REGION_SET,
    SERIAL_API_SETUP_CMD_GET_SUPPORTED_REGION, SERIAL_API_SETUP_CMD_GET_REGION_INFO,
    SERIAL_API_SETUP_CMD_TX_POWERLEVEL_SET, SERIAL_API_SETUP_CMD_TX_POWERLEVEL_GET,
    SERIAL_API_SETUP_CMD_TX_POWERLEVEL_SET_16_BIT,
    SERIAL_API_SETUP_CMD_TX_POWERLEVEL_GET_16_BIT,
    SERIAL_API_SETUP_CMD_TX_GET_MAX_PAYLOAD_SIZE,
    SERIAL_API_SETUP_CMD_TX_GET_MAX_LR_PAYLOAD_SIZE,
    SERIAL_API_SETUP_CMD_NODEID_BASETYPE_SET, SERIAL_API_SETUP_CMD_MAX_LR_TX_PWR_SET,
    SERIAL_API_SETUP_CMD_MAX_LR_TX_PWR_GET ]

/-- `func_id_serial_api_setup`. The result is the output buffer,
`*pOutputLength` and the machine. -/
def func_id_serial_api_setup (cfg : Config) (sc : SetupConfig) (env : SetupEnv)
    (inputLength : Nat) (pInputBuffer pOutputBuffer : List Nat) (m : Machine) :
    Outcome (List Nat × Nat × Machine) :=
  if 1 > inputLength then
    (writeByte pOutputBuffer 0 (boolByte false)).bind fun o1 => .ok (o1, 1, m)
  else
    (readByte pInputBuffer 0).bind fun c =>
    (writeByte pOutputBuffer 0 c).bind fun o1 =>
      if c = SERIAL_API_SETUP_CMD_SUPPORTED then setup_SUPPORTED_case o1 m
      else if c = SERIAL_API_SETUP_CMD_TX_STATUS_REPORT then
        setup_TX_STATUS_REPORT_case sc inputLength pInputBuffer o1 m
      else if c = SERIAL_API_SETUP_CMD_RF_REGION_GET then setup_RF_REGION_GET_case sc env o1 m
      else if c = SERIAL_API_SETUP_CMD_RF_REGION_SET then
        setup_RF_REGION_SET_case sc env inputLength pInputBuffer o1 m
      else if c = SERIAL_API_SETUP_CMD_GET_SUPPORTED_REGION then
        setup_GET_SUPPORTED_REGION_case sc env o1 m
      else if c = SERIAL_API_SETUP_CMD_GET_REGION_INFO then
        setup_GET_REGION_INFO_case sc pInputBuffer o1 m
      else if c = SERIAL_API_SETUP_CMD_TX_POWERLEVEL_SET then
        setup_TX_POWERLEVEL_SET_case sc env inputLength pInputBuffer o1 m
      else if c = SERIAL_API_SETUP_CMD_TX_POWERLEVEL_GET then
        setup_TX_POWERLEVEL_GET_case env o1 m
      else if c = SERIAL_API_SETUP_CMD_TX_POWERLEVEL_SET_16_BIT then
        setup_TX_POWERLEVEL_SET_16_BIT_case sc env inputLength pInputBuffer o1 m
      else if c = SERIAL_API_SETUP_CMD_TX_POWERLEVEL_GET_16_BIT then
        setup_TX_POWERLEVEL_GET_16_BIT_case env o1 m
      else if c = SERIAL_API_SETUP_CMD_TX_GET_MAX_PAYLOAD_SIZE then
        setup_TX_GET_MAX_PAYLOAD_SIZE_case env o1 m
      else if c = SERIAL_API_SETUP_CMD_TX_GET_MAX_LR_PAYLOAD_SIZE then
        setup_TX_GET_MAX_LR_PAYLOAD_SIZE_case env o1 m
      else if c = SERIAL_API_SETUP_CMD_NODEID_BASETYPE_SET then
        setup_NODEID_BASETYPE_SET_case cfg sc inputLength pInputBuffer o1 m
      else if c = SERIAL_API_SETUP_CMD_MAX_LR_TX_PWR_SET then
        setup_MAX_LR_TX_PWR_SET_case sc env inputLength pInputBuffer o1 m
      else if c = SERIAL_API_SETUP_CMD_MAX_LR_TX_PWR_GET then
        setup_MAX_LR_TX_PWR_GET_case env o1 m
      else setup_default_case sc c o1 m

/-- Sample values for the constants of the setup family: minimum lengths 2
(3 for the power levels), three node-ID base types, a row of `regions_info`
laid out in three bytes. -/
def scSample : SetupConfig :=
  { SERIAL_API_SETUP_CMD_UNSUPPORTED := 0
    SERIAL_API_SETUP_CMD_TX_STATUS_REPORT_CMD_LENGTH_MIN := 2
    SERIAL_API_SETUP_CMD_RF_REGION_SET_CMD_LENGTH_MIN := 2
    SERIAL_API_SETUP_CMD_TX_POWERLEVEL_SET_CMD_LENGTH_MIN := 3
    SERIAL_API_SETUP_CMD_NODEID_BASETYPE_SET_CMD_LENGTH_MIN := 2
    SERIAL_API_SETUP_NODEID_BASE_TYPE_LAST := 3
    SAPI_SETUP_GET_REGION_INFO_RX_IDX_REGION := 1
    ZW_TX_POWER_10DBM := 100
    REGION_EU := 0
    REGION_US := 1
    REGION_ANZ := 2
    REGION_HK := 3
    REGION_IN := 5
    REGION_IL := 6
    REGION_RU := 7
    REGION_CN := 8
    REGION_US_LR := 9
    REGION_EU_LR := 11
    REGION_JP := 32
    REGION_KR := 33
    REGION_UNDEFINED := 0xFE
    REGION_2CH_FIRST := 0
    REGION_2CH_END := 12
    REGION_3CH_FIRST := 32
    REGION_3CH_END := 34
    REGION_INFO_SIZE := 3
    region_info_image := fun row =>
      [row.region, row.zw_classic + 2 * row.zw_lr + 4 * row.reserved, row.included_region] }

/-- Sample answers of the collaborators of the setup family: region 1 is
stored, every region but 4 and 10 is valid, every save succeeds, the stored
power levels are `200` and `-300`. -/
def envSample : SetupEnv :=
  { ReadApplicationRfRegion := some 1
    isRfRegionValid := fun r => decide (r ≠ 4 ∧ r ≠ 10)
    SaveApplicationRfRegion := fun _ => true
    SaveApplicationTxPowerlevel := fun _ _ => true
    ReadApplicationTxPowerlevel := (200, -300)
    GetMaxSupportedTxPower := 140
    MaxPayloadSize := 46
    MaxLongRangePayloadSize := 158
    SaveApplicationMaxLRTxPwr := fun _ => true
    ReadApplicationMaxLRTxPwr := 140 }

/-! ## Critical sections around the command queue -/

/-- What a function that touches `commandQueue` does, step by step, as far as
mutual exclusion is concerned. -/
inductive QueueStep where
  | taskENTER_CRITICAL
  | taskEXIT_CRITICAL
  /-- A write to `commandQueue.requestCnt`. -/
  | write_requestCnt
  /-- A write to `commandQueue.requestIn`. -/
  | write_requestIn
  /-- A write to `commandQueue.requestOut`. -/
  | write_requestOut
  /-- A write to a member of `commandQueue.requestQueue[...]`. -/
  | write_entry
  /-- Any other statement (`retry = 0`, `xTaskNotify`, `set_state_and_notify`). -/
  | other
  /-- The function returns. -/
  | returns
deriving DecidableEq, Repr

/-- The steps of `RequestUnsolicited (cmd, pData, len)` (app.c:215-243) on the
path the machine selects. A failing `assert` ends the path without a return. -/
def RequestUnsolicited_steps (cfg : Config) (len : Nat) (m : Machine) : List QueueStep :=
  [.taskENTER_CRITICAL] ++
  (if m.commandQueue.requestCnt < MAX_UNSOLICITED_QUEUE then
    [.write_requestCnt, .write_entry] ++
    (if len > cfg.BUF_SIZE_TX % 256 ∧ cfg.NDEBUG = false then []
     else
      [.write_entry, .write_entry, .write_requestIn] ++
      (if (m.commandQueue.requestIn + 1) % 256 ≥ MAX_UNSOLICITED_QUEUE then [.write_requestIn]
       else []) ++
      [.taskEXIT_CRITICAL, .other, .returns])
  else [.taskEXIT_CRITICAL, .returns])

/-- The steps of `PurgeCommandQueue` (app.c:250-255). -/
def PurgeCommandQueue_steps : List QueueStep :=
  [.taskENTER_CRITICAL, .write_requestCnt, .write_requestIn, .write_requestOut,
    .taskEXIT_CRITICAL, .returns]

/-- The steps of `PopCommandQueue` (app.c:711-724) on the path the machine
selects. -/
def PopCommandQueue_steps (m : Machine) : List QueueStep :=
  (if m.commandQueue.requestCnt ≠ 0 then
    [.write_requestCnt, .write_requestOut] ++
    (if (m.commandQueue.requestOut + 1) % 256 ≥ MAX_UNSOLICITED_QUEUE then [.write_requestOut]
     else [])
  else [.write_requestOut]) ++
  [.other, .other, .returns]

/-- Whether a sequence of steps, started with `depth` critical sections
entered, writes the command queue only inside a critical section, leaves no
section it has not entered, and has left every section when it returns. -/
def criticalDiscipline (depth : Nat) : List QueueStep → Bool
  | [] => true
  | .taskENTER_CRITICAL :: rest => criticalDiscipline (depth + 1) rest
  | .taskEXIT_CRITICAL :: rest => decide (0 < depth) && criticalDiscipline (depth - 1) rest
  | .write_requestCnt :: rest => decide (0 < depth) && criticalDiscipline depth rest
  | .write_requestIn :: rest => decide (0 < depth) && criticalDiscipline depth rest
  | .write_requestOut :: rest => decide (0 < depth) && criticalDiscipline depth rest
  | .write_entry :: rest => decide (0 < depth) && criticalDiscipline depth rest
  | .other :: rest => criticalDiscipline depth rest
  | .returns :: rest => decide (depth = 0) && criticalDiscipline depth rest

/-- The clamp of a value to the range `lo .. hi`, as the spec words it. -/
def clampTo (lo hi x : Int) : Int := max lo (min hi x)

/-- The 8-bit two's-complement encoding of a value in `-128 .. 127`. -/
def twosComplement8 (x : Int) : Nat :=
  if 0 ≤ x then x.toNat else (x + 256).toNat

/-- The node mask of supported subcommands that the claim describes: the
seventeen bytes in which bit `(c - 1) mod 8` of byte `(c - 1) div 8` is set for
the supported subcommand values `c`. -/
def supportedMask : List Nat :=
  [0x9F, 0x80, 0x37, 0x80, 0, 0, 0, 0x80, 0, 0, 0, 0, 0, 0, 0, 0x80, 0]

/-! ## The encryption-request relay -/

/-- The members of `pRPCCEPackage->uReceiveParams.RequestEncryption` that
`request_protocol_cc_encryption` reads. -/
structure SRequestEncryption where
  Payload : List Nat
  payloadLength : Nat
  protocolMetadata : List Nat
  protocolMetadataLength : Nat
  destNodeID : Nat
  useSupervision : Nat
deriving DecidableEq, Repr

/-- The guard of `request_protocol_cc_encryption` (app.c:1057-1060): whether
the package is rejected. -/
def relayRejects (cfg : Config) (p : SRequestEncryption) : Bool :=
  decide (p.protocolMetadataLength % 256 ≠ cfg.PROTOCOL_METADATA_LENGTH
    ∨ p.payloadLength % 256
        > uint8 ((cfg.BUF_SIZE_TX : Int) - (5 + ((p.protocolMetadataLength % 256 : Nat) : Int))))

/-- The node-ID field of `request_protocol_cc_encryption` (app.c:1064-1071),
written at the start of the work buffer. The result is the buffer and
`offset`. -/
def relay_writeNodeId (cfg : Config) (nodeIdBaseType destNodeID : Nat) (buf : List Nat) :
    Outcome (List Nat × Nat) :=
  if cfg.SERIAL_API_SETUP_NODEID_BASE_TYPE_16_BIT = nodeIdBaseType then
    (writeByte buf 0 (destNodeID / 256)).bind fun b0 =>
    (writeByte b0 1 (destNodeID % 256)).bind fun b1 => .ok (b1, 2)
  else
    (writeByte buf 0 (destNodeID % 256)).bind fun b0 => .ok (b0, 1)

/-- `request_protocol_cc_encryption` from behind its guard up to the call of
`RequestUnsolicited`: the work buffer it leaves and the `offset` it passes.
`sessionId` is the value of the static variable at the call. -/
def request_protocol_cc_encryption_workbuf (cfg : Config) (nodeIdBaseType sessionId : Nat)
    (p : SRequestEncryption) (buf : List Nat) : Outcome (List Nat × Nat) :=
  let cmdLength := p.payloadLength % 256
  let protocolMetadataLength := p.protocolMetadataLength % 256
  (relay_writeNodeId cfg nodeIdBaseType p.destNodeID buf).bind fun r =>
    let offset0 : Nat := r.2
    (writeByte r.1 offset0 cmdLength).bind fun b2 =>
    let offset1 := (offset0 + 1) % 256
    (forCopy offset1 p.Payload 0 cmdLength b2).bind fun b3 =>
    let offset2 := (offset1 + cmdLength) % 256
    (writeByte b3 offset2 protocolMetadataLength).bind fun b4 =>
    let offset3 := (offset2 + 1) % 256
    (forCopy offset3 p.protocolMetadata 0 protocolMetadataLength b4).bind fun b5 =>
    let offset4 := (offset3 + protocolMetadataLength) % 256
    (writeByte b5 offset4 p.useSupervision).bind fun b6 =>
    let offset5 := (offset4 + 1) % 256
    (writeByte b6 offset5 sessionId).bind fun b7 =>
    .ok (b7, (offset5 + 1) % 256)

/-- `request_protocol_cc_encryption`. The boolean is the return value. -/
def request_protocol_cc_encryption (cfg : Config) (p : SRequestEncryption) (m : Machine) :
    Outcome (Bool × Machine) :=
  if relayRejects cfg p = true then .ok (false, m)
  else
    (request_protocol_cc_encryption_workbuf cfg m.nodeIdBaseType m.sessionId p
        m.compl_workbuf).bind fun r =>
      RequestUnsolicited cfg cfg.FUNC_ID_ZW_REQUEST_PROTOCOL_CC_ENCRYPTION r.1 r.2
        { m with compl_workbuf := r.1, sessionId := (m.sessionId % 255 % 256 + 1) % 256 }

/-- The frame of an encryption request as the layout comment gives it:
`destNodeID | cmdLength | pCmd | protocolMetadataLength | protocolMetadata |
Use Supervision | SessionID`. -/
def relayFrame (cfg : Config) (nodeIdBaseType sessionId : Nat) (p : SRequestEncryption) :
    List Nat :=
  nodeIdBytes cfg nodeIdBaseType p.destNodeID ++ [p.payloadLength]
    ++ (p.Payload.take p.payloadLength).map (· % 256)
    ++ [p.protocolMetadataLength]
    ++ (p.protocolMetadata.take p.protocolMetadataLength).map (· % 256)
    ++ [p.useSupervision % 256, sessionId % 256]

/-- Length of the frame of an encryption request. -/
def relayFrameLength (cfg : Config) (nodeIdBaseType : Nat) (p : SRequestEncryption) : Nat :=
  nodeIdWidth cfg nodeIdBaseType + p.payloadLength + p.protocolMetadataLength + 4

/-- An encryption request with `n` command bytes that count up from 0 and eight
metadata bytes that count up from 100. -/
def sampleRequest (n : Nat) : SRequestEncryption :=
  { Payload := countingBytes 170, payloadLength := n,
    protocolMetadata := (List.range 8).map (· + 100), protocolMetadataLength := 8,
    destNodeID := 0x0102, useSupervision := 1 }

/-! ## Runs of the encryption-request relay -/

/-- A sequence of calls of `request_protocol_cc_encryption`, one per package.
For each call the run records the return value and, for a call that passed the
guard, the byte that the call stored in the `SessionID` field of the work
buffer (the last byte of the frame); a rejected call records `none`. -/
def relayRun (cfg : Config) : List SRequestEncryption → Machine →
    Outcome (List (Bool × Option Nat) × Machine)
  | [], m => .ok ([], m)
  | p :: ps, m =>
    (request_protocol_cc_encryption cfg p m).bind fun r =>
    (relayRun cfg ps r.2).bind fun rest =>
      .ok ((r.1,
          if relayRejects cfg p = true then none
          else r.2.compl_workbuf[relayFrameLength cfg m.nodeIdBaseType p - 1]?) :: rest.1,
        rest.2)

/-- The session identifiers a sequence of calls is expected to carry when the
counter stands at `s`: a rejected call carries none and leaves the counter, an
accepted call carries `s` and moves the counter to `s % 255 + 1`. -/
def sessionTrace (cfg : Config) : Nat → List SRequestEncryption → List (Option Nat)
  | _, [] => []
  | s, p :: ps =>
    if relayRejects cfg p = true then none :: sessionTrace cfg s ps
    else some s :: sessionTrace cfg (s % 255 + 1) ps

/-- The session identifier of the accepted call number `k` (counted from 0):
0, then 1, 2, ..., 255, 1, 2, ... -/
def sessionIdOf (k : Nat) : Nat :=
  if k = 0 then 0 else (k - 1) % 255 + 1

/-- Number of packages of a sequence that pass the guard of the relay. -/
def acceptedCount (cfg : Config) (ps : List SRequestEncryption) : Nat :=
  ps.countP fun p => !relayRejects cfg p

/-- A frame of seven bytes, longer than the four-byte buffer of `cfgSmall`. -/
def sevenByteFrame : Frame :=
  { cmd := 0x13, pData := [1, 2, 3, 4, 5, 6, 7], len := 7 }

end SerialAPI

/-! # Theorems -/

namespace SerialAPI

/-! ## Basic facts about the enqueue functions -/

theorem Request_of_full (cfg : Config) (cmd : Nat) (pData : List Nat) (len : Nat) (m : Machine)
    (h : MAX_CALLBACK_QUEUE ≤ m.callbackQueue.requestCnt) :
    Request cfg cmd pData len m = .ok (false, m) := by
  unfold Request
  simp only [not_lt.mpr h, if_false]

theorem RequestUnsolicited_of_full (cfg : Config) (cmd : Nat) (pData : List Nat) (len : Nat)
    (m : Machine) (h : MAX_UNSOLICITED_QUEUE ≤ m.commandQueue.requestCnt) :
    RequestUnsolicited cfg cmd pData len m = .ok (false, m) := by
  unfold RequestUnsolicited
  simp only [not_lt.mpr h, if_false]

/-- A call of `Request` that returns `true` found fewer than eight entries and
left one more. -/
theorem Request_true_cnt {cfg : Config} {cmd : Nat} {pData : List Nat} {len : Nat}
    {m m1 : Machine} (h : Request cfg cmd pData len m = .ok (true, m1)) :
    m.callbackQueue.requestCnt < MAX_CALLBACK_QUEUE ∧
      m1.callbackQueue.requestCnt = m.callbackQueue.requestCnt + 1 := by
  unfold Request at h
  by_cases hc : m.callbackQueue.requestCnt < MAX_CALLBACK_QUEUE
  · refine ⟨hc, ?_⟩
    simp only [hc, if_true] at h
    have h8 : m.callbackQueue.requestCnt < 8 := hc
    have hmod : (m.callbackQueue.requestCnt + 1) % 256 = m.callbackQueue.requestCnt + 1 := by
      omega
    split at h
    · cases h
    · split at h
      · unfold cAssert at h
        split at h
        · simp only [Outcome.bind, Outcome.ok.injEq, Prod.mk.injEq, true_and] at h
          rw [← h]; exact hmod
        · split at h
          · simp only [Outcome.bind, Outcome.ok.injEq, Prod.mk.injEq, true_and] at h
            rw [← h]; exact hmod
          · simp [Outcome.bind] at h
      · simp only [Outcome.bind, Outcome.ok.injEq, Prod.mk.injEq, true_and] at h
        rw [← h]; exact hmod
  · simp only [hc, if_false, Outcome.ok.injEq, Prod.mk.injEq] at h
    exact absurd h.1 (by decide)

/-- The same for `RequestUnsolicited`. -/
theorem RequestUnsolicited_true_cnt {cfg : Config} {cmd : Nat} {pData : List Nat} {len : Nat}
    {m m1 : Machine} (h : RequestUnsolicited cfg cmd pData len m = .ok (true, m1)) :
    m.commandQueue.requestCnt < MAX_UNSOLICITED_QUEUE ∧
      m1.commandQueue.requestCnt = m.commandQueue.requestCnt + 1 := by
  unfold RequestUnsolicited at h
  by_cases hc : m.commandQueue.requestCnt < MAX_UNSOLICITED_QUEUE
  · refine ⟨hc, ?_⟩
    simp only [hc, if_true] at h
    have h8 : m.commandQueue.requestCnt < 8 := hc
    have hmod : (m.commandQueue.requestCnt + 1) % 256 = m.commandQueue.requestCnt + 1 := by
      omega
    split at h
    · cases h
    · split at h
      · unfold cAssert at h
        split at h
        · simp only [Outcome.bind, Outcome.ok.injEq, Prod.mk.injEq, true_and] at h
          rw [← h]; exact hmod
        · split at h
          · simp only [Outcome.bind, Outcome.ok.injEq, Prod.mk.injEq, true_and] at h
            rw [← h]; exact hmod
          · simp [Outcome.bind] at h
      · simp only [Outcome.bind, Outcome.ok.injEq, Prod.mk.injEq, true_and] at h
        rw [← h]; exact hmod
  · simp only [hc, if_false, Outcome.ok.injEq, Prod.mk.injEq] at h
    exact absurd h.1 (by decide)

/-- What `Request` does when there is room, the slot index is valid, and the
length check does not abort. -/
theorem Request_accept (cfg : Config) (cmd : Nat) (pData : List Nat) (len : Nat) (m : Machine)
    (e : CALLBACK_ELEMENT)
    (hc : m.callbackQueue.requestCnt < MAX_CALLBACK_QUEUE)
    (he : m.callbackQueue.requestQueue[m.callbackQueue.requestIn]? = some e)
    (hl : len ≤ cfg.BUF_SIZE_TX % 256 ∨ cfg.NDEBUG = true) :
    Request cfg cmd pData len m = .ok (true,
      { m with
        callbackQueue :=
          { requestOut := m.callbackQueue.requestOut
            requestIn := if (m.callbackQueue.requestIn + 1) % 256 ≥ MAX_CALLBACK_QUEUE then 0
              else (m.callbackQueue.requestIn + 1) % 256
            requestCnt := m.callbackQueue.requestCnt + 1
            requestQueue := m.callbackQueue.requestQueue.set m.callbackQueue.requestIn
              { wCmd := cmd
                wLen := min len (cfg.BUF_SIZE_TX % 256)
                wBuf := memcpy e.wBuf pData (min len (cfg.BUF_SIZE_TX % 256)) } }
        notifyCnt := m.notifyCnt + 1 }) := by
  have h8 : m.callbackQueue.requestCnt < 8 := hc
  have hmod : (m.callbackQueue.requestCnt + 1) % 256 = m.callbackQueue.requestCnt + 1 := by
    omega
  unfold Request
  simp only [hc, if_true, he, hmod]
  by_cases hgt : len > cfg.BUF_SIZE_TX % 256
  · have hN : cfg.NDEBUG = true := by
      rcases hl with hl | hl
      · omega
      · exact hl
    have hmin : min len (cfg.BUF_SIZE_TX % 256) = cfg.BUF_SIZE_TX % 256 := by
      apply Nat.min_eq_right; omega
    simp only [hgt, if_true, cAssert, hN, Outcome.bind, hmin]
  · have hmin : min len (cfg.BUF_SIZE_TX % 256) = len := by
      apply Nat.min_eq_left; omega
    simp only [hgt, if_false, Outcome.bind, hmin]

/-- What `RequestUnsolicited` does when there is room, the slot index is valid,
and the length check does not abort. -/
theorem RequestUnsolicited_accept (cfg : Config) (cmd : Nat) (pData : List Nat) (len : Nat)
    (m : Machine) (e : CALLBACK_ELEMENT)
    (hc : m.commandQueue.requestCnt < MAX_UNSOLICITED_QUEUE)
    (he : m.commandQueue.requestQueue[m.commandQueue.requestIn]? = some e)
    (hl : len ≤ cfg.BUF_SIZE_TX % 256 ∨ cfg.NDEBUG = true) :
    RequestUnsolicited cfg cmd pData len m = .ok (true,
      { m with
        commandQueue :=
          { requestOut := m.commandQueue.requestOut
            requestIn := if (m.commandQueue.requestIn + 1) % 256 ≥ MAX_UNSOLICITED_QUEUE then 0
              else (m.commandQueue.requestIn + 1) % 256
            requestCnt := m.commandQueue.requestCnt + 1
            requestQueue := m.commandQueue.requestQueue.set m.commandQueue.requestIn
              { wCmd := cmd
                wLen := min len (cfg.BUF_SIZE_TX % 256)
                wBuf := memcpy e.wBuf pData (min len (cfg.BUF_SIZE_TX % 256)) } }
        notifyCnt := m.notifyCnt + 1 }) := by
  have h8 : m.commandQueue.requestCnt < 8 := hc
  have hmod : (m.commandQueue.requestCnt + 1) % 256 = m.commandQueue.requestCnt + 1 := by
    omega
  unfold RequestUnsolicited
  simp only [hc, if_true, he, hmod]
  by_cases hgt : len > cfg.BUF_SIZE_TX % 256
  · have hN : cfg.NDEBUG = true := by
      rcases hl with hl | hl
      · omega
      · exact hl
    have hmin : min len (cfg.BUF_SIZE_TX % 256) = cfg.BUF_SIZE_TX % 256 := by
      apply Nat.min_eq_right; omega
    simp only [hgt, if_true, cAssert, hN, Outcome.bind, hmin]
  · have hmin : min len (cfg.BUF_SIZE_TX % 256) = len := by
      apply Nat.min_eq_left; omega
    simp only [hgt, if_false, Outcome.bind, hmin]

/-- With assertions compiled in, a length above the buffer size aborts
`Request` at its `assert`. -/
theorem Request_assert (cfg : Config) (cmd : Nat) (pData : List Nat) (len : Nat) (m : Machine)
    (hc : m.callbackQueue.requestCnt < MAX_CALLBACK_QUEUE)
    (hi : m.callbackQueue.requestIn < m.callbackQueue.requestQueue.length)
    (hl : cfg.BUF_SIZE_TX % 256 < len) (hN : cfg.NDEBUG = false) :
    Request cfg cmd pData len m = .assertFailed := by
  unfold Request
  have hge : ¬ (cfg.BUF_SIZE_TX % 256 ≥ len) := by omega
  simp [hc, List.getElem?_eq_getElem hi, hl, cAssert, hN, Outcome.bind, hge]

/-- With assertions compiled in, a length above the buffer size aborts
`RequestUnsolicited` at its `assert`. -/
theorem RequestUnsolicited_assert (cfg : Config) (cmd : Nat) (pData : List Nat) (len : Nat)
    (m : Machine)
    (hc : m.commandQueue.requestCnt < MAX_UNSOLICITED_QUEUE)
    (hi : m.commandQueue.requestIn < m.commandQueue.requestQueue.length)
    (hl : cfg.BUF_SIZE_TX % 256 < len) (hN : cfg.NDEBUG = false) :
    RequestUnsolicited cfg cmd pData len m = .assertFailed := by
  unfold RequestUnsolicited
  have hge : ¬ (cfg.BUF_SIZE_TX % 256 ≥ len) := by omega
  simp [hc, List.getElem?_eq_getElem hi, hl, cAssert, hN, Outcome.bind, hge]

/-- Calls of `Request` that all return `true` add their number to `requestCnt`. -/
theorem requestEach_true_cnt (cfg : Config) (fs : List Frame) :
    ∀ (m m1 : Machine) (rs : List Bool), requestEach cfg fs m = .ok (rs, m1) →
      (∀ r ∈ rs, r = true) →
      m1.callbackQueue.requestCnt = m.callbackQueue.requestCnt + fs.length ∧
        (fs ≠ [] → m1.callbackQueue.requestCnt ≤ 8) := by
  induction fs with
  | nil =>
    intro m m1 rs h _
    simp only [requestEach, Outcome.ok.injEq, Prod.mk.injEq] at h
    simp [← h.2]
  | cons f fs ih =>
    intro m m1 rs h hall
    simp only [requestEach] at h
    cases hR : Request cfg f.cmd f.pData f.len m with
    | ok r =>
      obtain ⟨b, m2⟩ := r
      simp only [hR, Outcome.bind] at h
      cases hE : requestEach cfg fs m2 with
      | ok rs2 =>
        obtain ⟨bs, m3⟩ := rs2
        simp only [hE, Outcome.ok.injEq, Prod.mk.injEq] at h
        obtain ⟨h1, h2⟩ := h
        subst h1 h2
        have hb : b = true := hall b (by simp)
        subst hb
        have h1 := Request_true_cnt hR
        have h8 : m.callbackQueue.requestCnt < 8 := h1.1
        have h2 := ih m2 m3 bs hE (fun r hr => hall r (by simp [hr]))
        simp only [List.length_cons]
        refine ⟨by omega, fun _ => ?_⟩
        by_cases hfs : fs = []
        · subst hfs
          have := h2.1
          simp only [List.length_nil] at this
          omega
        · exact h2.2 hfs
      | assertFailed => simp [hE] at h
      | outOfBounds => simp [hE] at h
    | assertFailed => simp [hR, Outcome.bind] at h
    | outOfBounds => simp [hR, Outcome.bind] at h

/-- Calls of `RequestUnsolicited` that all return `true` add their number to
`requestCnt`. -/
theorem requestUnsolicitedEach_true_cnt (cfg : Config) (fs : List Frame) :
    ∀ (m m1 : Machine) (rs : List Bool), requestUnsolicitedEach cfg fs m = .ok (rs, m1) →
      (∀ r ∈ rs, r = true) →
      m1.commandQueue.requestCnt = m.commandQueue.requestCnt + fs.length ∧
        (fs ≠ [] → m1.commandQueue.requestCnt ≤ 8) := by
  induction fs with
  | nil =>
    intro m m1 rs h _
    simp only [requestUnsolicitedEach, Outcome.ok.injEq, Prod.mk.injEq] at h
    simp [← h.2]
  | cons f fs ih =>
    intro m m1 rs h hall
    simp only [requestUnsolicitedEach] at h
    cases hR : RequestUnsolicited cfg f.cmd f.pData f.len m with
    | ok r =>
      obtain ⟨b, m2⟩ := r
      simp only [hR, Outcome.bind] at h
      cases hE : requestUnsolicitedEach cfg fs m2 with
      | ok rs2 =>
        obtain ⟨bs, m3⟩ := rs2
        simp only [hE, Outcome.ok.injEq, Prod.mk.injEq] at h
        obtain ⟨h1, h2⟩ := h
        subst h1 h2
        have hb : b = true := hall b (by simp)
        subst hb
        have h1 := RequestUnsolicited_true_cnt hR
        have h8 : m.commandQueue.requestCnt < 8 := h1.1
        have h2 := ih m2 m3 bs hE (fun r hr => hall r (by simp [hr]))
        simp only [List.length_cons]
        refine ⟨by omega, fun _ => ?_⟩
        by_cases hfs : fs = []
        · subst hfs
          have := h2.1
          simp only [List.length_nil] at this
          omega
        · exact h2.2 hfs
      | assertFailed => simp [hE] at h
      | outOfBounds => simp [hE] at h
    | assertFailed => simp [hR, Outcome.bind] at h
    | outOfBounds => simp [hR, Outcome.bind] at h

/-- The list of return values has one entry per call. -/
theorem requestEach_length (cfg : Config) (fs : List Frame) :
    ∀ (m m1 : Machine) (rs : List Bool), requestEach cfg fs m = .ok (rs, m1) →
      rs.length = fs.length := by
  induction fs with
  | nil =>
    intro m m1 rs h
    simp only [requestEach, Outcome.ok.injEq, Prod.mk.injEq] at h
    simp [← h.1]
  | cons f fs ih =>
    intro m m1 rs h
    simp only [requestEach] at h
    cases hR : Request cfg f.cmd f.pData f.len m with
    | ok r =>
      simp only [hR, Outcome.bind] at h
      cases hE : requestEach cfg fs r.2 with
      | ok rs2 =>
        simp only [hE, Outcome.ok.injEq, Prod.mk.injEq] at h
        have := ih r.2 rs2.2 rs2.1 hE
        simp [← h.1, this]
      | assertFailed => simp [hE] at h
      | outOfBounds => simp [hE] at h
    | assertFailed => simp [hR, Outcome.bind] at h
    | outOfBounds => simp [hR, Outcome.bind] at h

/-- The list of return values has one entry per call. -/
theorem requestUnsolicitedEach_length (cfg : Config) (fs : List Frame) :
    ∀ (m m1 : Machine) (rs : List Bool), requestUnsolicitedEach cfg fs m = .ok (rs, m1) →
      rs.length = fs.length := by
  induction fs with
  | nil =>
    intro m m1 rs h
    simp only [requestUnsolicitedEach, Outcome.ok.injEq, Prod.mk.injEq] at h
    simp [← h.1]
  | cons f fs ih =>
    intro m m1 rs h
    simp only [requestUnsolicitedEach] at h
    cases hR : RequestUnsolicited cfg f.cmd f.pData f.len m with
    | ok r =>
      simp only [hR, Outcome.bind] at h
      cases hE : requestUnsolicitedEach cfg fs r.2 with
      | ok rs2 =>
        simp only [hE, Outcome.ok.injEq, Prod.mk.injEq] at h
        have := ih r.2 rs2.2 rs2.1 hE
        simp [← h.1, this]
      | assertFailed => simp [hE] at h
      | outOfBounds => simp [hE] at h
    | assertFailed => simp [hR, Outcome.bind] at h
    | outOfBounds => simp [hR, Outcome.bind] at h

/-! ## C1: a full queue rejects the enqueue -/

/-- C1. For both queues: when `requestCnt` equals the capacity 8, the enqueue
returns `false` and the machine (hence `requestCnt`, `requestIn`, `requestOut`
and every slot of the queue) is unchanged; and after eight calls in a row that
all returned `true`, the ninth call returns `false` and changes nothing. -/
theorem enqueue_on_full_queue_rejected (cfg : Config) :
    (∀ (m : Machine) (cmd : Nat) (pData : List Nat) (len : Nat),
      m.callbackQueue.requestCnt = MAX_CALLBACK_QUEUE →
      Request cfg cmd pData len m = .ok (false, m)) ∧
    (∀ (m : Machine) (cmd : Nat) (pData : List Nat) (len : Nat),
      m.commandQueue.requestCnt = MAX_UNSOLICITED_QUEUE →
      RequestUnsolicited cfg cmd pData len m = .ok (false, m)) ∧
    (∀ (m m1 : Machine) (fs : List Frame) (f : Frame),
      requestEach cfg fs m = .ok (List.replicate 8 true, m1) →
      m1.callbackQueue.requestCnt = 8 ∧
      Request cfg f.cmd f.pData f.len m1 = .ok (false, m1)) ∧
    (∀ (m m1 : Machine) (fs : List Frame) (f : Frame),
      requestUnsolicitedEach cfg fs m = .ok (List.replicate 8 true, m1) →
      m1.commandQueue.requestCnt = 8 ∧
      RequestUnsolicited cfg f.cmd f.pData f.len m1 = .ok (false, m1)) := by
  refine ⟨?_, ?_, ?_, ?_⟩
  · intro m cmd pData len h
    exact Request_of_full cfg cmd pData len m (le_of_eq h.symm)
  · intro m cmd pData len h
    exact RequestUnsolicited_of_full cfg cmd pData len m (le_of_eq h.symm)
  · intro m m1 fs f h
    have hlen := requestEach_length cfg fs m m1 _ h
    have hcnt := requestEach_true_cnt cfg fs m m1 _ h (fun r hr => (List.eq_of_mem_replicate hr))
    simp only [List.length_replicate] at hlen
    have h8 : m1.callbackQueue.requestCnt = 8 := by
      have hne : fs ≠ [] := by
        intro h0
        rw [h0] at hlen
        simp at hlen
      have := hcnt.1
      have := hcnt.2 hne
      omega
    exact ⟨h8, Request_of_full cfg f.cmd f.pData f.len m1 (le_of_eq h8.symm)⟩
  · intro m m1 fs f h
    have hlen := requestUnsolicitedEach_length cfg fs m m1 _ h
    have hcnt := requestUnsolicitedEach_true_cnt cfg fs m m1 _ h
      (fun r hr => (List.eq_of_mem_replicate hr))
    simp only [List.length_replicate] at hlen
    have h8 : m1.commandQueue.requestCnt = 8 := by
      have hne : fs ≠ [] := by
        intro h0
        rw [h0] at hlen
        simp at hlen
      have := hcnt.1
      have := hcnt.2 hne
      omega
    exact ⟨h8, RequestUnsolicited_of_full cfg f.cmd f.pData f.len m1 (le_of_eq h8.symm)⟩

/-- C1 at a concrete input: eight one-byte frames fill each queue of the start
machine, and a ninth enqueue is rejected without changing it. -/
theorem enqueue_on_full_queue_rejected_witness :
    requestEach cfgSmall eightFrames (initMachine cfgSmall)
      = .ok (List.replicate 8 true, fullCallbackMachine) ∧
    fullCallbackMachine.callbackQueue.requestCnt = 8 ∧
    Request cfgSmall 9 [9] 1 fullCallbackMachine = .ok (false, fullCallbackMachine) ∧
    requestUnsolicitedEach cfgSmall eightFrames (initMachine cfgSmall)
      = .ok (List.replicate 8 true, fullCommandMachine) ∧
    fullCommandMachine.commandQueue.requestCnt = 8 ∧
    RequestUnsolicited cfgSmall 9 [9] 1 fullCommandMachine = .ok (false, fullCommandMachine) :=
  have h1 : requestEach cfgSmall eightFrames (initMachine cfgSmall)
      = .ok (List.replicate 8 true, fullCallbackMachine) := by decide
  have h2 : requestUnsolicitedEach cfgSmall eightFrames (initMachine cfgSmall)
      = .ok (List.replicate 8 true, fullCommandMachine) := by decide
  have a := (enqueue_on_full_queue_rejected cfgSmall).2.2.1 (initMachine cfgSmall)
    fullCallbackMachine eightFrames { cmd := 9, pData := [9], len := 1 } h1
  have b := (enqueue_on_full_queue_rejected cfgSmall).2.2.2 (initMachine cfgSmall)
    fullCommandMachine eightFrames { cmd := 9, pData := [9], len := 1 } h2
  ⟨h1, a.1, a.2, h2, b.1, b.2⟩

/-! ## The ring as a list of pending entries -/

/-- Writing the slot at `requestIn` and advancing `requestIn` appends one entry
to the pending entries and keeps the ring invariant. -/
theorem entries_enqueue (q : REQUEST_QUEUE) (e1 : CALLBACK_ELEMENT) (hinv : QInv q)
    (hc : q.requestCnt < 8) :
    QInv { requestOut := q.requestOut
           requestIn := if (q.requestIn + 1) % 256 ≥ 8 then 0 else (q.requestIn + 1) % 256
           requestCnt := q.requestCnt + 1
           requestQueue := q.requestQueue.set q.requestIn e1 } ∧
    REQUEST_QUEUE.entries
        { requestOut := q.requestOut
          requestIn := if (q.requestIn + 1) % 256 ≥ 8 then 0 else (q.requestIn + 1) % 256
          requestCnt := q.requestCnt + 1
          requestQueue := q.requestQueue.set q.requestIn e1 }
      = q.entries ++ [e1] := by
  obtain ⟨h1, h2, h3, h4, h5⟩ := hinv
  constructor
  · refine ⟨by simp only; omega, ?_, h3, ?_, by simp [h5]⟩
    · simp only; split <;> omega
    · simp only; split <;> omega
  · simp only [REQUEST_QUEUE.entries, List.range_succ, List.map_append, List.map_cons,
      List.map_nil]
    congr 1
    · apply List.map_congr_left
      intro j hj
      have hj' : j < q.requestCnt := List.mem_range.mp hj
      have hne : q.requestIn ≠ (q.requestOut + j) % 8 := by omega
      rw [List.getElem?_set_ne hne]
    · have hidx : (q.requestOut + q.requestCnt) % 8 = q.requestIn := h4.symm
      rw [hidx, List.getElem?_set_self (by omega)]
      rfl

/-- On a non-empty ring the slot at `requestOut` is the oldest pending entry,
and advancing `requestOut` removes exactly that entry. -/
theorem entries_pop (q : REQUEST_QUEUE) (hinv : QInv q) (hc : q.requestCnt ≠ 0) :
    QInv { q with
           requestCnt := q.requestCnt - 1
           requestOut := if (q.requestOut + 1) % 256 ≥ 8 then 0 else (q.requestOut + 1) % 256 } ∧
    ∃ e, q.requestQueue[q.requestOut]? = some e ∧
      q.entries = e :: REQUEST_QUEUE.entries
        { q with
          requestCnt := q.requestCnt - 1
          requestOut := if (q.requestOut + 1) % 256 ≥ 8 then 0 else (q.requestOut + 1) % 256 } := by
  obtain ⟨h1, h2, h3, h4, h5⟩ := hinv
  constructor
  · refine ⟨by simp only; omega, h2, ?_, ?_, h5⟩
    · simp only; split <;> omega
    · simp only; split <;> omega
  · have hlt : q.requestOut < q.requestQueue.length := by omega
    refine ⟨q.requestQueue[q.requestOut], List.getElem?_eq_getElem hlt, ?_⟩
    obtain ⟨c, hcc⟩ : ∃ c, q.requestCnt = c + 1 := ⟨q.requestCnt - 1, by omega⟩
    simp only [REQUEST_QUEUE.entries, hcc, List.range_succ_eq_map, List.map_cons, List.map_map,
      Nat.add_sub_cancel]
    congr 1
    · have : (q.requestOut + 0) % 8 = q.requestOut := by omega
      rw [this, List.getElem?_eq_getElem hlt]
      rfl
    · apply List.map_congr_left
      intro j _
      have : (q.requestOut + Nat.succ j) % 8
          = ((if (q.requestOut + 1) % 256 ≥ 8 then 0 else (q.requestOut + 1) % 256) + j) % 8 := by
        split <;> omega
      simp only [Function.comp, this]

/-! ## Field-wise description of the small operations -/

theorem set_state_and_notify_state (st : SerialState) (m : Machine) :
    (set_state_and_notify st m).state = st := by
  unfold set_state_and_notify
  split
  · rfl
  · rename_i h
    simpa using h

theorem set_state_and_notify_fields (st : SerialState) (m : Machine) :
    (set_state_and_notify st m).retry = m.retry ∧
    (set_state_and_notify st m).lastRetVal = m.lastRetVal ∧
    (set_state_and_notify st m).compl_workbuf = m.compl_workbuf ∧
    (set_state_and_notify st m).callbackQueue = m.callbackQueue ∧
    (set_state_and_notify st m).commandQueue = m.commandQueue ∧
    (set_state_and_notify st m).bTxStatusReportEnabled = m.bTxStatusReportEnabled ∧
    (set_state_and_notify st m).txLog = m.txLog ∧
    (set_state_and_notify st m).parseLog = m.parseLog ∧
    (set_state_and_notify st m).extCalls = m.extCalls := by
  unfold set_state_and_notify
  split <;> simp

theorem PopCallBackQueue_fields (m : Machine) :
    (PopCallBackQueue m).state = .stateIdle ∧
    (PopCallBackQueue m).retry = 0 ∧
    (PopCallBackQueue m).commandQueue = m.commandQueue ∧
    (PopCallBackQueue m).txLog = m.txLog ∧
    (PopCallBackQueue m).parseLog = m.parseLog ∧
    (PopCallBackQueue m).callbackQueue =
      (if m.callbackQueue.requestCnt ≠ 0 then
        { m.callbackQueue with
          requestCnt := m.callbackQueue.requestCnt - 1
          requestOut := if (m.callbackQueue.requestOut + 1) % 256 ≥ 8 then 0
            else (m.callbackQueue.requestOut + 1) % 256 }
      else { m.callbackQueue with requestOut := m.callbackQueue.requestIn }) := by
  unfold PopCallBackQueue
  simp only [set_state_and_notify_state, set_state_and_notify_fields, MAX_CALLBACK_QUEUE]
  simp

theorem PopCommandQueue_fields (m : Machine) :
    (PopCommandQueue m).state = .stateIdle ∧
    (PopCommandQueue m).retry = 0 ∧
    (PopCommandQueue m).callbackQueue = m.callbackQueue ∧
    (PopCommandQueue m).txLog = m.txLog ∧
    (PopCommandQueue m).parseLog = m.parseLog ∧
    (PopCommandQueue m).commandQueue =
      (if m.commandQueue.requestCnt ≠ 0 then
        { m.commandQueue with
          requestCnt := m.commandQueue.requestCnt - 1
          requestOut := if (m.commandQueue.requestOut + 1) % 256 ≥ 8 then 0
            else (m.commandQueue.requestOut + 1) % 256 }
      else { m.commandQueue with requestOut := m.commandQueue.requestIn }) := by
  unfold PopCommandQueue
  simp only [set_state_and_notify_state, set_state_and_notify_fields, MAX_UNSOLICITED_QUEUE]
  simp

/-- The bytes a slot carries after `memcpy` of `n` bytes from a buffer that
holds at least `n` bytes. -/
theorem memcpy_take (dst src : List Nat) (n : Nat) (h : n ≤ src.length) :
    (memcpy dst src n).take n = src.take n := by
  unfold memcpy
  apply List.take_left'
  simp [h]

/-! ## Enqueue and drain on the list of pending entries -/

theorem requestEach_entries (cfg : Config) (fs : List Frame) :
    ∀ m : Machine, QInv m.callbackQueue →
      m.callbackQueue.requestCnt + fs.length ≤ 8 →
      (∀ f ∈ fs, f.len ≤ cfg.BUF_SIZE_TX % 256 ∧ f.len ≤ f.pData.length) →
      ∃ m1 es, requestEach cfg fs m = .ok (List.replicate fs.length true, m1) ∧
        QInv m1.callbackQueue ∧
        m1.callbackQueue.entries = m.callbackQueue.entries ++ es ∧
        es.map CALLBACK_ELEMENT.content = fs.map Frame.content ∧
        m1.callbackQueue.requestCnt = m.callbackQueue.requestCnt + fs.length ∧
        m1.commandQueue = m.commandQueue := by
  induction fs with
  | nil =>
    intro m hinv _ _
    exact ⟨m, [], by simp [requestEach], hinv, by simp, by simp, by simp, rfl⟩
  | cons f fs ih =>
    intro m hinv hroom hfs
    simp only [List.length_cons] at hroom
    have hc : m.callbackQueue.requestCnt < MAX_CALLBACK_QUEUE := by
      show _ < 8
      omega
    have hlt : m.callbackQueue.requestIn < m.callbackQueue.requestQueue.length := by
      have := hinv.2.1
      have := hinv.2.2.2.2
      omega
    have hf := hfs f (by simp)
    have hmin : min f.len (cfg.BUF_SIZE_TX % 256) = f.len := Nat.min_eq_left hf.1
    obtain ⟨mR, hR, hRq, hRo⟩ : ∃ mR, Request cfg f.cmd f.pData f.len m = .ok (true, mR) ∧
        mR.callbackQueue =
          { requestOut := m.callbackQueue.requestOut
            requestIn := if (m.callbackQueue.requestIn + 1) % 256 ≥ 8 then 0
              else (m.callbackQueue.requestIn + 1) % 256
            requestCnt := m.callbackQueue.requestCnt + 1
            requestQueue := m.callbackQueue.requestQueue.set m.callbackQueue.requestIn
              { wCmd := f.cmd, wLen := f.len,
                wBuf := memcpy (m.callbackQueue.requestQueue[m.callbackQueue.requestIn]).wBuf
                  f.pData f.len } } ∧
        mR.commandQueue = m.commandQueue := by
      have hR := Request_accept cfg f.cmd f.pData f.len m _ hc
        (List.getElem?_eq_getElem hlt) (Or.inl hf.1)
      rw [hmin] at hR
      exact ⟨_, hR, rfl, rfl⟩
    have hq := entries_enqueue m.callbackQueue
      { wCmd := f.cmd, wLen := f.len,
        wBuf := memcpy (m.callbackQueue.requestQueue[m.callbackQueue.requestIn]).wBuf f.pData f.len }
      hinv (by omega)
    rw [← hRq] at hq
    obtain ⟨m1, es, h1, h2, h3, h4, h5, h6⟩ := ih mR hq.1
      (by rw [hRq]; simp only; omega) (fun g hg => hfs g (by simp [hg]))
    refine ⟨m1, (CALLBACK_ELEMENT.mk f.cmd f.len
        (memcpy (m.callbackQueue.requestQueue[m.callbackQueue.requestIn]).wBuf f.pData f.len)) :: es,
      ?_, h2, ?_, ?_, ?_, ?_⟩
    · simp only [requestEach, hR, Outcome.bind, h1]
      simp [List.replicate_succ]
    · rw [h3, hq.2]
      simp
    · simp only [List.map_cons, h4, CALLBACK_ELEMENT.content, Frame.content,
        memcpy_take _ _ _ hf.2]
    · rw [h5, hRq]
      simp only [List.length_cons]
      omega
    · rw [h6, hRo]

theorem requestUnsolicitedEach_entries (cfg : Config) (fs : List Frame) :
    ∀ m : Machine, QInv m.commandQueue →
      m.commandQueue.requestCnt + fs.length ≤ 8 →
      (∀ f ∈ fs, f.len ≤ cfg.BUF_SIZE_TX % 256 ∧ f.len ≤ f.pData.length) →
      ∃ m1 es, requestUnsolicitedEach cfg fs m = .ok (List.replicate fs.length true, m1) ∧
        QInv m1.commandQueue ∧
        m1.commandQueue.entries = m.commandQueue.entries ++ es ∧
        es.map CALLBACK_ELEMENT.content = fs.map Frame.content ∧
        m1.commandQueue.requestCnt = m.commandQueue.requestCnt + fs.length ∧
        m1.callbackQueue = m.callbackQueue := by
  induction fs with
  | nil =>
    intro m hinv _ _
    exact ⟨m, [], by simp [requestUnsolicitedEach], hinv, by simp, by simp, by simp, rfl⟩
  | cons f fs ih =>
    intro m hinv hroom hfs
    simp only [List.length_cons] at hroom
    have hc : m.commandQueue.requestCnt < MAX_UNSOLICITED_QUEUE := by
      show _ < 8
      omega
    have hlt : m.commandQueue.requestIn < m.commandQueue.requestQueue.length := by
      have := hinv.2.1
      have := hinv.2.2.2.2
      omega
    have hf := hfs f (by simp)
    have hmin : min f.len (cfg.BUF_SIZE_TX % 256) = f.len := Nat.min_eq_left hf.1
    obtain ⟨mR, hR, hRq, hRo⟩ : ∃ mR, RequestUnsolicited cfg f.cmd f.pData f.len m = .ok (true, mR) ∧
        mR.commandQueue =
          { requestOut := m.commandQueue.requestOut
            requestIn := if (m.commandQueue.requestIn + 1) % 256 ≥ 8 then 0
              else (m.commandQueue.requestIn + 1) % 256
            requestCnt := m.commandQueue.requestCnt + 1
            requestQueue := m.commandQueue.requestQueue.set m.commandQueue.requestIn
              { wCmd := f.cmd, wLen := f.len,
                wBuf := memcpy (m.commandQueue.requestQueue[m.commandQueue.requestIn]).wBuf
                  f.pData f.len } } ∧
        mR.callbackQueue = m.callbackQueue := by
      have hR := RequestUnsolicited_accept cfg f.cmd f.pData f.len m _ hc
        (List.getElem?_eq_getElem hlt) (Or.inl hf.1)
      rw [hmin] at hR
      exact ⟨_, hR, rfl, rfl⟩
    have hq := entries_enqueue m.commandQueue
      { wCmd := f.cmd, wLen := f.len,
        wBuf := memcpy (m.commandQueue.requestQueue[m.commandQueue.requestIn]).wBuf f.pData f.len }
      hinv (by omega)
    rw [← hRq] at hq
    obtain ⟨m1, es, h1, h2, h3, h4, h5, h6⟩ := ih mR hq.1
      (by rw [hRq]; simp only; omega) (fun g hg => hfs g (by simp [hg]))
    refine ⟨m1, (CALLBACK_ELEMENT.mk f.cmd f.len
        (memcpy (m.commandQueue.requestQueue[m.commandQueue.requestIn]).wBuf f.pData f.len)) :: es,
      ?_, h2, ?_, ?_, ?_, ?_⟩
    · simp only [requestUnsolicitedEach, hR, Outcome.bind, h1]
      simp [List.replicate_succ]
    · rw [h3, hq.2]
      simp
    · simp only [List.map_cons, h4, CALLBACK_ELEMENT.content, Frame.content,
        memcpy_take _ _ _ hf.2]
    · rw [h5, hRq]
      simp only [List.length_cons]
      omega
    · rw [h6, hRo]

theorem drainCallback_entries (k : Nat) :
    ∀ m : Machine, QInv m.callbackQueue → k ≤ m.callbackQueue.requestCnt →
      ∃ m2, drainCallback k m = .ok (m.callbackQueue.entries.take k, m2) ∧
        QInv m2.callbackQueue ∧
        m2.callbackQueue.requestCnt = m.callbackQueue.requestCnt - k := by
  induction k with
  | zero =>
    intro m hinv _
    exact ⟨m, by simp [drainCallback], hinv, by simp⟩
  | succ k ih =>
    intro m hinv hk
    have hne : m.callbackQueue.requestCnt ≠ 0 := by omega
    obtain ⟨hq1, e, he, hes⟩ := entries_pop m.callbackQueue hinv hne
    have hpop := (PopCallBackQueue_fields m).2.2.2.2.2
    simp only [hne, ne_eq, not_false_eq_true, if_true] at hpop
    obtain ⟨m2, h1, h2, h3⟩ := ih (PopCallBackQueue m) (by rw [hpop]; exact hq1)
      (by rw [hpop]; simp only; omega)
    refine ⟨m2, ?_, h2, ?_⟩
    · simp only [drainCallback, he, h1, Outcome.bind, hes, List.take_succ_cons, hpop]
    · rw [h3, hpop]
      simp only
      omega

theorem drainCommand_entries (k : Nat) :
    ∀ m : Machine, QInv m.commandQueue → k ≤ m.commandQueue.requestCnt →
      ∃ m2, drainCommand k m = .ok (m.commandQueue.entries.take k, m2) ∧
        QInv m2.commandQueue ∧
        m2.commandQueue.requestCnt = m.commandQueue.requestCnt - k := by
  induction k with
  | zero =>
    intro m hinv _
    exact ⟨m, by simp [drainCommand], hinv, by simp⟩
  | succ k ih =>
    intro m hinv hk
    have hne : m.commandQueue.requestCnt ≠ 0 := by omega
    obtain ⟨hq1, e, he, hes⟩ := entries_pop m.commandQueue hinv hne
    have hpop := (PopCommandQueue_fields m).2.2.2.2.2
    simp only [hne, ne_eq, not_false_eq_true, if_true] at hpop
    obtain ⟨m2, h1, h2, h3⟩ := ih (PopCommandQueue m) (by rw [hpop]; exact hq1)
      (by rw [hpop]; simp only; omega)
    refine ⟨m2, ?_, h2, ?_⟩
    · simp only [drainCommand, he, h1, Outcome.bind, hes, List.take_succ_cons, hpop]
    · rw [h3, hpop]
      simp only
      omega

/-! ## C2: first in, first out -/

/-- C2, amended. Take a machine whose callback ring is empty (`requestCnt = 0`,
`requestIn = requestOut`, at any slot) and at most eight frames, none longer
than the buffer. `Request` accepts them all, and reading the slot at
`requestOut` followed by `PopCallBackQueue`, once per frame, yields the frames
in the order they were offered, each with its command, length and payload
bytes, and leaves the ring empty. The same holds for `RequestUnsolicited` with
`PopCommandQueue` on the command ring. -/
theorem queue_is_fifo (cfg : Config) (m : Machine) (fs : List Frame)
    (hk : fs.length ≤ 8)
    (hfs : ∀ f ∈ fs, f.len ≤ cfg.BUF_SIZE_TX % 256 ∧ f.len ≤ f.pData.length)
    (hcb : m.callbackQueue.requestCnt = 0 ∧
      m.callbackQueue.requestIn = m.callbackQueue.requestOut ∧
      m.callbackQueue.requestOut < 8 ∧ m.callbackQueue.requestQueue.length = 8)
    (hcm : m.commandQueue.requestCnt = 0 ∧
      m.commandQueue.requestIn = m.commandQueue.requestOut ∧
      m.commandQueue.requestOut < 8 ∧ m.commandQueue.requestQueue.length = 8) :
    (∃ m1 es m2, requestEach cfg fs m = .ok (List.replicate fs.length true, m1) ∧
      drainCallback fs.length m1 = .ok (es, m2) ∧
      es.map CALLBACK_ELEMENT.content = fs.map Frame.content ∧
      m2.callbackQueue.requestCnt = 0) ∧
    (∃ m1 es m2, requestUnsolicitedEach cfg fs m = .ok (List.replicate fs.length true, m1) ∧
      drainCommand fs.length m1 = .ok (es, m2) ∧
      es.map CALLBACK_ELEMENT.content = fs.map Frame.content ∧
      m2.commandQueue.requestCnt = 0) := by
  constructor
  · obtain ⟨h0, hio, ho, hlen⟩ := hcb
    have hinv : QInv m.callbackQueue := ⟨by omega, by omega, ho, by omega, hlen⟩
    obtain ⟨m1, es, h1, h2, h3, h4, h5, _⟩ := requestEach_entries cfg fs m hinv (by omega) hfs
    obtain ⟨m2, d1, _, d3⟩ := drainCallback_entries fs.length m1 h2 (by omega)
    have hnil : m.callbackQueue.entries = [] := by simp [REQUEST_QUEUE.entries, h0]
    have hlenes : es.length = fs.length := by
      have := congrArg List.length h4
      simpa using this
    refine ⟨m1, es, m2, h1, ?_, h4, by omega⟩
    rw [d1, h3, hnil, List.nil_append, ← hlenes, List.take_length]
  · obtain ⟨h0, hio, ho, hlen⟩ := hcm
    have hinv : QInv m.commandQueue := ⟨by omega, by omega, ho, by omega, hlen⟩
    obtain ⟨m1, es, h1, h2, h3, h4, h5, _⟩ :=
      requestUnsolicitedEach_entries cfg fs m hinv (by omega) hfs
    obtain ⟨m2, d1, _, d3⟩ := drainCommand_entries fs.length m1 h2 (by omega)
    have hnil : m.commandQueue.entries = [] := by simp [REQUEST_QUEUE.entries, h0]
    have hlenes : es.length = fs.length := by
      have := congrArg List.length h4
      simpa using this
    refine ⟨m1, es, m2, h1, ?_, h4, by omega⟩
    rw [d1, h3, hnil, List.nil_append, ← hlenes, List.take_length]

/-- C2 at a concrete input: three frames through rings that are empty at slot
6, so that the entries wrap around the end of the array. -/
theorem queue_is_fifo_witness :
    (∃ m1 es m2, requestEach cfgSmall threeFrames emptyAtSixMachine
        = .ok (List.replicate threeFrames.length true, m1) ∧
      drainCallback threeFrames.length m1 = .ok (es, m2) ∧
      es.map CALLBACK_ELEMENT.content = threeFrames.map Frame.content ∧
      m2.callbackQueue.requestCnt = 0) ∧
    (∃ m1 es m2, requestUnsolicitedEach cfgSmall threeFrames emptyAtSixMachine
        = .ok (List.replicate threeFrames.length true, m1) ∧
      drainCommand threeFrames.length m1 = .ok (es, m2) ∧
      es.map CALLBACK_ELEMENT.content = threeFrames.map Frame.content ∧
      m2.commandQueue.requestCnt = 0) :=
  queue_is_fifo cfgSmall emptyAtSixMachine threeFrames (by decide) (by decide) (by decide)
    (by decide)

/-- C2 as stated fails for an entry longer than the buffer. With a four-byte
buffer, a frame of seven bytes offered to the empty callback queue comes back
from the queue with length 4 and the payload `1, 2, 3, 4` when assertions are
compiled out, and is not enqueued at all (the `assert` stops the run) when they
are compiled in; the same holds for the command queue. -/
theorem queue_fifo_overlong_counterexample :
    sevenByteFrame.content = (0x13, 7, [1, 2, 3, 4, 5, 6, 7]) ∧
    ((requestEach cfgSmall [sevenByteFrame] (initMachine cfgSmall)).bind fun r =>
        (drainCallback 1 r.2).map fun d => d.1.map CALLBACK_ELEMENT.content)
      = .ok [(0x13, 4, [1, 2, 3, 4])] ∧
    ((requestUnsolicitedEach cfgSmall [sevenByteFrame] (initMachine cfgSmall)).bind fun r =>
        (drainCommand 1 r.2).map fun d => d.1.map CALLBACK_ELEMENT.content)
      = .ok [(0x13, 4, [1, 2, 3, 4])] ∧
    requestEach cfgSmallAssert [sevenByteFrame] (initMachine cfgSmallAssert) = .assertFailed ∧
    requestUnsolicitedEach cfgSmallAssert [sevenByteFrame] (initMachine cfgSmallAssert)
      = .assertFailed := by
  refine ⟨?_, ?_, ?_, ?_, ?_⟩ <;> decide

/-! ## C3: what an accepted enqueue stores -/

/-- C3 as stated fails when assertions are compiled in: with an empty queue, a
168-byte buffer and a length of 200, `Request` stops at its `assert` and
returns nothing. -/
theorem Request_overlong_aborts_counterexample :
    (initMachine cfgAssert168).callbackQueue.requestCnt < 8 ∧
    Request cfgAssert168 0x13 (List.replicate 200 0xAA) 200 (initMachine cfgAssert168)
      = .assertFailed ∧
    ∀ m1, Request cfgAssert168 0x13 (List.replicate 200 0xAA) 200 (initMachine cfgAssert168)
      ≠ .ok (true, m1) := by
  have h : Request cfgAssert168 0x13 (List.replicate 200 0xAA) 200 (initMachine cfgAssert168)
      = .assertFailed :=
    Request_assert cfgAssert168 0x13 (List.replicate 200 0xAA) 200 (initMachine cfgAssert168)
      (by decide) (by decide) (by decide) rfl
  refine ⟨by decide, h, ?_⟩
  intro m1 h1
  rw [h] at h1
  cases h1

/-- C3, amended. When `requestCnt < 8`, and the length is at most `BUF_SIZE_TX`
or assertions are compiled out, `Request (cmd, data, len)` returns `true`,
increases `requestCnt` by one, writes into the slot at the old `requestIn` the
command, the length `min len BUF_SIZE_TX` and that many first bytes of `data`,
advances `requestIn` by one modulo 8, and changes neither `requestOut` nor any
other slot; the slot holds the bytes themselves, so overwriting the work
buffer afterwards does not change the queue. -/
theorem Request_stores_entry (cfg : Config) (cmd : Nat) (pData : List Nat) (len : Nat)
    (m : Machine)
    (hB : cfg.BUF_SIZE_TX < 256)
    (hc : m.callbackQueue.requestCnt < 8)
    (hi : m.callbackQueue.requestIn < 8)
    (hq : m.callbackQueue.requestQueue.length = 8)
    (hd : min len cfg.BUF_SIZE_TX ≤ pData.length)
    (hl : len ≤ cfg.BUF_SIZE_TX ∨ cfg.NDEBUG = true) :
    ∃ m1, Request cfg cmd pData len m = .ok (true, m1) ∧
      m1.callbackQueue.requestCnt = m.callbackQueue.requestCnt + 1 ∧
      (∃ e, m1.callbackQueue.requestQueue[m.callbackQueue.requestIn]? = some e ∧
        e.wCmd = cmd ∧ e.wLen = min len cfg.BUF_SIZE_TX ∧
        e.wBuf.take (min len cfg.BUF_SIZE_TX) = pData.take (min len cfg.BUF_SIZE_TX)) ∧
      m1.callbackQueue.requestIn = (m.callbackQueue.requestIn + 1) % 8 ∧
      m1.callbackQueue.requestOut = m.callbackQueue.requestOut ∧
      (∀ j, j ≠ m.callbackQueue.requestIn →
        m1.callbackQueue.requestQueue[j]? = m.callbackQueue.requestQueue[j]?) ∧
      m1.callbackQueue.requestQueue.length = 8 ∧
      m1.commandQueue = m.commandQueue ∧
      ∀ b, ({ m1 with compl_workbuf := b }).callbackQueue = m1.callbackQueue := by
  have hmodB : cfg.BUF_SIZE_TX % 256 = cfg.BUF_SIZE_TX := Nat.mod_eq_of_lt hB
  have hlt : m.callbackQueue.requestIn < m.callbackQueue.requestQueue.length := by omega
  have hR := Request_accept cfg cmd pData len m _ (by show _ < 8; exact hc)
    (List.getElem?_eq_getElem hlt) (by rw [hmodB]; exact hl)
  rw [hmodB] at hR
  refine ⟨_, hR, rfl, ⟨_, List.getElem?_set_self hlt, rfl, rfl, memcpy_take _ _ _ hd⟩, ?_, rfl,
    ?_, ?_, rfl, fun _ => rfl⟩
  · simp only [MAX_CALLBACK_QUEUE]
    split <;> omega
  · intro j hj
    exact List.getElem?_set_ne (Ne.symm hj)
  · simp [hq]

/-- C3, amended, at concrete inputs: an in-range length with assertions compiled
in, and an over-long length with assertions compiled out. -/
theorem Request_stores_entry_witness :
    (∃ m1, Request cfgSmallAssert 0x13 [1, 2, 3] 3 (initMachine cfgSmallAssert) = .ok (true, m1) ∧
      m1.callbackQueue.requestCnt = (initMachine cfgSmallAssert).callbackQueue.requestCnt + 1 ∧
      (∃ e, m1.callbackQueue.requestQueue[(initMachine cfgSmallAssert).callbackQueue.requestIn]?
          = some e ∧
        e.wCmd = 0x13 ∧ e.wLen = min 3 cfgSmallAssert.BUF_SIZE_TX ∧
        e.wBuf.take (min 3 cfgSmallAssert.BUF_SIZE_TX)
          = [1, 2, 3].take (min 3 cfgSmallAssert.BUF_SIZE_TX)) ∧
      m1.callbackQueue.requestIn = ((initMachine cfgSmallAssert).callbackQueue.requestIn + 1) % 8 ∧
      m1.callbackQueue.requestOut = (initMachine cfgSmallAssert).callbackQueue.requestOut ∧
      (∀ j, j ≠ (initMachine cfgSmallAssert).callbackQueue.requestIn →
        m1.callbackQueue.requestQueue[j]?
          = (initMachine cfgSmallAssert).callbackQueue.requestQueue[j]?) ∧
      m1.callbackQueue.requestQueue.length = 8 ∧
      m1.commandQueue = (initMachine cfgSmallAssert).commandQueue ∧
      ∀ b, ({ m1 with compl_workbuf := b }).callbackQueue = m1.callbackQueue) ∧
    (∃ m1, Request cfgSmall 0x13 [1, 2, 3, 4, 5] 5 emptyAtSixMachine = .ok (true, m1) ∧
      m1.callbackQueue.requestCnt = emptyAtSixMachine.callbackQueue.requestCnt + 1 ∧
      (∃ e, m1.callbackQueue.requestQueue[emptyAtSixMachine.callbackQueue.requestIn]? = some e ∧
        e.wCmd = 0x13 ∧ e.wLen = min 5 cfgSmall.BUF_SIZE_TX ∧
        e.wBuf.take (min 5 cfgSmall.BUF_SIZE_TX)
          = [1, 2, 3, 4, 5].take (min 5 cfgSmall.BUF_SIZE_TX)) ∧
      m1.callbackQueue.requestIn = (emptyAtSixMachine.callbackQueue.requestIn + 1) % 8 ∧
      m1.callbackQueue.requestOut = emptyAtSixMachine.callbackQueue.requestOut ∧
      (∀ j, j ≠ emptyAtSixMachine.callbackQueue.requestIn →
        m1.callbackQueue.requestQueue[j]? = emptyAtSixMachine.callbackQueue.requestQueue[j]?) ∧
      m1.callbackQueue.requestQueue.length = 8 ∧
      m1.commandQueue = emptyAtSixMachine.commandQueue ∧
      ∀ b, ({ m1 with compl_workbuf := b }).callbackQueue = m1.callbackQueue) :=
  ⟨Request_stores_entry cfgSmallAssert 0x13 [1, 2, 3] 3 (initMachine cfgSmallAssert)
      (by decide) (by decide) (by decide) (by decide) (by decide) (Or.inl (by decide)),
   Request_stores_entry cfgSmall 0x13 [1, 2, 3, 4, 5] 5 emptyAtSixMachine
      (by decide) (by decide) (by decide) (by decide) (by decide) (Or.inr (by decide))⟩

/-! ## C4: a length above the buffer size -/

/-- C4 as stated fails when assertions are compiled in: `RequestUnsolicited`
on an empty queue with a 168-byte buffer and a length of 255 stops at its
`assert`; it neither returns `true` nor stores a truncated entry. -/
theorem RequestUnsolicited_overlong_aborts_counterexample :
    cfgAssert168.BUF_SIZE_TX < 255 ∧
    (initMachine cfgAssert168).commandQueue.requestCnt < 8 ∧
    RequestUnsolicited cfgAssert168 0x04 (List.replicate 255 0x55) 255 (initMachine cfgAssert168)
      = .assertFailed ∧
    ∀ r, RequestUnsolicited cfgAssert168 0x04 (List.replicate 255 0x55) 255
        (initMachine cfgAssert168) ≠ .ok r := by
  have h : RequestUnsolicited cfgAssert168 0x04 (List.replicate 255 0x55) 255
      (initMachine cfgAssert168) = .assertFailed :=
    RequestUnsolicited_assert cfgAssert168 0x04 (List.replicate 255 0x55) 255
      (initMachine cfgAssert168) (by decide) (by decide) (by decide) rfl
  refine ⟨by decide, by decide, h, ?_⟩
  intro r h1
  rw [h] at h1
  cases h1

/-- C4, amended. For every length above `BUF_SIZE_TX` offered to a queue that
is not full: with assertions compiled out, `Request` and `RequestUnsolicited`
return `true` and store the entry with length exactly `BUF_SIZE_TX` and the
first `BUF_SIZE_TX` payload bytes; with assertions compiled in, both stop at
the failing `assert` and store nothing. -/
theorem overlong_truncated_or_asserted (cfg : Config) (cmd : Nat) (pData : List Nat) (len : Nat)
    (m : Machine)
    (hB : cfg.BUF_SIZE_TX < 256)
    (hlen : cfg.BUF_SIZE_TX < len)
    (hd : cfg.BUF_SIZE_TX ≤ pData.length)
    (hcb : m.callbackQueue.requestCnt < 8 ∧ m.callbackQueue.requestIn < 8 ∧
      m.callbackQueue.requestQueue.length = 8)
    (hcm : m.commandQueue.requestCnt < 8 ∧ m.commandQueue.requestIn < 8 ∧
      m.commandQueue.requestQueue.length = 8) :
    (cfg.NDEBUG = true →
      (∃ m1 e, Request cfg cmd pData len m = .ok (true, m1) ∧
        m1.callbackQueue.requestQueue[m.callbackQueue.requestIn]? = some e ∧
        e.wCmd = cmd ∧ e.wLen = cfg.BUF_SIZE_TX ∧
        e.wBuf.take cfg.BUF_SIZE_TX = pData.take cfg.BUF_SIZE_TX ∧
        m1.callbackQueue.requestCnt = m.callbackQueue.requestCnt + 1) ∧
      (∃ m1 e, RequestUnsolicited cfg cmd pData len m = .ok (true, m1) ∧
        m1.commandQueue.requestQueue[m.commandQueue.requestIn]? = some e ∧
        e.wCmd = cmd ∧ e.wLen = cfg.BUF_SIZE_TX ∧
        e.wBuf.take cfg.BUF_SIZE_TX = pData.take cfg.BUF_SIZE_TX ∧
        m1.commandQueue.requestCnt = m.commandQueue.requestCnt + 1)) ∧
    (cfg.NDEBUG = false →
      Request cfg cmd pData len m = .assertFailed ∧
      RequestUnsolicited cfg cmd pData len m = .assertFailed) := by
  have hmodB : cfg.BUF_SIZE_TX % 256 = cfg.BUF_SIZE_TX := Nat.mod_eq_of_lt hB
  obtain ⟨c1, c2, c3⟩ := hcb
  obtain ⟨d1, d2, d3⟩ := hcm
  have hlt1 : m.callbackQueue.requestIn < m.callbackQueue.requestQueue.length := by omega
  have hlt2 : m.commandQueue.requestIn < m.commandQueue.requestQueue.length := by omega
  have hmin : min len cfg.BUF_SIZE_TX = cfg.BUF_SIZE_TX := Nat.min_eq_right (by omega)
  constructor
  · intro hN
    constructor
    · have hR := Request_accept cfg cmd pData len m _ (by show _ < 8; exact c1)
        (List.getElem?_eq_getElem hlt1) (Or.inr hN)
      rw [hmodB, hmin] at hR
      exact ⟨_, _, hR, List.getElem?_set_self hlt1, rfl, rfl, memcpy_take _ _ _ hd, rfl⟩
    · have hR := RequestUnsolicited_accept cfg cmd pData len m _ (by show _ < 8; exact d1)
        (List.getElem?_eq_getElem hlt2) (Or.inr hN)
      rw [hmodB, hmin] at hR
      exact ⟨_, _, hR, List.getElem?_set_self hlt2, rfl, rfl, memcpy_take _ _ _ hd, rfl⟩
  · intro hN
    exact ⟨Request_assert cfg cmd pData len m (by show _ < 8; exact c1) hlt1
        (by rw [hmodB]; exact hlen) hN,
      RequestUnsolicited_assert cfg cmd pData len m (by show _ < 8; exact d1) hlt2
        (by rw [hmodB]; exact hlen) hN⟩

/-- C4, amended, at a concrete input: seven bytes offered to four-byte slots,
truncated to `[1, 2, 3, 4]` with assertions compiled out, aborted with
assertions compiled in. -/
theorem overlong_truncated_or_asserted_witness :
    (∃ m1 e, Request cfgSmall 0x04 [1, 2, 3, 4, 5, 6, 7] 7 emptyAtSixMachine = .ok (true, m1) ∧
      m1.callbackQueue.requestQueue[6]? = some e ∧
      e.wCmd = 0x04 ∧ e.wLen = 4 ∧ e.wBuf.take 4 = [1, 2, 3, 4] ∧
      m1.callbackQueue.requestCnt = 1) ∧
    (∃ m1 e, RequestUnsolicited cfgSmall 0x04 [1, 2, 3, 4, 5, 6, 7] 7 emptyAtSixMachine
        = .ok (true, m1) ∧
      m1.commandQueue.requestQueue[6]? = some e ∧
      e.wCmd = 0x04 ∧ e.wLen = 4 ∧ e.wBuf.take 4 = [1, 2, 3, 4] ∧
      m1.commandQueue.requestCnt = 1) ∧
    (Request cfgSmallAssert 0x04 [1, 2, 3, 4, 5, 6, 7] 7 (initMachine cfgSmallAssert)
        = .assertFailed ∧
      RequestUnsolicited cfgSmallAssert 0x04 [1, 2, 3, 4, 5, 6, 7] 7 (initMachine cfgSmallAssert)
        = .assertFailed) :=
  ⟨((overlong_truncated_or_asserted cfgSmall 0x04 [1, 2, 3, 4, 5, 6, 7] 7 emptyAtSixMachine
      (by decide) (by decide) (by decide) (by decide) (by decide)).1 (by decide)).1,
   ((overlong_truncated_or_asserted cfgSmall 0x04 [1, 2, 3, 4, 5, 6, 7] 7 emptyAtSixMachine
      (by decide) (by decide) (by decide) (by decide) (by decide)).1 (by decide)).2,
   (overlong_truncated_or_asserted cfgSmallAssert 0x04 [1, 2, 3, 4, 5, 6, 7] 7
      (initMachine cfgSmallAssert)
      (by decide) (by decide) (by decide) (by decide) (by decide)).2 (by decide)⟩

/-! ## C5: purge -/

/-- C5. From any machine whatsoever, `PurgeCallbackQueue` and
`PurgeCommandQueue` set `requestOut = requestIn = requestCnt = 0` on their
queue; purging twice is purging once; and an Idle run of the state handler
after a purge transmits nothing from the purged queue (after purging both it
transmits nothing at all). -/
theorem purge_empties_queue (cfg : Config) (env : Env) (m : Machine) :
    ((PurgeCallbackQueue m).callbackQueue.requestOut = 0 ∧
      (PurgeCallbackQueue m).callbackQueue.requestIn = 0 ∧
      (PurgeCallbackQueue m).callbackQueue.requestCnt = 0) ∧
    ((PurgeCommandQueue m).commandQueue.requestOut = 0 ∧
      (PurgeCommandQueue m).commandQueue.requestIn = 0 ∧
      (PurgeCommandQueue m).commandQueue.requestCnt = 0) ∧
    PurgeCallbackQueue (PurgeCallbackQueue m) = PurgeCallbackQueue m ∧
    PurgeCommandQueue (PurgeCommandQueue m) = PurgeCommandQueue m ∧
    (m.state = .stateIdle →
      (∀ m1, SerialAPIStateHandler cfg env (PurgeCallbackQueue m) = .ok m1 →
        m1.state ≠ .stateCallbackTxSerial ∧
        (m1.txLog = m.txLog ∨ m1.state = .stateCommandTxSerial)) ∧
      (∀ m1, SerialAPIStateHandler cfg env (PurgeCommandQueue m) = .ok m1 →
        m1.state ≠ .stateCommandTxSerial ∧
        (m1.txLog = m.txLog ∨ m1.state = .stateCallbackTxSerial)) ∧
      (∃ m1, SerialAPIStateHandler cfg env (PurgeCommandQueue (PurgeCallbackQueue m)) = .ok m1 ∧
        m1.txLog = m.txLog)) := by
  refine ⟨⟨rfl, rfl, rfl⟩, ⟨rfl, rfl, rfl⟩, rfl, rfl, ?_⟩
  intro hIdle
  refine ⟨?_, ?_, ?_⟩
  · intro m1 h
    have hs : (PurgeCallbackQueue m).state = .stateIdle := hIdle
    have hcnt : (PurgeCallbackQueue m).callbackQueue.requestCnt = 0 := rfl
    unfold SerialAPIStateHandler at h
    simp only [hs, hcnt, ne_eq, not_true_eq_false, if_false] at h
    split at h
    · split at h
      · cases h
      · simp only [Outcome.ok.injEq] at h
        subst h
        simp [set_state_and_notify_state]
    · split at h
      · simp only [Outcome.ok.injEq] at h
        subst h
        simp [set_state_and_notify_state, set_state_and_notify_fields,
          comm_interface_parse_data, PurgeCallbackQueue]
      · simp only [Outcome.ok.injEq] at h
        subst h
        simp [comm_interface_parse_data, PurgeCallbackQueue, hIdle]
  · intro m1 h
    have hs : (PurgeCommandQueue m).state = .stateIdle := hIdle
    have hcnt : (PurgeCommandQueue m).commandQueue.requestCnt = 0 := rfl
    unfold SerialAPIStateHandler at h
    simp only [hs, hcnt, ne_eq, not_true_eq_false, if_false] at h
    split at h
    · split at h
      · cases h
      · simp only [Outcome.ok.injEq] at h
        subst h
        simp [set_state_and_notify_state]
    · split at h
      · simp only [Outcome.ok.injEq] at h
        subst h
        simp [set_state_and_notify_state, set_state_and_notify_fields,
          comm_interface_parse_data, PurgeCommandQueue]
      · simp only [Outcome.ok.injEq] at h
        subst h
        simp [comm_interface_parse_data, PurgeCommandQueue, hIdle]
  · have hs : (PurgeCommandQueue (PurgeCallbackQueue m)).state = .stateIdle := hIdle
    have hc1 : (PurgeCommandQueue (PurgeCallbackQueue m)).callbackQueue.requestCnt = 0 := rfl
    have hc2 : (PurgeCommandQueue (PurgeCallbackQueue m)).commandQueue.requestCnt = 0 := rfl
    unfold SerialAPIStateHandler
    simp only [hs, hc1, hc2, ne_eq, not_true_eq_false, if_false]
    split
    · exact ⟨_, rfl, by
        simp [set_state_and_notify_fields, comm_interface_parse_data, PurgeCommandQueue,
          PurgeCallbackQueue]⟩
    · exact ⟨_, rfl, by simp [comm_interface_parse_data, PurgeCommandQueue, PurgeCallbackQueue]⟩

/-- C5 at a concrete input: a machine in `stateIdle` with inconsistent ring
indices; after purging both queues the Idle run transmits nothing. -/
theorem purge_empties_queue_witness :
    ∃ m1, SerialAPIStateHandler cfgSmall (envOf .PARSE_FRAME_RECEIVED)
        (PurgeCommandQueue (PurgeCallbackQueue scrambledMachine)) = .ok m1 ∧
      m1.txLog = scrambledMachine.txLog :=
  ((purge_empties_queue cfgSmall (envOf .PARSE_FRAME_RECEIVED) scrambledMachine).2.2.2.2
    (by decide)).2.2

/-! ## C6: what a pop does to its queue -/

/-- C6. `PopCallBackQueue` on the callback queue: with `requestCnt > 0` it
takes one off `requestCnt` and advances `requestOut` by one modulo 8, leaving
`requestIn` and the slots alone; with `requestCnt = 0`, whatever `requestOut`
is, it leaves `requestCnt = 0` and `requestIn`, and sets `requestOut` to
`requestIn`. `PopCommandQueue` does the same on the command queue. Neither
touches the other queue. -/
theorem pop_postcondition (m : Machine) :
    (m.callbackQueue.requestCnt ≠ 0 →
      (PopCallBackQueue m).callbackQueue.requestCnt + 1 = m.callbackQueue.requestCnt ∧
      (m.callbackQueue.requestOut < 8 →
        (PopCallBackQueue m).callbackQueue.requestOut = (m.callbackQueue.requestOut + 1) % 8) ∧
      (PopCallBackQueue m).callbackQueue.requestIn = m.callbackQueue.requestIn ∧
      (PopCallBackQueue m).callbackQueue.requestQueue = m.callbackQueue.requestQueue) ∧
    (m.callbackQueue.requestCnt = 0 →
      (PopCallBackQueue m).callbackQueue.requestCnt = 0 ∧
      (PopCallBackQueue m).callbackQueue.requestIn = m.callbackQueue.requestIn ∧
      (PopCallBackQueue m).callbackQueue.requestOut = m.callbackQueue.requestIn ∧
      (PopCallBackQueue m).callbackQueue.requestQueue = m.callbackQueue.requestQueue) ∧
    (PopCallBackQueue m).commandQueue = m.commandQueue ∧
    (m.commandQueue.requestCnt ≠ 0 →
      (PopCommandQueue m).commandQueue.requestCnt + 1 = m.commandQueue.requestCnt ∧
      (m.commandQueue.requestOut < 8 →
        (PopCommandQueue m).commandQueue.requestOut = (m.commandQueue.requestOut + 1) % 8) ∧
      (PopCommandQueue m).commandQueue.requestIn = m.commandQueue.requestIn ∧
      (PopCommandQueue m).commandQueue.requestQueue = m.commandQueue.requestQueue) ∧
    (m.commandQueue.requestCnt = 0 →
      (PopCommandQueue m).commandQueue.requestCnt = 0 ∧
      (PopCommandQueue m).commandQueue.requestIn = m.commandQueue.requestIn ∧
      (PopCommandQueue m).commandQueue.requestOut = m.commandQueue.requestIn ∧
      (PopCommandQueue m).commandQueue.requestQueue = m.commandQueue.requestQueue) ∧
    (PopCommandQueue m).callbackQueue = m.callbackQueue := by
  have hcb := (PopCallBackQueue_fields m).2.2.2.2.2
  have hcm := (PopCommandQueue_fields m).2.2.2.2.2
  refine ⟨?_, ?_, (PopCallBackQueue_fields m).2.2.1, ?_, ?_, (PopCommandQueue_fields m).2.2.1⟩
  · intro h
    rw [hcb]
    simp only [h, ne_eq, not_false_eq_true, if_true]
    refine ⟨by omega, ?_, trivial, trivial⟩
    intro ho
    split <;> omega
  · intro h
    rw [hcb]
    simp [h]
  · intro h
    rw [hcm]
    simp only [h, ne_eq, not_false_eq_true, if_true]
    refine ⟨by omega, ?_, trivial, trivial⟩
    intro ho
    split <;> omega
  · intro h
    rw [hcm]
    simp [h]

/-- C6 at concrete inputs: a pop at slot 7 of a ring with seven entries wraps
`requestOut` to 0, and a pop on a ring with `requestCnt = 0` whose indices
differ sets `requestOut` to `requestIn`. -/
theorem pop_postcondition_witness :
    ((PopCallBackQueue
        { scrambledMachine with
          callbackQueue := { zeroQueue cfgSmall 8 with
            requestOut := 7, requestIn := 6, requestCnt := 7 } }).callbackQueue.requestCnt + 1 = 7 ∧
      (PopCallBackQueue
        { scrambledMachine with
          callbackQueue := { zeroQueue cfgSmall 8 with
            requestOut := 7, requestIn := 6, requestCnt := 7 } }).callbackQueue.requestOut
        = (7 + 1) % 8) ∧
    ((PopCommandQueue
        { scrambledMachine with
          commandQueue := { zeroQueue cfgSmall 8 with
            requestOut := 5, requestIn := 2, requestCnt := 0 } }).commandQueue.requestCnt = 0 ∧
      (PopCommandQueue
        { scrambledMachine with
          commandQueue := { zeroQueue cfgSmall 8 with
            requestOut := 5, requestIn := 2, requestCnt := 0 } }).commandQueue.requestOut = 2) :=
  ⟨⟨((pop_postcondition
        { scrambledMachine with
          callbackQueue := { zeroQueue cfgSmall 8 with
            requestOut := 7, requestIn := 6, requestCnt := 7 } }).1 (by decide)).1,
    ((pop_postcondition
        { scrambledMachine with
          callbackQueue := { zeroQueue cfgSmall 8 with
            requestOut := 7, requestIn := 6, requestCnt := 7 } }).1 (by decide)).2.1 (by decide)⟩,
   ⟨((pop_postcondition
        { scrambledMachine with
          commandQueue := { zeroQueue cfgSmall 8 with
            requestOut := 5, requestIn := 2, requestCnt := 0 } }).2.2.2.2.1 rfl).1,
    ((pop_postcondition
        { scrambledMachine with
          commandQueue := { zeroQueue cfgSmall 8 with
            requestOut := 5, requestIn := 2, requestCnt := 0 } }).2.2.2.2.1 rfl).2.2.1⟩⟩

/-! ## C7: the ring invariant -/

/-- `Request` keeps the ring invariant of both queues and never indexes
outside the array when the invariant holds. -/
theorem Request_inv (cfg : Config) (f : Frame) (m : Machine)
    (h1 : QInv m.callbackQueue) (h2 : QInv m.commandQueue) :
    Request cfg f.cmd f.pData f.len m ≠ .outOfBounds ∧
    ∀ r, Request cfg f.cmd f.pData f.len m = .ok r →
      QInv r.2.callbackQueue ∧ QInv r.2.commandQueue := by
  by_cases hc : m.callbackQueue.requestCnt < 8
  · have hlt : m.callbackQueue.requestIn < m.callbackQueue.requestQueue.length := by
      have := h1.2.1
      have := h1.2.2.2.2
      omega
    by_cases hl : f.len ≤ cfg.BUF_SIZE_TX % 256 ∨ cfg.NDEBUG = true
    · have hR := Request_accept cfg f.cmd f.pData f.len m _ hc (List.getElem?_eq_getElem hlt) hl
      rw [hR]
      refine ⟨by simp, ?_⟩
      intro r hr
      simp only [Outcome.ok.injEq] at hr
      subst hr
      exact ⟨(entries_enqueue m.callbackQueue _ h1 hc).1, h2⟩
    · have hN : cfg.NDEBUG = false := by
        cases hb : cfg.NDEBUG
        · rfl
        · exact absurd (Or.inr hb) hl
      have hR := Request_assert cfg f.cmd f.pData f.len m hc hlt (by omega) hN
      rw [hR]
      exact ⟨by simp, fun r hr => by cases hr⟩
  · have hR := Request_of_full cfg f.cmd f.pData f.len m (by show 8 ≤ _; omega)
    rw [hR]
    refine ⟨by simp, ?_⟩
    intro r hr
    simp only [Outcome.ok.injEq] at hr
    subst hr
    exact ⟨h1, h2⟩

/-- `RequestUnsolicited` keeps the ring invariant of both queues and never
indexes outside the array when the invariant holds. -/
theorem RequestUnsolicited_inv (cfg : Config) (f : Frame) (m : Machine)
    (h1 : QInv m.callbackQueue) (h2 : QInv m.commandQueue) :
    RequestUnsolicited cfg f.cmd f.pData f.len m ≠ .outOfBounds ∧
    ∀ r, RequestUnsolicited cfg f.cmd f.pData f.len m = .ok r →
      QInv r.2.callbackQueue ∧ QInv r.2.commandQueue := by
  by_cases hc : m.commandQueue.requestCnt < 8
  · have hlt : m.commandQueue.requestIn < m.commandQueue.requestQueue.length := by
      have := h2.2.1
      have := h2.2.2.2.2
      omega
    by_cases hl : f.len ≤ cfg.BUF_SIZE_TX % 256 ∨ cfg.NDEBUG = true
    · have hR := RequestUnsolicited_accept cfg f.cmd f.pData f.len m _ hc
        (List.getElem?_eq_getElem hlt) hl
      rw [hR]
      refine ⟨by simp, ?_⟩
      intro r hr
      simp only [Outcome.ok.injEq] at hr
      subst hr
      exact ⟨h1, (entries_enqueue m.commandQueue _ h2 hc).1⟩
    · have hN : cfg.NDEBUG = false := by
        cases hb : cfg.NDEBUG
        · rfl
        · exact absurd (Or.inr hb) hl
      have hR := RequestUnsolicited_assert cfg f.cmd f.pData f.len m hc hlt (by omega) hN
      rw [hR]
      exact ⟨by simp, fun r hr => by cases hr⟩
  · have hR := RequestUnsolicited_of_full cfg f.cmd f.pData f.len m (by show 8 ≤ _; omega)
    rw [hR]
    refine ⟨by simp, ?_⟩
    intro r hr
    simp only [Outcome.ok.injEq] at hr
    subst hr
    exact ⟨h1, h2⟩

/-- A pop keeps the ring invariant. -/
theorem pop_inv (q : REQUEST_QUEUE) (h : QInv q) :
    QInv (if q.requestCnt ≠ 0 then
        { q with
          requestCnt := q.requestCnt - 1
          requestOut := if (q.requestOut + 1) % 256 ≥ 8 then 0 else (q.requestOut + 1) % 256 }
      else { q with requestOut := q.requestIn }) := by
  by_cases hc : q.requestCnt ≠ 0
  · simp only [hc, ne_eq, not_false_eq_true, if_true]
    exact (entries_pop q h hc).1
  · simp only [hc, if_false]
    obtain ⟨a, b, c, d, e⟩ := h
    exact ⟨a, b, b, by simp only; omega, e⟩

/-- Every queue operation keeps the ring invariant of both queues and never
indexes outside an array when the invariant holds. -/
theorem applyOp_inv (cfg : Config) (op : QueueOp) (m : Machine)
    (h1 : QInv m.callbackQueue) (h2 : QInv m.commandQueue) :
    applyOp cfg op m ≠ .outOfBounds ∧
    ∀ m1, applyOp cfg op m = .ok m1 → QInv m1.callbackQueue ∧ QInv m1.commandQueue := by
  cases op with
  | request f =>
    have := Request_inv cfg f m h1 h2
    simp only [applyOp]
    cases hR : Request cfg f.cmd f.pData f.len m with
    | ok r =>
      refine ⟨by simp [Outcome.bind], ?_⟩
      intro m1 hm
      simp only [Outcome.bind, Outcome.ok.injEq] at hm
      subst hm
      exact this.2 r hR
    | assertFailed => exact ⟨by simp [Outcome.bind], fun m1 hm => by simp [Outcome.bind] at hm⟩
    | outOfBounds => exact absurd hR this.1
  | requestUnsolicited f =>
    have := RequestUnsolicited_inv cfg f m h1 h2
    simp only [applyOp]
    cases hR : RequestUnsolicited cfg f.cmd f.pData f.len m with
    | ok r =>
      refine ⟨by simp [Outcome.bind], ?_⟩
      intro m1 hm
      simp only [Outcome.bind, Outcome.ok.injEq] at hm
      subst hm
      exact this.2 r hR
    | assertFailed => exact ⟨by simp [Outcome.bind], fun m1 hm => by simp [Outcome.bind] at hm⟩
    | outOfBounds => exact absurd hR this.1
  | popCallBack =>
    refine ⟨by simp [applyOp], ?_⟩
    intro m1 hm
    simp only [applyOp, Outcome.ok.injEq] at hm
    subst hm
    rw [(PopCallBackQueue_fields m).2.2.2.2.2, (PopCallBackQueue_fields m).2.2.1]
    exact ⟨pop_inv _ h1, h2⟩
  | popCommand =>
    refine ⟨by simp [applyOp], ?_⟩
    intro m1 hm
    simp only [applyOp, Outcome.ok.injEq] at hm
    subst hm
    rw [(PopCommandQueue_fields m).2.2.2.2.2, (PopCommandQueue_fields m).2.2.1]
    exact ⟨h1, pop_inv _ h2⟩
  | purgeCallback =>
    refine ⟨by simp [applyOp], ?_⟩
    intro m1 hm
    simp only [applyOp, Outcome.ok.injEq] at hm
    subst hm
    exact ⟨⟨by simp [PurgeCallbackQueue], by simp [PurgeCallbackQueue],
      by simp [PurgeCallbackQueue], by simp [PurgeCallbackQueue], h1.2.2.2.2⟩, h2⟩
  | purgeCommand =>
    refine ⟨by simp [applyOp], ?_⟩
    intro m1 hm
    simp only [applyOp, Outcome.ok.injEq] at hm
    subst hm
    exact ⟨h1, ⟨by simp [PurgeCommandQueue], by simp [PurgeCommandQueue],
      by simp [PurgeCommandQueue], by simp [PurgeCommandQueue], h2.2.2.2.2⟩⟩

/-- Any run of queue operations keeps the ring invariant of both queues. -/
theorem applyOps_inv (cfg : Config) (ops : List QueueOp) :
    ∀ m : Machine, QInv m.callbackQueue → QInv m.commandQueue →
      applyOps cfg ops m ≠ .outOfBounds ∧
      ∀ m1, applyOps cfg ops m = .ok m1 → QInv m1.callbackQueue ∧ QInv m1.commandQueue := by
  induction ops with
  | nil =>
    intro m h1 h2
    refine ⟨by simp [applyOps], ?_⟩
    intro m1 hm
    simp only [applyOps, Outcome.ok.injEq] at hm
    subst hm
    exact ⟨h1, h2⟩
  | cons op ops ih =>
    intro m h1 h2
    have hop := applyOp_inv cfg op m h1 h2
    simp only [applyOps]
    cases hR : applyOp cfg op m with
    | ok m2 =>
      have := hop.2 m2 hR
      exact ih m2 this.1 this.2
    | assertFailed => exact ⟨by simp [Outcome.bind], fun m1 hm => by simp [Outcome.bind] at hm⟩
    | outOfBounds => exact absurd hR hop.1

/-- C7. In every machine reached from the zero-initialised queues by any
sequence of `Request`, `RequestUnsolicited`, pop and purge operations, both
queues satisfy `requestCnt ≤ 8`, `requestIn < 8`, `requestOut < 8` and
`requestIn = (requestOut + requestCnt) mod 8` (and no operation on the way
indexed outside the array of slots); consequently a pop on an empty queue of
such a machine leaves that queue as it is. -/
theorem ring_invariant_reachable (cfg : Config) (ops : List QueueOp) :
    applyOps cfg ops (initMachine cfg) ≠ .outOfBounds ∧
    ∀ m : Machine, applyOps cfg ops (initMachine cfg) = .ok m →
      (m.callbackQueue.requestCnt ≤ 8 ∧ m.callbackQueue.requestIn < 8 ∧
        m.callbackQueue.requestOut < 8 ∧
        m.callbackQueue.requestIn
          = (m.callbackQueue.requestOut + m.callbackQueue.requestCnt) % 8) ∧
      (m.commandQueue.requestCnt ≤ 8 ∧ m.commandQueue.requestIn < 8 ∧
        m.commandQueue.requestOut < 8 ∧
        m.commandQueue.requestIn
          = (m.commandQueue.requestOut + m.commandQueue.requestCnt) % 8) ∧
      (m.callbackQueue.requestCnt = 0 →
        (PopCallBackQueue m).callbackQueue = m.callbackQueue) ∧
      (m.commandQueue.requestCnt = 0 →
        (PopCommandQueue m).commandQueue = m.commandQueue) := by
  have hz : ∀ n, n = 8 → QInv (zeroQueue cfg n) := by
    intro n hn
    subst hn
    exact ⟨by simp [zeroQueue], by simp [zeroQueue], by simp [zeroQueue], by simp [zeroQueue],
      by simp [zeroQueue]⟩
  have h := applyOps_inv cfg ops (initMachine cfg) (hz _ rfl) (hz _ rfl)
  refine ⟨h.1, ?_⟩
  intro m hm
  obtain ⟨⟨a1, a2, a3, a4, _⟩, ⟨b1, b2, b3, b4, _⟩⟩ := h.2 m hm
  refine ⟨⟨a1, a2, a3, a4⟩, ⟨b1, b2, b3, b4⟩, ?_, ?_⟩
  · intro h0
    rw [(PopCallBackQueue_fields m).2.2.2.2.2]
    simp only [h0, ne_eq, not_true_eq_false, if_false]
    have : m.callbackQueue.requestIn = m.callbackQueue.requestOut := by omega
    rw [this]
    cases hq : m.callbackQueue
    simp_all
    omega
  · intro h0
    rw [(PopCommandQueue_fields m).2.2.2.2.2]
    simp only [h0, ne_eq, not_true_eq_false, if_false]
    have : m.commandQueue.requestIn = m.commandQueue.requestOut := by omega
    rw [this]
    cases hq : m.commandQueue
    simp_all
    omega

/-- C7 at a concrete run: eleven enqueues (one rejected), pops, a purge and a
pop of the then empty command queue. -/
theorem ring_invariant_reachable_witness :
    applyOps cfgSmall sampleOps (initMachine cfgSmall)
      = .ok ((applyOps cfgSmall sampleOps (initMachine cfgSmall)).getD (initMachine cfgSmall)) ∧
    ((applyOps cfgSmall sampleOps (initMachine cfgSmall)).getD
        (initMachine cfgSmall)).commandQueue.requestCnt = 0 ∧
    (PopCommandQueue ((applyOps cfgSmall sampleOps (initMachine cfgSmall)).getD
        (initMachine cfgSmall))).commandQueue
      = ((applyOps cfgSmall sampleOps (initMachine cfgSmall)).getD
          (initMachine cfgSmall)).commandQueue :=
  have h : applyOps cfgSmall sampleOps (initMachine cfgSmall)
      = .ok ((applyOps cfgSmall sampleOps (initMachine cfgSmall)).getD (initMachine cfgSmall)) := by
    decide
  have h0 : ((applyOps cfgSmall sampleOps (initMachine cfgSmall)).getD
        (initMachine cfgSmall)).commandQueue.requestCnt = 0 := by decide
  ⟨h, h0, ((ring_invariant_reachable cfgSmall sampleOps).2 _ h).2.2.2 h0⟩

/-! ## C8: the callback queue goes first -/

/-- The Idle run of the state handler with a pending callback entry. -/
theorem idle_step_callback (cfg : Config) (env : Env) (m : Machine) (e : CALLBACK_ELEMENT)
    (hs : m.state = .stateIdle) (hc : m.callbackQueue.requestCnt ≠ 0)
    (he : m.callbackQueue.requestQueue[m.callbackQueue.requestOut]? = some e) :
    SerialAPIStateHandler cfg env m = .ok
      { m with
        state := .stateCallbackTxSerial
        txLog := m.txLog ++ [requestFrameOf e]
        notifyCnt := m.notifyCnt + 1 } := by
  unfold SerialAPIStateHandler
  simp only [hs, hc, ne_eq, not_false_eq_true, if_true, he]
  simp [set_state_and_notify, comm_interface_transmit_frame, hs, requestFrameOf]

/-- The Idle run of the state handler with no callback entry and a pending
command entry. -/
theorem idle_step_command (cfg : Config) (env : Env) (m : Machine) (e : CALLBACK_ELEMENT)
    (hs : m.state = .stateIdle) (hc : m.callbackQueue.requestCnt = 0)
    (hd : m.commandQueue.requestCnt ≠ 0)
    (he : m.commandQueue.requestQueue[m.commandQueue.requestOut]? = some e) :
    SerialAPIStateHandler cfg env m = .ok
      { m with
        state := .stateCommandTxSerial
        txLog := m.txLog ++ [requestFrameOf e]
        notifyCnt := m.notifyCnt + 1 } := by
  unfold SerialAPIStateHandler
  simp only [hs, hc, hd, ne_eq, not_true_eq_false, not_false_eq_true, if_true, if_false, he]
  simp [set_state_and_notify, comm_interface_transmit_frame, hs, requestFrameOf]

/-- C8. In `stateIdle` with `callbackQueue.requestCnt > 0`, whatever the
command queue holds, one run of `SerialAPIStateHandler` transmits exactly one
frame, a `REQUEST` with the command, length and payload of the slot at the
front of the callback queue, moves to `stateCallbackTxSerial`, does not call
the parser and leaves both queues (and `retry`) as they are. In particular,
after `Request x` and `RequestUnsolicited y` on empty queues the frame sent is
`x`. -/
theorem idle_transmits_callback_first (cfg : Config) (env : Env) :
    (∀ (m : Machine) (e : CALLBACK_ELEMENT),
      m.state = .stateIdle → m.callbackQueue.requestCnt ≠ 0 →
      m.callbackQueue.requestQueue[m.callbackQueue.requestOut]? = some e →
      ∃ m1, SerialAPIStateHandler cfg env m = .ok m1 ∧
        m1.txLog = m.txLog ++
          [{ cmd := e.wCmd, type := .REQUEST, pData := some (e.wBuf.take e.wLen), len := e.wLen }] ∧
        m1.state = .stateCallbackTxSerial ∧
        m1.parseLog = m.parseLog ∧
        m1.callbackQueue = m.callbackQueue ∧
        m1.commandQueue = m.commandQueue ∧
        m1.retry = m.retry) ∧
    (∀ (m : Machine) (x y : Frame),
      m.state = .stateIdle →
      (m.callbackQueue.requestCnt = 0 ∧ m.callbackQueue.requestIn = m.callbackQueue.requestOut ∧
        m.callbackQueue.requestOut < 8 ∧ m.callbackQueue.requestQueue.length = 8) →
      (m.commandQueue.requestCnt = 0 ∧ m.commandQueue.requestIn = m.commandQueue.requestOut ∧
        m.commandQueue.requestOut < 8 ∧ m.commandQueue.requestQueue.length = 8) →
      (x.len ≤ cfg.BUF_SIZE_TX % 256 ∧ x.len ≤ x.pData.length) →
      (y.len ≤ cfg.BUF_SIZE_TX % 256 ∧ y.len ≤ y.pData.length) →
      ∃ m1 m2 m3, Request cfg x.cmd x.pData x.len m = .ok (true, m1) ∧
        RequestUnsolicited cfg y.cmd y.pData y.len m1 = .ok (true, m2) ∧
        m2.callbackQueue.requestCnt = 1 ∧ m2.commandQueue.requestCnt = 1 ∧
        SerialAPIStateHandler cfg env m2 = .ok m3 ∧
        m3.txLog = m.txLog ++
          [{ cmd := x.cmd, type := .REQUEST, pData := some (x.pData.take x.len), len := x.len }] ∧
        m3.state = .stateCallbackTxSerial) := by
  constructor
  · intro m e hs hc he
    exact ⟨_, idle_step_callback cfg env m e hs hc he, rfl, rfl, rfl, rfl, rfl, rfl⟩
  · intro m x y hs ⟨a1, a2, a3, a4⟩ ⟨b1, b2, b3, b4⟩ ⟨hx1, hx2⟩ ⟨hy1, hy2⟩
    have hlt1 : m.callbackQueue.requestIn < m.callbackQueue.requestQueue.length := by omega
    have hlt2 : m.commandQueue.requestIn < m.commandQueue.requestQueue.length := by omega
    obtain ⟨m1, hR1, hq1, ho1, hst1, htx1⟩ : ∃ m1,
        Request cfg x.cmd x.pData x.len m = .ok (true, m1) ∧
        m1.callbackQueue =
          { requestOut := m.callbackQueue.requestOut
            requestIn := if (m.callbackQueue.requestIn + 1) % 256 ≥ 8 then 0
              else (m.callbackQueue.requestIn + 1) % 256
            requestCnt := m.callbackQueue.requestCnt + 1
            requestQueue := m.callbackQueue.requestQueue.set m.callbackQueue.requestIn
              (CALLBACK_ELEMENT.mk x.cmd x.len
                (memcpy (m.callbackQueue.requestQueue[m.callbackQueue.requestIn]).wBuf
                  x.pData x.len)) } ∧
        m1.commandQueue = m.commandQueue ∧ m1.state = m.state ∧ m1.txLog = m.txLog := by
      have hR := Request_accept cfg x.cmd x.pData x.len m _ (by show _ < 8; omega)
        (List.getElem?_eq_getElem hlt1) (Or.inl hx1)
      rw [Nat.min_eq_left hx1] at hR
      exact ⟨_, hR, rfl, rfl, rfl, rfl⟩
    have hlt2' : m1.commandQueue.requestIn < m1.commandQueue.requestQueue.length := by
      rw [ho1]
      exact hlt2
    obtain ⟨m2, hR2, hq2, ho2, hst2, htx2⟩ : ∃ m2,
        RequestUnsolicited cfg y.cmd y.pData y.len m1 = .ok (true, m2) ∧
        m2.commandQueue.requestCnt = m1.commandQueue.requestCnt + 1 ∧
        m2.callbackQueue = m1.callbackQueue ∧ m2.state = m1.state ∧ m2.txLog = m1.txLog := by
      have hR := RequestUnsolicited_accept cfg y.cmd y.pData y.len m1 _
        (by show _ < 8; rw [ho1]; omega)
        (List.getElem?_eq_getElem hlt2') (Or.inl hy1)
      exact ⟨_, hR, rfl, rfl, rfl, rfl⟩
    have hfront : m2.callbackQueue.requestQueue[m2.callbackQueue.requestOut]?
        = some (CALLBACK_ELEMENT.mk x.cmd x.len
          (memcpy (m.callbackQueue.requestQueue[m.callbackQueue.requestIn]).wBuf
            x.pData x.len)) := by
      rw [ho2, hq1]
      simp only
      rw [← a2]
      exact List.getElem?_set_self hlt1
    have hcnt2 : m2.callbackQueue.requestCnt = 1 := by
      rw [ho2, hq1]
      simp only
      omega
    have hstep := idle_step_callback cfg env m2 _ (by rw [hst2, hst1, hs])
      (by rw [hcnt2]; decide) hfront
    refine ⟨m1, m2, _, hR1, hR2, hcnt2, by rw [hq2, ho1]; omega, hstep, ?_, rfl⟩
    simp only [requestFrameOf, memcpy_take _ _ _ hx2, htx2, htx1]

/-- C8 at a concrete input: callback queue `[x]`, command queue `[y]`; the
frame sent is `x`. -/
theorem idle_transmits_callback_first_witness :
    ∃ m1 m2 m3, Request cfgSmall 0x13 [1, 2] 2 idleMachine = .ok (true, m1) ∧
      RequestUnsolicited cfgSmall 0x04 [7, 8, 9] 3 m1 = .ok (true, m2) ∧
      m2.callbackQueue.requestCnt = 1 ∧ m2.commandQueue.requestCnt = 1 ∧
      SerialAPIStateHandler cfgSmall (envOf .PARSE_FRAME_RECEIVED) m2 = .ok m3 ∧
      m3.txLog = idleMachine.txLog ++
        [{ cmd := 0x13, type := .REQUEST, pData := some ([1, 2].take 2), len := 2 }] ∧
      m3.state = .stateCallbackTxSerial :=
  (idle_transmits_callback_first cfgSmall (envOf .PARSE_FRAME_RECEIVED)).2 idleMachine
    { cmd := 0x13, pData := [1, 2], len := 2 } { cmd := 0x04, pData := [7, 8, 9], len := 3 }
    (by decide) (by decide) (by decide) (by decide) (by decide)

/-! ## Runs of the state handler in the transmit-wait states -/

theorem runHandler_append (cfg : Config) (a b : List Env) :
    ∀ m : Machine, runHandler cfg (a ++ b) m = (runHandler cfg a m).bind (runHandler cfg b) := by
  induction a with
  | nil =>
    intro m
    simp [runHandler, Outcome.bind]
  | cons env a ih =>
    intro m
    simp only [List.cons_append, runHandler]
    cases SerialAPIStateHandler cfg env m with
    | ok m1 => simp only [Outcome.bind]; exact ih m1
    | assertFailed => rfl
    | outOfBounds => rfl

theorem runHandler_single (cfg : Config) (env : Env) (m : Machine) :
    runHandler cfg [env] m = SerialAPIStateHandler cfg env m := by
  simp only [runHandler]
  cases SerialAPIStateHandler cfg env m <;> rfl

/-- A timeout with retries left, in any of the three transmit-wait states:
one more retry counted, the frame sent again, nothing else changed. -/
theorem timeout_step_retry (cfg : Config) (env : Env) (m : Machine)
    (hR : cfg.MAX_SERIAL_RETRY < 256)
    (hst : m.state = .stateTxSerial ∨ m.state = .stateCallbackTxSerial ∨
      m.state = .stateCommandTxSerial)
    (hp : env.parse = .PARSE_TX_TIMEOUT) (hr : m.retry < cfg.MAX_SERIAL_RETRY) :
    SerialAPIStateHandler cfg env m = .ok
      { m with
        retry := m.retry + 1
        txLog := m.txLog ++ [retransmit]
        parseLog := m.parseLog ++ [false] } := by
  have hmod : (m.retry + 1) % 256 = m.retry + 1 := Nat.mod_eq_of_lt (by omega)
  rcases hst with h | h | h <;>
    · unfold SerialAPIStateHandler
      simp [h, hp, hr, comm_interface_parse_data, comm_interface_transmit_frame, retransmit, hmod]

/-- Timeouts while retries are left: each one counts a retry and sends the
frame again; the state and the queues stay. -/
theorem timeouts_retransmit (cfg : Config) (hR : cfg.MAX_SERIAL_RETRY < 256)
    (envs : List Env) :
    ∀ m : Machine,
      (m.state = .stateTxSerial ∨ m.state = .stateCallbackTxSerial ∨
        m.state = .stateCommandTxSerial) →
      (∀ x ∈ envs, x.parse = .PARSE_TX_TIMEOUT) →
      m.retry + envs.length ≤ cfg.MAX_SERIAL_RETRY →
      runHandler cfg envs m = .ok
        { m with
          retry := m.retry + envs.length
          txLog := m.txLog ++ List.replicate envs.length retransmit
          parseLog := m.parseLog ++ List.replicate envs.length false } := by
  induction envs with
  | nil =>
    intro m _ _ _
    simp [runHandler]
  | cons env envs ih =>
    intro m hst hall hle
    simp only [List.length_cons] at hle
    have hstep := timeout_step_retry cfg env m hR hst (hall env (by simp)) (by omega)
    simp only [runHandler, hstep, Outcome.bind]
    rw [ih _ (by exact hst) (fun x hx => hall x (by simp [hx])) (by simp only; omega)]
    simp only [List.length_cons, List.replicate_succ, List.append_assoc, List.singleton_append,
      Nat.add_assoc, Nat.add_comm 1]

/-- In `stateTxSerial` an acknowledge, or a timeout with no retry left, ends
the wait: back to `stateIdle` with `retry = 0`, nothing sent, queues untouched. -/
theorem finish_response (cfg : Config) (env : Env) (m : Machine)
    (hst : m.state = .stateTxSerial)
    (hp : env.parse = .PARSE_FRAME_SENT ∨
      (env.parse = .PARSE_TX_TIMEOUT ∧ cfg.MAX_SERIAL_RETRY ≤ m.retry)) :
    ∃ m1, SerialAPIStateHandler cfg env m = .ok m1 ∧ m1.state = .stateIdle ∧ m1.retry = 0 ∧
      m1.txLog = m.txLog ∧ m1.callbackQueue = m.callbackQueue ∧
      m1.commandQueue = m.commandQueue := by
  unfold SerialAPIStateHandler
  rcases hp with hp | ⟨hp, hr⟩
  · simp only [hst, hp, if_true]
    exact ⟨_, rfl, set_state_and_notify_state _ _,
      by simp [set_state_and_notify_fields, comm_interface_parse_data],
      by simp [set_state_and_notify_fields, comm_interface_parse_data],
      by simp [set_state_and_notify_fields, comm_interface_parse_data],
      by simp [set_state_and_notify_fields, comm_interface_parse_data]⟩
  · have hnr : ¬ (comm_interface_parse_data false m).retry < cfg.MAX_SERIAL_RETRY := by
      simp only [comm_interface_parse_data]
      omega
    simp only [hst, hp, hnr, if_true, if_false]
    simp only [reduceCtorEq, if_false]
    exact ⟨_, rfl, set_state_and_notify_state _ _,
      by simp [set_state_and_notify_fields, comm_interface_parse_data],
      by simp [set_state_and_notify_fields, comm_interface_parse_data],
      by simp [set_state_and_notify_fields, comm_interface_parse_data],
      by simp [set_state_and_notify_fields, comm_interface_parse_data]⟩

/-- In `stateCallbackTxSerial` an acknowledge, or a timeout with no retry
left, pops the callback queue: back to `stateIdle` with `retry = 0`, nothing
sent, the command queue untouched. -/
theorem finish_callback (cfg : Config) (env : Env) (m : Machine)
    (hst : m.state = .stateCallbackTxSerial)
    (hp : env.parse = .PARSE_FRAME_SENT ∨
      (env.parse = .PARSE_TX_TIMEOUT ∧ cfg.MAX_SERIAL_RETRY ≤ m.retry)) :
    ∃ m1, SerialAPIStateHandler cfg env m = .ok m1 ∧ m1.state = .stateIdle ∧ m1.retry = 0 ∧
      m1.txLog = m.txLog ∧ m1.callbackQueue = (PopCallBackQueue m).callbackQueue ∧
      m1.commandQueue = m.commandQueue := by
  unfold SerialAPIStateHandler
  rcases hp with hp | ⟨hp, hr⟩
  · simp only [hst, hp, if_true]
    refine ⟨_, rfl, (PopCallBackQueue_fields _).1, (PopCallBackQueue_fields _).2.1, ?_, ?_, ?_⟩
    · rw [(PopCallBackQueue_fields _).2.2.2.1]; rfl
    · rw [(PopCallBackQueue_fields _).2.2.2.2.2, (PopCallBackQueue_fields m).2.2.2.2.2]; rfl
    · rw [(PopCallBackQueue_fields _).2.2.1]; rfl
  · have hnr : ¬ (comm_interface_parse_data false m).retry < cfg.MAX_SERIAL_RETRY := by
      simp only [comm_interface_parse_data]
      omega
    simp only [hst, hp, hnr, if_true, if_false]
    simp only [reduceCtorEq, if_false]
    refine ⟨_, rfl, (PopCallBackQueue_fields _).1, (PopCallBackQueue_fields _).2.1, ?_, ?_, ?_⟩
    · rw [(PopCallBackQueue_fields _).2.2.2.1]; rfl
    · rw [(PopCallBackQueue_fields _).2.2.2.2.2, (PopCallBackQueue_fields m).2.2.2.2.2]; rfl
    · rw [(PopCallBackQueue_fields _).2.2.1]; rfl

/-- In `stateCommandTxSerial` an acknowledge, or a timeout with no retry left,
pops the command queue: back to `stateIdle` with `retry = 0`, nothing sent,
the callback queue untouched. -/
theorem finish_command (cfg : Config) (env : Env) (m : Machine)
    (hst : m.state = .stateCommandTxSerial)
    (hp : env.parse = .PARSE_FRAME_SENT ∨
      (env.parse = .PARSE_TX_TIMEOUT ∧ cfg.MAX_SERIAL_RETRY ≤ m.retry)) :
    ∃ m1, SerialAPIStateHandler cfg env m = .ok m1 ∧ m1.state = .stateIdle ∧ m1.retry = 0 ∧
      m1.txLog = m.txLog ∧ m1.commandQueue = (PopCommandQueue m).commandQueue ∧
      m1.callbackQueue = m.callbackQueue := by
  unfold SerialAPIStateHandler
  rcases hp with hp | ⟨hp, hr⟩
  · simp only [hst, hp, if_true]
    refine ⟨_, rfl, (PopCommandQueue_fields _).1, (PopCommandQueue_fields _).2.1, ?_, ?_, ?_⟩
    · rw [(PopCommandQueue_fields _).2.2.2.1]; rfl
    · rw [(PopCommandQueue_fields _).2.2.2.2.2, (PopCommandQueue_fields m).2.2.2.2.2]; rfl
    · rw [(PopCommandQueue_fields _).2.2.1]; rfl
  · have hnr : ¬ (comm_interface_parse_data false m).retry < cfg.MAX_SERIAL_RETRY := by
      simp only [comm_interface_parse_data]
      omega
    simp only [hst, hp, hnr, if_true, if_false]
    simp only [reduceCtorEq, if_false]
    refine ⟨_, rfl, (PopCommandQueue_fields _).1, (PopCommandQueue_fields _).2.1, ?_, ?_, ?_⟩
    · rw [(PopCommandQueue_fields _).2.2.2.1]; rfl
    · rw [(PopCommandQueue_fields _).2.2.2.2.2, (PopCommandQueue_fields m).2.2.2.2.2]; rfl
    · rw [(PopCommandQueue_fields _).2.2.1]; rfl

/-- The whole wait in `stateTxSerial`: `MAX_SERIAL_RETRY` timeouts, each answered by
a retransmission, then an acknowledge or one more timeout. -/
theorem wait_response (cfg : Config) (hR : cfg.MAX_SERIAL_RETRY < 256) (m : Machine)
    (envs : List Env) (envLast : Env)
    (hst : m.state = .stateTxSerial) (h0 : m.retry = 0)
    (hlen : envs.length = cfg.MAX_SERIAL_RETRY)
    (hall : ∀ x ∈ envs, x.parse = .PARSE_TX_TIMEOUT)
    (hlast : envLast.parse = .PARSE_FRAME_SENT ∨ envLast.parse = .PARSE_TX_TIMEOUT) :
    ∃ m1, runHandler cfg (envs ++ [envLast]) m = .ok m1 ∧ m1.state = .stateIdle ∧
      m1.retry = 0 ∧
      m1.txLog = m.txLog ++ List.replicate cfg.MAX_SERIAL_RETRY retransmit ∧
      m1.callbackQueue = m.callbackQueue ∧
      m1.commandQueue = m.commandQueue := by
  have hrun := timeouts_retransmit cfg hR envs m (by simp [hst]) hall (by omega)
  obtain ⟨m1, f1, f2, f3, f4, f5, f6⟩ := finish_response cfg envLast
    { m with
      retry := m.retry + envs.length
      txLog := m.txLog ++ List.replicate envs.length retransmit
      parseLog := m.parseLog ++ List.replicate envs.length false }
    hst (by
      rcases hlast with h | h
      · exact Or.inl h
      · exact Or.inr ⟨h, by simp only; omega⟩)
  refine ⟨m1, ?_, f2, f3, ?_, ?_, ?_⟩
  · rw [runHandler_append, hrun]
    simp only [Outcome.bind, runHandler_single]
    exact f1
  · rw [f4]
    simp only [hlen]
  · exact f5
  · exact f6

/-- The whole wait in `stateCallbackTxSerial`: `MAX_SERIAL_RETRY` timeouts, each answered by
a retransmission, then an acknowledge or one more timeout. -/
theorem wait_callback (cfg : Config) (hR : cfg.MAX_SERIAL_RETRY < 256) (m : Machine)
    (envs : List Env) (envLast : Env)
    (hst : m.state = .stateCallbackTxSerial) (h0 : m.retry = 0)
    (hlen : envs.length = cfg.MAX_SERIAL_RETRY)
    (hall : ∀ x ∈ envs, x.parse = .PARSE_TX_TIMEOUT)
    (hlast : envLast.parse = .PARSE_FRAME_SENT ∨ envLast.parse = .PARSE_TX_TIMEOUT) :
    ∃ m1, runHandler cfg (envs ++ [envLast]) m = .ok m1 ∧ m1.state = .stateIdle ∧
      m1.retry = 0 ∧
      m1.txLog = m.txLog ++ List.replicate cfg.MAX_SERIAL_RETRY retransmit ∧
      m1.callbackQueue = (PopCallBackQueue m).callbackQueue ∧
      m1.commandQueue = m.commandQueue := by
  have hrun := timeouts_retransmit cfg hR envs m (by simp [hst]) hall (by omega)
  obtain ⟨m1, f1, f2, f3, f4, f5, f6⟩ := finish_callback cfg envLast
    { m with
      retry := m.retry + envs.length
      txLog := m.txLog ++ List.replicate envs.length retransmit
      parseLog := m.parseLog ++ List.replicate envs.length false }
    hst (by
      rcases hlast with h | h
      · exact Or.inl h
      · exact Or.inr ⟨h, by simp only; omega⟩)
  refine ⟨m1, ?_, f2, f3, ?_, ?_, ?_⟩
  · rw [runHandler_append, hrun]
    simp only [Outcome.bind, runHandler_single]
    exact f1
  · rw [f4]
    simp only [hlen]
  · rw [f5, (PopCallBackQueue_fields _).2.2.2.2.2, (PopCallBackQueue_fields m).2.2.2.2.2]
  · exact f6

/-- The whole wait in `stateCommandTxSerial`: `MAX_SERIAL_RETRY` timeouts, each answered by
a retransmission, then an acknowledge or one more timeout. -/
theorem wait_command (cfg : Config) (hR : cfg.MAX_SERIAL_RETRY < 256) (m : Machine)
    (envs : List Env) (envLast : Env)
    (hst : m.state = .stateCommandTxSerial) (h0 : m.retry = 0)
    (hlen : envs.length = cfg.MAX_SERIAL_RETRY)
    (hall : ∀ x ∈ envs, x.parse = .PARSE_TX_TIMEOUT)
    (hlast : envLast.parse = .PARSE_FRAME_SENT ∨ envLast.parse = .PARSE_TX_TIMEOUT) :
    ∃ m1, runHandler cfg (envs ++ [envLast]) m = .ok m1 ∧ m1.state = .stateIdle ∧
      m1.retry = 0 ∧
      m1.txLog = m.txLog ++ List.replicate cfg.MAX_SERIAL_RETRY retransmit ∧
      m1.commandQueue = (PopCommandQueue m).commandQueue ∧
      m1.callbackQueue = m.callbackQueue := by
  have hrun := timeouts_retransmit cfg hR envs m (by simp [hst]) hall (by omega)
  obtain ⟨m1, f1, f2, f3, f4, f5, f6⟩ := finish_command cfg envLast
    { m with
      retry := m.retry + envs.length
      txLog := m.txLog ++ List.replicate envs.length retransmit
      parseLog := m.parseLog ++ List.replicate envs.length false }
    hst (by
      rcases hlast with h | h
      · exact Or.inl h
      · exact Or.inr ⟨h, by simp only; omega⟩)
  refine ⟨m1, ?_, f2, f3, ?_, ?_, ?_⟩
  · rw [runHandler_append, hrun]
    simp only [Outcome.bind, runHandler_single]
    exact f1
  · rw [f4]
    simp only [hlen]
  · rw [f5, (PopCommandQueue_fields _).2.2.2.2.2, (PopCommandQueue_fields m).2.2.2.2.2]
  · exact f6

/-- While at most `MAX_SERIAL_RETRY` timeouts have been seen the machine stays
in its transmit-wait state, with one retransmission per timeout. -/
theorem wait_prefix (cfg : Config) (hR : cfg.MAX_SERIAL_RETRY < 256) (m : Machine)
    (envs : List Env) (j : Nat)
    (hst : m.state = .stateTxSerial ∨ m.state = .stateCallbackTxSerial ∨
      m.state = .stateCommandTxSerial)
    (h0 : m.retry = 0)
    (hlen : envs.length = cfg.MAX_SERIAL_RETRY)
    (hall : ∀ x ∈ envs, x.parse = .PARSE_TX_TIMEOUT)
    (hj : j ≤ cfg.MAX_SERIAL_RETRY) :
    ∃ mj, runHandler cfg (envs.take j) m = .ok mj ∧ mj.state = m.state ∧ mj.retry = j ∧
      mj.txLog = m.txLog ++ List.replicate j retransmit ∧
      mj.callbackQueue = m.callbackQueue ∧ mj.commandQueue = m.commandQueue := by
  have hl : (envs.take j).length = j := by
    rw [List.length_take]
    omega
  have hrun := timeouts_retransmit cfg hR (envs.take j) m hst
    (fun x hx => hall x (List.mem_of_mem_take hx)) (by omega)
  rw [hl] at hrun
  exact ⟨_, hrun, rfl, by simp only; omega, rfl, rfl, rfl⟩

/-! ## C9: the retry bound -/

/-- C9. Let `MAX_SERIAL_RETRY` fit the 8-bit retry counter. From `stateIdle`
with `retry = 0` and a non-empty callback queue, an Idle run followed by runs
that all see `PARSE_TX_TIMEOUT` transmits the front entry once and then
retransmits it once per timeout for the first `MAX_SERIAL_RETRY` timeouts,
staying in `stateCallbackTxSerial`; the next timeout sends nothing, pops that
entry and returns to `stateIdle` with `retry = 0`: `MAX_SERIAL_RETRY + 1`
transmissions in all. The same holds for the command queue when the callback
queue is empty, and for a response sent with `Respond` at `retry = 0`, where
no queue is popped. -/
theorem retry_bound (cfg : Config) (hR : cfg.MAX_SERIAL_RETRY < 256) :
    (∀ (m : Machine) (e : CALLBACK_ELEMENT) (env0 : Env) (envs : List Env) (envLast : Env),
      m.state = .stateIdle → m.retry = 0 → m.callbackQueue.requestCnt ≠ 0 →
      m.callbackQueue.requestQueue[m.callbackQueue.requestOut]? = some e →
      envs.length = cfg.MAX_SERIAL_RETRY → (∀ x ∈ envs, x.parse = .PARSE_TX_TIMEOUT) →
      envLast.parse = .PARSE_TX_TIMEOUT →
      (∀ j, j ≤ cfg.MAX_SERIAL_RETRY →
        ∃ mj, runHandler cfg (env0 :: envs.take j) m = .ok mj ∧
          mj.state = .stateCallbackTxSerial ∧ mj.retry = j ∧
          mj.txLog = m.txLog ++ requestFrameOf e :: List.replicate j retransmit ∧
          mj.callbackQueue = m.callbackQueue ∧ mj.commandQueue = m.commandQueue) ∧
      ∃ m1, runHandler cfg (env0 :: (envs ++ [envLast])) m = .ok m1 ∧
        m1.state = .stateIdle ∧ m1.retry = 0 ∧
        m1.txLog = m.txLog ++ requestFrameOf e :: List.replicate cfg.MAX_SERIAL_RETRY retransmit ∧
        m1.callbackQueue.requestCnt + 1 = m.callbackQueue.requestCnt ∧
        m1.callbackQueue = (PopCallBackQueue m).callbackQueue ∧
        m1.commandQueue = m.commandQueue) ∧
    (∀ (m : Machine) (e : CALLBACK_ELEMENT) (env0 : Env) (envs : List Env) (envLast : Env),
      m.state = .stateIdle → m.retry = 0 → m.callbackQueue.requestCnt = 0 →
      m.commandQueue.requestCnt ≠ 0 →
      m.commandQueue.requestQueue[m.commandQueue.requestOut]? = some e →
      envs.length = cfg.MAX_SERIAL_RETRY → (∀ x ∈ envs, x.parse = .PARSE_TX_TIMEOUT) →
      envLast.parse = .PARSE_TX_TIMEOUT →
      (∀ j, j ≤ cfg.MAX_SERIAL_RETRY →
        ∃ mj, runHandler cfg (env0 :: envs.take j) m = .ok mj ∧
          mj.state = .stateCommandTxSerial ∧ mj.retry = j ∧
          mj.txLog = m.txLog ++ requestFrameOf e :: List.replicate j retransmit ∧
          mj.callbackQueue = m.callbackQueue ∧ mj.commandQueue = m.commandQueue) ∧
      ∃ m1, runHandler cfg (env0 :: (envs ++ [envLast])) m = .ok m1 ∧
        m1.state = .stateIdle ∧ m1.retry = 0 ∧
        m1.txLog = m.txLog ++ requestFrameOf e :: List.replicate cfg.MAX_SERIAL_RETRY retransmit ∧
        m1.commandQueue.requestCnt + 1 = m.commandQueue.requestCnt ∧
        m1.commandQueue = (PopCommandQueue m).commandQueue ∧
        m1.callbackQueue = m.callbackQueue) ∧
    (∀ (m : Machine) (cmd : Nat) (pData : List Nat) (len : Nat) (envs : List Env) (envLast : Env),
      m.retry = 0 →
      envs.length = cfg.MAX_SERIAL_RETRY → (∀ x ∈ envs, x.parse = .PARSE_TX_TIMEOUT) →
      envLast.parse = .PARSE_TX_TIMEOUT →
      (∀ j, j ≤ cfg.MAX_SERIAL_RETRY →
        ∃ mj, runHandler cfg (envs.take j) (Respond cmd pData len m) = .ok mj ∧
          mj.state = .stateTxSerial ∧ mj.retry = j ∧
          mj.txLog = m.txLog ++
            { cmd := cmd, type := .RESPONSE, pData := some (pData.take len), len := len } ::
              List.replicate j retransmit ∧
          mj.callbackQueue = m.callbackQueue ∧ mj.commandQueue = m.commandQueue) ∧
      ∃ m1, runHandler cfg (envs ++ [envLast]) (Respond cmd pData len m) = .ok m1 ∧
        m1.state = .stateIdle ∧ m1.retry = 0 ∧
        m1.txLog = m.txLog ++
          { cmd := cmd, type := .RESPONSE, pData := some (pData.take len), len := len } ::
            List.replicate cfg.MAX_SERIAL_RETRY retransmit ∧
        m1.callbackQueue = m.callbackQueue ∧ m1.commandQueue = m.commandQueue) := by
  refine ⟨?_, ?_, ?_⟩
  · intro m e env0 envs envLast hs h0 hc he hlen hall hlast
    have hstep := idle_step_callback cfg env0 m e hs hc he
    constructor
    · intro j hj
      obtain ⟨mj, g1, g2, g3, g4, g5, g6⟩ := wait_prefix cfg hR
        { m with
          state := .stateCallbackTxSerial
          txLog := m.txLog ++ [requestFrameOf e]
          notifyCnt := m.notifyCnt + 1 } envs j (Or.inr (Or.inl rfl)) h0 hlen hall hj
      refine ⟨mj, ?_, g2, g3, ?_, g5, g6⟩
      · simp only [runHandler, hstep, Outcome.bind]
        exact g1
      · rw [g4]
        simp
    · obtain ⟨m1, g1, g2, g3, g4, g5, g6⟩ := wait_callback cfg hR
        { m with
          state := .stateCallbackTxSerial
          txLog := m.txLog ++ [requestFrameOf e]
          notifyCnt := m.notifyCnt + 1 } envs envLast rfl h0 hlen hall (Or.inr hlast)
      have hq : m1.callbackQueue = (PopCallBackQueue m).callbackQueue := by
        rw [g5, (PopCallBackQueue_fields _).2.2.2.2.2, (PopCallBackQueue_fields m).2.2.2.2.2]
      refine ⟨m1, ?_, g2, g3, ?_, ?_, hq, g6⟩
      · simp only [runHandler, hstep, Outcome.bind]
        exact g1
      · rw [g4]
        simp
      · rw [hq, (PopCallBackQueue_fields m).2.2.2.2.2]
        simp only [hc, ne_eq, not_false_eq_true, if_true]
        omega
  · intro m e env0 envs envLast hs h0 hc hd he hlen hall hlast
    have hstep := idle_step_command cfg env0 m e hs hc hd he
    constructor
    · intro j hj
      obtain ⟨mj, g1, g2, g3, g4, g5, g6⟩ := wait_prefix cfg hR
        { m with
          state := .stateCommandTxSerial
          txLog := m.txLog ++ [requestFrameOf e]
          notifyCnt := m.notifyCnt + 1 } envs j (Or.inr (Or.inr rfl)) h0 hlen hall hj
      refine ⟨mj, ?_, g2, g3, ?_, g5, g6⟩
      · simp only [runHandler, hstep, Outcome.bind]
        exact g1
      · rw [g4]
        simp
    · obtain ⟨m1, g1, g2, g3, g4, g5, g6⟩ := wait_command cfg hR
        { m with
          state := .stateCommandTxSerial
          txLog := m.txLog ++ [requestFrameOf e]
          notifyCnt := m.notifyCnt + 1 } envs envLast rfl h0 hlen hall (Or.inr hlast)
      have hq : m1.commandQueue = (PopCommandQueue m).commandQueue := by
        rw [g5, (PopCommandQueue_fields _).2.2.2.2.2, (PopCommandQueue_fields m).2.2.2.2.2]
      refine ⟨m1, ?_, g2, g3, ?_, ?_, hq, g6⟩
      · simp only [runHandler, hstep, Outcome.bind]
        exact g1
      · rw [g4]
        simp
      · rw [hq, (PopCommandQueue_fields m).2.2.2.2.2]
        simp only [hd, ne_eq, not_false_eq_true, if_true]
        omega
  · intro m cmd pData len envs envLast h0 hlen hall hlast
    have hRs : (Respond cmd pData len m).state = .stateTxSerial :=
      set_state_and_notify_state _ _
    have hRr : (Respond cmd pData len m).retry = 0 := by
      simp [Respond, set_state_and_notify_fields, comm_interface_transmit_frame, h0]
    have hRt : (Respond cmd pData len m).txLog = m.txLog ++
        [{ cmd := cmd, type := .RESPONSE, pData := some (pData.take len), len := len }] := by
      simp [Respond, set_state_and_notify_fields, comm_interface_transmit_frame]
    have hRc : (Respond cmd pData len m).callbackQueue = m.callbackQueue := by
      simp [Respond, set_state_and_notify_fields, comm_interface_transmit_frame]
    have hRd : (Respond cmd pData len m).commandQueue = m.commandQueue := by
      simp [Respond, set_state_and_notify_fields, comm_interface_transmit_frame]
    constructor
    · intro j hj
      obtain ⟨mj, g1, g2, g3, g4, g5, g6⟩ := wait_prefix cfg hR (Respond cmd pData len m) envs j
        (Or.inl hRs) hRr hlen hall hj
      refine ⟨mj, g1, by rw [g2, hRs], g3, ?_, by rw [g5, hRc], by rw [g6, hRd]⟩
      rw [g4, hRt]
      simp
    · obtain ⟨m1, g1, g2, g3, g4, g5, g6⟩ := wait_response cfg hR (Respond cmd pData len m)
        envs envLast hRs hRr hlen hall (Or.inr hlast)
      refine ⟨m1, g1, g2, g3, ?_, by rw [g5, hRc], by rw [g6, hRd]⟩
      rw [g4, hRt]
      simp

/-- C9 at a concrete input with `MAX_SERIAL_RETRY = 2`: an Idle run and three
timeouts on a callback queue with one entry give three transmissions, the
entry popped, and `stateIdle` with `retry = 0`. -/
theorem retry_bound_witness :
    ∃ m1, runHandler cfgSmall
        (envOf .PARSE_FRAME_RECEIVED ::
          ([envOf .PARSE_TX_TIMEOUT, envOf .PARSE_TX_TIMEOUT] ++ [envOf .PARSE_TX_TIMEOUT]))
        oneCallbackMachine = .ok m1 ∧
      m1.state = .stateIdle ∧ m1.retry = 0 ∧
      m1.txLog = oneCallbackMachine.txLog ++
        requestFrameOf { wCmd := 0x13, wLen := 2, wBuf := [1, 2, 0, 0] } ::
          List.replicate cfgSmall.MAX_SERIAL_RETRY retransmit ∧
      m1.callbackQueue.requestCnt + 1 = oneCallbackMachine.callbackQueue.requestCnt ∧
      m1.callbackQueue = (PopCallBackQueue oneCallbackMachine).callbackQueue ∧
      m1.commandQueue = oneCallbackMachine.commandQueue :=
  ((retry_bound cfgSmall (by decide)).1 oneCallbackMachine
    { wCmd := 0x13, wLen := 2, wBuf := [1, 2, 0, 0] } (envOf .PARSE_FRAME_RECEIVED)
    [envOf .PARSE_TX_TIMEOUT, envOf .PARSE_TX_TIMEOUT] (envOf .PARSE_TX_TIMEOUT)
    (by decide) (by decide) (by decide) (by decide) (by decide) (by decide) (by decide)).2

/-! ## C10: one unsolicited entry, `MAX_SERIAL_RETRY` timeouts, then an acknowledge -/

/-- C10. With the callback queue empty, exactly one entry in the command queue,
`stateIdle` and `retry = 0`: an Idle run, `MAX_SERIAL_RETRY` runs that see
`PARSE_TX_TIMEOUT` and one run that sees `PARSE_FRAME_SENT` end in `stateIdle`
with the command queue empty and `retry = 0`, after the entry was transmitted
once and retransmitted `MAX_SERIAL_RETRY` times. -/
theorem unsolicited_end_to_end (cfg : Config) (hR : cfg.MAX_SERIAL_RETRY < 256) (m : Machine)
    (e : CALLBACK_ELEMENT) (env0 : Env) (envs : List Env) (envAck : Env)
    (hs : m.state = .stateIdle) (h0 : m.retry = 0)
    (hc : m.callbackQueue.requestCnt = 0)
    (hd : m.commandQueue.requestCnt = 1)
    (he : m.commandQueue.requestQueue[m.commandQueue.requestOut]? = some e)
    (hlen : envs.length = cfg.MAX_SERIAL_RETRY)
    (hall : ∀ x ∈ envs, x.parse = .PARSE_TX_TIMEOUT)
    (hack : envAck.parse = .PARSE_FRAME_SENT) :
    ∃ m1, runHandler cfg (env0 :: (envs ++ [envAck])) m = .ok m1 ∧
      m1.state = .stateIdle ∧ m1.commandQueue.requestCnt = 0 ∧ m1.retry = 0 ∧
      m1.callbackQueue.requestCnt = 0 ∧
      m1.txLog = m.txLog ++ requestFrameOf e :: List.replicate cfg.MAX_SERIAL_RETRY retransmit ∧
      (m1.txLog.length = m.txLog.length + (cfg.MAX_SERIAL_RETRY + 1)) := by
  have hstep := idle_step_command cfg env0 m e hs hc (by rw [hd]; decide) he
  obtain ⟨m1, g1, g2, g3, g4, g5, g6⟩ := wait_command cfg hR
    { m with
      state := .stateCommandTxSerial
      txLog := m.txLog ++ [requestFrameOf e]
      notifyCnt := m.notifyCnt + 1 } envs envAck rfl h0 hlen hall (Or.inl hack)
  have htx : m1.txLog
      = m.txLog ++ requestFrameOf e :: List.replicate cfg.MAX_SERIAL_RETRY retransmit := by
    rw [g4]
    simp
  refine ⟨m1, ?_, g2, ?_, g3, ?_, htx, ?_⟩
  · simp only [runHandler, hstep, Outcome.bind]
    exact g1
  · rw [g5, (PopCommandQueue_fields _).2.2.2.2.2]
    simp [hd]
  · rw [g6]
    exact hc
  · rw [htx]
    simp

/-- C10 at a concrete input with `MAX_SERIAL_RETRY = 2`. -/
theorem unsolicited_end_to_end_witness :
    ∃ m1, runHandler cfgSmall
        (envOf (.other 0) ::
          ([envOf .PARSE_TX_TIMEOUT, envOf .PARSE_TX_TIMEOUT] ++ [envOf .PARSE_FRAME_SENT]))
        oneCommandMachine = .ok m1 ∧
      m1.state = .stateIdle ∧ m1.commandQueue.requestCnt = 0 ∧ m1.retry = 0 ∧
      m1.callbackQueue.requestCnt = 0 ∧
      m1.txLog = oneCommandMachine.txLog ++
        requestFrameOf { wCmd := 0x04, wLen := 3, wBuf := [7, 8, 9, 0] } ::
          List.replicate cfgSmall.MAX_SERIAL_RETRY retransmit ∧
      (m1.txLog.length = oneCommandMachine.txLog.length + (cfgSmall.MAX_SERIAL_RETRY + 1)) :=
  unsolicited_end_to_end cfgSmall (by decide) oneCommandMachine
    { wCmd := 0x04, wLen := 3, wBuf := [7, 8, 9, 0] } (envOf (.other 0))
    [envOf .PARSE_TX_TIMEOUT, envOf .PARSE_TX_TIMEOUT] (envOf .PARSE_FRAME_SENT)
    (by decide) (by decide) (by decide) (by decide) (by decide) (by decide) (by decide)
    (by decide)

/-! ## C12: the transitions of `stateTxSerial` -/

/-- C12. In `stateTxSerial`, for every value of `retry`: on `PARSE_FRAME_SENT`
the machine goes to `stateIdle` with `retry = 0` and sends nothing; on
`PARSE_TX_TIMEOUT` with `retry < MAX_SERIAL_RETRY` it stays in `stateTxSerial`,
`retry` grows by one and exactly one retransmission is issued; on
`PARSE_TX_TIMEOUT` with `retry ≥ MAX_SERIAL_RETRY` it goes to `stateIdle` with
`retry = 0` and sends nothing. Both queues are unchanged in all three cases. -/
theorem txSerial_transitions (cfg : Config) (hR : cfg.MAX_SERIAL_RETRY < 256) (env : Env)
    (m : Machine) (hst : m.state = .stateTxSerial) :
    (env.parse = .PARSE_FRAME_SENT →
      ∃ m1, SerialAPIStateHandler cfg env m = .ok m1 ∧ m1.state = .stateIdle ∧ m1.retry = 0 ∧
        m1.txLog = m.txLog ∧ m1.callbackQueue = m.callbackQueue ∧
        m1.commandQueue = m.commandQueue) ∧
    (env.parse = .PARSE_TX_TIMEOUT → m.retry < cfg.MAX_SERIAL_RETRY →
      ∃ m1, SerialAPIStateHandler cfg env m = .ok m1 ∧ m1.state = .stateTxSerial ∧
        m1.retry = m.retry + 1 ∧ m1.txLog = m.txLog ++ [retransmit] ∧
        m1.callbackQueue = m.callbackQueue ∧ m1.commandQueue = m.commandQueue) ∧
    (env.parse = .PARSE_TX_TIMEOUT → cfg.MAX_SERIAL_RETRY ≤ m.retry →
      ∃ m1, SerialAPIStateHandler cfg env m = .ok m1 ∧ m1.state = .stateIdle ∧ m1.retry = 0 ∧
        m1.txLog = m.txLog ∧ m1.callbackQueue = m.callbackQueue ∧
        m1.commandQueue = m.commandQueue) := by
  refine ⟨?_, ?_, ?_⟩
  · intro hp
    exact finish_response cfg env m hst (Or.inl hp)
  · intro hp hr
    exact ⟨_, timeout_step_retry cfg env m hR (Or.inl hst) hp hr, hst, rfl, rfl, rfl, rfl⟩
  · intro hp hr
    exact finish_response cfg env m hst (Or.inr ⟨hp, hr⟩)

/-- C12 at concrete inputs with `MAX_SERIAL_RETRY = 2`: a timeout at `retry = 1`
retransmits, a timeout at `retry = 2` gives up. -/
theorem txSerial_transitions_witness :
    (∃ m1, SerialAPIStateHandler cfgSmall (envOf .PARSE_TX_TIMEOUT)
        { idleMachine with state := .stateTxSerial, retry := 1 } = .ok m1 ∧
      m1.state = .stateTxSerial ∧ m1.retry = 1 + 1 ∧
      m1.txLog = idleMachine.txLog ++ [retransmit] ∧
      m1.callbackQueue = idleMachine.callbackQueue ∧
      m1.commandQueue = idleMachine.commandQueue) ∧
    (∃ m1, SerialAPIStateHandler cfgSmall (envOf .PARSE_TX_TIMEOUT)
        { idleMachine with state := .stateTxSerial, retry := 2 } = .ok m1 ∧
      m1.state = .stateIdle ∧ m1.retry = 0 ∧ m1.txLog = idleMachine.txLog ∧
      m1.callbackQueue = idleMachine.callbackQueue ∧
      m1.commandQueue = idleMachine.commandQueue) :=
  ⟨(txSerial_transitions cfgSmall (by decide) (envOf .PARSE_TX_TIMEOUT)
      { idleMachine with state := .stateTxSerial, retry := 1 } rfl).2.1 rfl (by decide),
   (txSerial_transitions cfgSmall (by decide) (envOf .PARSE_TX_TIMEOUT)
      { idleMachine with state := .stateTxSerial, retry := 2 } rfl).2.2 rfl (by decide)⟩

/-! ## C14: other parse results while waiting -/

/-- C14. In each of the three transmit-wait states, a run of the state handler
whose parse result is neither `PARSE_FRAME_SENT` nor `PARSE_TX_TIMEOUT` leaves
the state, `retry` and both queues unchanged and transmits nothing: the only
trace it leaves is the call of the parser. -/
theorem wait_ignores_other_results (cfg : Config) (env : Env) (m : Machine)
    (hst : m.state = .stateTxSerial ∨ m.state = .stateCallbackTxSerial ∨
      m.state = .stateCommandTxSerial)
    (h1 : env.parse ≠ .PARSE_FRAME_SENT) (h2 : env.parse ≠ .PARSE_TX_TIMEOUT) :
    ∃ m1, SerialAPIStateHandler cfg env m = .ok m1 ∧
      m1 = { m with parseLog := m.parseLog ++ [false] } ∧
      m1.state = m.state ∧ m1.retry = m.retry ∧ m1.txLog = m.txLog ∧
      m1.callbackQueue = m.callbackQueue ∧ m1.commandQueue = m.commandQueue := by
  refine ⟨{ m with parseLog := m.parseLog ++ [false] }, ?_, rfl, rfl, rfl, rfl, rfl, rfl⟩
  rcases hst with h | h | h <;>
    · unfold SerialAPIStateHandler
      simp [h, h1, h2, comm_interface_parse_data]

/-- C14 at a concrete input: a received frame while waiting for the
acknowledge of a callback. -/
theorem wait_ignores_other_results_witness :
    ∃ m1, SerialAPIStateHandler cfgSmall (envOf .PARSE_FRAME_RECEIVED)
        { oneCallbackMachine with state := .stateCallbackTxSerial, retry := 1 } = .ok m1 ∧
      m1 = { ({ oneCallbackMachine with state := .stateCallbackTxSerial, retry := 1 } : Machine)
              with parseLog := oneCallbackMachine.parseLog ++ [false] } ∧
      m1.state = .stateCallbackTxSerial ∧ m1.retry = 1 ∧ m1.txLog = oneCallbackMachine.txLog ∧
      m1.callbackQueue = oneCallbackMachine.callbackQueue ∧
      m1.commandQueue = oneCallbackMachine.commandQueue :=
  wait_ignores_other_results cfgSmall (envOf .PARSE_FRAME_RECEIVED)
    { oneCallbackMachine with state := .stateCallbackTxSerial, retry := 1 }
    (Or.inr (Or.inl rfl)) (by decide) (by decide)

/-! ## C16: the Idle run with an empty callback queue -/

/-- C16. In `stateIdle` with `callbackQueue.requestCnt = 0`: when the command
queue is not empty the run transmits exactly its front slot as a `REQUEST`
frame and moves to `stateCommandTxSerial`; when both queues are empty it
transmits nothing and moves to `stateFrameParse` exactly when the parser
returns `PARSE_FRAME_RECEIVED`, staying in `stateIdle` otherwise. Both queues
and `retry` are unchanged in every case. -/
theorem idle_with_empty_callback_queue (cfg : Config) (env : Env) (m : Machine)
    (hs : m.state = .stateIdle) (hc : m.callbackQueue.requestCnt = 0) :
    (∀ e, m.commandQueue.requestCnt ≠ 0 →
      m.commandQueue.requestQueue[m.commandQueue.requestOut]? = some e →
      ∃ m1, SerialAPIStateHandler cfg env m = .ok m1 ∧
        m1.txLog = m.txLog ++
          [{ cmd := e.wCmd, type := .REQUEST, pData := some (e.wBuf.take e.wLen), len := e.wLen }] ∧
        m1.state = .stateCommandTxSerial ∧
        m1.callbackQueue = m.callbackQueue ∧ m1.commandQueue = m.commandQueue ∧
        m1.retry = m.retry) ∧
    (m.commandQueue.requestCnt = 0 →
      ∃ m1, SerialAPIStateHandler cfg env m = .ok m1 ∧
        m1.txLog = m.txLog ∧
        (m1.state = .stateFrameParse ↔ env.parse = .PARSE_FRAME_RECEIVED) ∧
        (env.parse ≠ .PARSE_FRAME_RECEIVED → m1.state = .stateIdle) ∧
        m1.callbackQueue = m.callbackQueue ∧ m1.commandQueue = m.commandQueue ∧
        m1.retry = m.retry) := by
  constructor
  · intro e hd he
    exact ⟨_, idle_step_command cfg env m e hs hc hd he, rfl, rfl, rfl, rfl, rfl⟩
  · intro hd
    unfold SerialAPIStateHandler
    simp only [hs, hc, hd, ne_eq, not_true_eq_false, if_false]
    by_cases hp : env.parse = .PARSE_FRAME_RECEIVED
    · simp only [hp, if_true]
      refine ⟨_, rfl, ?_, ?_, ?_, ?_, ?_, ?_⟩
      · simp [set_state_and_notify_fields, comm_interface_parse_data]
      · simp [set_state_and_notify_state]
      · intro h; exact absurd trivial h
      · simp [set_state_and_notify_fields, comm_interface_parse_data]
      · simp [set_state_and_notify_fields, comm_interface_parse_data]
      · simp [set_state_and_notify_fields, comm_interface_parse_data]
    · simp only [hp, if_false]
      refine ⟨_, rfl, rfl, ?_, ?_, rfl, rfl, rfl⟩
      · simp [comm_interface_parse_data, hs, hp]
      · intro _
        simp [comm_interface_parse_data, hs]

/-- C16 at concrete inputs: one command entry is transmitted; with both queues
empty a received frame leads to `stateFrameParse`. -/
theorem idle_with_empty_callback_queue_witness :
    (∃ m1, SerialAPIStateHandler cfgSmall (envOf .PARSE_FRAME_RECEIVED) oneCommandMachine
        = .ok m1 ∧
      m1.txLog = oneCommandMachine.txLog ++
        [{ cmd := 0x04, type := .REQUEST, pData := some ([7, 8, 9, 0].take 3), len := 3 }] ∧
      m1.state = .stateCommandTxSerial ∧
      m1.callbackQueue = oneCommandMachine.callbackQueue ∧
      m1.commandQueue = oneCommandMachine.commandQueue ∧
      m1.retry = oneCommandMachine.retry) ∧
    (∃ m1, SerialAPIStateHandler cfgSmall (envOf .PARSE_FRAME_RECEIVED) idleMachine = .ok m1 ∧
      m1.txLog = idleMachine.txLog ∧
      (m1.state = .stateFrameParse ↔
        (envOf .PARSE_FRAME_RECEIVED).parse = .PARSE_FRAME_RECEIVED) ∧
      ((envOf .PARSE_FRAME_RECEIVED).parse ≠ .PARSE_FRAME_RECEIVED → m1.state = .stateIdle) ∧
      m1.callbackQueue = idleMachine.callbackQueue ∧
      m1.commandQueue = idleMachine.commandQueue ∧
      m1.retry = idleMachine.retry) :=
  ⟨(idle_with_empty_callback_queue cfgSmall (envOf .PARSE_FRAME_RECEIVED) oneCommandMachine
      (by decide) (by decide)).1 { wCmd := 0x04, wLen := 3, wBuf := [7, 8, 9, 0] }
      (by decide) (by decide),
   (idle_with_empty_callback_queue cfgSmall (envOf .PARSE_FRAME_RECEIVED) idleMachine
      (by decide) (by decide)).2 (by decide)⟩

/-! ## C13: the transitions of the two queue-backed wait states -/

/-- The run of the state handler in `stateCommandTxSerial` is the run in
`stateCallbackTxSerial` with the roles of the two queues exchanged. -/
theorem command_step_is_swapped_callback_step (cfg : Config) (env : Env) (m : Machine)
    (hst : m.state = .stateCallbackTxSerial) :
    SerialAPIStateHandler cfg env (swapQueues m)
      = (SerialAPIStateHandler cfg env m).map swapQueues := by
  have hsw : (swapQueues m).state = .stateCommandTxSerial := by
    simp [swapQueues, hst]
  unfold SerialAPIStateHandler
  simp only [hsw, hst]
  by_cases h1 : env.parse = .PARSE_FRAME_SENT
  · simp [h1, Outcome.map, PopCommandQueue, PopCallBackQueue, set_state_and_notify,
      comm_interface_parse_data, swapQueues, hst, MAX_CALLBACK_QUEUE, MAX_UNSOLICITED_QUEUE]
  · by_cases h2 : env.parse = .PARSE_TX_TIMEOUT
    · by_cases h3 : m.retry < cfg.MAX_SERIAL_RETRY
      · simp [h2, h3, Outcome.map, comm_interface_transmit_frame,
          comm_interface_parse_data, swapQueues, hst]
      · simp [h2, h3, Outcome.map, PopCommandQueue, PopCallBackQueue, set_state_and_notify,
          comm_interface_parse_data, swapQueues, hst, MAX_CALLBACK_QUEUE, MAX_UNSOLICITED_QUEUE]
    · simp [h1, h2, Outcome.map, comm_interface_parse_data, swapQueues, hst]

/-- C13. In `stateCallbackTxSerial`, a run that sees `PARSE_FRAME_SENT`, or
`PARSE_TX_TIMEOUT` with `retry ≥ MAX_SERIAL_RETRY`, pops the callback queue
(with an entry pending and the ring invariant: exactly the front entry goes,
the others stay in order), leaves the command queue unchanged, sets `retry` to
0 and moves to `stateIdle`; a `PARSE_TX_TIMEOUT` with `retry < MAX_SERIAL_RETRY`
pops nothing, adds one to `retry`, retransmits once and stays. The same holds
in `stateCommandTxSerial` with the two queues exchanged, and that run is the
`stateCallbackTxSerial` run with the roles of the queues exchanged. -/
theorem queue_wait_transitions (cfg : Config) (hR : cfg.MAX_SERIAL_RETRY < 256) (env : Env)
    (m : Machine) :
    (m.state = .stateCallbackTxSerial →
      ((env.parse = .PARSE_FRAME_SENT ∨
          (env.parse = .PARSE_TX_TIMEOUT ∧ cfg.MAX_SERIAL_RETRY ≤ m.retry)) →
        ∃ m1, SerialAPIStateHandler cfg env m = .ok m1 ∧ m1.state = .stateIdle ∧
          m1.retry = 0 ∧ m1.txLog = m.txLog ∧ m1.commandQueue = m.commandQueue ∧
          m1.callbackQueue = (PopCallBackQueue m).callbackQueue ∧
          (m.callbackQueue.requestCnt ≠ 0 → QInv m.callbackQueue →
            m1.callbackQueue.requestCnt + 1 = m.callbackQueue.requestCnt ∧
            ∃ e, m.callbackQueue.requestQueue[m.callbackQueue.requestOut]? = some e ∧
              m.callbackQueue.entries = e :: m1.callbackQueue.entries)) ∧
      (env.parse = .PARSE_TX_TIMEOUT → m.retry < cfg.MAX_SERIAL_RETRY →
        ∃ m1, SerialAPIStateHandler cfg env m = .ok m1 ∧
          m1.state = .stateCallbackTxSerial ∧ m1.retry = m.retry + 1 ∧
          m1.txLog = m.txLog ++ [retransmit] ∧
          m1.callbackQueue = m.callbackQueue ∧ m1.commandQueue = m.commandQueue) ∧
      SerialAPIStateHandler cfg env (swapQueues m)
        = (SerialAPIStateHandler cfg env m).map swapQueues) ∧
    (m.state = .stateCommandTxSerial →
      ((env.parse = .PARSE_FRAME_SENT ∨
          (env.parse = .PARSE_TX_TIMEOUT ∧ cfg.MAX_SERIAL_RETRY ≤ m.retry)) →
        ∃ m1, SerialAPIStateHandler cfg env m = .ok m1 ∧ m1.state = .stateIdle ∧
          m1.retry = 0 ∧ m1.txLog = m.txLog ∧ m1.callbackQueue = m.callbackQueue ∧
          m1.commandQueue = (PopCommandQueue m).commandQueue ∧
          (m.commandQueue.requestCnt ≠ 0 → QInv m.commandQueue →
            m1.commandQueue.requestCnt + 1 = m.commandQueue.requestCnt ∧
            ∃ e, m.commandQueue.requestQueue[m.commandQueue.requestOut]? = some e ∧
              m.commandQueue.entries = e :: m1.commandQueue.entries)) ∧
      (env.parse = .PARSE_TX_TIMEOUT → m.retry < cfg.MAX_SERIAL_RETRY →
        ∃ m1, SerialAPIStateHandler cfg env m = .ok m1 ∧
          m1.state = .stateCommandTxSerial ∧ m1.retry = m.retry + 1 ∧
          m1.txLog = m.txLog ++ [retransmit] ∧
          m1.callbackQueue = m.callbackQueue ∧ m1.commandQueue = m.commandQueue)) := by
  constructor
  · intro hst
    refine ⟨?_, ?_, command_step_is_swapped_callback_step cfg env m hst⟩
    · intro hp
      obtain ⟨m1, f1, f2, f3, f4, f5, f6⟩ := finish_callback cfg env m hst hp
      refine ⟨m1, f1, f2, f3, f4, f6, f5, ?_⟩
      intro hc hinv
      have hq := (PopCallBackQueue_fields m).2.2.2.2.2
      simp only [hc, ne_eq, not_false_eq_true, if_true] at hq
      obtain ⟨_, e, he, hes⟩ := entries_pop m.callbackQueue hinv hc
      rw [f5, hq]
      exact ⟨by simp only; omega, e, he, hes⟩
    · intro hp hr
      exact ⟨_, timeout_step_retry cfg env m hR (Or.inr (Or.inl hst)) hp hr, hst, rfl, rfl, rfl,
        rfl⟩
  · intro hst
    refine ⟨?_, ?_⟩
    · intro hp
      obtain ⟨m1, f1, f2, f3, f4, f5, f6⟩ := finish_command cfg env m hst hp
      refine ⟨m1, f1, f2, f3, f4, f6, f5, ?_⟩
      intro hc hinv
      have hq := (PopCommandQueue_fields m).2.2.2.2.2
      simp only [hc, ne_eq, not_false_eq_true, if_true] at hq
      obtain ⟨_, e, he, hes⟩ := entries_pop m.commandQueue hinv hc
      rw [f5, hq]
      exact ⟨by simp only; omega, e, he, hes⟩
    · intro hp hr
      exact ⟨_, timeout_step_retry cfg env m hR (Or.inr (Or.inr hst)) hp hr, hst, rfl, rfl, rfl,
        rfl⟩

/-- C13 at a concrete input: an acknowledge while waiting on the first of
three command entries pops that entry and leaves the other two in order. -/
theorem queue_wait_transitions_witness :
    ∃ m1, SerialAPIStateHandler cfgSmall (envOf .PARSE_FRAME_SENT) commandInFlightMachine
        = .ok m1 ∧
      m1.state = .stateIdle ∧ m1.retry = 0 ∧ m1.txLog = commandInFlightMachine.txLog ∧
      m1.callbackQueue = commandInFlightMachine.callbackQueue ∧
      m1.commandQueue = (PopCommandQueue commandInFlightMachine).commandQueue ∧
      (commandInFlightMachine.commandQueue.requestCnt ≠ 0 →
        QInv commandInFlightMachine.commandQueue →
        m1.commandQueue.requestCnt + 1 = commandInFlightMachine.commandQueue.requestCnt ∧
        ∃ e, commandInFlightMachine.commandQueue.requestQueue[
            commandInFlightMachine.commandQueue.requestOut]? = some e ∧
          commandInFlightMachine.commandQueue.entries = e :: m1.commandQueue.entries) :=
  ((queue_wait_transitions cfgSmall (by decide) (envOf .PARSE_FRAME_SENT)
    commandInFlightMachine).2 (by decide)).1 (Or.inl rfl)

/-! ## C15: a frame without a handler -/

/-- C15. In `stateFrameParse`, when no handler is registered for the command
code of the parsed frame, `invoke_cmd_handler` returns `false` and the run of
the state handler transmits nothing, enqueues nothing, leaves `retry` and both
queues unchanged and moves to `stateIdle`. -/
theorem frame_without_handler_dropped (cfg : Config) (env : Env) (m : Machine)
    (hst : m.state = .stateFrameParse)
    (hno : env.lookup_handler env.serial_frame_cmd = none) :
    invoke_cmd_handler env m = .ok (false, m) ∧
    ∃ m1, SerialAPIStateHandler cfg env m = .ok m1 ∧ m1.state = .stateIdle ∧
      m1.txLog = m.txLog ∧ m1.callbackQueue = m.callbackQueue ∧
      m1.commandQueue = m.commandQueue ∧ m1.retry = m.retry ∧
      m1 = { m with state := .stateIdle, notifyCnt := m.notifyCnt + 1 } := by
  have hinv : invoke_cmd_handler env m = .ok (false, m) := by
    simp [invoke_cmd_handler, hno]
  refine ⟨hinv, ?_⟩
  unfold SerialAPIStateHandler
  simp only [hst, SerialAPICommandHandler, hinv, Outcome.bind, if_true]
  exact ⟨_, rfl, set_state_and_notify_state _ _, (set_state_and_notify_fields _ _).2.2.2.2.2.2.1,
    (set_state_and_notify_fields _ _).2.2.2.1, (set_state_and_notify_fields _ _).2.2.2.2.1,
    (set_state_and_notify_fields _ _).1, by simp [set_state_and_notify, hst]⟩

/-- C15 at a concrete input: an empty registry, a frame with command 0 and
one entry waiting in the command queue. -/
theorem frame_without_handler_dropped_witness :
    invoke_cmd_handler (envOf .PARSE_FRAME_RECEIVED)
        { oneCommandMachine with state := .stateFrameParse }
      = .ok (false, { oneCommandMachine with state := .stateFrameParse }) ∧
    ∃ m1, SerialAPIStateHandler cfgSmall (envOf .PARSE_FRAME_RECEIVED)
        { oneCommandMachine with state := .stateFrameParse } = .ok m1 ∧
      m1.state = .stateIdle ∧ m1.txLog = oneCommandMachine.txLog ∧
      m1.callbackQueue = oneCommandMachine.callbackQueue ∧
      m1.commandQueue = oneCommandMachine.commandQueue ∧
      m1.retry = oneCommandMachine.retry ∧
      m1 = { ({ oneCommandMachine with state := .stateFrameParse } : Machine) with
              state := .stateIdle, notifyCnt := oneCommandMachine.notifyCnt + 1 } :=
  frame_without_handler_dropped cfgSmall (envOf .PARSE_FRAME_RECEIVED)
    { oneCommandMachine with state := .stateFrameParse } rfl rfl

/-! ## C11: a callback queued during a transmission -/

/-- What `Request` leaves alone when it returns a value. -/
theorem Request_frame (cfg : Config) (cmd : Nat) (pData : List Nat) (len : Nat) (m : Machine)
    (r : Bool × Machine) (h : Request cfg cmd pData len m = .ok r) :
    r.2.state = m.state ∧ r.2.retry = m.retry ∧ r.2.commandQueue = m.commandQueue ∧
    r.2.txLog = m.txLog ∧ r.2.parseLog = m.parseLog := by
  unfold Request at h
  by_cases hc : m.callbackQueue.requestCnt < MAX_CALLBACK_QUEUE
  · simp only [hc, if_true] at h
    split at h
    · cases h
    · split at h
      · unfold cAssert at h
        split at h
        · simp only [Outcome.bind, Outcome.ok.injEq] at h
          subst h
          exact ⟨rfl, rfl, rfl, rfl, rfl⟩
        · split at h
          · simp only [Outcome.bind, Outcome.ok.injEq] at h
            subst h
            exact ⟨rfl, rfl, rfl, rfl, rfl⟩
          · simp [Outcome.bind] at h
      · simp only [Outcome.bind, Outcome.ok.injEq] at h
        subst h
        exact ⟨rfl, rfl, rfl, rfl, rfl⟩
  · simp only [hc, if_false, Outcome.ok.injEq] at h
    subst h
    exact ⟨rfl, rfl, rfl, rfl, rfl⟩

/-- What `RequestUnsolicited` leaves alone when it returns a value. -/
theorem RequestUnsolicited_frame (cfg : Config) (cmd : Nat) (pData : List Nat) (len : Nat)
    (m : Machine) (r : Bool × Machine) (h : RequestUnsolicited cfg cmd pData len m = .ok r) :
    r.2.state = m.state ∧ r.2.retry = m.retry ∧ r.2.callbackQueue = m.callbackQueue ∧
    r.2.txLog = m.txLog ∧ r.2.parseLog = m.parseLog := by
  unfold RequestUnsolicited at h
  by_cases hc : m.commandQueue.requestCnt < MAX_UNSOLICITED_QUEUE
  · simp only [hc, if_true] at h
    split at h
    · cases h
    · split at h
      · unfold cAssert at h
        split at h
        · simp only [Outcome.bind, Outcome.ok.injEq] at h
          subst h
          exact ⟨rfl, rfl, rfl, rfl, rfl⟩
        · split at h
          · simp only [Outcome.bind, Outcome.ok.injEq] at h
            subst h
            exact ⟨rfl, rfl, rfl, rfl, rfl⟩
          · simp [Outcome.bind] at h
      · simp only [Outcome.bind, Outcome.ok.injEq] at h
        subst h
        exact ⟨rfl, rfl, rfl, rfl, rfl⟩
  · simp only [hc, if_false, Outcome.ok.injEq] at h
    subst h
    exact ⟨rfl, rfl, rfl, rfl, rfl⟩

/-- C11. Let the machine wait in `stateCommandTxSerial` on an unsolicited entry,
with any number of further entries in the command queue and an empty callback
queue, and let `Request x` be called. The call is accepted and changes neither
the state, nor `retry`, nor the command queue, and transmits nothing. The
following acknowledge (or timeout with no retry left) pops the command queue
and leaves `x` in the callback queue. The Idle run after that transmits `x`,
with the command queue, whatever it still holds, untouched. -/
theorem callback_cuts_in_line (cfg : Config) (m : Machine) (x : Frame) (envAck envIdle : Env)
    (hs : m.state = .stateCommandTxSerial)
    (hy : m.commandQueue.requestCnt ≠ 0)
    (hcb : m.callbackQueue.requestCnt = 0 ∧
      m.callbackQueue.requestIn = m.callbackQueue.requestOut ∧
      m.callbackQueue.requestOut < 8 ∧ m.callbackQueue.requestQueue.length = 8)
    (hx : x.len ≤ cfg.BUF_SIZE_TX % 256 ∧ x.len ≤ x.pData.length)
    (hack : envAck.parse = .PARSE_FRAME_SENT ∨
      (envAck.parse = .PARSE_TX_TIMEOUT ∧ cfg.MAX_SERIAL_RETRY ≤ m.retry)) :
    ∃ m1 m2 m3,
      Request cfg x.cmd x.pData x.len m = .ok (true, m1) ∧
      m1.state = m.state ∧ m1.retry = m.retry ∧ m1.commandQueue = m.commandQueue ∧
      m1.txLog = m.txLog ∧
      SerialAPIStateHandler cfg envAck m1 = .ok m2 ∧
      m2.state = .stateIdle ∧ m2.txLog = m.txLog ∧
      m2.commandQueue = (PopCommandQueue m).commandQueue ∧
      m2.commandQueue.requestCnt + 1 = m.commandQueue.requestCnt ∧
      m2.callbackQueue = m1.callbackQueue ∧ m2.callbackQueue.requestCnt = 1 ∧
      SerialAPIStateHandler cfg envIdle m2 = .ok m3 ∧
      m3.state = .stateCallbackTxSerial ∧
      m3.txLog = m.txLog ++
        [{ cmd := x.cmd, type := .REQUEST, pData := some (x.pData.take x.len), len := x.len }] ∧
      m3.commandQueue = m2.commandQueue := by
  obtain ⟨a1, a2, a3, a4⟩ := hcb
  obtain ⟨hx1, hx2⟩ := hx
  have hlt1 : m.callbackQueue.requestIn < m.callbackQueue.requestQueue.length := by omega
  obtain ⟨m1, hR1, hq1⟩ : ∃ m1,
      Request cfg x.cmd x.pData x.len m = .ok (true, m1) ∧
      m1.callbackQueue =
        { requestOut := m.callbackQueue.requestOut
          requestIn := if (m.callbackQueue.requestIn + 1) % 256 ≥ 8 then 0
            else (m.callbackQueue.requestIn + 1) % 256
          requestCnt := m.callbackQueue.requestCnt + 1
          requestQueue := m.callbackQueue.requestQueue.set m.callbackQueue.requestIn
            (CALLBACK_ELEMENT.mk x.cmd x.len
              (memcpy (m.callbackQueue.requestQueue[m.callbackQueue.requestIn]).wBuf
                x.pData x.len)) } := by
    have hR := Request_accept cfg x.cmd x.pData x.len m _ (by show _ < 8; omega)
      (List.getElem?_eq_getElem hlt1) (Or.inl hx1)
    rw [Nat.min_eq_left hx1] at hR
    exact ⟨_, hR, rfl⟩
  obtain ⟨f1, f2, f3, f4, _⟩ := Request_frame cfg x.cmd x.pData x.len m _ hR1
  simp only at f1 f2 f3 f4
  obtain ⟨m2, g1, g2, g3, g4, g5, g6⟩ := finish_command cfg envAck m1 (by rw [f1, hs])
    (by rw [f2]; exact hack)
  have hpop : (PopCommandQueue m1).commandQueue = (PopCommandQueue m).commandQueue := by
    rw [(PopCommandQueue_fields m1).2.2.2.2.2, (PopCommandQueue_fields m).2.2.2.2.2, f3]
  have hcnt2 : m2.callbackQueue.requestCnt = 1 := by
    rw [g6, hq1]
    simp only
    omega
  have hfront : m2.callbackQueue.requestQueue[m2.callbackQueue.requestOut]?
      = some (CALLBACK_ELEMENT.mk x.cmd x.len
        (memcpy (m.callbackQueue.requestQueue[m.callbackQueue.requestIn]).wBuf
          x.pData x.len)) := by
    rw [g6, hq1]
    simp only
    rw [← a2]
    exact List.getElem?_set_self hlt1
  have hstep := idle_step_callback cfg envIdle m2 _ g2 (by rw [hcnt2]; decide) hfront
  refine ⟨m1, m2, _, hR1, f1, f2, f3, f4, g1, g2, by rw [g4, f4], by rw [g5, hpop], ?_, g6,
    hcnt2, hstep, rfl, ?_, rfl⟩
  · rw [g5, hpop, (PopCommandQueue_fields m).2.2.2.2.2]
    simp only [hy, ne_eq, not_false_eq_true, if_true]
    omega
  · simp only [requestFrameOf, memcpy_take _ _ _ hx2, g4, f4]

/-- C11 at a concrete input: three unsolicited entries queued, the first in
flight, when the callback `x = (0x13, [1, 2])` arrives; after the acknowledge
the next frame sent is `x`. -/
theorem callback_cuts_in_line_witness :
    ∃ m1 m2 m3,
      Request cfgSmall 0x13 [1, 2] 2 commandInFlightMachine = .ok (true, m1) ∧
      m1.state = commandInFlightMachine.state ∧ m1.retry = commandInFlightMachine.retry ∧
      m1.commandQueue = commandInFlightMachine.commandQueue ∧
      m1.txLog = commandInFlightMachine.txLog ∧
      SerialAPIStateHandler cfgSmall (envOf .PARSE_FRAME_SENT) m1 = .ok m2 ∧
      m2.state = .stateIdle ∧ m2.txLog = commandInFlightMachine.txLog ∧
      m2.commandQueue = (PopCommandQueue commandInFlightMachine).commandQueue ∧
      m2.commandQueue.requestCnt + 1 = commandInFlightMachine.commandQueue.requestCnt ∧
      m2.callbackQueue = m1.callbackQueue ∧ m2.callbackQueue.requestCnt = 1 ∧
      SerialAPIStateHandler cfgSmall (envOf (.other 0)) m2 = .ok m3 ∧
      m3.state = .stateCallbackTxSerial ∧
      m3.txLog = commandInFlightMachine.txLog ++
        [{ cmd := 0x13, type := .REQUEST, pData := some ([1, 2].take 2), len := 2 }] ∧
      m3.commandQueue = m2.commandQueue :=
  callback_cuts_in_line cfgSmall commandInFlightMachine { cmd := 0x13, pData := [1, 2], len := 2 }
    (envOf .PARSE_FRAME_SENT) (envOf (.other 0)) (by decide) (by decide) (by decide) (by decide)
    (Or.inl rfl)

/-! ## C17: the retry counter -/

theorem Outcome.bind_eq_ok {α β : Type} (x : Outcome α) (f : α → Outcome β) (b : β) :
    x.bind f = .ok b ↔ ∃ a, x = .ok a ∧ f a = .ok b := by
  cases x <;> simp [Outcome.bind]

/-- `ApplicationInitSW` changes neither the state nor `retry`. -/
theorem ApplicationInitSW_frame (cfg : Config) (inp : StartupInputs) (m m1 : Machine)
    (h : ApplicationInitSW cfg inp m = .ok m1) :
    m1.state = m.state ∧ m1.retry = m.retry ∧ m1.commandQueue = m.commandQueue ∧
    m1.txLog = m.txLog := by
  unfold ApplicationInitSW at h
  by_cases hS : cfg.SUPPORT_SERIAL_API_STARTUP_NOTIFICATION = true
  · simp only [hS, if_true] at h
    cases hri : inp.resetInfo with
    | none =>
      simp only [hri, Outcome.bind_eq_ok, Outcome.ok.injEq] at h
      obtain ⟨m2, ⟨b0, _, b1, _, b2, _, b3, _, b4, _, b5, _, b6, _, b7, _, r, hr, h2⟩, h3⟩ := h
      subst h3 h2
      obtain ⟨f1, f2, f3, f4, _⟩ := Request_frame _ _ _ _ _ _ hr
      exact ⟨f1, f2, f3, f4⟩
    | some v =>
      simp only [hri, Outcome.bind_eq_ok, Outcome.ok.injEq] at h
      obtain ⟨m2, ⟨b0, _, b1, _, b2, _, b3, _, b4, _, b5, _, b6, _, b7, _, b8, _, b9, _, b10, _,
        b11, _, r, hr, h2⟩, h3⟩ := h
      subst h3 h2
      obtain ⟨f1, f2, f3, f4, _⟩ := Request_frame _ _ _ _ _ _ hr
      exact ⟨f1, f2, f3, f4⟩
  · simp only [hS, Bool.false_eq_true, if_false, Outcome.bind_eq_ok, Outcome.ok.injEq] at h
    obtain ⟨m2, h2, h3⟩ := h
    subst h3 h2
    exact ⟨rfl, rfl, rfl, rfl⟩

/-- No operation of a handler changes `retry`. -/
theorem runAction_retry (cfg : Config) (env : Env) (a : HandlerAction) (m m1 : Machine)
    (h : runAction cfg env a m = .ok m1) : m1.retry = m.retry := by
  cases a with
  | respond cmd pData len =>
    simp only [runAction, Outcome.ok.injEq] at h
    subst h
    simp [Respond, set_state_and_notify_fields, comm_interface_transmit_frame]
  | doRespond retVal =>
    simp only [runAction, Outcome.ok.injEq] at h
    subst h
    simp [DoRespond, Respond, set_state_and_notify_fields, comm_interface_transmit_frame]
  | doRespondWorkbuf cnt =>
    simp only [runAction, Outcome.ok.injEq] at h
    subst h
    simp [DoRespond_workbuf, Respond, set_state_and_notify_fields, comm_interface_transmit_frame]
  | request f =>
    simp only [runAction, Outcome.bind_eq_ok, Outcome.ok.injEq] at h
    obtain ⟨r, hr, h⟩ := h
    subst h
    exact (Request_frame _ _ _ _ _ _ hr).2.1
  | requestUnsolicited f =>
    simp only [runAction, Outcome.bind_eq_ok, Outcome.ok.injEq] at h
    obtain ⟨r, hr, h⟩ := h
    subst h
    exact (RequestUnsolicited_frame _ _ _ _ _ _ hr).2.1
  | purgeCallback =>
    simp only [runAction, Outcome.ok.injEq] at h
    subst h
    rfl
  | purgeCommand =>
    simp only [runAction, Outcome.ok.injEq] at h
    subst h
    rfl
  | setStateIdle =>
    simp only [runAction, Outcome.ok.injEq] at h
    subst h
    rfl
  | setStateAndNotifyIdle =>
    simp only [runAction, Outcome.ok.injEq] at h
    subst h
    exact (set_state_and_notify_fields _ _).1

/-- No handler built from the operations changes `retry`. -/
theorem runActions_retry (cfg : Config) (env : Env) (acts : List HandlerAction) :
    ∀ m m1 : Machine, runActions cfg env acts m = .ok m1 → m1.retry = m.retry := by
  induction acts with
  | nil =>
    intro m m1 h
    simp only [runActions, Outcome.ok.injEq] at h
    subst h
    rfl
  | cons a acts ih =>
    intro m m1 h
    simp only [runActions, Outcome.bind_eq_ok] at h
    obtain ⟨m2, h2, h3⟩ := h
    rw [ih m2 m1 h3, runAction_retry cfg env a m m2 h2]

/-- The retry-counter invariant: `retry` within the budget, and zero outside
the transmit-wait states. -/
theorem retry_inv_step (cfg : Config) (env : Env) (m m1 : Machine)
    (henv : HandlersUseActions cfg env)
    (hle : m.retry ≤ cfg.MAX_SERIAL_RETRY)
    (hz : m.state.isTxWait = false → m.retry = 0)
    (h : SerialAPIStateHandler cfg env m = .ok m1) :
    m1.retry ≤ cfg.MAX_SERIAL_RETRY ∧ (m1.state.isTxWait = false → m1.retry = 0) ∧
    (m.state.isTxWait = false → m1.retry = 0) ∧
    (m.state.isTxWait = true → env.parse = .PARSE_FRAME_SENT → m1.retry = 0) := by
  have key : ∀ s : SerialState, m1.retry = 0 →
      m1.retry ≤ cfg.MAX_SERIAL_RETRY ∧ (m1.state.isTxWait = false → m1.retry = 0) ∧
      (s.isTxWait = false → m1.retry = 0) ∧
      (s.isTxWait = true → env.parse = .PARSE_FRAME_SENT → m1.retry = 0) := by
    intro s h1
    exact ⟨by omega, fun _ => h1, fun _ => h1, fun _ _ => h1⟩
  unfold SerialAPIStateHandler at h
  cases hst : m.state with
  | stateStartup =>
    have h0 : m.retry = 0 := hz (by rw [hst]; rfl)
    simp only [hst, Outcome.bind_eq_ok, Outcome.ok.injEq] at h
    obtain ⟨m2, h2, h3⟩ := h
    subst h3
    apply key
    rw [(set_state_and_notify_fields _ _).1]
    simp only [extCall]
    rw [(ApplicationInitSW_frame cfg _ m m2 h2).2.1, h0]
  | stateIdle =>
    have h0 : m.retry = 0 := hz (by rw [hst]; rfl)
    simp only [hst] at h
    apply key
    split at h
    · split at h
      · cases h
      · simp only [Outcome.ok.injEq] at h
        subst h
        simp [set_state_and_notify_fields, comm_interface_transmit_frame, h0]
    · split at h
      · split at h
        · cases h
        · simp only [Outcome.ok.injEq] at h
          subst h
          simp [set_state_and_notify_fields, comm_interface_transmit_frame, h0]
      · split at h
        · simp only [Outcome.ok.injEq] at h
          subst h
          simp [set_state_and_notify_fields, comm_interface_parse_data, h0]
        · simp only [Outcome.ok.injEq] at h
          subst h
          simp [comm_interface_parse_data, h0]
  | stateFrameParse =>
    have h0 : m.retry = 0 := hz (by rw [hst]; rfl)
    simp only [hst, SerialAPICommandHandler, invoke_cmd_handler] at h
    apply key
    cases hl : env.lookup_handler env.serial_frame_cmd with
    | none =>
      simp only [hl, Outcome.bind, if_true, Outcome.ok.injEq] at h
      subst h
      rw [(set_state_and_notify_fields _ _).1, h0]
    | some hd =>
      obtain ⟨acts, hacts⟩ := henv _ _ hl
      simp only [hl, Outcome.bind_eq_ok, Outcome.ok.injEq] at h
      obtain ⟨r, ⟨m2, h2, h3⟩, h4⟩ := h
      subst h3
      simp only [Bool.true_eq_false, if_false, Outcome.ok.injEq] at h4
      subst h4
      rw [hacts] at h2
      rw [runActions_retry cfg env acts m _ h2, h0]
  | stateTxSerial =>
    simp only [hst] at h
    split at h
    · simp only [Outcome.ok.injEq] at h
      subst h
      apply key
      simp [set_state_and_notify_fields]
    · rename_i hns
      split at h
      · split at h
        · rename_i hr
          simp only [Outcome.ok.injEq] at h
          subst h
          simp only [comm_interface_parse_data] at hr
          refine ⟨?_, ?_, ?_, ?_⟩
          · simp only [comm_interface_transmit_frame, comm_interface_parse_data]
            exact le_trans (Nat.mod_le _ _) hr
          · intro hx
            simp [comm_interface_transmit_frame, comm_interface_parse_data, hst,
              SerialState.isTxWait] at hx
          · intro hx
            simp [SerialState.isTxWait] at hx
          · intro _ hp
            exact absurd hp hns
        · simp only [Outcome.ok.injEq] at h
          subst h
          apply key
          simp [set_state_and_notify_fields]
      · simp only [Outcome.ok.injEq] at h
        subst h
        refine ⟨hle, ?_, ?_, ?_⟩
        · intro hx
          simp [comm_interface_parse_data, hst, SerialState.isTxWait] at hx
        · intro hx
          simp [SerialState.isTxWait] at hx
        · intro _ hp
          exact absurd hp hns
  | stateCallbackTxSerial =>
    simp only [hst] at h
    split at h
    · simp only [Outcome.ok.injEq] at h
      subst h
      apply key
      exact (PopCallBackQueue_fields _).2.1
    · rename_i hns
      split at h
      · split at h
        · rename_i hr
          simp only [Outcome.ok.injEq] at h
          subst h
          simp only [comm_interface_parse_data] at hr
          refine ⟨?_, ?_, ?_, ?_⟩
          · simp only [comm_interface_transmit_frame, comm_interface_parse_data]
            exact le_trans (Nat.mod_le _ _) hr
          · intro hx
            simp [comm_interface_transmit_frame, comm_interface_parse_data, hst,
              SerialState.isTxWait] at hx
          · intro hx
            simp [SerialState.isTxWait] at hx
          · intro _ hp
            exact absurd hp hns
        · simp only [Outcome.ok.injEq] at h
          subst h
          apply key
          exact (PopCallBackQueue_fields _).2.1
      · simp only [Outcome.ok.injEq] at h
        subst h
        refine ⟨hle, ?_, ?_, ?_⟩
        · intro hx
          simp [comm_interface_parse_data, hst, SerialState.isTxWait] at hx
        · intro hx
          simp [SerialState.isTxWait] at hx
        · intro _ hp
          exact absurd hp hns
  | stateCommandTxSerial =>
    simp only [hst] at h
    split at h
    · simp only [Outcome.ok.injEq] at h
      subst h
      apply key
      exact (PopCommandQueue_fields _).2.1
    · rename_i hns
      split at h
      · split at h
        · rename_i hr
          simp only [Outcome.ok.injEq] at h
          subst h
          simp only [comm_interface_parse_data] at hr
          refine ⟨?_, ?_, ?_, ?_⟩
          · simp only [comm_interface_transmit_frame, comm_interface_parse_data]
            exact le_trans (Nat.mod_le _ _) hr
          · intro hx
            simp [comm_interface_transmit_frame, comm_interface_parse_data, hst,
              SerialState.isTxWait] at hx
          · intro hx
            simp [SerialState.isTxWait] at hx
          · intro _ hp
            exact absurd hp hns
        · simp only [Outcome.ok.injEq] at h
          subst h
          apply key
          exact (PopCommandQueue_fields _).2.1
      · simp only [Outcome.ok.injEq] at h
        subst h
        refine ⟨hle, ?_, ?_, ?_⟩
        · intro hx
          simp [comm_interface_parse_data, hst, SerialState.isTxWait] at hx
        · intro hx
          simp [SerialState.isTxWait] at hx
        · intro _ hp
          exact absurd hp hns
  | other v =>
    have h0 : m.retry = 0 := hz (by rw [hst]; rfl)
    simp only [hst, Outcome.ok.injEq] at h
    subst h
    apply key
    rw [(set_state_and_notify_fields _ _).1, h0]

/-- Every event keeps the retry-counter invariant. -/
theorem retry_inv_event (cfg : Config) (ev : SystemEvent) (m m1 : Machine)
    (hev : ev.handlersOk cfg)
    (hle : m.retry ≤ cfg.MAX_SERIAL_RETRY)
    (hz : m.state.isTxWait = false → m.retry = 0)
    (h : runEvent cfg ev m = .ok m1) :
    m1.retry ≤ cfg.MAX_SERIAL_RETRY ∧ (m1.state.isTxWait = false → m1.retry = 0) := by
  cases ev with
  | wake env =>
    have := retry_inv_step cfg env m m1 hev hle hz h
    exact ⟨this.1, this.2.1⟩
  | request f =>
    simp only [runEvent, Outcome.bind_eq_ok, Outcome.ok.injEq] at h
    obtain ⟨r, hr, h⟩ := h
    subst h
    obtain ⟨f1, f2, _⟩ := Request_frame _ _ _ _ _ _ hr
    rw [f1, f2]
    exact ⟨hle, hz⟩
  | requestUnsolicited f =>
    simp only [runEvent, Outcome.bind_eq_ok, Outcome.ok.injEq] at h
    obtain ⟨r, hr, h⟩ := h
    subst h
    obtain ⟨f1, f2, _⟩ := RequestUnsolicited_frame _ _ _ _ _ _ hr
    rw [f1, f2]
    exact ⟨hle, hz⟩

/-- Every run of events keeps the retry-counter invariant. -/
theorem retry_inv_events (cfg : Config) (evs : List SystemEvent) :
    ∀ m m1 : Machine, (∀ ev ∈ evs, ev.handlersOk cfg) →
      m.retry ≤ cfg.MAX_SERIAL_RETRY → (m.state.isTxWait = false → m.retry = 0) →
      runEvents cfg evs m = .ok m1 →
      m1.retry ≤ cfg.MAX_SERIAL_RETRY ∧ (m1.state.isTxWait = false → m1.retry = 0) := by
  induction evs with
  | nil =>
    intro m m1 _ hle hz h
    simp only [runEvents, Outcome.ok.injEq] at h
    subst h
    exact ⟨hle, hz⟩
  | cons ev evs ih =>
    intro m m1 hall hle hz h
    simp only [runEvents, Outcome.bind_eq_ok] at h
    obtain ⟨m2, h2, h3⟩ := h
    have := retry_inv_event cfg ev m m2 (hall ev (by simp)) hle hz h2
    exact ih m2 m1 (fun e he => hall e (by simp [he])) this.1 this.2 h3

/-- C17. Start from the initial machine (`state = 0xff`, `retry = 0`, empty
queues), or from that machine once `ApplicationTask` has set `stateStartup`,
and let any sequence of events happen: runs of `SerialAPIStateHandler` (whose
handlers respond, enqueue, purge or return to `stateIdle`) and enqueues in
between. In every machine reached, `retry ≤ MAX_SERIAL_RETRY`, and `retry = 0`
whenever the state is not one of the three transmit-wait states. Hence any
further run of the state handler that starts outside a transmit-wait state
ends with `retry = 0` (in particular when it enters one), and so does any run
that sees the acknowledge of a transmission. -/
theorem retry_counter_invariant (cfg : Config) (evs : List SystemEvent) (m0 m : Machine)
    (h0 : m0 = initMachine cfg ∨ m0 = startedMachine cfg)
    (hev : ∀ ev ∈ evs, ev.handlersOk cfg)
    (hrun : runEvents cfg evs m0 = .ok m) :
    m.retry ≤ cfg.MAX_SERIAL_RETRY ∧
    (m.state ≠ .stateTxSerial → m.state ≠ .stateCallbackTxSerial →
      m.state ≠ .stateCommandTxSerial → m.retry = 0) ∧
    (∀ env m1, HandlersUseActions cfg env → SerialAPIStateHandler cfg env m = .ok m1 →
      (m.state.isTxWait = false → m1.retry = 0) ∧
      (m.state.isTxWait = true → env.parse = .PARSE_FRAME_SENT → m1.retry = 0)) := by
  have hstart : m0.retry ≤ cfg.MAX_SERIAL_RETRY ∧ (m0.state.isTxWait = false → m0.retry = 0) := by
    rcases h0 with h | h
    · subst h
      exact ⟨Nat.zero_le _, fun _ => rfl⟩
    · subst h
      have hr : (startedMachine cfg).retry = 0 := by
        unfold startedMachine
        rw [(set_state_and_notify_fields _ _).1]
        rfl
      rw [hr]
      exact ⟨Nat.zero_le _, fun _ => rfl⟩
  have hinv := retry_inv_events cfg evs m0 m hev hstart.1 hstart.2 hrun
  refine ⟨hinv.1, ?_, ?_⟩
  · intro a b c
    apply hinv.2
    cases hs : m.state <;> simp_all [SerialState.isTxWait]
  · intro env m1 henv hstep
    have := retry_inv_step cfg env m m1 henv hinv.1 hinv.2 hstep
    exact ⟨this.2.2.1, this.2.2.2⟩

/-- C17 at a concrete run with `MAX_SERIAL_RETRY = 3`: boot, start-up
notification with one timeout, a frame whose handler responds, and two
timeouts on that response leave the machine in `stateTxSerial` with
`retry = 2`. -/
theorem retry_counter_invariant_witness :
    runEvents cfg16 bootEvents (startedMachine cfg16)
      = .ok ((runEvents cfg16 bootEvents (startedMachine cfg16)).getD (initMachine cfg16)) ∧
    ((runEvents cfg16 bootEvents (startedMachine cfg16)).getD (initMachine cfg16)).state
      = .stateTxSerial ∧
    ((runEvents cfg16 bootEvents (startedMachine cfg16)).getD (initMachine cfg16)).retry = 2 ∧
    ((runEvents cfg16 bootEvents (startedMachine cfg16)).getD (initMachine cfg16)).retry
      ≤ cfg16.MAX_SERIAL_RETRY :=
  have hrun : runEvents cfg16 bootEvents (startedMachine cfg16)
      = .ok ((runEvents cfg16 bootEvents (startedMachine cfg16)).getD (initMachine cfg16)) := by
    decide
  have hnone : ∀ p, HandlersUseActions cfg16 (envOf p) := by
    intro p c h hc
    simp [envOf] at hc
  have hresp : ∀ p, HandlersUseActions cfg16 (envResponding p) := by
    intro p c h hc
    refine ⟨[.respond 0x0B [1] 1], ?_⟩
    intro m
    simp only [envResponding] at hc
    split at hc
    · simp only [Option.some.injEq] at hc
      subst hc
      rfl
    · cases hc
  have hev : ∀ ev ∈ bootEvents, ev.handlersOk cfg16 := by
    intro ev hmem
    simp only [bootEvents, List.mem_cons, List.mem_singleton, List.not_mem_nil, or_false] at hmem
    rcases hmem with h | h | h | h | h | h | h | h | h | h | h <;> subst h <;>
      first
        | exact hnone _
        | exact hresp _
        | exact trivial
  ⟨hrun, by decide, by decide,
    (retry_counter_invariant cfg16 bootEvents (startedMachine cfg16) _ (Or.inr rfl) hev hrun).1⟩

/-! ## Writing the work buffer front to back -/

theorem take_set_same (l : List Nat) : ∀ (i a : Nat), (l.set i a).take i = l.take i := by
  induction l with
  | nil => intro i a; simp
  | cons x xs ih =>
    intro i a
    cases i with
    | zero => simp
    | succ i => simp [ih]

/-- A write at index `i` extends the first `i` bytes by the byte written. -/
theorem writeByte_prefix (buf : List Nat) (i v : Nat) (h : i < buf.length) :
    ∃ b, writeByte buf i v = .ok b ∧ b.length = buf.length ∧
      b.take (i + 1) = buf.take i ++ [v % 256] := by
  refine ⟨buf.set i (v % 256), by simp [writeByte, h], by simp, ?_⟩
  rw [List.take_succ, take_set_same, List.getElem?_set_self h]
  rfl

/-- A write outside the buffer is the out-of-bounds outcome. -/
theorem writeByte_outside (buf : List Nat) (i v : Nat) (h : buf.length ≤ i) :
    writeByte buf i v = .outOfBounds := by
  simp [writeByte, Nat.not_lt.mpr h]

/-- The copy loop extends the bytes before its first index by the bytes copied. -/
theorem forCopy_prefix (base : Nat) (src : List Nat) (r : Nat) :
    ∀ (k : Nat) (buf : List Nat), base + k + r ≤ buf.length → k + r ≤ src.length →
      ∃ b, forCopy base src k r buf = .ok b ∧ b.length = buf.length ∧
        b.take (base + k + r) = buf.take (base + k) ++ ((src.drop k).take r).map (· % 256) := by
  induction r with
  | zero =>
    intro k buf _ _
    exact ⟨buf, rfl, rfl, by simp⟩
  | succ r ih =>
    intro k buf h1 h2
    have hk : k < src.length := by omega
    obtain ⟨b1, w1, w2, w3⟩ := writeByte_prefix buf (base + k) src[k] (by omega)
    obtain ⟨b, c1, c2, c3⟩ := ih (k + 1) b1 (by omega) (by omega)
    refine ⟨b, ?_, by rw [c2, w2], ?_⟩
    · simp only [forCopy, List.getElem?_eq_getElem hk, w1, Outcome.bind]
      exact c1
    · have e1 : base + k + (r + 1) = base + (k + 1) + r := by omega
      rw [e1, c3, ← Nat.add_assoc, w3, List.drop_eq_getElem_cons hk, List.take_succ_cons]
      simp

/-- The node-ID field: with room for it, `writeNodeId` extends the first byte
of the buffer by the node-ID bytes and returns the offset `width - 1`. -/
theorem writeNodeId_prefix (cfg : Config) (t nodeID : Nat) (buf : List Nat)
    (h : nodeIdWidth cfg t < buf.length) :
    ∃ b, writeNodeId cfg t nodeID buf = .ok (b, nodeIdWidth cfg t - 1) ∧
      b.length = buf.length ∧
      b.take (nodeIdWidth cfg t + 1) = buf.take 1 ++ nodeIdBytes cfg t nodeID := by
  unfold nodeIdWidth at h ⊢
  unfold writeNodeId nodeIdBytes
  by_cases ht : cfg.SERIAL_API_SETUP_NODEID_BASE_TYPE_16_BIT = t
  · simp only [ht, if_true] at h ⊢
    obtain ⟨b1, w1, w2, w3⟩ := writeByte_prefix buf 1 (nodeID / 256) (by omega)
    obtain ⟨b2, x1, x2, x3⟩ := writeByte_prefix b1 2 (nodeID % 256) (by omega)
    refine ⟨b2, by simp only [w1, x1, Outcome.bind], by rw [x2, w2], ?_⟩
    rw [x3, w3]
    simp
  · simp only [ht, if_false] at h ⊢
    obtain ⟨b1, w1, w2, w3⟩ := writeByte_prefix buf 1 (nodeID % 256) (by omega)
    refine ⟨b1, by simp only [w1, Outcome.bind], w2, ?_⟩
    rw [w3]
    simp

/-! ## The node-update builder -/

/-- The clamps of `ApplicationNodeUpdate` compute the spec's length. -/
theorem nodeUpdate_clamp (cfg : Config) (t bLen offset : Nat)
    (hB : cfg.BUF_SIZE_TX < 256) (hb : bLen < 256)
    (ho : offset + 1 = nodeIdWidth cfg t)
    (hW : nodeIdWidth cfg t + 2 ≤ cfg.BUF_SIZE_TX) :
    (if (if bLen > cfg.MAX_NODE_INFO_LENGTH then cfg.MAX_NODE_INFO_LENGTH else bLen) % 256
          > uint8 ((cfg.BUF_SIZE_TX : Int) - ((offset : Int) + 3)) then
        uint8 ((cfg.BUF_SIZE_TX : Int) - ((offset : Int) + 3))
      else (if bLen > cfg.MAX_NODE_INFO_LENGTH then cfg.MAX_NODE_INFO_LENGTH else bLen) % 256)
      = nodeUpdateInfoLength cfg t bLen := by
  unfold nodeUpdateInfoLength uint8
  rw [← ho]
  have hroom : (((cfg.BUF_SIZE_TX : Int) - ((offset : Int) + 3)) % 256).toNat
      = cfg.BUF_SIZE_TX - (offset + 1 + 2) := by omega
  rw [hroom]
  by_cases h1 : bLen > cfg.MAX_NODE_INFO_LENGTH
  · simp only [h1, if_true]
    have hm : cfg.MAX_NODE_INFO_LENGTH % 256 = cfg.MAX_NODE_INFO_LENGTH :=
      Nat.mod_eq_of_lt (by omega)
    rw [hm]
    split <;> omega
  · simp only [h1, if_false]
    have hm : bLen % 256 = bLen := Nat.mod_eq_of_lt hb
    rw [hm]
    split <;> omega

/-- What `ApplicationNodeUpdate` leaves in the work buffer and which length it
passes on, for a buffer that has room for the fixed fields. -/
theorem ApplicationNodeUpdate_workbuf_spec (cfg : Config) (t bStatus nodeID : Nat)
    (pCmd : Option (List Nat)) (bLen : Nat) (buf : List Nat)
    (hB : cfg.BUF_SIZE_TX < 256) (hW : nodeIdWidth cfg t + 2 ≤ cfg.BUF_SIZE_TX)
    (hbuf : buf.length = cfg.BUF_SIZE_TX) (hb : bLen < 256)
    (hsrc : ∀ info, pCmd = some info → nodeUpdateInfoLength cfg t bLen ≤ info.length) :
    ∃ b, ApplicationNodeUpdate_workbuf cfg t bStatus nodeID pCmd bLen buf
        = .ok (b, nodeIdWidth cfg t + 2 + nodeUpdateInfoLength cfg t bLen) ∧
      b.length = buf.length ∧
      nodeIdWidth cfg t + 2 + nodeUpdateInfoLength cfg t bLen ≤ cfg.BUF_SIZE_TX ∧
      b.take (nodeIdWidth cfg t + 2)
        = [bStatus % 256] ++ nodeIdBytes cfg t nodeID ++ [nodeUpdateInfoLength cfg t bLen] ∧
      (∀ info, pCmd = some info →
        b.take (nodeIdWidth cfg t + 2 + nodeUpdateInfoLength cfg t bLen)
          = [bStatus % 256] ++ nodeIdBytes cfg t nodeID ++ [nodeUpdateInfoLength cfg t bLen]
            ++ (info.take (nodeUpdateInfoLength cfg t bLen)).map (· % 256)) := by
  have hw : nodeIdWidth cfg t = 1 ∨ nodeIdWidth cfg t = 2 := by
    unfold nodeIdWidth
    split <;> simp
  have hLle : nodeUpdateInfoLength cfg t bLen ≤ cfg.BUF_SIZE_TX - (nodeIdWidth cfg t + 2) := by
    unfold nodeUpdateInfoLength
    omega
  have hL256 : nodeUpdateInfoLength cfg t bLen % 256 = nodeUpdateInfoLength cfg t bLen :=
    Nat.mod_eq_of_lt (by omega)
  obtain ⟨b0, w0, l0, t0⟩ := writeByte_prefix buf 0 bStatus (by omega)
  obtain ⟨b1, w1, l1, t1⟩ := writeNodeId_prefix cfg t nodeID b0 (by omega)
  obtain ⟨offset, ho⟩ : ∃ offset, offset + 1 = nodeIdWidth cfg t :=
    ⟨nodeIdWidth cfg t - 1, by omega⟩
  have ho' : nodeIdWidth cfg t - 1 = offset := by omega
  rw [ho'] at w1
  have hclamp := nodeUpdate_clamp cfg t bLen offset hB hb ho hW
  obtain ⟨b3, w3, l3, t3⟩ := writeByte_prefix b1 (offset + 2)
    (nodeUpdateInfoLength cfg t bLen) (by omega)
  have e2 : offset + 2 + 1 = nodeIdWidth cfg t + 2 := by omega
  have e1 : offset + 2 = nodeIdWidth cfg t + 1 := by omega
  have hhead : b3.take (nodeIdWidth cfg t + 2)
      = [bStatus % 256] ++ nodeIdBytes cfg t nodeID ++ [nodeUpdateInfoLength cfg t bLen] := by
    rw [← e2, t3, e1, t1, t0, hL256]
    simp
  have hlen : (offset + nodeUpdateInfoLength cfg t bLen + 3) % 256
      = nodeIdWidth cfg t + 2 + nodeUpdateInfoLength cfg t bLen := by
    omega
  unfold ApplicationNodeUpdate_workbuf
  simp only [w0, w1, Outcome.bind, hclamp, w3, hlen]
  cases pCmd with
  | none =>
    refine ⟨b3, rfl, by rw [l3, l1, l0], by omega, hhead, ?_⟩
    intro info hinfo
    cases hinfo
  | some info =>
    have hs := hsrc info rfl
    by_cases hpos : nodeUpdateInfoLength cfg t bLen > 0
    · obtain ⟨b4, c1, c2, c3⟩ := forCopy_prefix (offset + 3) info
        (nodeUpdateInfoLength cfg t bLen) 0 b3 (by omega) (by omega)
      have e3 : offset + 3 + 0 = nodeIdWidth cfg t + 2 := by omega
      rw [e3] at c3
      have hhead4 : b4.take (nodeIdWidth cfg t + 2)
          = [bStatus % 256] ++ nodeIdBytes cfg t nodeID
            ++ [nodeUpdateInfoLength cfg t bLen] := by
        have := congrArg (List.take (nodeIdWidth cfg t + 2)) c3
        rw [List.take_take, Nat.min_eq_left (by omega)] at this
        rw [this, List.take_append_of_le_length (by simp; omega), List.take_take,
          Nat.min_self, hhead]
      simp only [hpos, if_true, c1]
      refine ⟨b4, rfl, by rw [c2, l3, l1, l0], by omega, hhead4, ?_⟩
      intro info' hinfo
      simp only [Option.some.injEq] at hinfo
      subst hinfo
      rw [c3, hhead]
      simp
    · have hz : nodeUpdateInfoLength cfg t bLen = 0 := by omega
      simp only [hpos, if_false]
      refine ⟨b3, rfl, by rw [l3, l1, l0], by omega, hhead, ?_⟩
      intro info' _
      rw [hz] at hhead ⊢
      simp only [Nat.add_zero, List.take_zero, List.map_nil, List.append_nil]
      exact hhead

/-- Bytes are unchanged by the reduction modulo 256. -/
theorem map_mod_bytes (l : List Nat) (h : ∀ x ∈ l, x < 256) : l.map (· % 256) = l := by
  induction l with
  | nil => rfl
  | cons x xs ih =>
    simp only [List.map_cons]
    rw [Nat.mod_eq_of_lt (h x (by simp)), ih (fun y hy => h y (by simp [hy]))]

/-! ## C18: the node-update frame -/

/-- C18. Let the buffer be smaller than 256 bytes and hold the fixed fields,
and let the command queue have room. For every status byte, node ID, info
buffer (holding the bytes to be copied) and `bLen < 256`,
`ApplicationNodeUpdate` enqueues on the command queue a
`FUNC_ID_ZW_APPLICATION_UPDATE` entry whose payload is
`status | nodeID (W bytes) | L | info[0..L)` and whose length is `W + 2 + L`,
where `W` is 2 for 16-bit node IDs (high byte, then low byte) and 1 otherwise
(low byte only) and `L = min (bLen, MAX_NODE_INFO_LENGTH, BUF_SIZE_TX - (W + 2))`. -/
theorem node_update_frame (cfg : Config) (m : Machine) (bStatus nodeID bLen : Nat)
    (info : List Nat)
    (hB : cfg.BUF_SIZE_TX < 256)
    (hW : nodeIdWidth cfg m.nodeIdBaseType + 2 ≤ cfg.BUF_SIZE_TX)
    (hbuf : m.compl_workbuf.length = cfg.BUF_SIZE_TX)
    (hs : bStatus < 256) (hb : bLen < 256)
    (hinfo : nodeUpdateInfoLength cfg m.nodeIdBaseType bLen ≤ info.length)
    (hbytes : ∀ x ∈ info, x < 256)
    (hq : m.commandQueue.requestCnt < 8 ∧ m.commandQueue.requestIn < 8 ∧
      m.commandQueue.requestQueue.length = 8) :
    ∃ m1 e, ApplicationNodeUpdate cfg bStatus nodeID (some info) bLen m = .ok m1 ∧
      m1.commandQueue.requestQueue[m.commandQueue.requestIn]? = some e ∧
      m1.commandQueue.requestCnt = m.commandQueue.requestCnt + 1 ∧
      m1.callbackQueue = m.callbackQueue ∧
      e.wCmd = cfg.FUNC_ID_ZW_APPLICATION_UPDATE ∧
      e.wLen = nodeIdWidth cfg m.nodeIdBaseType + 2
        + nodeUpdateInfoLength cfg m.nodeIdBaseType bLen ∧
      e.wBuf.take e.wLen
        = [bStatus] ++ nodeIdBytes cfg m.nodeIdBaseType nodeID
          ++ [nodeUpdateInfoLength cfg m.nodeIdBaseType bLen]
          ++ info.take (nodeUpdateInfoLength cfg m.nodeIdBaseType bLen) ∧
      nodeUpdateInfoLength cfg m.nodeIdBaseType bLen
        = min bLen (min cfg.MAX_NODE_INFO_LENGTH
            (cfg.BUF_SIZE_TX - (nodeIdWidth cfg m.nodeIdBaseType + 2))) := by
  obtain ⟨b, hwb, hbl, hle, _, hpay⟩ := ApplicationNodeUpdate_workbuf_spec cfg m.nodeIdBaseType
    bStatus nodeID (some info) bLen m.compl_workbuf hB hW hbuf hb
    (fun i hi => by
      simp only [Option.some.injEq] at hi
      subst hi
      exact hinfo)
  obtain ⟨c1, c2, c3⟩ := hq
  have hmodB : cfg.BUF_SIZE_TX % 256 = cfg.BUF_SIZE_TX := Nat.mod_eq_of_lt hB
  have hlt : m.commandQueue.requestIn < m.commandQueue.requestQueue.length := by omega
  have hR := RequestUnsolicited_accept cfg cfg.FUNC_ID_ZW_APPLICATION_UPDATE b
    (nodeIdWidth cfg m.nodeIdBaseType + 2 + nodeUpdateInfoLength cfg m.nodeIdBaseType bLen)
    { m with compl_workbuf := b } _ (by show m.commandQueue.requestCnt < 8; exact c1)
    (List.getElem?_eq_getElem hlt) (Or.inl (by rw [hmodB]; exact hle))
  rw [hmodB, Nat.min_eq_left hle] at hR
  unfold ApplicationNodeUpdate
  simp only [hwb, Outcome.bind, hR]
  refine ⟨_, _, rfl, List.getElem?_set_self hlt, rfl, rfl, rfl, rfl, ?_, rfl⟩
  simp only
  rw [memcpy_take _ _ _ (by rw [hbl, hbuf]; exact hle), hpay info rfl, Nat.mod_eq_of_lt hs,
    map_mod_bytes _ (fun x hx => hbytes x (List.mem_of_mem_take hx))]

/-- C18 at a concrete input: 16-bit node IDs, a 100-byte buffer, node ID
`0x1234` and five info bytes. -/
theorem node_update_frame_witness :
    ∃ m1 e, ApplicationNodeUpdate cfg100 0x84 0x1234 (some [10, 11, 12, 13, 14, 15, 16]) 5
        { initMachine cfg100 with nodeIdBaseType := 2 } = .ok m1 ∧
      m1.commandQueue.requestQueue[0]? = some e ∧
      m1.commandQueue.requestCnt = 0 + 1 ∧
      m1.callbackQueue = (initMachine cfg100).callbackQueue ∧
      e.wCmd = 0x49 ∧
      e.wLen = 2 + 2 + 5 ∧
      e.wBuf.take e.wLen = [0x84] ++ [0x12, 0x34] ++ [5] ++ [10, 11, 12, 13, 14] ∧
      5 = min 5 (min 173 (100 - (2 + 2))) :=
  node_update_frame cfg100 { initMachine cfg100 with nodeIdBaseType := 2 } 0x84 0x1234 5
    [10, 11, 12, 13, 14, 15, 16] (by decide) (by decide) (by decide) (by decide) (by decide)
    (by decide) (by decide) (by decide)

/-! ## C19: truncation in the node-update builder -/

/-- C19. Let the buffer be smaller than 256 bytes and hold the fixed fields.
For every `bLen < 256`, either node-ID width and any info pointer (`NULL`, or a
buffer holding the bytes to be copied), `ApplicationNodeUpdate` writes the
work buffer without leaving it, passes a length of at most `BUF_SIZE_TX` on to
the queue, keeps the fixed fields `status | nodeID | infoLength` in front, and
the `infoLength` byte is the number of bytes that follow it in the frame; for a
buffer that is not `NULL` those bytes are the first `infoLength` info bytes.
With `BUF_SIZE_TX = 100`, `MAX_NODE_INFO_LENGTH = 173`, 8-bit node IDs and
`bLen = 255` the `infoLength` byte is 97 and the length passed on is 100. -/
theorem node_update_truncation (cfg : Config) (t bStatus nodeID : Nat)
    (pCmd : Option (List Nat)) (bLen : Nat) (buf : List Nat)
    (hB : cfg.BUF_SIZE_TX < 256) (hW : nodeIdWidth cfg t + 2 ≤ cfg.BUF_SIZE_TX)
    (hbuf : buf.length = cfg.BUF_SIZE_TX) (hb : bLen < 256)
    (hsrc : ∀ info, pCmd = some info → nodeUpdateInfoLength cfg t bLen ≤ info.length) :
    ∃ b len infoLength,
      ApplicationNodeUpdate_workbuf cfg t bStatus nodeID pCmd bLen buf = .ok (b, len) ∧
      b.length = cfg.BUF_SIZE_TX ∧
      len ≤ cfg.BUF_SIZE_TX ∧
      b.take (nodeIdWidth cfg t + 2)
        = [bStatus % 256] ++ nodeIdBytes cfg t nodeID ++ [infoLength] ∧
      len = nodeIdWidth cfg t + 2 + infoLength ∧
      infoLength ≤ bLen ∧
      (∀ info, pCmd = some info →
        (b.take len).drop (nodeIdWidth cfg t + 2) = (info.take infoLength).map (· % 256)) ∧
      (cfg.BUF_SIZE_TX = 100 → cfg.MAX_NODE_INFO_LENGTH = 173 →
        cfg.SERIAL_API_SETUP_NODEID_BASE_TYPE_16_BIT ≠ t → bLen = 255 →
        infoLength = 97 ∧ len = 100) := by
  obtain ⟨b, hwb, hbl, hle, hhead, hpay⟩ := ApplicationNodeUpdate_workbuf_spec cfg t
    bStatus nodeID pCmd bLen buf hB hW hbuf hb hsrc
  refine ⟨b, _, nodeUpdateInfoLength cfg t bLen, hwb, by rw [hbl, hbuf], hle, hhead, rfl, ?_,
    ?_, ?_⟩
  · unfold nodeUpdateInfoLength
    exact Nat.min_le_left _ _
  · intro info hi
    rw [hpay info hi]
    have hl : ([bStatus % 256] ++ nodeIdBytes cfg t nodeID
        ++ [nodeUpdateInfoLength cfg t bLen]).length = nodeIdWidth cfg t + 2 := by
      unfold nodeIdBytes nodeIdWidth
      split <;> simp
    rw [← hl, List.drop_left]
  · intro h100 h173 h8 h255
    have hw1 : nodeIdWidth cfg t = 1 := by
      unfold nodeIdWidth
      simp [h8]
    have hL : nodeUpdateInfoLength cfg t bLen = 97 := by
      unfold nodeUpdateInfoLength
      rw [hw1, h100, h173, h255]
      decide
    rw [hL, hw1]
    exact ⟨rfl, rfl⟩

/-- C19 at the scenario of the claim: a 100-byte buffer,
`MAX_NODE_INFO_LENGTH = 173`, 8-bit node IDs and 255 info bytes offered. -/
theorem node_update_truncation_witness :
    ∃ b len infoLength,
      ApplicationNodeUpdate_workbuf cfg100 1 0x84 0x1234 (some (countingBytes 255)) 255
        (List.replicate 100 0) = .ok (b, len) ∧
      b.length = 100 ∧ len ≤ 100 ∧
      b.take (1 + 2) = [0x84 % 256] ++ nodeIdBytes cfg100 1 0x1234 ++ [infoLength] ∧
      len = 1 + 2 + infoLength ∧
      infoLength ≤ 255 ∧
      (b.take len).drop (1 + 2) = ((countingBytes 255).take infoLength).map (· % 256) ∧
      infoLength = 97 ∧ len = 100 := by
  obtain ⟨b, len, infoLength, h1, h2, h3, h4, h5, h6, h7, h8⟩ :=
    node_update_truncation cfg100 1 0x84 0x1234 (some (countingBytes 255)) 255
      (List.replicate 100 0) (by decide) (by decide) (by decide) (by decide)
      (fun info hi => by
        simp only [Option.some.injEq] at hi
        subst hi
        unfold nodeUpdateInfoLength
        exact le_trans (Nat.min_le_left _ _) (by simp [countingBytes]))
  exact ⟨b, len, infoLength, h1, h2, h3, h4, h5, h6, h7 _ rfl,
    h8 rfl rfl (by decide) rfl⟩

/-! ## The application-command builder -/

theorem uint8_mod (x : Int) : uint8 x % 256 = uint8 x := by
  unfold uint8
  omega

/-- What `ApplicationCommandHandler` leaves in the work buffer and which length
it passes on, for a command that fits with two bytes to spare. -/
theorem ApplicationCommandHandler_workbuf_spec (cfg : Config) (t : Nat) (rx : SReceiveSingle)
    (buf : List Nat)
    (hB : cfg.BUF_SIZE_TX < 256)
    (hfit : rx.iLength + nodeIdWidth cfg t + 6 ≤ cfg.BUF_SIZE_TX)
    (hbuf : buf.length = cfg.BUF_SIZE_TX)
    (hsrc : rx.iLength ≤ rx.Payload.length) :
    ∃ b, ApplicationCommandHandler_workbuf cfg t rx buf
        = .ok (b, nodeIdWidth cfg t + 6 + rx.iLength) ∧
      b.length = buf.length ∧
      b.take (nodeIdWidth cfg t + 6 + rx.iLength)
        = [rx.RxOptions.rxStatus % 256] ++ nodeIdBytes cfg t rx.RxOptions.sourceNode
          ++ [rx.iLength] ++ (rx.Payload.take rx.iLength).map (· % 256)
          ++ [uint8 rx.RxOptions.rxRSSIVal, rx.RxOptions.securityKey % 256,
              uint8 rx.RxOptions.bSourceTxPower, uint8 rx.RxOptions.bSourceNoiseFloor] := by
  have hw : nodeIdWidth cfg t = 1 ∨ nodeIdWidth cfg t = 2 := by
    unfold nodeIdWidth
    split <;> simp
  have hi256 : rx.iLength % 256 = rx.iLength := Nat.mod_eq_of_lt (by omega)
  obtain ⟨b0, w0, l0, t0⟩ := writeByte_prefix buf 0 rx.RxOptions.rxStatus (by omega)
  obtain ⟨b1, w1, l1, t1⟩ := writeNodeId_prefix cfg t rx.RxOptions.sourceNode b0 (by omega)
  obtain ⟨offset, ho⟩ : ∃ offset, offset + 1 = nodeIdWidth cfg t :=
    ⟨nodeIdWidth cfg t - 1, by omega⟩
  have ho' : nodeIdWidth cfg t - 1 = offset := by omega
  rw [ho'] at w1
  have hclamp : (if rx.iLength % 256 > uint8 ((cfg.BUF_SIZE_TX : Int) - ((offset : Int) + 5))
      then uint8 ((cfg.BUF_SIZE_TX : Int) - ((offset : Int) + 5)) else rx.iLength % 256)
      = rx.iLength := by
    have hroom : uint8 ((cfg.BUF_SIZE_TX : Int) - ((offset : Int) + 5))
        = cfg.BUF_SIZE_TX - (offset + 5) := by
      unfold uint8
      omega
    rw [hroom, hi256]
    split <;> omega
  obtain ⟨b3, w3, l3, t3⟩ := writeByte_prefix b1 (offset + 2) rx.iLength (by omega)
  obtain ⟨b4, w4, l4, t4⟩ := forCopy_prefix (offset + 3) rx.Payload rx.iLength 0 b3
    (by omega) (by omega)
  obtain ⟨b5, w5, l5, t5⟩ := writeByte_prefix b4 (offset + 3 + rx.iLength)
    (uint8 rx.RxOptions.rxRSSIVal) (by omega)
  obtain ⟨b6, w6, l6, t6⟩ := writeByte_prefix b5 (offset + 4 + rx.iLength)
    rx.RxOptions.securityKey (by omega)
  obtain ⟨b7, w7, l7, t7⟩ := writeByte_prefix b6 (offset + 5 + rx.iLength)
    (uint8 rx.RxOptions.bSourceTxPower) (by omega)
  obtain ⟨b8, w8, l8, t8⟩ := writeByte_prefix b7 (offset + 6 + rx.iLength)
    (uint8 rx.RxOptions.bSourceNoiseFloor) (by omega)
  have hlen : (offset + 7 + rx.iLength) % 256 = nodeIdWidth cfg t + 6 + rx.iLength := by omega
  unfold ApplicationCommandHandler_workbuf
  simp only [w0, w1, Outcome.bind, hclamp, w3, w4, w5, w6, w7, w8, hlen]
  refine ⟨b8, rfl, by rw [l8, l7, l6, l5, l4, l3, l1, l0], ?_⟩
  have e8 : nodeIdWidth cfg t + 6 + rx.iLength = offset + 6 + rx.iLength + 1 := by omega
  have e7 : offset + 6 + rx.iLength = offset + 5 + rx.iLength + 1 := by omega
  have e6 : offset + 5 + rx.iLength = offset + 4 + rx.iLength + 1 := by omega
  have e5 : offset + 4 + rx.iLength = offset + 3 + rx.iLength + 1 := by omega
  have e4 : offset + 3 + rx.iLength = offset + 3 + 0 + rx.iLength := by omega
  have e3 : offset + 3 + 0 = offset + 2 + 1 := by omega
  have e2 : offset + 2 = nodeIdWidth cfg t + 1 := by omega
  rw [e8, t8, e7, t7, e6, t6, e5, t5, e4, t4, e3, t3, e2, t1, t0, hi256, uint8_mod, uint8_mod,
    uint8_mod]
  simp

/-! ## C20: the application-command frame, untruncated -/

/-- C20. Let the buffer be smaller than 256 bytes and the command queue have
room. For every received package whose command fits,
`cmdLength + W + 6 ≤ BUF_SIZE_TX`, `ApplicationCommandHandler` enqueues on the
command queue a `FUNC_ID_APPLICATION_COMMAND_HANDLER` entry whose payload is
`rxStatus | sourceNode (W bytes) | cmdLength | cmd[0..cmdLength) | rssi |
securityKey | txPower | noiseFloor` and whose length is `W + 6 + cmdLength`,
where `W` is 2 for 16-bit node IDs (high byte, then low byte) and 1 otherwise
(low byte only); the three signed fields are stored as their `uint8_t` casts. -/
theorem application_command_frame (cfg : Config) (m : Machine) (rx : SReceiveSingle)
    (hB : cfg.BUF_SIZE_TX < 256)
    (hfit : rx.iLength + nodeIdWidth cfg m.nodeIdBaseType + 6 ≤ cfg.BUF_SIZE_TX)
    (hbuf : m.compl_workbuf.length = cfg.BUF_SIZE_TX)
    (hsrc : rx.iLength ≤ rx.Payload.length)
    (hbytes : ∀ x ∈ rx.Payload, x < 256)
    (hs : rx.RxOptions.rxStatus < 256) (hk : rx.RxOptions.securityKey < 256)
    (hq : m.commandQueue.requestCnt < 8 ∧ m.commandQueue.requestIn < 8 ∧
      m.commandQueue.requestQueue.length = 8) :
    ∃ m1 e, ApplicationCommandHandler cfg rx m = .ok m1 ∧
      m1.commandQueue.requestQueue[m.commandQueue.requestIn]? = some e ∧
      m1.commandQueue.requestCnt = m.commandQueue.requestCnt + 1 ∧
      m1.callbackQueue = m.callbackQueue ∧
      e.wCmd = cfg.FUNC_ID_APPLICATION_COMMAND_HANDLER ∧
      e.wLen = nodeIdWidth cfg m.nodeIdBaseType + 6 + rx.iLength ∧
      e.wBuf.take e.wLen
        = [rx.RxOptions.rxStatus] ++ nodeIdBytes cfg m.nodeIdBaseType rx.RxOptions.sourceNode
          ++ [rx.iLength] ++ rx.Payload.take rx.iLength
          ++ [uint8 rx.RxOptions.rxRSSIVal, rx.RxOptions.securityKey,
              uint8 rx.RxOptions.bSourceTxPower, uint8 rx.RxOptions.bSourceNoiseFloor] := by
  obtain ⟨b, hwb, hbl, hpay⟩ := ApplicationCommandHandler_workbuf_spec cfg m.nodeIdBaseType
    rx m.compl_workbuf hB hfit hbuf hsrc
  obtain ⟨c1, c2, c3⟩ := hq
  have hmodB : cfg.BUF_SIZE_TX % 256 = cfg.BUF_SIZE_TX := Nat.mod_eq_of_lt hB
  have hle : nodeIdWidth cfg m.nodeIdBaseType + 6 + rx.iLength ≤ cfg.BUF_SIZE_TX := by omega
  have hlt : m.commandQueue.requestIn < m.commandQueue.requestQueue.length := by omega
  have hR := RequestUnsolicited_accept cfg cfg.FUNC_ID_APPLICATION_COMMAND_HANDLER b
    (nodeIdWidth cfg m.nodeIdBaseType + 6 + rx.iLength)
    { m with compl_workbuf := b } _ (by show m.commandQueue.requestCnt < 8; exact c1)
    (List.getElem?_eq_getElem hlt) (Or.inl (by rw [hmodB]; exact hle))
  rw [hmodB, Nat.min_eq_left hle] at hR
  unfold ApplicationCommandHandler
  simp only [hwb, Outcome.bind, hR]
  refine ⟨_, _, rfl, List.getElem?_set_self hlt, rfl, rfl, rfl, rfl, ?_⟩
  simp only
  rw [memcpy_take _ _ _ (by rw [hbl, hbuf]; exact hle), hpay, Nat.mod_eq_of_lt hs,
    Nat.mod_eq_of_lt hk, map_mod_bytes _ (fun x hx => hbytes x (List.mem_of_mem_take hx))]

/-- C20 at a concrete input: 16-bit node IDs, a 100-byte buffer, source node
`0x0102`, a three-byte command and an RSSI of `-70`. -/
theorem application_command_frame_witness :
    ∃ m1 e, ApplicationCommandHandler cfg100
        { Payload := [0x20, 0x01, 0xff, 0x55], iLength := 3,
          RxOptions := { rxStatus := 0, securityKey := 4, rxRSSIVal := -70,
                         bSourceTxPower := 13, bSourceNoiseFloor := -98,
                         sourceNode := 0x0102, destNode := 1 } }
        { initMachine cfg100 with nodeIdBaseType := 2 } = .ok m1 ∧
      m1.commandQueue.requestQueue[0]? = some e ∧
      m1.commandQueue.requestCnt = 0 + 1 ∧
      m1.callbackQueue = (initMachine cfg100).callbackQueue ∧
      e.wCmd = 0x04 ∧
      e.wLen = 2 + 6 + 3 ∧
      e.wBuf.take e.wLen
        = [0] ++ [0x01, 0x02] ++ [3] ++ [0x20, 0x01, 0xff] ++ [186, 4, 13, 158] :=
  application_command_frame cfg100 { initMachine cfg100 with nodeIdBaseType := 2 }
    { Payload := [0x20, 0x01, 0xff, 0x55], iLength := 3,
      RxOptions := { rxStatus := 0, securityKey := 4, rxRSSIVal := -70,
                     bSourceTxPower := 13, bSourceNoiseFloor := -98,
                     sourceNode := 0x0102, destNode := 1 } }
    (by decide) (by decide) (by decide) (by decide) (by decide) (by decide) (by decide)
    (by decide)

/-! ## Writes that may leave the buffer -/

/-- A write either leaves the buffer or keeps its length. -/
theorem writeByte_ok_or_oob (buf : List Nat) (i v : Nat) :
    writeByte buf i v = .outOfBounds ∨
      ∃ b, writeByte buf i v = .ok b ∧ b.length = buf.length := by
  unfold writeByte
  by_cases h : i < buf.length
  · exact Or.inr ⟨buf.set i (v % 256), by simp only [h, if_true], by simp⟩
  · exact Or.inl (by simp only [h, if_false])

/-- The copy loop either leaves one of its arrays or keeps the length of the
buffer. -/
theorem forCopy_ok_or_oob (base : Nat) (src : List Nat) (r : Nat) :
    ∀ (k : Nat) (buf : List Nat), forCopy base src k r buf = .outOfBounds ∨
      ∃ b, forCopy base src k r buf = .ok b ∧ b.length = buf.length := by
  induction r with
  | zero =>
    intro k buf
    exact Or.inr ⟨buf, rfl, rfl⟩
  | succ r ih =>
    intro k buf
    unfold forCopy
    cases hs : src[k]? with
    | none => exact Or.inl rfl
    | some v =>
      rcases writeByte_ok_or_oob buf (base + k) v with h | ⟨b1, h, hl⟩
      · exact Or.inl (by simp only [h, Outcome.bind])
      · rcases ih (k + 1) b1 with h2 | ⟨b2, h2, hl2⟩
        · exact Or.inl (by simp only [h, Outcome.bind, h2])
        · exact Or.inr ⟨b2, by simp only [h, Outcome.bind, h2], by rw [hl2, hl]⟩

/-- The node-ID field is written inside the buffer, keeping its length and
giving the offset `width - 1`, or not at all. -/
theorem writeNodeId_ok_or_oob (cfg : Config) (t nodeID : Nat) (buf : List Nat) :
    writeNodeId cfg t nodeID buf = .outOfBounds ∨
      ∃ b, writeNodeId cfg t nodeID buf = .ok (b, nodeIdWidth cfg t - 1) ∧
        b.length = buf.length := by
  unfold writeNodeId nodeIdWidth
  by_cases ht : cfg.SERIAL_API_SETUP_NODEID_BASE_TYPE_16_BIT = t
  · simp only [ht, if_true]
    rcases writeByte_ok_or_oob buf 1 (nodeID / 256) with h | ⟨b1, h, hl⟩
    · exact Or.inl (by simp only [h, Outcome.bind])
    · rcases writeByte_ok_or_oob b1 2 (nodeID % 256) with h2 | ⟨b2, h2, hl2⟩
      · exact Or.inl (by simp only [h, Outcome.bind, h2])
      · exact Or.inr ⟨b2, by simp only [h, Outcome.bind, h2], by rw [hl2, hl]⟩
  · simp only [ht, if_false]
    rcases writeByte_ok_or_oob buf 1 (nodeID % 256) with h | ⟨b1, h, hl⟩
    · exact Or.inl (by simp only [h, Outcome.bind])
    · exact Or.inr ⟨b1, by simp only [h, Outcome.bind], hl⟩

/-! ## C21: the application-command builder runs over the buffer -/

/-- C21 (the code at the inputs where the claim fails). Let the buffer be
smaller than 256 bytes and hold the fields in front of the command. Whenever
the received command does not fit with all four trailing bytes,
`BUF_SIZE_TX < cmdLength + W + 6`, `ApplicationCommandHandler` writes a work
buffer index that is not below `BUF_SIZE_TX`: its clamp leaves room for two
trailing bytes only. -/
theorem application_command_overrun (cfg : Config) (rx : SReceiveSingle) (m : Machine)
    (hB : cfg.BUF_SIZE_TX < 256)
    (hbuf : m.compl_workbuf.length = cfg.BUF_SIZE_TX)
    (hW : nodeIdWidth cfg m.nodeIdBaseType + 4 ≤ cfg.BUF_SIZE_TX)
    (hover : cfg.BUF_SIZE_TX < rx.iLength % 256 + nodeIdWidth cfg m.nodeIdBaseType + 6) :
    ApplicationCommandHandler cfg rx m = .outOfBounds := by
  have hw : nodeIdWidth cfg m.nodeIdBaseType = 1 ∨ nodeIdWidth cfg m.nodeIdBaseType = 2 := by
    unfold nodeIdWidth
    split <;> simp
  suffices hwb : ApplicationCommandHandler_workbuf cfg m.nodeIdBaseType rx m.compl_workbuf
      = .outOfBounds by
    unfold ApplicationCommandHandler
    simp only [hwb, Outcome.bind]
  unfold ApplicationCommandHandler_workbuf
  rcases writeByte_ok_or_oob m.compl_workbuf 0 rx.RxOptions.rxStatus with h0 | ⟨b0, h0, l0⟩
  · simp only [h0, Outcome.bind]
  rcases writeNodeId_ok_or_oob cfg m.nodeIdBaseType rx.RxOptions.sourceNode b0
    with h1 | ⟨b1, h1, l1⟩
  · simp only [h0, h1, Outcome.bind]
  obtain ⟨offset, ho⟩ : ∃ offset, offset + 1 = nodeIdWidth cfg m.nodeIdBaseType :=
    ⟨nodeIdWidth cfg m.nodeIdBaseType - 1, by omega⟩
  have ho' : nodeIdWidth cfg m.nodeIdBaseType - 1 = offset := by omega
  rw [ho'] at h1
  simp only [h0, h1, Outcome.bind]
  have hroom : uint8 ((cfg.BUF_SIZE_TX : Int) - ((offset : Int) + 5))
      = cfg.BUF_SIZE_TX - (offset + 5) := by
    unfold uint8
    omega
  rw [hroom]
  obtain ⟨c, hc, hcl⟩ : ∃ c, (if rx.iLength % 256 > cfg.BUF_SIZE_TX - (offset + 5)
      then cfg.BUF_SIZE_TX - (offset + 5) else rx.iLength % 256) = c ∧
      cfg.BUF_SIZE_TX ≤ offset + 6 + c := by
    refine ⟨_, rfl, ?_⟩
    split <;> omega
  rw [hc]
  rcases writeByte_ok_or_oob b1 (offset + 2) c with h3 | ⟨b3, h3, l3⟩
  · simp only [h3, Outcome.bind]
  rcases forCopy_ok_or_oob (offset + 3) rx.Payload c 0 b3 with h4 | ⟨b4, h4, l4⟩
  · simp only [h3, h4, Outcome.bind]
  rcases writeByte_ok_or_oob b4 (offset + 3 + c) (uint8 rx.RxOptions.rxRSSIVal)
    with h5 | ⟨b5, h5, l5⟩
  · simp only [h3, h4, h5, Outcome.bind]
  rcases writeByte_ok_or_oob b5 (offset + 4 + c) rx.RxOptions.securityKey
    with h6 | ⟨b6, h6, l6⟩
  · simp only [h3, h4, h5, h6, Outcome.bind]
  rcases writeByte_ok_or_oob b6 (offset + 5 + c) (uint8 rx.RxOptions.bSourceTxPower)
    with h7 | ⟨b7, h7, l7⟩
  · simp only [h3, h4, h5, h6, h7, Outcome.bind]
  have h8 := writeByte_outside b7 (offset + 6 + c) (uint8 rx.RxOptions.bSourceNoiseFloor)
    (by rw [l7, l6, l5, l4, l3, l1, l0, hbuf]; exact hcl)
  simp only [h3, h4, h5, h6, h7, h8, Outcome.bind]

/-- C21 at a concrete input: with a 100-byte buffer and 8-bit node IDs a
command of 95 bytes makes the builder write index 100 and beyond. -/
theorem application_command_overrun_witness :
    ApplicationCommandHandler cfg100
      { Payload := countingBytes 170, iLength := 95,
        RxOptions := { rxStatus := 0, securityKey := 0, rxRSSIVal := -70,
                       bSourceTxPower := 0, bSourceNoiseFloor := -98,
                       sourceNode := 5, destNode := 1 } }
      (initMachine cfg100) = .outOfBounds :=
  application_command_overrun cfg100
    { Payload := countingBytes 170, iLength := 95,
      RxOptions := { rxStatus := 0, securityKey := 0, rxRSSIVal := -70,
                     bSourceTxPower := 0, bSourceNoiseFloor := -98,
                     sourceNode := 5, destNode := 1 } }
    (initMachine cfg100) (by decide) (by simp [initMachine]) (by decide) (by decide)

/-! ## C22: the bridge builder runs over the buffer -/

/-- C22 (the code at inputs where the claim fails). With a 100-byte buffer
`ApplicationCommandHandler_Bridge` writes a work-buffer index that is not below
`BUF_SIZE_TX` for: a non-multicast frame of 95 command bytes with 8-bit node
IDs (the RSSI byte goes to index 100); a multicast frame of 96 command bytes
with 8-bit node IDs (the 8-bit value `BUF_SIZE_TX - (offset + cmdLength + 1)`
wraps around to 255); a multicast frame of 61 command bytes with 16-bit node
IDs (the three bytes behind the RSSI byte are not covered by any guard). -/
theorem bridge_builder_overrun :
    ApplicationCommandHandler_Bridge cfg100 (samplePackage 0 95) (initMachine cfg100)
      = .outOfBounds ∧
    ApplicationCommandHandler_Bridge cfg100 (samplePackage 8 96) (initMachine cfg100)
      = .outOfBounds ∧
    ApplicationCommandHandler_Bridge cfg100 (samplePackage 8 61)
      { initMachine cfg100 with nodeIdBaseType := 2 } = .outOfBounds := by
  set_option maxRecDepth 100000 in
  refine ⟨?_, ?_, ?_⟩ <;> decide

/-! ## The bridge builder on a frame that fits -/

/-- The two node-ID fields extend the first byte of the buffer. -/
theorem Bridge_writeNodeIds_prefix (cfg : Config) (t : Nat) (rxOpt : RECEIVE_OPTIONS_TYPE)
    (b0 : List Nat) (h : 2 * nodeIdWidth cfg t < b0.length) :
    ∃ b, Bridge_writeNodeIds cfg t rxOpt b0 = .ok (b, 2 * nodeIdWidth cfg t + 2) ∧
      b.length = b0.length ∧
      b.take (2 * nodeIdWidth cfg t + 1)
        = b0.take 1 ++ nodeIdBytes cfg t rxOpt.destNode ++ nodeIdBytes cfg t rxOpt.sourceNode := by
  unfold nodeIdWidth at h ⊢
  unfold Bridge_writeNodeIds nodeIdBytes
  by_cases ht : cfg.SERIAL_API_SETUP_NODEID_BASE_TYPE_16_BIT = t
  · simp only [ht, if_true] at h ⊢
    obtain ⟨b1, w1, l1, t1⟩ := writeByte_prefix b0 1 (rxOpt.destNode / 256) (by omega)
    obtain ⟨b2, w2, l2, t2⟩ := writeByte_prefix b1 2 (rxOpt.destNode % 256) (by omega)
    obtain ⟨b3, w3, l3, t3⟩ := writeByte_prefix b2 3 (rxOpt.sourceNode / 256) (by omega)
    obtain ⟨b4, w4, l4, t4⟩ := writeByte_prefix b3 4 (rxOpt.sourceNode % 256) (by omega)
    refine ⟨b4, by simp only [w1, w2, w3, w4, Outcome.bind], by rw [l4, l3, l2, l1], ?_⟩
    rw [t4, t3, t2, t1]
    simp
  · simp only [ht, if_false] at h ⊢
    obtain ⟨b1, w1, l1, t1⟩ := writeByte_prefix b0 1 rxOpt.destNode (by omega)
    obtain ⟨b2, w2, l2, t2⟩ := writeByte_prefix b1 2 rxOpt.sourceNode (by omega)
    refine ⟨b2, by simp only [w1, w2, Outcome.bind], by rw [l2, l1], ?_⟩
    rw [t2, t1]

/-- A command that leaves a byte free behind it is not cut by the clamps. -/
theorem Bridge_clampCmdLength_fit (cfg : Config) (n offset : Nat)
    (hB : cfg.BUF_SIZE_TX < 256) (hn : n ≤ cfg.sizeof_Payload)
    (hsz : cfg.sizeof_Payload < 2 ^ 32) (hfit : offset + n ≤ cfg.BUF_SIZE_TX) :
    Bridge_clampCmdLength cfg n offset = n := by
  unfold Bridge_clampCmdLength
  have h1 : n % 2 ^ 32 = n := Nat.mod_eq_of_lt (by omega)
  have h2 : cfg.sizeof_Payload % 2 ^ 32 = cfg.sizeof_Payload := Nat.mod_eq_of_lt hsz
  have h3 : uint8 ((cfg.BUF_SIZE_TX : Int) - (offset : Int)) = cfg.BUF_SIZE_TX - offset := by
    unfold uint8
    omega
  have h4 : (if n > cfg.sizeof_Payload then cfg.sizeof_Payload else n) = n :=
    if_neg (by omega)
  simp only [h1, h2, h3, h4]
  exact if_neg (by omega)

/-- With room for it, the node-mask part extends the command bytes. -/
theorem Bridge_writeNodeMask_prefix (cfg : Config) (rx : SReceiveMulti) (offset c : Nat)
    (b6 : List Nat) (hB : cfg.BUF_SIZE_TX < 256) (hlen : b6.length = cfg.BUF_SIZE_TX)
    (hfit : offset + c + bridgeMaskLength cfg rx + 1 ≤ cfg.BUF_SIZE_TX)
    (hmask : rx.RxOptions.rxStatus &&& cfg.RECEIVE_STATUS_TYPE_MULTI ≠ 0 →
      29 ≤ rx.NodeMask.length) :
    ∃ b, Bridge_writeNodeMask cfg rx offset c b6 = .ok (b, c + bridgeMaskLength cfg rx) ∧
      b.length = b6.length ∧
      b.take (offset + c + bridgeMaskLength cfg rx)
        = b6.take (offset + c) ++ bridgeMaskPart cfg rx := by
  unfold bridgeMaskLength at hfit ⊢
  unfold Bridge_writeNodeMask bridgeMaskPart
  by_cases hm : rx.RxOptions.rxStatus &&& cfg.RECEIVE_STATUS_TYPE_MULTI ≠ 0
  · rw [if_pos hm] at hfit ⊢
    rw [if_pos hm]
    have hg : uint8 ((cfg.BUF_SIZE_TX : Int) - ((offset : Int) + (c : Int)))
        = cfg.BUF_SIZE_TX - (offset + c) := by
      unfold uint8
      omega
    have hi1 : (if 29 + 1 > cfg.BUF_SIZE_TX - (offset + c) then
        uint8 ((cfg.BUF_SIZE_TX : Int) - ((offset : Int) + (c : Int) + 1)) else 29 + 1)
        = 29 + 1 := if_neg (by omega)
    simp only [hg, hi1]
    rw [if_pos (by omega)]
    obtain ⟨b7, w7, l7, t7⟩ := writeByte_prefix b6 (offset + c) (29 + 1 - 1) (by omega)
    obtain ⟨b8, w8, l8, t8⟩ := forCopy_prefix (offset + 1 + c) rx.NodeMask (29 + 1 - 1) 0 b7
      (by omega) (by have := hmask hm; omega)
    have e1 : (29 + 1 + c % 256) % 256 = c + 30 := by omega
    have e2 : offset + 1 + c + 0 + (29 + 1 - 1) = offset + c + 30 := by omega
    have e3 : offset + 1 + c + 0 = offset + c + 1 := by omega
    rw [e2, e3, t7] at t8
    refine ⟨b8, by simp only [w7, w8, Outcome.bind, e1], by rw [l8, l7], ?_⟩
    rw [t8]
    simp [hm]
  · rw [if_neg hm] at hfit ⊢
    rw [if_neg hm]
    have hg : uint8 ((cfg.BUF_SIZE_TX : Int) - (offset : Int)) = cfg.BUF_SIZE_TX - offset := by
      unfold uint8
      omega
    simp only [hg]
    rw [if_neg (by omega)]
    have e1 : (offset + c) % 256 = offset + c := Nat.mod_eq_of_lt (by omega)
    have e2 : (c + 1) % 256 = c + 1 := Nat.mod_eq_of_lt (by omega)
    obtain ⟨b7, w7, l7, t7⟩ := writeByte_prefix b6 (offset + c) 0 (by omega)
    refine ⟨b7, by simp only [e1, e2, w7, Outcome.bind], l7, ?_⟩
    rw [t7, if_neg hm]

/-- With room for them, the bytes behind the RSSI byte extend the frame. -/
theorem Bridge_writeTrailer_prefix (cfg : Config) (t : Nat) (rxOpt : RECEIVE_OPTIONS_TYPE)
    (offset i : Nat) (b9 : List Nat)
    (hfit : offset + i + 1 + bridgeTrailerLength cfg t ≤ b9.length)
    (h256 : b9.length < 256) :
    ∃ b, Bridge_writeTrailer cfg t rxOpt offset i b9
        = .ok (b, i + bridgeTrailerLength cfg t) ∧
      b.length = b9.length ∧
      b.take (offset + i + 1 + bridgeTrailerLength cfg t)
        = b9.take (offset + i + 1) ++ bridgeTrailer cfg t rxOpt := by
  unfold bridgeTrailerLength at hfit ⊢
  unfold Bridge_writeTrailer bridgeTrailer
  by_cases ht : cfg.SERIAL_API_SETUP_NODEID_BASE_TYPE_16_BIT = t
  · simp only [ht, if_true] at hfit ⊢
    have e1 : (i + 1) % 256 = i + 1 := Nat.mod_eq_of_lt (by omega)
    have e2 : (i + 1 + 1) % 256 = i + 2 := by omega
    have e3 : (i + 2 + 1) % 256 = i + 3 := by omega
    simp only [e1, e2, e3]
    obtain ⟨b10, w10, l10, t10⟩ := writeByte_prefix b9 (offset + (i + 1)) rxOpt.securityKey
      (by omega)
    obtain ⟨b11, w11, l11, t11⟩ := writeByte_prefix b10 (offset + (i + 2))
      (uint8 rxOpt.bSourceTxPower) (by omega)
    obtain ⟨b12, w12, l12, t12⟩ := writeByte_prefix b11 (offset + (i + 3))
      (uint8 rxOpt.bSourceNoiseFloor) (by omega)
    refine ⟨b12, by simp only [w10, w11, w12, Outcome.bind], by rw [l12, l11, l10], ?_⟩
    have f3 : offset + i + 1 + 3 = offset + (i + 3) + 1 := by omega
    have f2 : offset + (i + 3) = offset + (i + 2) + 1 := by omega
    have f1 : offset + (i + 2) = offset + (i + 1) + 1 := by omega
    have f0 : offset + (i + 1) = offset + i + 1 := by omega
    rw [f3, t12, f2, t11, f1, t10, f0, uint8_mod, uint8_mod]
    simp
  · simp only [ht, if_false] at hfit ⊢
    exact ⟨b9, rfl, rfl, by simp⟩

/-- What `ApplicationCommandHandler_Bridge` leaves in the work buffer and which
length it passes on, for a frame that fits the buffer as a whole. -/
theorem ApplicationCommandHandler_Bridge_workbuf_spec (cfg : Config) (t : Nat)
    (rx : SReceiveMulti) (buf : List Nat)
    (hB : cfg.BUF_SIZE_TX < 256) (hbuf : buf.length = cfg.BUF_SIZE_TX)
    (hn : rx.iCommandLength ≤ cfg.sizeof_Payload) (hsz : cfg.sizeof_Payload < 2 ^ 32)
    (hsrc : rx.iCommandLength ≤ rx.Payload.length)
    (hmask : rx.RxOptions.rxStatus &&& cfg.RECEIVE_STATUS_TYPE_MULTI ≠ 0 →
      29 ≤ rx.NodeMask.length)
    (hfit : bridgeFrameLength cfg t rx ≤ cfg.BUF_SIZE_TX) :
    ∃ b, ApplicationCommandHandler_Bridge_workbuf cfg t rx buf
        = .ok (b, bridgeFrameLength cfg t rx) ∧
      b.length = buf.length ∧
      b.take (bridgeFrameLength cfg t rx)
        = bridgeFrameToRssi cfg t rx ++ bridgeTrailer cfg t rx.RxOptions := by
  unfold bridgeFrameLength at hfit ⊢
  have hw : nodeIdWidth cfg t = 1 ∨ nodeIdWidth cfg t = 2 := by
    unfold nodeIdWidth
    split <;> simp
  have hml : 1 ≤ bridgeMaskLength cfg rx := by
    unfold bridgeMaskLength
    split <;> omega
  obtain ⟨W, hWdef⟩ : ∃ W, nodeIdWidth cfg t = W := ⟨_, rfl⟩
  obtain ⟨n, hndef⟩ : ∃ n, rx.iCommandLength = n := ⟨_, rfl⟩
  obtain ⟨ml, hmldef⟩ : ∃ ml, bridgeMaskLength cfg rx = ml := ⟨_, rfl⟩
  obtain ⟨tl, htldef⟩ : ∃ tl, bridgeTrailerLength cfg t = tl := ⟨_, rfl⟩
  obtain ⟨b0, w0, l0, t0⟩ := writeByte_prefix buf 0 rx.RxOptions.rxStatus (by omega)
  obtain ⟨b1, w1, l1, t1⟩ := Bridge_writeNodeIds_prefix cfg t rx.RxOptions b0 (by omega)
  have hclamp := Bridge_clampCmdLength_fit cfg rx.iCommandLength (2 * nodeIdWidth cfg t + 2)
    hB hn hsz (by omega)
  have hmfit : 2 * nodeIdWidth cfg t + 2 + rx.iCommandLength + bridgeMaskLength cfg rx + 1
      ≤ cfg.BUF_SIZE_TX := by omega
  rw [hWdef] at w1 t1 hclamp hmfit hfit
  rw [hndef] at hclamp hmfit hfit hsrc
  rw [hmldef] at hmfit hfit hml
  rw [htldef] at hfit
  obtain ⟨b5, w5, l5, t5⟩ := writeByte_prefix b1 (2 * W + 1) n (by omega)
  obtain ⟨b6, w6, l6, t6⟩ := forCopy_prefix (2 * W + 2) rx.Payload n 0 b5 (by omega) (by omega)
  obtain ⟨b8, w8, l8, t8⟩ := Bridge_writeNodeMask_prefix cfg rx (2 * W + 2) n b6 hB
    (by rw [l6, l5, l1, l0, hbuf]) (by rw [hmldef]; exact hmfit) hmask
  rw [hmldef] at w8 t8
  obtain ⟨b9, w9, l9, t9⟩ := writeByte_prefix b8 (2 * W + 2 + (n + ml))
    (uint8 rx.RxOptions.rxRSSIVal) (by omega)
  obtain ⟨b12, w12, l12, t12⟩ := Bridge_writeTrailer_prefix cfg t rx.RxOptions (2 * W + 2)
    (n + ml) b9 (by rw [htldef]; omega) (by omega)
  rw [htldef] at w12 t12
  have eidx : 2 * W + 2 - 1 = 2 * W + 1 := by omega
  have elen : (2 * W + 2 + 1 + (n + ml + tl)) % 256 = 2 * W + 2 + n + ml + 1 + tl := by omega
  unfold ApplicationCommandHandler_Bridge_workbuf
  simp only [w0, Outcome.bind, hWdef, hndef, hmldef, htldef, w1, hclamp, eidx, w5, w6, w8, w9,
    w12, elen]
  refine ⟨b12, rfl, by rw [l12, l9, l8, l6, l5, l1, l0], ?_⟩
  have f1 : 2 * W + 2 + n + ml + 1 + tl = 2 * W + 2 + (n + ml) + 1 + tl := by omega
  have f2 : 2 * W + 2 + (n + ml) = 2 * W + 2 + n + ml := by omega
  have f3 : 2 * W + 2 + 0 + n = 2 * W + 2 + n := by omega
  have f4 : 2 * W + 2 + 0 = 2 * W + 1 + 1 := by omega
  have f5 : 2 * W + 1 + 1 + n = 2 * W + 2 + n := by omega
  rw [f3, f4, t5, t1, t0, f5] at t6
  rw [f1, t12, t9, f2, t8, t6, uint8_mod]
  unfold bridgeFrameToRssi
  rw [hndef, Nat.mod_eq_of_lt (show n < 256 by omega)]
  simp

/-! ## Offering the work buffer to the command queue -/

/-- What the call `RequestUnsolicited (cmd, compl_workbuf, len)` at the end of
a builder does when the length fits and the command queue has room: the slot
at `requestIn` receives the first `len` bytes of the work buffer, and nothing
else of the machine changes but the notification count. -/
theorem offer_workbuf (cfg : Config) (cmd : Nat) (b : List Nat) (len : Nat) (m : Machine)
    (hB : cfg.BUF_SIZE_TX < 256) (hle : len ≤ cfg.BUF_SIZE_TX) (hb : len ≤ b.length)
    (hq : m.commandQueue.requestCnt < 8 ∧ m.commandQueue.requestIn < 8 ∧
      m.commandQueue.requestQueue.length = 8) :
    ∃ m1 e, (RequestUnsolicited cfg cmd b len { m with compl_workbuf := b }).bind
        (fun q => Outcome.ok q.2) = .ok m1 ∧
      m1.commandQueue.requestQueue = m.commandQueue.requestQueue.set m.commandQueue.requestIn e ∧
      m1.commandQueue.requestIn = (m.commandQueue.requestIn + 1) % 8 ∧
      m1.commandQueue.requestIn ≠ m.commandQueue.requestIn ∧
      m1.commandQueue.requestOut = m.commandQueue.requestOut ∧
      m1.commandQueue.requestCnt = m.commandQueue.requestCnt + 1 ∧
      m1.callbackQueue = m.callbackQueue ∧
      m1.nodeIdBaseType = m.nodeIdBaseType ∧
      m1.compl_workbuf = b ∧
      e.wCmd = cmd ∧ e.wLen = len ∧ e.wBuf.take len = b.take len := by
  obtain ⟨c1, c2, c3⟩ := hq
  have hmodB : cfg.BUF_SIZE_TX % 256 = cfg.BUF_SIZE_TX := Nat.mod_eq_of_lt hB
  have hlt : m.commandQueue.requestIn < m.commandQueue.requestQueue.length := by omega
  have hR := RequestUnsolicited_accept cfg cmd b len { m with compl_workbuf := b } _
    (by show m.commandQueue.requestCnt < 8; exact c1)
    (List.getElem?_eq_getElem hlt) (Or.inl (by rw [hmodB]; exact hle))
  rw [hmodB, Nat.min_eq_left hle] at hR
  simp only [hR, Outcome.bind]
  refine ⟨_, _, rfl, rfl, ?_, ?_, rfl, rfl, rfl, rfl, rfl, rfl, rfl, ?_⟩
  · show (if (m.commandQueue.requestIn + 1) % 256 ≥ MAX_UNSOLICITED_QUEUE then 0
      else (m.commandQueue.requestIn + 1) % 256) = (m.commandQueue.requestIn + 1) % 8
    unfold MAX_UNSOLICITED_QUEUE
    split <;> omega
  · show (if (m.commandQueue.requestIn + 1) % 256 ≥ MAX_UNSOLICITED_QUEUE then 0
      else (m.commandQueue.requestIn + 1) % 256) ≠ m.commandQueue.requestIn
    unfold MAX_UNSOLICITED_QUEUE
    split <;> omega
  · exact memcpy_take _ _ _ hb

theorem nodeIdBytes_length (cfg : Config) (t nodeID : Nat) :
    (nodeIdBytes cfg t nodeID).length = nodeIdWidth cfg t := by
  unfold nodeIdBytes nodeIdWidth
  split <;> rfl

theorem bridgeMaskPart_length (cfg : Config) (rx : SReceiveMulti)
    (hmask : rx.RxOptions.rxStatus &&& cfg.RECEIVE_STATUS_TYPE_MULTI ≠ 0 →
      29 ≤ rx.NodeMask.length) :
    (bridgeMaskPart cfg rx).length = bridgeMaskLength cfg rx := by
  unfold bridgeMaskPart bridgeMaskLength
  by_cases hm : rx.RxOptions.rxStatus &&& cfg.RECEIVE_STATUS_TYPE_MULTI ≠ 0
  · rw [if_pos hm, if_pos hm]
    have := hmask hm
    simp
    omega
  · rw [if_neg hm, if_neg hm]
    rfl

theorem bridgeTrailer_length (cfg : Config) (t : Nat) (rxOpt : RECEIVE_OPTIONS_TYPE) :
    (bridgeTrailer cfg t rxOpt).length = bridgeTrailerLength cfg t := by
  unfold bridgeTrailer bridgeTrailerLength
  split <;> rfl

theorem bridgeFrameToRssi_length (cfg : Config) (t : Nat) (rx : SReceiveMulti)
    (hsrc : rx.iCommandLength ≤ rx.Payload.length)
    (hmask : rx.RxOptions.rxStatus &&& cfg.RECEIVE_STATUS_TYPE_MULTI ≠ 0 →
      29 ≤ rx.NodeMask.length) :
    (bridgeFrameToRssi cfg t rx).length
      = 2 * nodeIdWidth cfg t + 2 + rx.iCommandLength + bridgeMaskLength cfg rx + 1 := by
  unfold bridgeFrameToRssi
  simp only [List.length_append, nodeIdBytes_length, bridgeMaskPart_length cfg rx hmask,
    List.length_map, List.length_take, List.length_singleton, Nat.min_eq_left hsrc]
  omega

/-- `ApplicationCommandHandler_Bridge` on a frame that fits the buffer, with
room in the command queue: the slot at `requestIn` receives the whole frame. -/
theorem ApplicationCommandHandler_Bridge_enqueue (cfg : Config) (m : Machine)
    (rx : SReceiveMulti)
    (hB : cfg.BUF_SIZE_TX < 256) (hbuf : m.compl_workbuf.length = cfg.BUF_SIZE_TX)
    (hn : rx.iCommandLength ≤ cfg.sizeof_Payload) (hsz : cfg.sizeof_Payload < 2 ^ 32)
    (hsrc : rx.iCommandLength ≤ rx.Payload.length)
    (hmask : rx.RxOptions.rxStatus &&& cfg.RECEIVE_STATUS_TYPE_MULTI ≠ 0 →
      29 ≤ rx.NodeMask.length)
    (hfit : bridgeFrameLength cfg m.nodeIdBaseType rx ≤ cfg.BUF_SIZE_TX)
    (hq : m.commandQueue.requestCnt < 8 ∧ m.commandQueue.requestIn < 8 ∧
      m.commandQueue.requestQueue.length = 8) :
    ∃ m1 e, ApplicationCommandHandler_Bridge cfg rx m = .ok m1 ∧
      m1.commandQueue.requestQueue = m.commandQueue.requestQueue.set m.commandQueue.requestIn e ∧
      m1.commandQueue.requestIn = (m.commandQueue.requestIn + 1) % 8 ∧
      m1.commandQueue.requestIn ≠ m.commandQueue.requestIn ∧
      m1.commandQueue.requestOut = m.commandQueue.requestOut ∧
      m1.commandQueue.requestCnt = m.commandQueue.requestCnt + 1 ∧
      m1.callbackQueue = m.callbackQueue ∧
      m1.nodeIdBaseType = m.nodeIdBaseType ∧
      m1.compl_workbuf.length = cfg.BUF_SIZE_TX ∧
      e.wCmd = cfg.FUNC_ID_APPLICATION_COMMAND_HANDLER_BRIDGE ∧
      e.wLen = bridgeFrameLength cfg m.nodeIdBaseType rx ∧
      e.wBuf.take e.wLen
        = bridgeFrameToRssi cfg m.nodeIdBaseType rx
          ++ bridgeTrailer cfg m.nodeIdBaseType rx.RxOptions := by
  obtain ⟨b, hwb, hbl, hpay⟩ := ApplicationCommandHandler_Bridge_workbuf_spec cfg
    m.nodeIdBaseType rx m.compl_workbuf hB hbuf hn hsz hsrc hmask hfit
  obtain ⟨m1, e, h1, h2, h3, h4, h5, h6, h7, h8, h9, h10, h11, h12⟩ := offer_workbuf cfg
    cfg.FUNC_ID_APPLICATION_COMMAND_HANDLER_BRIDGE b (bridgeFrameLength cfg m.nodeIdBaseType rx)
    m hB hfit (by rw [hbl, hbuf]; exact hfit) hq
  refine ⟨m1, e, ?_, h2, h3, h4, h5, h6, h7, h8, by rw [h9, hbl, hbuf], h10, h11, ?_⟩
  · unfold ApplicationCommandHandler_Bridge
    simp only [hwb, Outcome.bind]
    exact h1
  · rw [h11, h12, hpay]

theorem countingBytes_lt (n : Nat) : ∀ x ∈ countingBytes n, x < 256 := by
  intro x hx
  unfold countingBytes at hx
  simp only [List.mem_map, List.mem_range] at hx
  obtain ⟨a, _, rfl⟩ := hx
  exact Nat.mod_lt _ (by decide)

/-! ## C23: layout of the bridge frame up to the RSSI byte -/

/-- C23. Let the buffer be smaller than 256 bytes, the command queue have room,
the command length be at most the size of the payload array, and the whole
frame fit the buffer. Then `ApplicationCommandHandler_Bridge` enqueues a
`FUNC_ID_APPLICATION_COMMAND_HANDLER_BRIDGE` entry whose payload begins
`rxStatus | destNode (W bytes) | sourceNode (W bytes) | cmdLength |
cmd[0..cmdLength) | maskHeader | mask | rssi`; for a frame with
`RECEIVE_STATUS_TYPE_MULTI` set `maskHeader` is 29 and `mask` is the 29
node-mask bytes, otherwise `maskHeader` is 0 and `mask` is empty. -/
theorem bridge_frame_layout (cfg : Config) (m : Machine) (rx : SReceiveMulti)
    (hB : cfg.BUF_SIZE_TX < 256) (hbuf : m.compl_workbuf.length = cfg.BUF_SIZE_TX)
    (hn : rx.iCommandLength ≤ cfg.sizeof_Payload) (hsz : cfg.sizeof_Payload < 2 ^ 32)
    (hsrc : rx.iCommandLength ≤ rx.Payload.length)
    (hmask : rx.RxOptions.rxStatus &&& cfg.RECEIVE_STATUS_TYPE_MULTI ≠ 0 →
      29 ≤ rx.NodeMask.length)
    (hfit : bridgeFrameLength cfg m.nodeIdBaseType rx ≤ cfg.BUF_SIZE_TX)
    (hs : rx.RxOptions.rxStatus < 256)
    (hbytes : ∀ x ∈ rx.Payload, x < 256) (hmbytes : ∀ x ∈ rx.NodeMask, x < 256)
    (hq : m.commandQueue.requestCnt < 8 ∧ m.commandQueue.requestIn < 8 ∧
      m.commandQueue.requestQueue.length = 8) :
    ∃ m1 e, ApplicationCommandHandler_Bridge cfg rx m = .ok m1 ∧
      m1.commandQueue.requestQueue[m.commandQueue.requestIn]? = some e ∧
      m1.commandQueue.requestCnt = m.commandQueue.requestCnt + 1 ∧
      e.wCmd = cfg.FUNC_ID_APPLICATION_COMMAND_HANDLER_BRIDGE ∧
      ([rx.RxOptions.rxStatus] ++ nodeIdBytes cfg m.nodeIdBaseType rx.RxOptions.destNode
        ++ nodeIdBytes cfg m.nodeIdBaseType rx.RxOptions.sourceNode
        ++ [rx.iCommandLength] ++ rx.Payload.take rx.iCommandLength
        ++ [if rx.RxOptions.rxStatus &&& cfg.RECEIVE_STATUS_TYPE_MULTI ≠ 0 then 29 else 0]
        ++ (if rx.RxOptions.rxStatus &&& cfg.RECEIVE_STATUS_TYPE_MULTI ≠ 0
            then rx.NodeMask.take 29 else [])
        ++ [uint8 rx.RxOptions.rxRSSIVal]) <+: e.wBuf.take e.wLen := by
  obtain ⟨m1, e, h1, h2, _, _, _, h6, _, _, _, h10, _, h12⟩ :=
    ApplicationCommandHandler_Bridge_enqueue cfg m rx hB hbuf hn hsz hsrc hmask hfit hq
  have hlt : m.commandQueue.requestIn < m.commandQueue.requestQueue.length := by omega
  refine ⟨m1, e, h1, by rw [h2]; exact List.getElem?_set_self hlt, h6, h10, ?_⟩
  rw [h12]
  have hfront : bridgeFrameToRssi cfg m.nodeIdBaseType rx
      = [rx.RxOptions.rxStatus] ++ nodeIdBytes cfg m.nodeIdBaseType rx.RxOptions.destNode
        ++ nodeIdBytes cfg m.nodeIdBaseType rx.RxOptions.sourceNode
        ++ [rx.iCommandLength] ++ rx.Payload.take rx.iCommandLength
        ++ [if rx.RxOptions.rxStatus &&& cfg.RECEIVE_STATUS_TYPE_MULTI ≠ 0 then 29 else 0]
        ++ (if rx.RxOptions.rxStatus &&& cfg.RECEIVE_STATUS_TYPE_MULTI ≠ 0
            then rx.NodeMask.take 29 else [])
        ++ [uint8 rx.RxOptions.rxRSSIVal] := by
    unfold bridgeFrameToRssi bridgeMaskPart
    rw [Nat.mod_eq_of_lt hs,
      map_mod_bytes _ (fun x hx => hbytes x (List.mem_of_mem_take hx)),
      map_mod_bytes _ (fun x hx => hmbytes x (List.mem_of_mem_take hx))]
    by_cases hm : rx.RxOptions.rxStatus &&& cfg.RECEIVE_STATUS_TYPE_MULTI ≠ 0
    · rw [if_pos hm, if_pos hm, if_pos hm]
      simp
    · rw [if_neg hm, if_neg hm, if_neg hm]
      simp
  rw [← hfront]
  exact List.prefix_append _ _

/-- C23 at a concrete input: a multicast frame of three command bytes, 8-bit
node IDs, a 100-byte buffer. -/
theorem bridge_frame_layout_witness :
    ∃ m1 e, ApplicationCommandHandler_Bridge cfg100 (samplePackage 8 3) (initMachine cfg100)
        = .ok m1 ∧
      m1.commandQueue.requestQueue[0]? = some e ∧
      m1.commandQueue.requestCnt = 0 + 1 ∧
      e.wCmd = 0xA8 ∧
      ([8] ++ [0x04] ++ [0x02] ++ [3] ++ [0, 1, 2] ++ [29]
        ++ ((List.range 29).map (· + 200)).take 29 ++ [186]) <+: e.wBuf.take e.wLen :=
  bridge_frame_layout cfg100 (initMachine cfg100) (samplePackage 8 3) (by decide)
    (by simp [initMachine]) (by decide) (by decide) (by simp [samplePackage, countingBytes])
    (fun _ => by decide) (by decide) (by decide) (countingBytes_lt 170) (by decide)
    (by decide)

/-! ## C24: the bytes behind the RSSI byte of the bridge frame -/

/-- C24 fails for 8-bit node IDs: with a 100-byte buffer a non-multicast frame
of three command bytes fits, and the frame queued for it is the nine bytes up
to the RSSI byte `186`; `securityKey` (4), `bSourceTxPower` (13) and
`bSourceNoiseFloor` (158) are not in it. -/
theorem bridge_trailer_8bit_counterexample :
    bridgeFrameLength cfg100 (initMachine cfg100).nodeIdBaseType (samplePackage 0 3)
      ≤ cfg100.BUF_SIZE_TX ∧
    (ApplicationCommandHandler_Bridge cfg100 (samplePackage 0 3) (initMachine cfg100)).map
      (queuedFrame 0) = .ok (some [0, 0x04, 0x02, 3, 0, 1, 2, 0, 186]) ∧
    ¬ ([186, 4, 13, 158] <:+ [0, 0x04, 0x02, 3, 0, 1, 2, 0, 186]) := by
  set_option maxRecDepth 100000 in
  refine ⟨?_, ?_, ?_⟩ <;> decide

/-- C24 as amended. Whenever the frame fits in `BUF_SIZE_TX` (with a buffer
smaller than 256 bytes and room in the command queue), the frame queued by
`ApplicationCommandHandler_Bridge` is, for 16-bit node IDs, the fields in front
of the RSSI byte followed by the four bytes `rssiVal`, `securityKey`,
`bSourceTxPower`, `bSourceNoiseFloor` in that order, its length counting all
four; for 8-bit node IDs it is those fields followed by `rssiVal` alone, its
length counting that one byte. -/
theorem bridge_frame_trailer (cfg : Config) (m : Machine) (rx : SReceiveMulti)
    (hB : cfg.BUF_SIZE_TX < 256) (hbuf : m.compl_workbuf.length = cfg.BUF_SIZE_TX)
    (hn : rx.iCommandLength ≤ cfg.sizeof_Payload) (hsz : cfg.sizeof_Payload < 2 ^ 32)
    (hsrc : rx.iCommandLength ≤ rx.Payload.length)
    (hmask : rx.RxOptions.rxStatus &&& cfg.RECEIVE_STATUS_TYPE_MULTI ≠ 0 →
      29 ≤ rx.NodeMask.length)
    (hfit : bridgeFrameLength cfg m.nodeIdBaseType rx ≤ cfg.BUF_SIZE_TX)
    (hk : rx.RxOptions.securityKey < 256)
    (hq : m.commandQueue.requestCnt < 8 ∧ m.commandQueue.requestIn < 8 ∧
      m.commandQueue.requestQueue.length = 8) :
    ∃ m1 e front, ApplicationCommandHandler_Bridge cfg rx m = .ok m1 ∧
      m1.commandQueue.requestQueue[m.commandQueue.requestIn]? = some e ∧
      front.length = 2 * nodeIdWidth cfg m.nodeIdBaseType + 2 + rx.iCommandLength
        + bridgeMaskLength cfg rx ∧
      (cfg.SERIAL_API_SETUP_NODEID_BASE_TYPE_16_BIT = m.nodeIdBaseType →
        e.wBuf.take e.wLen
          = front ++ [uint8 rx.RxOptions.rxRSSIVal, rx.RxOptions.securityKey,
              uint8 rx.RxOptions.bSourceTxPower, uint8 rx.RxOptions.bSourceNoiseFloor] ∧
        e.wLen = front.length + 4) ∧
      (cfg.SERIAL_API_SETUP_NODEID_BASE_TYPE_16_BIT ≠ m.nodeIdBaseType →
        e.wBuf.take e.wLen = front ++ [uint8 rx.RxOptions.rxRSSIVal] ∧
        e.wLen = front.length + 1) := by
  obtain ⟨m1, e, h1, h2, _, _, _, _, _, _, _, _, h11, h12⟩ :=
    ApplicationCommandHandler_Bridge_enqueue cfg m rx hB hbuf hn hsz hsrc hmask hfit hq
  have hlt : m.commandQueue.requestIn < m.commandQueue.requestQueue.length := by omega
  have hlenR := bridgeFrameToRssi_length cfg m.nodeIdBaseType rx hsrc hmask
  obtain ⟨front, hfront⟩ : ∃ front, bridgeFrameToRssi cfg m.nodeIdBaseType rx
      = front ++ [uint8 rx.RxOptions.rxRSSIVal] := ⟨_, rfl⟩
  have hfl : front.length = 2 * nodeIdWidth cfg m.nodeIdBaseType + 2 + rx.iCommandLength
      + bridgeMaskLength cfg rx := by
    rw [hfront, List.length_append, List.length_singleton] at hlenR
    omega
  refine ⟨m1, e, front, h1, by rw [h2]; exact List.getElem?_set_self hlt, hfl, ?_, ?_⟩
  · intro ht
    rw [h12, h11, hfront, hfl]
    unfold bridgeFrameLength bridgeTrailer bridgeTrailerLength
    rw [if_pos ht, if_pos ht, Nat.mod_eq_of_lt hk]
    exact ⟨by simp, by omega⟩
  · intro ht
    rw [h12, h11, hfront, hfl]
    unfold bridgeFrameLength bridgeTrailer bridgeTrailerLength
    rw [if_neg ht, if_neg ht]
    exact ⟨by simp, by omega⟩

/-- C24 as amended, at a concrete input: a non-multicast frame of three
command bytes with 16-bit node IDs and a 100-byte buffer. -/
theorem bridge_frame_trailer_witness :
    ∃ m1 e front, ApplicationCommandHandler_Bridge cfg100 (samplePackage 0 3)
        { initMachine cfg100 with nodeIdBaseType := 2 } = .ok m1 ∧
      m1.commandQueue.requestQueue[0]? = some e ∧
      front.length = 2 * 2 + 2 + 3 + 1 ∧
      e.wBuf.take e.wLen = front ++ [186, 4, 13, 158] ∧
      e.wLen = front.length + 4 := by
  obtain ⟨m1, e, front, h1, h2, h3, h4, _⟩ :=
    bridge_frame_trailer cfg100 { initMachine cfg100 with nodeIdBaseType := 2 }
      (samplePackage 0 3) (by decide) (by simp [initMachine]) (by decide) (by decide)
      (by simp [samplePackage, countingBytes]) (fun _ => by decide) (by decide) (by decide)
      (by decide)
  exact ⟨m1, e, front, h1, h2, h3, (h4 rfl).1, (h4 rfl).2⟩

/-! ## C26: the bridge frame under a switch of the node-ID width -/

/-- C26 fails: with a 100-byte buffer, building the same non-multicast frame of
three command bytes first with 8-bit and then with 16-bit node IDs queues a
frame of 9 bytes and then one of 14 bytes. The second frame is not 2 but 5
bytes longer: behind the RSSI byte `186` it carries `securityKey` (4),
`bSourceTxPower` (13) and `bSourceNoiseFloor` (158), which the first lacks. -/
theorem bridge_width_switch_counterexample :
    (bridgeBuildBothWidths cfg100 (samplePackage 0 3) (initMachine cfg100)).map
        (fun m2 => (queuedFrame 0 m2, queuedFrame 1 m2))
      = .ok (some [0, 0x04, 0x02, 3, 0, 1, 2, 0, 186],
             some [0, 0x03, 0x04, 0x01, 0x02, 3, 0, 1, 2, 0, 186, 4, 13, 158]) ∧
    [0, 0x03, 0x04, 0x01, 0x02, 3, 0, 1, 2, 0, 186, 4, 13, 158].length
      ≠ [0, 0x04, 0x02, 3, 0, 1, 2, 0, 186].length + 2 := by
  set_option maxRecDepth 100000 in
  refine ⟨?_, ?_⟩ <;> decide

theorem bridgeFrameToRssi_split (cfg : Config) (t : Nat) (rx : SReceiveMulti) :
    bridgeFrameToRssi cfg t rx
      = [rx.RxOptions.rxStatus % 256] ++ nodeIdBytes cfg t rx.RxOptions.destNode
        ++ nodeIdBytes cfg t rx.RxOptions.sourceNode
        ++ ([rx.iCommandLength] ++ (rx.Payload.take rx.iCommandLength).map (· % 256)
          ++ bridgeMaskPart cfg rx ++ [uint8 rx.RxOptions.rxRSSIVal]) := by
  unfold bridgeFrameToRssi
  simp only [List.append_assoc]

/-- C26 as amended. For every received package that fits untruncated with
16-bit node IDs (hence with 8-bit node IDs), with a buffer smaller than 256
bytes and room for two entries in the command queue: building it with
`ApplicationCommandHandler_Bridge` first with 8-bit and then with 16-bit node
IDs queues two frames, the second being the first with each of the two node-ID
bytes widened to two bytes, most significant first, all later bytes shifted by
two, and the three bytes `securityKey`, `bSourceTxPower`, `bSourceNoiseFloor`
added at the end: it is 5 bytes longer. -/
theorem bridge_width_switch (cfg : Config) (m : Machine) (rx : SReceiveMulti)
    (h8 : cfg.SERIAL_API_SETUP_NODEID_BASE_TYPE_16_BIT ≠ m.nodeIdBaseType)
    (hB : cfg.BUF_SIZE_TX < 256) (hbuf : m.compl_workbuf.length = cfg.BUF_SIZE_TX)
    (hn : rx.iCommandLength ≤ cfg.sizeof_Payload) (hsz : cfg.sizeof_Payload < 2 ^ 32)
    (hsrc : rx.iCommandLength ≤ rx.Payload.length)
    (hmask : rx.RxOptions.rxStatus &&& cfg.RECEIVE_STATUS_TYPE_MULTI ≠ 0 →
      29 ≤ rx.NodeMask.length)
    (hfit : bridgeFrameLength cfg cfg.SERIAL_API_SETUP_NODEID_BASE_TYPE_16_BIT rx
      ≤ cfg.BUF_SIZE_TX)
    (hq : m.commandQueue.requestCnt < 7 ∧ m.commandQueue.requestIn < 8 ∧
      m.commandQueue.requestQueue.length = 8) :
    ∃ m2 e8 e16 rest, bridgeBuildBothWidths cfg rx m = .ok m2 ∧
      m2.commandQueue.requestCnt = m.commandQueue.requestCnt + 2 ∧
      m2.commandQueue.requestQueue[m.commandQueue.requestIn]? = some e8 ∧
      m2.commandQueue.requestQueue[(m.commandQueue.requestIn + 1) % 8]? = some e16 ∧
      e8.wBuf.take e8.wLen
        = [rx.RxOptions.rxStatus % 256, rx.RxOptions.destNode % 256,
            rx.RxOptions.sourceNode % 256] ++ rest ∧
      e16.wBuf.take e16.wLen
        = [rx.RxOptions.rxStatus % 256,
            rx.RxOptions.destNode / 256 % 256, rx.RxOptions.destNode % 256,
            rx.RxOptions.sourceNode / 256 % 256, rx.RxOptions.sourceNode % 256] ++ rest
          ++ [rx.RxOptions.securityKey % 256, uint8 rx.RxOptions.bSourceTxPower,
              uint8 rx.RxOptions.bSourceNoiseFloor] ∧
      e16.wLen = e8.wLen + 5 := by
  obtain ⟨c1, c2, c3⟩ := hq
  have hfit8 : bridgeFrameLength cfg m.nodeIdBaseType rx ≤ cfg.BUF_SIZE_TX := by
    unfold bridgeFrameLength nodeIdWidth bridgeTrailerLength at hfit ⊢
    rw [if_pos rfl, if_pos rfl] at hfit
    rw [if_neg h8, if_neg h8]
    omega
  obtain ⟨m1, e8, a1, a2, a3, a4, _, a6, _, _, a9, _, a11, a12⟩ :=
    ApplicationCommandHandler_Bridge_enqueue cfg m rx hB hbuf hn hsz hsrc hmask hfit8
      ⟨by omega, c2, c3⟩
  obtain ⟨m2, e16, b1, b2, b3, _, _, b6, _, _, _, _, b11, b12⟩ :=
    ApplicationCommandHandler_Bridge_enqueue cfg
      { m1 with nodeIdBaseType := cfg.SERIAL_API_SETUP_NODEID_BASE_TYPE_16_BIT } rx hB a9 hn hsz
      hsrc hmask hfit
      ⟨by show m1.commandQueue.requestCnt < 8; omega,
       by show m1.commandQueue.requestIn < 8; omega,
       by show m1.commandQueue.requestQueue.length = 8; rw [a2, List.length_set]; exact c3⟩
  have b2' : m2.commandQueue.requestQueue
      = (m.commandQueue.requestQueue.set m.commandQueue.requestIn e8).set
          ((m.commandQueue.requestIn + 1) % 8) e16 := by
    rw [b2]
    show m1.commandQueue.requestQueue.set m1.commandQueue.requestIn e16 = _
    rw [a2, a3]
  have b6' : m2.commandQueue.requestCnt = m1.commandQueue.requestCnt + 1 := b6
  have b11' : e16.wLen = bridgeFrameLength cfg cfg.SERIAL_API_SETUP_NODEID_BASE_TYPE_16_BIT rx :=
    b11
  have b12' : e16.wBuf.take e16.wLen
      = bridgeFrameToRssi cfg cfg.SERIAL_API_SETUP_NODEID_BASE_TYPE_16_BIT rx
        ++ bridgeTrailer cfg cfg.SERIAL_API_SETUP_NODEID_BASE_TYPE_16_BIT rx.RxOptions := b12
  have hne : (m.commandQueue.requestIn + 1) % 8 ≠ m.commandQueue.requestIn := by omega
  refine ⟨m2, e8, e16, [rx.iCommandLength] ++ (rx.Payload.take rx.iCommandLength).map (· % 256)
      ++ bridgeMaskPart cfg rx ++ [uint8 rx.RxOptions.rxRSSIVal], ?_, by omega, ?_, ?_, ?_, ?_, ?_⟩
  · unfold bridgeBuildBothWidths
    simp only [a1, Outcome.bind]
    exact b1
  · rw [b2', List.getElem?_set_ne hne]
    exact List.getElem?_set_self (by omega)
  · rw [b2']
    exact List.getElem?_set_self (by rw [List.length_set]; omega)
  · rw [a12, bridgeFrameToRssi_split]
    unfold bridgeTrailer nodeIdBytes
    rw [if_neg h8, if_neg h8, if_neg h8]
    simp
  · rw [b12', bridgeFrameToRssi_split]
    unfold bridgeTrailer nodeIdBytes
    rw [if_pos rfl, if_pos rfl, if_pos rfl]
    simp
  · rw [b11', a11]
    unfold bridgeFrameLength nodeIdWidth bridgeTrailerLength
    rw [if_pos rfl, if_pos rfl, if_neg h8, if_neg h8]
    omega

/-- C26 as amended, at a concrete input: a multicast frame of three command
bytes and a 100-byte buffer. -/
theorem bridge_width_switch_witness :
    ∃ m2 e8 e16 rest,
      bridgeBuildBothWidths cfg100 (samplePackage 8 3) (initMachine cfg100) = .ok m2 ∧
      m2.commandQueue.requestCnt = 0 + 2 ∧
      m2.commandQueue.requestQueue[0]? = some e8 ∧
      m2.commandQueue.requestQueue[(0 + 1) % 8]? = some e16 ∧
      e8.wBuf.take e8.wLen = [8 % 256, 0x0304 % 256, 0x0102 % 256] ++ rest ∧
      e16.wBuf.take e16.wLen
        = [8 % 256, 0x0304 / 256 % 256, 0x0304 % 256, 0x0102 / 256 % 256, 0x0102 % 256] ++ rest
          ++ [4 % 256, 13, 158] ∧
      e16.wLen = e8.wLen + 5 :=
  bridge_width_switch cfg100 (initMachine cfg100) (samplePackage 8 3) (by decide) (by decide)
    (by simp [initMachine]) (by decide) (by decide) (by simp [samplePackage, countingBytes])
    (fun _ => by decide) (by decide) (by decide)

/-! ## The node-update builder with room in the command queue -/

/-- `ApplicationNodeUpdate` with room in the command queue, for an info pointer
that is not `NULL` or an update without info bytes: the slot at `requestIn`
receives the whole frame. -/
theorem ApplicationNodeUpdate_enqueue (cfg : Config) (m : Machine) (bStatus nodeID : Nat)
    (pCmd : Option (List Nat)) (bLen : Nat)
    (hB : cfg.BUF_SIZE_TX < 256)
    (hW : nodeIdWidth cfg m.nodeIdBaseType + 2 ≤ cfg.BUF_SIZE_TX)
    (hbuf : m.compl_workbuf.length = cfg.BUF_SIZE_TX) (hb : bLen < 256)
    (hsrc : ∀ info, pCmd = some info →
      nodeUpdateInfoLength cfg m.nodeIdBaseType bLen ≤ info.length)
    (hp : pCmd = none → nodeUpdateInfoLength cfg m.nodeIdBaseType bLen = 0)
    (hq : m.commandQueue.requestCnt < 8 ∧ m.commandQueue.requestIn < 8 ∧
      m.commandQueue.requestQueue.length = 8) :
    ∃ m1 e, ApplicationNodeUpdate cfg bStatus nodeID pCmd bLen m = .ok m1 ∧
      m1.commandQueue.requestQueue = m.commandQueue.requestQueue.set m.commandQueue.requestIn e ∧
      m1.commandQueue.requestIn = (m.commandQueue.requestIn + 1) % 8 ∧
      m1.commandQueue.requestCnt = m.commandQueue.requestCnt + 1 ∧
      m1.callbackQueue = m.callbackQueue ∧
      m1.compl_workbuf.length = cfg.BUF_SIZE_TX ∧
      e.wCmd = cfg.FUNC_ID_ZW_APPLICATION_UPDATE ∧
      e.wLen = nodeIdWidth cfg m.nodeIdBaseType + 2
        + nodeUpdateInfoLength cfg m.nodeIdBaseType bLen ∧
      e.wBuf.take e.wLen
        = [bStatus % 256] ++ nodeIdBytes cfg m.nodeIdBaseType nodeID
          ++ [nodeUpdateInfoLength cfg m.nodeIdBaseType bLen]
          ++ nodeUpdateInfoBytes pCmd (nodeUpdateInfoLength cfg m.nodeIdBaseType bLen) := by
  obtain ⟨b, hwb, hbl, hle, hhead, hpay⟩ := ApplicationNodeUpdate_workbuf_spec cfg
    m.nodeIdBaseType bStatus nodeID pCmd bLen m.compl_workbuf hB hW hbuf hb hsrc
  obtain ⟨m1, e, h1, h2, h3, _, _, h6, h7, _, h9, h10, h11, h12⟩ := offer_workbuf cfg
    cfg.FUNC_ID_ZW_APPLICATION_UPDATE b
    (nodeIdWidth cfg m.nodeIdBaseType + 2 + nodeUpdateInfoLength cfg m.nodeIdBaseType bLen)
    m hB hle (by rw [hbl, hbuf]; exact hle) hq
  refine ⟨m1, e, ?_, h2, h3, h6, h7, by rw [h9, hbl, hbuf], h10, h11, ?_⟩
  · unfold ApplicationNodeUpdate
    simp only [hwb, Outcome.bind]
    exact h1
  · rw [h11, h12]
    cases pCmd with
    | some info => exact hpay info rfl
    | none =>
      rw [hp rfl] at hhead ⊢
      rw [Nat.add_zero, hhead]
      simp [nodeUpdateInfoBytes]

/-! ## C25: the node update under a switch of the node-ID width -/

/-- C25 fails for a `NULL` info pointer with `bLen > 0`. With a 100-byte buffer,
after one node update with the info bytes `10 .. 14`, the update
`(0x84, node 5, NULL, bLen 2)` is built with 8-bit and then with 16-bit node
IDs; neither build is truncated. The info bytes are then not written, and the
two frames carry what the work buffer held: the first ends `2, 10, 11`, the
second `2, 11, 12` and not the first frame's bytes shifted by one. -/
theorem node_update_width_switch_counterexample :
    ((ApplicationNodeUpdate cfg100 0x84 5 (some [10, 11, 12, 13, 14]) 5
        (initMachine cfg100)).bind
      (nodeUpdateBuildBothWidths cfg100 0x84 5 none 2)).map
        (fun m2 => (queuedFrame 1 m2, queuedFrame 2 m2))
      = .ok (some [0x84, 5, 2, 10, 11], some [0x84, 0, 5, 2, 11, 12]) ∧
    [0x84, 0, 5, 2, 11, 12] ≠ [0x84, 5 / 256, 5 % 256] ++ [2, 10, 11] := by
  set_option maxRecDepth 100000 in
  refine ⟨?_, ?_⟩ <;> decide

/-- C25 as amended. Let the info pointer be different from `NULL`, or `bLen`
be 0, and let the update be truncated in neither width
(`bLen ≤ MAX_NODE_INFO_LENGTH`, `bLen + 4 ≤ BUF_SIZE_TX`), with a buffer
smaller than 256 bytes and room for two entries in the command queue. Building
the same node update first with 8-bit and then with 16-bit node IDs gives a
second frame equal to the first with the single node-ID byte replaced by the
two bytes `nodeID >> 8`, `nodeID & 0xFF` and every later byte shifted by one
position (length + 1), and the slot holding the first frame is the same after
the second build. -/
theorem node_update_width_switch (cfg : Config) (m : Machine) (bStatus nodeID : Nat)
    (pCmd : Option (List Nat)) (bLen : Nat)
    (h8 : cfg.SERIAL_API_SETUP_NODEID_BASE_TYPE_16_BIT ≠ m.nodeIdBaseType)
    (hB : cfg.BUF_SIZE_TX < 256) (hbuf : m.compl_workbuf.length = cfg.BUF_SIZE_TX)
    (hmax : bLen ≤ cfg.MAX_NODE_INFO_LENGTH) (hfit : bLen + 4 ≤ cfg.BUF_SIZE_TX)
    (hsrc : ∀ info, pCmd = some info → bLen ≤ info.length)
    (hp : pCmd = none → bLen = 0)
    (hq : m.commandQueue.requestCnt < 7 ∧ m.commandQueue.requestIn < 8 ∧
      m.commandQueue.requestQueue.length = 8) :
    ∃ m1 m2 e8 e16 rest,
      ApplicationNodeUpdate cfg bStatus nodeID pCmd bLen m = .ok m1 ∧
      ApplicationNodeUpdate cfg bStatus nodeID pCmd bLen
        { m1 with nodeIdBaseType := cfg.SERIAL_API_SETUP_NODEID_BASE_TYPE_16_BIT } = .ok m2 ∧
      m1.commandQueue.requestQueue[m.commandQueue.requestIn]? = some e8 ∧
      m2.commandQueue.requestQueue[m.commandQueue.requestIn]? = some e8 ∧
      m2.commandQueue.requestQueue[(m.commandQueue.requestIn + 1) % 8]? = some e16 ∧
      e8.wBuf.take e8.wLen = [bStatus % 256, nodeID % 256] ++ rest ∧
      e16.wBuf.take e16.wLen = [bStatus % 256, nodeID / 256 % 256, nodeID % 256] ++ rest ∧
      e16.wLen = e8.wLen + 1 := by
  obtain ⟨c1, c2, c3⟩ := hq
  have hw8 : nodeIdWidth cfg m.nodeIdBaseType = 1 := by
    unfold nodeIdWidth
    rw [if_neg h8]
  have hw16 : nodeIdWidth cfg cfg.SERIAL_API_SETUP_NODEID_BASE_TYPE_16_BIT = 2 := by
    unfold nodeIdWidth
    rw [if_pos rfl]
  have hL8 : nodeUpdateInfoLength cfg m.nodeIdBaseType bLen = bLen := by
    unfold nodeUpdateInfoLength
    rw [hw8]
    omega
  have hL16 : nodeUpdateInfoLength cfg cfg.SERIAL_API_SETUP_NODEID_BASE_TYPE_16_BIT bLen
      = bLen := by
    unfold nodeUpdateInfoLength
    rw [hw16]
    omega
  obtain ⟨m1, e8, a1, a2, a3, a4, _, a6, _, a8, a9⟩ :=
    ApplicationNodeUpdate_enqueue cfg m bStatus nodeID pCmd bLen hB (by rw [hw8]; omega) hbuf
      (by omega) (by rw [hL8]; exact hsrc) (by rw [hL8]; exact hp) ⟨by omega, c2, c3⟩
  obtain ⟨m2, e16, b1, b2, _, _, _, _, _, b8, b9⟩ :=
    ApplicationNodeUpdate_enqueue cfg
      { m1 with nodeIdBaseType := cfg.SERIAL_API_SETUP_NODEID_BASE_TYPE_16_BIT }
      bStatus nodeID pCmd bLen hB
      (by show nodeIdWidth cfg cfg.SERIAL_API_SETUP_NODEID_BASE_TYPE_16_BIT + 2 ≤ _
          rw [hw16]; omega)
      a6 (by omega)
      (by show ∀ info, pCmd = some info →
            nodeUpdateInfoLength cfg cfg.SERIAL_API_SETUP_NODEID_BASE_TYPE_16_BIT bLen
              ≤ info.length
          rw [hL16]; exact hsrc)
      (by show pCmd = none →
            nodeUpdateInfoLength cfg cfg.SERIAL_API_SETUP_NODEID_BASE_TYPE_16_BIT bLen = 0
          rw [hL16]; exact hp)
      ⟨by show m1.commandQueue.requestCnt < 8; omega,
       by show m1.commandQueue.requestIn < 8; omega,
       by show m1.commandQueue.requestQueue.length = 8; rw [a2, List.length_set]; exact c3⟩
  have b2' : m2.commandQueue.requestQueue
      = (m.commandQueue.requestQueue.set m.commandQueue.requestIn e8).set
          ((m.commandQueue.requestIn + 1) % 8) e16 := by
    rw [b2]
    show m1.commandQueue.requestQueue.set m1.commandQueue.requestIn e16 = _
    rw [a2, a3]
  have b8' : e16.wLen = nodeIdWidth cfg cfg.SERIAL_API_SETUP_NODEID_BASE_TYPE_16_BIT + 2
      + nodeUpdateInfoLength cfg cfg.SERIAL_API_SETUP_NODEID_BASE_TYPE_16_BIT bLen := b8
  have b9' : e16.wBuf.take e16.wLen
      = [bStatus % 256] ++ nodeIdBytes cfg cfg.SERIAL_API_SETUP_NODEID_BASE_TYPE_16_BIT nodeID
        ++ [nodeUpdateInfoLength cfg cfg.SERIAL_API_SETUP_NODEID_BASE_TYPE_16_BIT bLen]
        ++ nodeUpdateInfoBytes pCmd
            (nodeUpdateInfoLength cfg cfg.SERIAL_API_SETUP_NODEID_BASE_TYPE_16_BIT bLen) := b9
  have hne : (m.commandQueue.requestIn + 1) % 8 ≠ m.commandQueue.requestIn := by omega
  refine ⟨m1, m2, e8, e16, [bLen] ++ nodeUpdateInfoBytes pCmd bLen, a1, b1, ?_, ?_, ?_, ?_, ?_, ?_⟩
  · rw [a2]
    exact List.getElem?_set_self (by omega)
  · rw [b2', List.getElem?_set_ne hne]
    exact List.getElem?_set_self (by omega)
  · rw [b2']
    exact List.getElem?_set_self (by rw [List.length_set]; omega)
  · rw [a9, hL8]
    unfold nodeIdBytes
    rw [if_neg h8]
    simp
  · rw [b9', hL16]
    unfold nodeIdBytes
    rw [if_pos rfl]
    simp
  · rw [b8', a8, hw8, hw16, hL8, hL16]
    omega

/-- C25 as amended, at a concrete input: node `0x1234` with five info bytes
and a 100-byte buffer. -/
theorem node_update_width_switch_witness :
    ∃ m1 m2 e8 e16 rest,
      ApplicationNodeUpdate cfg100 0x84 0x1234 (some [10, 11, 12, 13, 14]) 5
        (initMachine cfg100) = .ok m1 ∧
      ApplicationNodeUpdate cfg100 0x84 0x1234 (some [10, 11, 12, 13, 14]) 5
        { m1 with nodeIdBaseType := 2 } = .ok m2 ∧
      m1.commandQueue.requestQueue[0]? = some e8 ∧
      m2.commandQueue.requestQueue[0]? = some e8 ∧
      m2.commandQueue.requestQueue[(0 + 1) % 8]? = some e16 ∧
      e8.wBuf.take e8.wLen = [0x84 % 256, 0x1234 % 256] ++ rest ∧
      e16.wBuf.take e16.wLen = [0x84 % 256, 0x1234 / 256 % 256, 0x1234 % 256] ++ rest ∧
      e16.wLen = e8.wLen + 1 :=
  node_update_width_switch cfg100 (initMachine cfg100) 0x84 0x1234
    (some [10, 11, 12, 13, 14]) 5 (by decide) (by decide) (by simp [initMachine])
    (by decide) (by decide)
    (fun info hi => by
      simp only [Option.some.injEq] at hi
      subst hi
      decide)
    (fun h => by cases h) (by decide)

/-! ## C27: the startup notification -/

/-- What a call `Request (cmd, b, len)` does when the length fits and the
callback queue has room: the slot at `requestIn` receives the first `len`
bytes, the command queue stays as it is. -/
theorem Request_offer (cfg : Config) (cmd : Nat) (b : List Nat) (len : Nat) (m : Machine)
    (hB : cfg.BUF_SIZE_TX < 256) (hle : len ≤ cfg.BUF_SIZE_TX) (hb : len ≤ b.length)
    (hq : m.callbackQueue.requestCnt < 8 ∧ m.callbackQueue.requestIn < 8 ∧
      m.callbackQueue.requestQueue.length = 8) :
    ∃ m1 e, Request cfg cmd b len m = .ok (true, m1) ∧
      m1.callbackQueue.requestQueue = m.callbackQueue.requestQueue.set m.callbackQueue.requestIn e ∧
      m1.callbackQueue.requestCnt = m.callbackQueue.requestCnt + 1 ∧
      m1.commandQueue = m.commandQueue ∧
      e.wCmd = cmd ∧ e.wLen = len ∧ e.wBuf.take len = b.take len := by
  obtain ⟨c1, c2, c3⟩ := hq
  have hmodB : cfg.BUF_SIZE_TX % 256 = cfg.BUF_SIZE_TX := Nat.mod_eq_of_lt hB
  have hlt : m.callbackQueue.requestIn < m.callbackQueue.requestQueue.length := by omega
  have hR := Request_accept cfg cmd b len m _ (by show m.callbackQueue.requestCnt < 8; exact c1)
    (List.getElem?_eq_getElem hlt) (Or.inl (by rw [hmodB]; exact hle))
  rw [hmodB, Nat.min_eq_left hle] at hR
  exact ⟨_, _, hR, rfl, rfl, rfl, rfl, rfl, memcpy_take _ _ _ hb⟩

/-- C27. Let the startup notification be compiled in, the buffer be smaller
than 256 bytes, the callback queue have room, and the unsecure command-class
list have `n` bytes that fit the buffer. `ApplicationInitSW` enqueues on the
callback queue exactly one `FUNC_ID_SERIAL_API_STARTED` frame. When the
retention-register read fails the frame has length `7 + n` and is
`resetReason | watchdogStarted | deviceOptionsMask | generic | specific | n |
cc[0..n) | capabilities`, each stored as a byte; when the read succeeds with
the value `v` the frame has length `11 + n` and is that same prefix followed
by the four bytes of `v`, most significant first. -/
theorem startup_notification (cfg : Config) (inp : StartupInputs) (m : Machine)
    (hS : cfg.SUPPORT_SERIAL_API_STARTUP_NOTIFICATION = true)
    (hB : cfg.BUF_SIZE_TX < 256) (hbuf : m.compl_workbuf.length = cfg.BUF_SIZE_TX)
    (hn : inp.iListLength ≤ inp.pCommandClasses.length)
    (hfit : (if inp.resetInfo = none then 7 else 11) + inp.iListLength ≤ cfg.BUF_SIZE_TX)
    (hq : m.callbackQueue.requestCnt < 8 ∧ m.callbackQueue.requestIn < 8 ∧
      m.callbackQueue.requestQueue.length = 8) :
    ∃ m1 e, ApplicationInitSW cfg inp m = .ok m1 ∧
      m1.callbackQueue.requestQueue = m.callbackQueue.requestQueue.set m.callbackQueue.requestIn e ∧
      m1.callbackQueue.requestCnt = m.callbackQueue.requestCnt + 1 ∧
      m1.commandQueue = m.commandQueue ∧
      e.wCmd = cfg.FUNC_ID_SERIAL_API_STARTED ∧
      (inp.resetInfo = none →
        e.wLen = 7 + inp.iListLength ∧
        e.wBuf.take e.wLen
          = ([inp.g_eApplResetReason,
              (if cfg.SUPPORT_ZW_WATCHDOG then inp.bWatchdogStarted else 0),
              inp.DeviceOptionsMask, inp.generic, inp.specific, inp.iListLength]
            ++ inp.pCommandClasses.take inp.iListLength
            ++ [if inp.isLongRangeRegion then cfg.SERIAL_API_STARTED_CAPABILITIES_L0NG_RANGE
                else 0]).map (· % 256)) ∧
      (∀ v, inp.resetInfo = some v →
        e.wLen = 11 + inp.iListLength ∧
        e.wBuf.take e.wLen
          = ([inp.g_eApplResetReason,
              (if cfg.SUPPORT_ZW_WATCHDOG then inp.bWatchdogStarted else 0),
              inp.DeviceOptionsMask, inp.generic, inp.specific, inp.iListLength]
            ++ inp.pCommandClasses.take inp.iListLength
            ++ [if inp.isLongRangeRegion then cfg.SERIAL_API_STARTED_CAPABILITIES_L0NG_RANGE
                else 0]).map (· % 256)
            ++ [v / 2 ^ 24 % 256, v / 2 ^ 16 % 256, v / 2 ^ 8 % 256, v % 256]) := by
  obtain ⟨n, hndef⟩ : ∃ n, inp.iListLength = n := ⟨_, rfl⟩
  rw [hndef] at hn hfit
  have h7 : 7 + n ≤ cfg.BUF_SIZE_TX := by
    split at hfit <;> omega
  obtain ⟨b0, w0, l0, t0⟩ := writeByte_prefix m.compl_workbuf 0 inp.g_eApplResetReason (by omega)
  obtain ⟨b1, w1, l1, t1⟩ := writeByte_prefix b0 1
    (if cfg.SUPPORT_ZW_WATCHDOG then inp.bWatchdogStarted else 0) (by omega)
  obtain ⟨b2, w2, l2, t2⟩ := writeByte_prefix b1 2 inp.DeviceOptionsMask (by omega)
  obtain ⟨b3, w3, l3, t3⟩ := writeByte_prefix b2 3 inp.generic (by omega)
  obtain ⟨b4, w4, l4, t4⟩ := writeByte_prefix b3 4 inp.specific (by omega)
  obtain ⟨b5, w5, l5, t5⟩ := writeByte_prefix b4 5 n (by omega)
  obtain ⟨b6, w6, l6, t6⟩ := forCopy_prefix 6 inp.pCommandClasses n 0 b5 (by omega) (by omega)
  obtain ⟨b7, w7, l7, t7⟩ := writeByte_prefix b6 (6 + n)
    (if inp.isLongRangeRegion then cfg.SERIAL_API_STARTED_CAPABILITIES_L0NG_RANGE else 0)
    (by omega)
  have e6 : 6 + 0 + n = 6 + n := by omega
  have e7 : 6 + n + 1 = 7 + n := by omega
  rw [e6] at t6
  rw [e7] at t7
  have hpre : b7.take (7 + n)
      = ([inp.g_eApplResetReason,
          (if cfg.SUPPORT_ZW_WATCHDOG then inp.bWatchdogStarted else 0),
          inp.DeviceOptionsMask, inp.generic, inp.specific, n]
        ++ inp.pCommandClasses.take n
        ++ [if inp.isLongRangeRegion then cfg.SERIAL_API_STARTED_CAPABILITIES_L0NG_RANGE
            else 0]).map (· % 256) := by
    rw [t7, t6]
    show List.take (5 + 1) b5 ++ _ ++ _ = _
    rw [t5]
    show (List.take (4 + 1) b4 ++ _) ++ _ ++ _ = _
    rw [t4]
    show ((List.take (3 + 1) b3 ++ _) ++ _) ++ _ ++ _ = _
    rw [t3]
    show (((List.take (2 + 1) b2 ++ _) ++ _) ++ _) ++ _ ++ _ = _
    rw [t2]
    show ((((List.take (1 + 1) b1 ++ _) ++ _) ++ _) ++ _) ++ _ ++ _ = _
    rw [t1, t0]
    simp
  unfold ApplicationInitSW
  simp only [hS, if_true, hndef]
  have hproj : (extCall ExtCall.comm_interface_init m).compl_workbuf = m.compl_workbuf := rfl
  simp only [hproj, w0, w1, w2, w3, w4, w5, w6, w7, Outcome.bind]
  cases hri : inp.resetInfo with
  | none =>
    have hm7 : (7 + n) % 256 = 7 + n := Nat.mod_eq_of_lt (by omega)
    obtain ⟨m1, e, r1, r2, r3, r4, r5, r6, r7⟩ := Request_offer cfg
      cfg.FUNC_ID_SERIAL_API_STARTED b7 (7 + n)
      { ({ extCall ExtCall.comm_interface_init m with
            bTxStatusReportEnabled := cfg.SUPPORT_SEND_DATA_TIMING } : Machine) with
          compl_workbuf := b7 } hB h7
      (by rw [l7, l6, l5, l4, l3, l2, l1, l0, hbuf]; exact h7) hq
    simp only [hm7, r1, Outcome.bind]
    refine ⟨_, e, rfl, r2, r3, r4, r5, ?_, ?_⟩
    · intro _
      exact ⟨r6, by rw [r6, r7, hpre]⟩
    · intro v hv
      cases hv
  | some v =>
    rw [hri] at hfit
    have h11 : 11 + n ≤ cfg.BUF_SIZE_TX := by
      simpa using hfit
    obtain ⟨b8, w8, l8, t8⟩ := writeByte_prefix b7 (7 + n) (v / 2 ^ 24) (by omega)
    obtain ⟨b9, w9, l9, t9⟩ := writeByte_prefix b8 (8 + n) (v / 2 ^ 16) (by omega)
    obtain ⟨b10, w10, l10, t10⟩ := writeByte_prefix b9 (9 + n) (v / 2 ^ 8) (by omega)
    obtain ⟨b11, w11, l11, t11⟩ := writeByte_prefix b10 (10 + n) v (by omega)
    have hm11 : (11 + n) % 256 = 11 + n := Nat.mod_eq_of_lt (by omega)
    obtain ⟨m1, e, r1, r2, r3, r4, r5, r6, r7⟩ := Request_offer cfg
      cfg.FUNC_ID_SERIAL_API_STARTED b11 (11 + n)
      { ({ extCall ExtCall.comm_interface_init m with
            bTxStatusReportEnabled := cfg.SUPPORT_SEND_DATA_TIMING } : Machine) with
          compl_workbuf := b11 } hB h11
      (by rw [l11, l10, l9, l8, l7, l6, l5, l4, l3, l2, l1, l0, hbuf]; exact h11) hq
    simp only [w8, w9, w10, w11, hm11, r1, Outcome.bind]
    refine ⟨_, e, rfl, r2, r3, r4, r5, ?_, ?_⟩
    · intro hv
      cases hv
    · intro v' hv
      simp only [Option.some.injEq] at hv
      subst hv
      refine ⟨r6, ?_⟩
      have f11 : 11 + n = 10 + n + 1 := by omega
      have f10 : 10 + n = 9 + n + 1 := by omega
      have f9 : 9 + n = 8 + n + 1 := by omega
      have f8 : 8 + n = 7 + n + 1 := by omega
      rw [r6, r7, f11, t11, f10, t10, f9, t9, f8, t8, hpre]
      simp

/-- C27 at a concrete input: a 100-byte buffer, the watchdog switches off, two
command classes, and the reset-info value `0x01020304` read successfully. -/
theorem startup_notification_witness :
    ∃ m1 e, ApplicationInitSW cfg100 (sampleStartup (some 0x01020304)) (initMachine cfg100)
        = .ok m1 ∧
      m1.callbackQueue.requestQueue = (initMachine cfg100).callbackQueue.requestQueue.set 0 e ∧
      m1.callbackQueue.requestCnt = 0 + 1 ∧
      m1.commandQueue = (initMachine cfg100).commandQueue ∧
      e.wCmd = 10 ∧
      e.wLen = 11 + 2 ∧
      e.wBuf.take e.wLen = [3, 0, 1, 2, 7, 2, 0x5E, 0x98, 1, 0x01, 0x02, 0x03, 0x04] := by
  obtain ⟨m1, e, h1, h2, h3, h4, h5, _, h7⟩ :=
    startup_notification cfg100 (sampleStartup (some 0x01020304)) (initMachine cfg100)
      (by decide) (by decide) (by simp [initMachine]) (by decide) (by decide) (by decide)
  exact ⟨m1, e, h1, h2, h3, h4, h5, (h7 _ rfl).1, (h7 _ rfl).2⟩

/-! ## The setup command family -/

/-- C28. For every `inputLength ≥ 1` and every first input byte `c` that is
none of the subcommands handled by `func_id_serial_api_setup`, the response is
the two bytes `SERIAL_API_SETUP_CMD_UNSUPPORTED`, `c` with output length 2, and
the machine (`nodeIdBaseType`, `bTxStatusReportEnabled`, the record of the
settings saved) is unchanged. -/
theorem setup_unknown_subcommand (cfg : Config) (sc : SetupConfig) (env : SetupEnv)
    (inputLength : Nat) (pInputBuffer pOutputBuffer : List Nat) (m : Machine) (c : Nat)
    (hlen : 1 ≤ inputLength) (hin : pInputBuffer[0]? = some c) (hc : c < 256)
    (hunk : c ∉ setupSubcommands) (hout : 2 ≤ pOutputBuffer.length) :
    ∃ o, func_id_serial_api_setup cfg sc env inputLength pInputBuffer pOutputBuffer m
        = .ok (o, 2, m) ∧
      o.take 2 = [sc.SERIAL_API_SETUP_CMD_UNSUPPORTED % 256, c] := by
  simp only [setupSubcommands, List.mem_cons, List.mem_singleton, List.not_mem_nil, or_false,
    not_or] at hunk
  obtain ⟨u1, u2, u3, u4, u5, u6, u7, u8, u9, u10, u11, u12, u13, u14, u15⟩ := hunk
  obtain ⟨o1, w1, l1, _⟩ := writeByte_prefix pOutputBuffer 0 c (by omega)
  obtain ⟨o2, w2, l2, t2⟩ := writeByte_prefix o1 0 sc.SERIAL_API_SETUP_CMD_UNSUPPORTED (by omega)
  obtain ⟨o3, w3, _, t3⟩ := writeByte_prefix o2 1 c (by omega)
  refine ⟨o3, ?_, ?_⟩
  · unfold func_id_serial_api_setup readByte
    rw [if_neg (by omega)]
    simp only [hin, Nat.mod_eq_of_lt hc, Outcome.bind, w1]
    rw [if_neg u1, if_neg u2, if_neg u3, if_neg u4, if_neg u5, if_neg u6, if_neg u7, if_neg u8,
      if_neg u9, if_neg u10, if_neg u11, if_neg u12, if_neg u13, if_neg u14, if_neg u15]
    unfold setup_default_case
    simp only [w2, w3, Outcome.bind]
  · rw [t3, t2, Nat.mod_eq_of_lt hc]
    simp

/-- C28 at a concrete input: the subcommand byte `7` with two argument bytes. -/
theorem setup_unknown_subcommand_witness :
    ∃ o, func_id_serial_api_setup cfg100 scSample envSample 3 [7, 1, 2] (List.replicate 100 0xAA)
        (initMachine cfg100) = .ok (o, 2, initMachine cfg100) ∧
      o.take 2 = [0 % 256, 7] :=
  setup_unknown_subcommand cfg100 scSample envSample 3 [7, 1, 2] (List.replicate 100 0xAA)
    (initMachine cfg100) 7 (by decide) rfl (by decide) (by decide) (by simp)

theorem BITMASK_ADD_CMD_length (l : List Nat) (cmd : Nat) :
    (BITMASK_ADD_CMD l cmd).length = l.length := by
  unfold BITMASK_ADD_CMD
  rw [List.length_set]

theorem foldl_BITMASK_ADD_CMD_length (cmds : List Nat) :
    ∀ l : List Nat, (cmds.foldl BITMASK_ADD_CMD l).length = l.length := by
  induction cmds with
  | nil => intro l; rfl
  | cons c cs ih =>
    intro l
    rw [List.foldl_cons, ih, BITMASK_ADD_CMD_length]

/-- C30 (the code where the claim fails). `RequestUnsolicited` and
`PurgeCommandQueue` write the command queue only between
`taskENTER_CRITICAL` and `taskEXIT_CRITICAL` and leave the critical section on
every path before they return; `PopCommandQueue` writes `requestCnt` and
`requestOut` on every path without entering a critical section. -/
theorem PopCommandQueue_outside_critical_section :
    (∀ m : Machine, criticalDiscipline 0 (PopCommandQueue_steps m) = false) ∧
    (∀ (cfg : Config) (len : Nat) (m : Machine),
      criticalDiscipline 0 (RequestUnsolicited_steps cfg len m) = true) ∧
    criticalDiscipline 0 PurgeCommandQueue_steps = true := by
  refine ⟨?_, ?_, ?_⟩
  · intro m
    unfold PopCommandQueue_steps
    split <;> rfl
  · intro cfg len m
    unfold RequestUnsolicited_steps
    split
    · split
      · rfl
      · split <;> rfl
    · rfl
  · rfl

/-! ## C39: `Request` and `RequestUnsolicited` are the same queue operation -/

/-- C39. For every command, payload and length, and every two machines of
which one holds in its command queue what the other holds in its callback
queue, `RequestUnsolicited` on the first and `Request` on the second end the
same way: the same boolean and the same `requestCnt`, `requestIn`,
`requestOut` and entries, or the same failure; and each leaves the other queue
of its machine unchanged. -/
theorem request_operations_agree (cfg : Config) (cmd : Nat) (pData : List Nat) (len : Nat)
    (m1 m2 : Machine) (h : m1.commandQueue = m2.callbackQueue) :
    (RequestUnsolicited cfg cmd pData len m1).map (fun r => (r.1, r.2.commandQueue))
      = (Request cfg cmd pData len m2).map (fun r => (r.1, r.2.callbackQueue)) ∧
    (∀ r, RequestUnsolicited cfg cmd pData len m1 = .ok r →
      r.2.callbackQueue = m1.callbackQueue) ∧
    (∀ r, Request cfg cmd pData len m2 = .ok r → r.2.commandQueue = m2.commandQueue) := by
  refine ⟨?_, fun r hr => (RequestUnsolicited_frame cfg cmd pData len m1 r hr).2.2.1,
    fun r hr => (Request_frame cfg cmd pData len m2 r hr).2.2.1⟩
  unfold RequestUnsolicited Request
  simp only [h, MAX_CALLBACK_QUEUE, MAX_UNSOLICITED_QUEUE]
  by_cases hc : m2.callbackQueue.requestCnt < 8
  · simp only [hc, if_true]
    cases hq : m2.callbackQueue.requestQueue[m2.callbackQueue.requestIn]? with
    | none => rfl
    | some e =>
      by_cases hl : len > cfg.BUF_SIZE_TX % 256
      · simp only [hl, if_true]
        cases hN : cfg.NDEBUG
        · have hd : decide (cfg.BUF_SIZE_TX % 256 ≥ len) = false := by
            simp only [decide_eq_false_iff_not]
            omega
          simp [cAssert, hN, hd, Outcome.bind, Outcome.map]
        · simp [cAssert, hN, Outcome.bind, Outcome.map]
      · simp only [hl, if_false, Outcome.bind, Outcome.map]
  · simp only [hc, if_false, Outcome.map, h]

/-- C39 at a concrete input: a three-byte frame offered to the two empty
queues of the start machine. -/
theorem request_operations_agree_witness :
    (RequestUnsolicited cfg16 7 [1, 2, 3] 3 (initMachine cfg16)).map
        (fun r => (r.1, r.2.commandQueue))
      = (Request cfg16 7 [1, 2, 3] 3 (initMachine cfg16)).map
        (fun r => (r.1, r.2.callbackQueue)) ∧
    (∀ r, RequestUnsolicited cfg16 7 [1, 2, 3] 3 (initMachine cfg16) = .ok r →
      r.2.callbackQueue = (initMachine cfg16).callbackQueue) ∧
    (∀ r, Request cfg16 7 [1, 2, 3] 3 (initMachine cfg16) = .ok r →
      r.2.commandQueue = (initMachine cfg16).commandQueue) :=
  request_operations_agree cfg16 7 [1, 2, 3] 3 (initMachine cfg16) (initMachine cfg16) rfl

/-! ## Single subcommands of the setup family -/

theorem writeByte_zero (buf : List Nat) (v : Nat) (h : 1 ≤ buf.length) :
    writeByte buf 0 v = .ok (buf.set 0 (v % 256)) := by
  unfold writeByte
  rw [if_pos (by omega)]

/-- The run of `func_id_serial_api_setup` for the subcommand
`NODEID_BASETYPE_SET` is the run of its case. -/
theorem setup_dispatch_NODEID_BASETYPE_SET (cfg : Config) (sc : SetupConfig) (env : SetupEnv)
    (inputLength : Nat) (pIn pOut : List Nat) (m : Machine)
    (hlen : 1 ≤ inputLength)
    (h0 : pIn[0]? = some SERIAL_API_SETUP_CMD_NODEID_BASETYPE_SET) (hout : 1 ≤ pOut.length) :
    func_id_serial_api_setup cfg sc env inputLength pIn pOut m
      = setup_NODEID_BASETYPE_SET_case cfg sc inputLength pIn
          (pOut.set 0 SERIAL_API_SETUP_CMD_NODEID_BASETYPE_SET) m := by
  have hc : SERIAL_API_SETUP_CMD_NODEID_BASETYPE_SET % 256
      = SERIAL_API_SETUP_CMD_NODEID_BASETYPE_SET := by decide
  unfold func_id_serial_api_setup readByte
  rw [if_neg (by omega)]
  simp only [h0, hc, Outcome.bind, writeByte_zero pOut _ hout]
  rw [if_neg (by decide), if_neg (by decide), if_neg (by decide), if_neg (by decide),
    if_neg (by decide), if_neg (by decide), if_neg (by decide), if_neg (by decide),
    if_neg (by decide), if_neg (by decide), if_neg (by decide), if_neg (by decide),
    if_pos trivial]

/-- The run of `func_id_serial_api_setup` for the subcommand
`TX_POWERLEVEL_GET` is the run of its case. -/
theorem setup_dispatch_TX_POWERLEVEL_GET (cfg : Config) (sc : SetupConfig) (env : SetupEnv)
    (inputLength : Nat) (pIn pOut : List Nat) (m : Machine)
    (hlen : 1 ≤ inputLength)
    (h0 : pIn[0]? = some SERIAL_API_SETUP_CMD_TX_POWERLEVEL_GET) (hout : 1 ≤ pOut.length) :
    func_id_serial_api_setup cfg sc env inputLength pIn pOut m
      = setup_TX_POWERLEVEL_GET_case env (pOut.set 0 SERIAL_API_SETUP_CMD_TX_POWERLEVEL_GET) m := by
  have hc : SERIAL_API_SETUP_CMD_TX_POWERLEVEL_GET % 256
      = SERIAL_API_SETUP_CMD_TX_POWERLEVEL_GET := by decide
  unfold func_id_serial_api_setup readByte
  rw [if_neg (by omega)]
  simp only [h0, hc, Outcome.bind, writeByte_zero pOut _ hout]
  rw [if_neg (by decide), if_neg (by decide), if_neg (by decide), if_neg (by decide),
    if_neg (by decide), if_neg (by decide), if_neg (by decide), if_pos trivial]

/-- The run of `func_id_serial_api_setup` for the subcommand `SUPPORTED` is the
run of its case. -/
theorem setup_dispatch_SUPPORTED (cfg : Config) (sc : SetupConfig) (env : SetupEnv)
    (inputLength : Nat) (pIn pOut : List Nat) (m : Machine)
    (hlen : 1 ≤ inputLength)
    (h0 : pIn[0]? = some SERIAL_API_SETUP_CMD_SUPPORTED) (hout : 1 ≤ pOut.length) :
    func_id_serial_api_setup cfg sc env inputLength pIn pOut m
      = setup_SUPPORTED_case (pOut.set 0 SERIAL_API_SETUP_CMD_SUPPORTED) m := by
  have hc : SERIAL_API_SETUP_CMD_SUPPORTED % 256 = SERIAL_API_SETUP_CMD_SUPPORTED := by decide
  unfold func_id_serial_api_setup readByte
  rw [if_neg (by omega)]
  simp only [h0, hc, Outcome.bind, writeByte_zero pOut _ hout]
  rw [if_pos trivial]

/-- The first byte of a buffer after a write at index 0. -/
theorem take_one_set_zero (buf : List Nat) (v : Nat) (h : 1 ≤ buf.length) :
    (buf.set 0 v).take 1 = [v] := by
  cases buf with
  | nil => simp at h
  | cons a as => simp

/-! ## C36: the empty setup request -/

/-- C36. With `inputLength = 0`, `func_id_serial_api_setup` writes the single
response byte 0 with output length 1 and leaves the machine (`nodeIdBaseType`,
`bTxStatusReportEnabled`, the record of the settings saved) unchanged; it reads
no input byte: the run is the same for an input buffer without any byte. -/
theorem setup_empty_request (cfg : Config) (sc : SetupConfig) (env : SetupEnv)
    (pInputBuffer pOutputBuffer : List Nat) (m : Machine) (hout : 1 ≤ pOutputBuffer.length) :
    ∃ o, func_id_serial_api_setup cfg sc env 0 pInputBuffer pOutputBuffer m = .ok (o, 1, m) ∧
      o.take 1 = [0] ∧
      func_id_serial_api_setup cfg sc env 0 pInputBuffer pOutputBuffer m
        = func_id_serial_api_setup cfg sc env 0 [] pOutputBuffer m := by
  refine ⟨pOutputBuffer.set 0 0, ?_, take_one_set_zero _ _ hout, ?_⟩
  · unfold func_id_serial_api_setup
    rw [if_pos (by omega), writeByte_zero pOutputBuffer _ hout]
    rfl
  · unfold func_id_serial_api_setup
    rw [if_pos (by omega), if_pos (by omega)]

/-- C36 at a concrete input. -/
theorem setup_empty_request_witness :
    ∃ o, func_id_serial_api_setup cfg100 scSample envSample 0 [128, 2] (List.replicate 100 0xAA)
        (initMachine cfg100) = .ok (o, 1, initMachine cfg100) ∧
      o.take 1 = [0] ∧
      func_id_serial_api_setup cfg100 scSample envSample 0 [128, 2] (List.replicate 100 0xAA)
          (initMachine cfg100)
        = func_id_serial_api_setup cfg100 scSample envSample 0 [] (List.replicate 100 0xAA)
          (initMachine cfg100) :=
  setup_empty_request cfg100 scSample envSample [128, 2] (List.replicate 100 0xAA)
    (initMachine cfg100) (by simp)

/-- The first two bytes of a buffer after a write at index 0 and one at
index 1. -/
theorem take_two_after_writes (buf : List Nat) (c v : Nat) (h : 2 ≤ buf.length) :
    ∃ o, writeByte (buf.set 0 c) 1 v = .ok o ∧ o.take 2 = [c, v % 256] := by
  obtain ⟨o, w, _, t⟩ := writeByte_prefix (buf.set 0 c) 1 v (by rw [List.length_set]; omega)
  refine ⟨o, w, ?_⟩
  rw [t, take_one_set_zero buf c (by omega)]
  rfl

/-! ## C35: the subcommand `NODEID_BASETYPE_SET` -/

/-- C35. Let `v` be the second input byte of a `NODEID_BASETYPE_SET` request.
If `inputLength ≥ SERIAL_API_SETUP_CMD_NODEID_BASETYPE_SET_CMD_LENGTH_MIN` and
`0 < v < SERIAL_API_SETUP_NODEID_BASE_TYPE_LAST`, the response is
`[subcommand, 1]`, `nodeIdBaseType` becomes `v` and `v` is saved; in every
other case the response is `[subcommand, 0]`, nothing is saved and
`nodeIdBaseType` becomes the default, whatever it was. Nothing else of the
machine changes. -/
theorem setup_nodeid_basetype_set (cfg : Config) (sc : SetupConfig) (env : SetupEnv)
    (inputLength : Nat) (pInputBuffer pOutputBuffer : List Nat) (m : Machine) (v : Nat)
    (hlen : 1 ≤ inputLength)
    (h0 : pInputBuffer[0]? = some SERIAL_API_SETUP_CMD_NODEID_BASETYPE_SET)
    (h1 : pInputBuffer[1]? = some v) (hv : v < 256) (hout : 2 ≤ pOutputBuffer.length) :
    ∃ o m1, func_id_serial_api_setup cfg sc env inputLength pInputBuffer pOutputBuffer m
        = .ok (o, 2, m1) ∧
      (sc.SERIAL_API_SETUP_CMD_NODEID_BASETYPE_SET_CMD_LENGTH_MIN ≤ inputLength ∧ 0 < v ∧
          v < sc.SERIAL_API_SETUP_NODEID_BASE_TYPE_LAST →
        o.take 2 = [SERIAL_API_SETUP_CMD_NODEID_BASETYPE_SET, 1] ∧
        m1 = { m with nodeIdBaseType := v
                      extCalls := m.extCalls ++ [.SaveApplicationNodeIdBaseType v] }) ∧
      (¬ (sc.SERIAL_API_SETUP_CMD_NODEID_BASETYPE_SET_CMD_LENGTH_MIN ≤ inputLength ∧ 0 < v ∧
          v < sc.SERIAL_API_SETUP_NODEID_BASE_TYPE_LAST) →
        o.take 2 = [SERIAL_API_SETUP_CMD_NODEID_BASETYPE_SET, 0] ∧
        m1 = { m with nodeIdBaseType := cfg.SERIAL_API_SETUP_NODEID_BASE_TYPE_DEFAULT }) := by
  rw [setup_dispatch_NODEID_BASETYPE_SET cfg sc env inputLength pInputBuffer pOutputBuffer m hlen
    h0 (by omega)]
  by_cases hcond : sc.SERIAL_API_SETUP_CMD_NODEID_BASETYPE_SET_CMD_LENGTH_MIN ≤ inputLength ∧
      0 < v ∧ v < sc.SERIAL_API_SETUP_NODEID_BASE_TYPE_LAST
  · obtain ⟨o, w, t⟩ := take_two_after_writes pOutputBuffer
      SERIAL_API_SETUP_CMD_NODEID_BASETYPE_SET (boolByte true) hout
    have hrun : setup_NODEID_BASETYPE_SET_case cfg sc inputLength pInputBuffer
        (pOutputBuffer.set 0 SERIAL_API_SETUP_CMD_NODEID_BASETYPE_SET) m
        = .ok (o, 2, { m with nodeIdBaseType := v
                              extCalls := m.extCalls ++ [.SaveApplicationNodeIdBaseType v] }) := by
      unfold setup_NODEID_BASETYPE_SET_case readByte
      have hr : 0 < v ∧ sc.SERIAL_API_SETUP_NODEID_BASE_TYPE_LAST > v := ⟨hcond.2.1, hcond.2.2⟩
      simp only [h1, Nat.mod_eq_of_lt hv, hcond.1, hr, if_true, and_self, Outcome.bind, w]
      rfl
    rw [hrun]
    exact ⟨o, _, rfl, fun _ => ⟨t, rfl⟩, fun hn => absurd hcond hn⟩
  · obtain ⟨o, w, t⟩ := take_two_after_writes pOutputBuffer
      SERIAL_API_SETUP_CMD_NODEID_BASETYPE_SET (boolByte false) hout
    have hrun : setup_NODEID_BASETYPE_SET_case cfg sc inputLength pInputBuffer
        (pOutputBuffer.set 0 SERIAL_API_SETUP_CMD_NODEID_BASETYPE_SET) m
        = .ok (o, 2, { m with
            nodeIdBaseType := cfg.SERIAL_API_SETUP_NODEID_BASE_TYPE_DEFAULT }) := by
      unfold setup_NODEID_BASETYPE_SET_case readByte
      by_cases hmin : sc.SERIAL_API_SETUP_CMD_NODEID_BASETYPE_SET_CMD_LENGTH_MIN ≤ inputLength
      · have hr : ¬ (0 < v ∧ sc.SERIAL_API_SETUP_NODEID_BASE_TYPE_LAST > v) :=
          fun hh => hcond ⟨hmin, hh.1, hh.2⟩
        simp only [h1, Nat.mod_eq_of_lt hv, hmin, hr, if_true, if_false, Outcome.bind, w]
      · simp only [hmin, if_false, Outcome.bind, w]
    rw [hrun]
    exact ⟨o, _, rfl, fun hc => absurd hc hcond, fun _ => ⟨t, rfl⟩⟩

/-- C35 at a concrete input: the request `[128, 2]` of length 2 switches the
start machine to 16-bit node IDs and saves the value. -/
theorem setup_nodeid_basetype_set_witness :
    ∃ o m1, func_id_serial_api_setup cfg100 scSample envSample 2 [128, 2]
        (List.replicate 100 0xAA) (initMachine cfg100) = .ok (o, 2, m1) ∧
      o.take 2 = [128, 1] ∧
      m1 = { initMachine cfg100 with nodeIdBaseType := 2
                                     extCalls := [.SaveApplicationNodeIdBaseType 2] } := by
  obtain ⟨o, m1, h, hyes, _⟩ := setup_nodeid_basetype_set cfg100 scSample envSample 2 [128, 2]
    (List.replicate 100 0xAA) (initMachine cfg100) 2 (by decide) rfl rfl (by decide) (by simp)
  exact ⟨o, m1, h, (hyes (by decide)).1, (hyes (by decide)).2⟩

/-! ## C38: the subcommand `TX_POWERLEVEL_GET` -/

/-- The byte written for a power value is the two's-complement encoding of the
value clamped to `-128 .. 127`. -/
theorem uint8_clampInt8 (x : Int) :
    uint8 (clampInt8 x) = twosComplement8 (clampTo (-128) 127 x) ∧
      uint8 (clampInt8 x) < 256 := by
  unfold uint8 clampInt8 twosComplement8 clampTo
  by_cases h1 : x > 127
  · rw [if_pos h1]
    have : max (-128 : Int) (min 127 x) = 127 := by omega
    rw [this]
    exact ⟨by decide, by decide⟩
  · rw [if_neg h1]
    by_cases h2 : x < -128
    · rw [if_pos h2]
      have : max (-128 : Int) (min 127 x) = -128 := by omega
      rw [this]
      exact ⟨by decide, by decide⟩
    · rw [if_neg h2]
      have : max (-128 : Int) (min 127 x) = x := by omega
      rw [this]
      constructor
      · split <;> omega
      · omega

/-- C38. For every stored power level `p` and measured-0dBm value `a`, the
response to `TX_POWERLEVEL_GET` is `[subcommand, b1, b2]` of length 3, where
`b1` and `b2` are the 8-bit two's-complement encodings of `p` and `a` clamped
to `-128 .. 127`; a value already in that range is encoded as it is. The
machine is unchanged. -/
theorem setup_tx_powerlevel_get (cfg : Config) (sc : SetupConfig) (env : SetupEnv)
    (inputLength : Nat) (pInputBuffer pOutputBuffer : List Nat) (m : Machine)
    (hlen : 1 ≤ inputLength)
    (h0 : pInputBuffer[0]? = some SERIAL_API_SETUP_CMD_TX_POWERLEVEL_GET)
    (hout : 3 ≤ pOutputBuffer.length) :
    ∃ o, func_id_serial_api_setup cfg sc env inputLength pInputBuffer pOutputBuffer m
        = .ok (o, 3, m) ∧
      o.take 3 = [SERIAL_API_SETUP_CMD_TX_POWERLEVEL_GET,
        twosComplement8 (clampTo (-128) 127 env.ReadApplicationTxPowerlevel.1),
        twosComplement8 (clampTo (-128) 127 env.ReadApplicationTxPowerlevel.2)] ∧
      (∀ x : Int, -128 ≤ x → x ≤ 127 → clampTo (-128) 127 x = x) := by
  rw [setup_dispatch_TX_POWERLEVEL_GET cfg sc env inputLength pInputBuffer pOutputBuffer m hlen
    h0 (by omega)]
  unfold setup_TX_POWERLEVEL_GET_case
  obtain ⟨e1, l1⟩ := uint8_clampInt8 env.ReadApplicationTxPowerlevel.1
  obtain ⟨e2, l2⟩ := uint8_clampInt8 env.ReadApplicationTxPowerlevel.2
  obtain ⟨o2, w2, z2, t2⟩ := writeByte_prefix
    (pOutputBuffer.set 0 SERIAL_API_SETUP_CMD_TX_POWERLEVEL_GET) 1
    (uint8 (clampInt8 env.ReadApplicationTxPowerlevel.1)) (by rw [List.length_set]; omega)
  obtain ⟨o3, w3, _, t3⟩ := writeByte_prefix o2 2
    (uint8 (clampInt8 env.ReadApplicationTxPowerlevel.2))
    (by rw [z2, List.length_set]; omega)
  simp only [w2, w3, Outcome.bind]
  refine ⟨o3, rfl, ?_, ?_⟩
  · rw [t3, t2, take_one_set_zero pOutputBuffer _ (by omega), Nat.mod_eq_of_lt l1,
      Nat.mod_eq_of_lt l2, e1, e2]
    rfl
  · intro x h1 h2
    unfold clampTo
    omega

/-- C38 at a concrete input: the stored values `200` and `-300` are answered
as `127` and `-128`, that is as the bytes `127` and `128`. -/
theorem setup_tx_powerlevel_get_witness :
    ∃ o, func_id_serial_api_setup cfg100 scSample envSample 1 [8] (List.replicate 100 0xAA)
        (initMachine cfg100) = .ok (o, 3, initMachine cfg100) ∧
      o.take 3 = [8, 127, 128] ∧
      (∀ x : Int, -128 ≤ x → x ≤ 127 → clampTo (-128) 127 x = x) :=
  setup_tx_powerlevel_get cfg100 scSample envSample 1 [8] (List.replicate 100 0xAA)
    (initMachine cfg100) (by decide) rfl (by simp)

/-! ## C37: the subcommand `SUPPORTED` -/

/-- C37. The response to `SUPPORTED` has length 19 and is
`[SUPPORTED, flags, m[0..16]]`: `flags` is `0xFF`, the bitwise OR of the eight
power-of-two subcommand values, and for every `c` in `1 .. 136`, bit
`(c - 1) mod 8` of byte `m[(c - 1) div 8]` is set exactly when `c` is one of
the fifteen supported subcommand values. The machine is unchanged. -/
theorem setup_supported (cfg : Config) (sc : SetupConfig) (env : SetupEnv)
    (inputLength : Nat) (pInputBuffer pOutputBuffer : List Nat) (m : Machine)
    (hlen : 1 ≤ inputLength)
    (h0 : pInputBuffer[0]? = some SERIAL_API_SETUP_CMD_SUPPORTED)
    (hout : 19 ≤ pOutputBuffer.length) :
    ∃ o, func_id_serial_api_setup cfg sc env inputLength pInputBuffer pOutputBuffer m
        = .ok (o, 19, m) ∧
      o.take 19 = [SERIAL_API_SETUP_CMD_SUPPORTED, 0xFF] ++ supportedMask ∧
      supportedMask.length = 17 ∧
      (1 ||| 2 ||| 4 ||| 8 ||| 16 ||| 32 ||| 64 ||| 128 = 0xFF) ∧
      (∀ c < 137, 1 ≤ c →
        ((supportedMask.getD ((c - 1) / 8) 0).testBit ((c - 1) % 8) = true ↔
          c ∈ [1, 2, 3, 4, 5, 8, 16, 17, 18, 19, 21, 22, 32, 64, 128])) := by
  rw [setup_dispatch_SUPPORTED cfg sc env inputLength pInputBuffer pOutputBuffer m hlen h0
    (by omega)]
  unfold setup_SUPPORTED_case
  obtain ⟨o2, w2, l2, t2⟩ := writeByte_prefix
    (pOutputBuffer.set 0 SERIAL_API_SETUP_CMD_SUPPORTED) 1
    (SERIAL_API_SETUP_CMD_TX_STATUS_REPORT ||| SERIAL_API_SETUP_CMD_RF_REGION_GET
      ||| SERIAL_API_SETUP_CMD_RF_REGION_SET ||| SERIAL_API_SETUP_CMD_TX_POWERLEVEL_SET
      ||| SERIAL_API_SETUP_CMD_TX_POWERLEVEL_GET
      ||| SERIAL_API_SETUP_CMD_TX_GET_MAX_PAYLOAD_SIZE
      ||| SERIAL_API_SETUP_CMD_NODEID_BASETYPE_SET ||| SERIAL_API_SETUP_CMD_SUPPORTED)
    (by rw [List.length_set]; omega)
  have hflags : (SERIAL_API_SETUP_CMD_TX_STATUS_REPORT ||| SERIAL_API_SETUP_CMD_RF_REGION_GET
      ||| SERIAL_API_SETUP_CMD_RF_REGION_SET ||| SERIAL_API_SETUP_CMD_TX_POWERLEVEL_SET
      ||| SERIAL_API_SETUP_CMD_TX_POWERLEVEL_GET
      ||| SERIAL_API_SETUP_CMD_TX_GET_MAX_PAYLOAD_SIZE
      ||| SERIAL_API_SETUP_CMD_NODEID_BASETYPE_SET ||| SERIAL_API_SETUP_CMD_SUPPORTED) % 256
      = 0xFF := by decide
  rw [hflags, take_one_set_zero pOutputBuffer _ (by omega)] at t2
  have h17 : SERIAL_API_SETUP_CMD_NODEID_BASETYPE_SET / 8 + 1 = 17 := by decide
  simp only [w2, Outcome.bind, h17]
  obtain ⟨o3, w3, _, t3⟩ := forCopy_prefix 2
    ([ SERIAL_API_SETUP_CMD_SUPPORTED, SERIAL_API_SETUP_CMD_TX_STATUS_REPORT,
      SERIAL_API_SETUP_CMD_TX_POWERLEVEL_SET, SERIAL_API_SETUP_CMD_TX_POWERLEVEL_GET,
      SERIAL_API_SETUP_CMD_TX_GET_MAX_PAYLOAD_SIZE, SERIAL_API_SETUP_CMD_RF_REGION_GET,
      SERIAL_API_SETUP_CMD_RF_REGION_SET, SERIAL_API_SETUP_CMD_NODEID_BASETYPE_SET,
      SERIAL_API_SETUP_CMD_MAX_LR_TX_PWR_SET, SERIAL_API_SETUP_CMD_MAX_LR_TX_PWR_GET,
      SERIAL_API_SETUP_CMD_TX_GET_MAX_LR_PAYLOAD_SIZE,
      SERIAL_API_SETUP_CMD_TX_POWERLEVEL_SET_16_BIT,
      SERIAL_API_SETUP_CMD_TX_POWERLEVEL_GET_16_BIT,
      SERIAL_API_SETUP_CMD_GET_SUPPORTED_REGION,
      SERIAL_API_SETUP_CMD_GET_REGION_INFO ].foldl BITMASK_ADD_CMD (List.replicate 32 0))
    17 0 o2 (by rw [l2, List.length_set]; omega)
    (by rw [foldl_BITMASK_ADD_CMD_length, List.length_replicate]; omega)
  have hbm : (List.take 17 (List.drop 0
      ([ SERIAL_API_SETUP_CMD_SUPPORTED, SERIAL_API_SETUP_CMD_TX_STATUS_REPORT,
      SERIAL_API_SETUP_CMD_TX_POWERLEVEL_SET, SERIAL_API_SETUP_CMD_TX_POWERLEVEL_GET,
      SERIAL_API_SETUP_CMD_TX_GET_MAX_PAYLOAD_SIZE, SERIAL_API_SETUP_CMD_RF_REGION_GET,
      SERIAL_API_SETUP_CMD_RF_REGION_SET, SERIAL_API_SETUP_CMD_NODEID_BASETYPE_SET,
      SERIAL_API_SETUP_CMD_MAX_LR_TX_PWR_SET, SERIAL_API_SETUP_CMD_MAX_LR_TX_PWR_GET,
      SERIAL_API_SETUP_CMD_TX_GET_MAX_LR_PAYLOAD_SIZE,
      SERIAL_API_SETUP_CMD_TX_POWERLEVEL_SET_16_BIT,
      SERIAL_API_SETUP_CMD_TX_POWERLEVEL_GET_16_BIT,
      SERIAL_API_SETUP_CMD_GET_SUPPORTED_REGION,
      SERIAL_API_SETUP_CMD_GET_REGION_INFO ].foldl BITMASK_ADD_CMD (List.replicate 32 0)))).map
        (· % 256) = supportedMask := by decide
  rw [hbm] at t3
  simp only [w3]
  refine ⟨o3, rfl, ?_, by decide, by decide, by decide⟩
  have e19 : 19 = 2 + 0 + 17 := by omega
  rw [e19, t3]
  show List.take (1 + 1) o2 ++ supportedMask = _
  rw [t2]
  rfl

/-- C37 at a concrete input. -/
theorem setup_supported_witness :
    ∃ o, func_id_serial_api_setup cfg100 scSample envSample 1 [1] (List.replicate 100 0xAA)
        (initMachine cfg100) = .ok (o, 19, initMachine cfg100) ∧
      o.take 19 = [1, 0xFF, 0x9F, 0x80, 0x37, 0x80, 0, 0, 0, 0x80, 0, 0, 0, 0, 0, 0, 0, 0x80, 0] := by
  obtain ⟨o, h1, h2, _⟩ := setup_supported cfg100 scSample envSample 1 [1]
    (List.replicate 100 0xAA) (initMachine cfg100) (by decide) rfl (by simp)
  exact ⟨o, h1, h2⟩

/-! ## C34: the `cmdLength` byte of the bridge frame -/

/-- C34 (the code at inputs where the claim fails). With a 100-byte buffer and
8-bit node IDs, `ApplicationCommandHandler_Bridge` queues for a non-multicast
frame of 96 command bytes a frame whose `cmdLength` byte is 96 but which
carries 95 command bytes, followed at once by the RSSI byte `186`; and for a
multicast frame of 95 command bytes a frame of 5 bytes whose `cmdLength` byte
is 95 and which carries no command byte at all. -/
theorem bridge_length_field_inconsistent :
    (ApplicationCommandHandler_Bridge cfg100 (samplePackage 0 96) (initMachine cfg100)).map
        (queuedFrame 0)
      = .ok (some ([0, 0x04, 0x02, 96] ++ countingBytes 95 ++ [186])) ∧
    (ApplicationCommandHandler_Bridge cfg100 (samplePackage 8 95) (initMachine cfg100)).map
        (queuedFrame 0)
      = .ok (some [8, 0x04, 0x02, 95, 186]) := by
  set_option maxRecDepth 100000 in
  refine ⟨?_, ?_⟩ <;> decide

/-! ## The encryption-request relay -/

/-- The node-ID field of the relay, written at the start of the buffer. -/
theorem relay_nodeId_prefix (cfg : Config) (t nodeID : Nat) (buf : List Nat)
    (h : nodeIdWidth cfg t ≤ buf.length) :
    ∃ b, relay_writeNodeId cfg t nodeID buf = .ok (b, nodeIdWidth cfg t) ∧
      b.length = buf.length ∧ b.take (nodeIdWidth cfg t) = nodeIdBytes cfg t nodeID := by
  unfold nodeIdWidth at h ⊢
  unfold nodeIdBytes relay_writeNodeId
  by_cases ht : cfg.SERIAL_API_SETUP_NODEID_BASE_TYPE_16_BIT = t
  · rw [if_pos ht] at h
    rw [if_pos ht, if_pos ht, if_pos ht]
    obtain ⟨b0, w0, l0, t0⟩ := writeByte_prefix buf 0 (nodeID / 256) (by omega)
    obtain ⟨b1, w1, l1, t1⟩ := writeByte_prefix b0 1 (nodeID % 256) (by omega)
    refine ⟨b1, by simp only [w0, w1, Outcome.bind], by rw [l1, l0], ?_⟩
    rw [t1, t0]
    simp
  · rw [if_neg ht] at h
    rw [if_neg ht, if_neg ht, if_neg ht]
    obtain ⟨b0, w0, l0, t0⟩ := writeByte_prefix buf 0 (nodeID % 256) (by omega)
    refine ⟨b0, by simp only [w0, Outcome.bind], l0, ?_⟩
    rw [t0]
    simp

/-- What `request_protocol_cc_encryption` leaves in the work buffer and which
length it passes on, for a frame that fits the buffer. -/
theorem request_protocol_cc_encryption_workbuf_spec (cfg : Config) (t sid : Nat)
    (p : SRequestEncryption) (buf : List Nat)
    (hB : cfg.BUF_SIZE_TX < 256) (hbuf : buf.length = cfg.BUF_SIZE_TX)
    (hfit : relayFrameLength cfg t p ≤ cfg.BUF_SIZE_TX)
    (hsrc : p.payloadLength ≤ p.Payload.length)
    (hmsrc : p.protocolMetadataLength ≤ p.protocolMetadata.length) :
    ∃ b, request_protocol_cc_encryption_workbuf cfg t sid p buf
        = .ok (b, relayFrameLength cfg t p) ∧
      b.length = buf.length ∧
      b.take (relayFrameLength cfg t p) = relayFrame cfg t sid p := by
  unfold relayFrameLength at hfit ⊢
  have hw : nodeIdWidth cfg t = 1 ∨ nodeIdWidth cfg t = 2 := by
    unfold nodeIdWidth
    split <;> simp
  obtain ⟨b1, w1, l1, t1⟩ := relay_nodeId_prefix cfg t p.destNodeID buf (by omega)
  obtain ⟨W, hWdef⟩ : ∃ W, nodeIdWidth cfg t = W := ⟨_, rfl⟩
  obtain ⟨c, hcdef⟩ : ∃ c, p.payloadLength = c := ⟨_, rfl⟩
  obtain ⟨k, hkdef⟩ : ∃ k, p.protocolMetadataLength = k := ⟨_, rfl⟩
  rw [hWdef] at w1 t1 hfit hw
  rw [hcdef] at hfit hsrc
  rw [hkdef] at hfit hmsrc
  obtain ⟨b2, w2, l2, t2⟩ := writeByte_prefix b1 W c (by omega)
  obtain ⟨b3, w3, l3, t3⟩ := forCopy_prefix (W + 1) p.Payload c 0 b2 (by omega) (by omega)
  obtain ⟨b4, w4, l4, t4⟩ := writeByte_prefix b3 (W + 1 + c) k (by omega)
  obtain ⟨b5, w5, l5, t5⟩ := forCopy_prefix (W + 1 + c + 1) p.protocolMetadata k 0 b4
    (by omega) (by omega)
  obtain ⟨b6, w6, l6, t6⟩ := writeByte_prefix b5 (W + 1 + c + 1 + k) p.useSupervision (by omega)
  obtain ⟨b7, w7, l7, t7⟩ := writeByte_prefix b6 (W + 1 + c + 1 + k + 1) sid (by omega)
  have hc : c % 256 = c := Nat.mod_eq_of_lt (by omega)
  have hk : k % 256 = k := Nat.mod_eq_of_lt (by omega)
  have e1 : (W + 1) % 256 = W + 1 := Nat.mod_eq_of_lt (by omega)
  have e2 : (W + 1 + c) % 256 = W + 1 + c := Nat.mod_eq_of_lt (by omega)
  have e3 : (W + 1 + c + 1) % 256 = W + 1 + c + 1 := Nat.mod_eq_of_lt (by omega)
  have e4 : (W + 1 + c + 1 + k) % 256 = W + 1 + c + 1 + k := Nat.mod_eq_of_lt (by omega)
  have e5 : (W + 1 + c + 1 + k + 1) % 256 = W + 1 + c + 1 + k + 1 := Nat.mod_eq_of_lt (by omega)
  have e6 : (W + 1 + c + 1 + k + 1 + 1) % 256 = W + c + k + 4 := by omega
  unfold request_protocol_cc_encryption_workbuf
  simp only [w1, Outcome.bind, hcdef, hkdef, hc, hk, e1, e2, e3, e4, e5, e6, w2, w3, w4, w5, w6,
    w7, hWdef]
  refine ⟨b7, rfl, by rw [l7, l6, l5, l4, l3, l2, l1], ?_⟩
  have f7 : W + c + k + 4 = W + 1 + c + 1 + k + 1 + 1 := by omega
  have f5 : W + 1 + c + 1 + 0 + k = W + 1 + c + 1 + k := by omega
  have f5' : W + 1 + c + 1 + 0 = W + 1 + c + 1 := by omega
  have f3 : W + 1 + 0 + c = W + 1 + c := by omega
  have f3' : W + 1 + 0 = W + 1 := by omega
  rw [f3, f3'] at t3
  rw [f5, f5'] at t5
  rw [f7, t7, t6, t5, t4, t3, t2, t1]
  unfold relayFrame
  rw [hcdef, hkdef, hc, hk]
  simp

/-- The guard of the relay, for a buffer smaller than 256 bytes that holds the
fixed fields: a package is accepted exactly when its metadata length is
`PROTOCOL_METADATA_LENGTH` and `cmdLength ≤ BUF_SIZE_TX - (5 + metadata length)`. -/
theorem relayRejects_eq_false_iff (cfg : Config) (p : SRequestEncryption)
    (hB : cfg.BUF_SIZE_TX < 256) (h5 : 5 + cfg.PROTOCOL_METADATA_LENGTH ≤ cfg.BUF_SIZE_TX)
    (hc : p.payloadLength < 256) (hk : p.protocolMetadataLength < 256) :
    relayRejects cfg p = false ↔
      p.protocolMetadataLength = cfg.PROTOCOL_METADATA_LENGTH ∧
        p.payloadLength ≤ cfg.BUF_SIZE_TX - (5 + p.protocolMetadataLength) := by
  unfold relayRejects uint8
  rw [Nat.mod_eq_of_lt hc, Nat.mod_eq_of_lt hk, decide_eq_false_iff_not]
  constructor
  · intro h
    have h1 : p.protocolMetadataLength = cfg.PROTOCOL_METADATA_LENGTH := by
      by_contra hne
      exact h (Or.inl hne)
    refine ⟨h1, ?_⟩
    by_contra hgt
    apply h
    right
    omega
  · rintro ⟨h1, h2⟩ h
    rcases h with h | h
    · exact h h1
    · omega

/-- The relay at the largest command it accepts, with 16-bit node IDs: the
session byte is written at index `BUF_SIZE_TX`. -/
theorem request_protocol_cc_encryption_workbuf_overrun (cfg : Config) (t sid : Nat)
    (p : SRequestEncryption) (buf : List Nat)
    (hB : cfg.BUF_SIZE_TX < 256) (hbuf : buf.length = cfg.BUF_SIZE_TX)
    (h16 : cfg.SERIAL_API_SETUP_NODEID_BASE_TYPE_16_BIT = t)
    (hedge : p.payloadLength + (5 + p.protocolMetadataLength) = cfg.BUF_SIZE_TX)
    (hsrc : p.payloadLength ≤ p.Payload.length)
    (hmsrc : p.protocolMetadataLength ≤ p.protocolMetadata.length) :
    request_protocol_cc_encryption_workbuf cfg t sid p buf = .outOfBounds := by
  have hw : nodeIdWidth cfg t = 2 := by
    unfold nodeIdWidth
    rw [if_pos h16]
  obtain ⟨b1, w1, l1, _⟩ := relay_nodeId_prefix cfg t p.destNodeID buf (by omega)
  rw [hw] at w1
  obtain ⟨c, hcdef⟩ : ∃ c, p.payloadLength = c := ⟨_, rfl⟩
  obtain ⟨k, hkdef⟩ : ∃ k, p.protocolMetadataLength = k := ⟨_, rfl⟩
  rw [hcdef, hkdef] at hedge
  rw [hcdef] at hsrc
  rw [hkdef] at hmsrc
  obtain ⟨b2, w2, l2, _⟩ := writeByte_prefix b1 2 c (by omega)
  obtain ⟨b3, w3, l3, _⟩ := forCopy_prefix (2 + 1) p.Payload c 0 b2 (by omega) (by omega)
  obtain ⟨b4, w4, l4, _⟩ := writeByte_prefix b3 (2 + 1 + c) k (by omega)
  obtain ⟨b5, w5, l5, _⟩ := forCopy_prefix (2 + 1 + c + 1) p.protocolMetadata k 0 b4
    (by omega) (by omega)
  obtain ⟨b6, w6, l6, _⟩ := writeByte_prefix b5 (2 + 1 + c + 1 + k) p.useSupervision (by omega)
  have w7 := writeByte_outside b6 (2 + 1 + c + 1 + k + 1) sid (by omega)
  have hc : c % 256 = c := Nat.mod_eq_of_lt (by omega)
  have hk : k % 256 = k := Nat.mod_eq_of_lt (by omega)
  have e1 : (2 + 1) % 256 = 2 + 1 := by decide
  have e2 : (2 + 1 + c) % 256 = 2 + 1 + c := Nat.mod_eq_of_lt (by omega)
  have e3 : (2 + 1 + c + 1) % 256 = 2 + 1 + c + 1 := Nat.mod_eq_of_lt (by omega)
  have e4 : (2 + 1 + c + 1 + k) % 256 = 2 + 1 + c + 1 + k := Nat.mod_eq_of_lt (by omega)
  have e5 : (2 + 1 + c + 1 + k + 1) % 256 = 2 + 1 + c + 1 + k + 1 := Nat.mod_eq_of_lt (by omega)
  unfold request_protocol_cc_encryption_workbuf
  simp only [w1, Outcome.bind, hcdef, hkdef, hc, hk, e1, e2, e3, e4, e5, w2, w3, w4, w5, w6, w7]

/-- `RequestUnsolicited` with a length that fits, on a command queue whose
`requestIn` is inside its ring: it returns, keeps the shape of the ring and
leaves the rest of the machine alone; on a full queue it changes nothing. -/
theorem RequestUnsolicited_total (cfg : Config) (cmd : Nat) (pData : List Nat) (len : Nat)
    (m : Machine) (hB : cfg.BUF_SIZE_TX < 256) (hle : len ≤ cfg.BUF_SIZE_TX)
    (hin : m.commandQueue.requestIn < 8) (hlen : m.commandQueue.requestQueue.length = 8) :
    ∃ st m1, RequestUnsolicited cfg cmd pData len m = .ok (st, m1) ∧
      m1.sessionId = m.sessionId ∧ m1.compl_workbuf = m.compl_workbuf ∧
      m1.nodeIdBaseType = m.nodeIdBaseType ∧
      m1.commandQueue.requestIn < 8 ∧ m1.commandQueue.requestQueue.length = 8 ∧
      (8 ≤ m.commandQueue.requestCnt → st = false ∧ m1 = m) ∧
      (m.commandQueue.requestCnt < 8 → st = true ∧
        m1.commandQueue.requestCnt = m.commandQueue.requestCnt + 1) := by
  by_cases hc : m.commandQueue.requestCnt < 8
  · have hlt : m.commandQueue.requestIn < m.commandQueue.requestQueue.length := by omega
    have hR := RequestUnsolicited_accept cfg cmd pData len m _ hc
      (List.getElem?_eq_getElem hlt)
      (Or.inl (by rw [Nat.mod_eq_of_lt hB]; exact hle))
    refine ⟨true, _, hR, rfl, rfl, rfl, ?_, ?_, fun h => absurd hc (by omega), fun _ => ⟨rfl, rfl⟩⟩
    · show (if (m.commandQueue.requestIn + 1) % 256 ≥ MAX_UNSOLICITED_QUEUE then 0
        else (m.commandQueue.requestIn + 1) % 256) < 8
      unfold MAX_UNSOLICITED_QUEUE
      split <;> omega
    · show (m.commandQueue.requestQueue.set _ _).length = 8
      rw [List.length_set]
      exact hlen
  · have hR := RequestUnsolicited_of_full cfg cmd pData len m
      (by unfold MAX_UNSOLICITED_QUEUE; omega)
    exact ⟨false, m, hR, rfl, rfl, rfl, hin, hlen, fun _ => ⟨rfl, rfl⟩, fun h => absurd h hc⟩

/-! ## C32: the relay runs over the buffer with 16-bit node IDs -/

/-- C32 (the code at the inputs where the claim fails). Let the buffer be
smaller than 256 bytes. With 16-bit node IDs, a package whose metadata length
is `PROTOCOL_METADATA_LENGTH` and whose command has the largest length the
guard lets through, `cmdLength = BUF_SIZE_TX - (5 + metadata length)`, is
accepted, and `request_protocol_cc_encryption` then writes the session byte at
the work-buffer index `BUF_SIZE_TX`: the guard counts one byte for the node
ID. -/
theorem relay_overrun (cfg : Config) (p : SRequestEncryption) (m : Machine)
    (hB : cfg.BUF_SIZE_TX < 256) (hbuf : m.compl_workbuf.length = cfg.BUF_SIZE_TX)
    (h16 : cfg.SERIAL_API_SETUP_NODEID_BASE_TYPE_16_BIT = m.nodeIdBaseType)
    (hm : p.protocolMetadataLength = cfg.PROTOCOL_METADATA_LENGTH)
    (hedge : p.payloadLength + (5 + p.protocolMetadataLength) = cfg.BUF_SIZE_TX)
    (hsrc : p.payloadLength ≤ p.Payload.length)
    (hmsrc : p.protocolMetadataLength ≤ p.protocolMetadata.length) :
    relayRejects cfg p = false ∧
      request_protocol_cc_encryption cfg p m = .outOfBounds := by
  have hacc : relayRejects cfg p = false :=
    (relayRejects_eq_false_iff cfg p hB (by omega) (by omega) (by omega)).mpr ⟨hm, by omega⟩
  refine ⟨hacc, ?_⟩
  unfold request_protocol_cc_encryption
  rw [hacc, request_protocol_cc_encryption_workbuf_overrun cfg m.nodeIdBaseType m.sessionId p
    m.compl_workbuf hB hbuf h16 hedge hsrc hmsrc]
  rfl

/-- C32 at a concrete input: a 100-byte buffer, eight metadata bytes, 16-bit
node IDs and a command of 87 bytes. -/
theorem relay_overrun_witness :
    relayRejects cfg100 (sampleRequest 87) = false ∧
      request_protocol_cc_encryption cfg100 (sampleRequest 87)
        { initMachine cfg100 with nodeIdBaseType := 2 } = .outOfBounds :=
  relay_overrun cfg100 (sampleRequest 87) { initMachine cfg100 with nodeIdBaseType := 2 }
    (by decide) (by simp [initMachine]) (by decide) (by decide) (by decide)
    (by simp [sampleRequest, countingBytes]) (by decide)

/-! ## C33: result and layout of the relay -/

/-- C33 (what the code does at every input). Let the buffer be smaller than
256 bytes and hold the fixed fields, and let `requestIn` of the command queue
be inside its ring. A package whose metadata length differs from
`PROTOCOL_METADATA_LENGTH`, or with `cmdLength > BUF_SIZE_TX - (5 + metadata
length)`, is answered with `false` and leaves the machine, its command queue
and session counter included, unchanged. An accepted package whose frame
`destNodeID | cmdLength | cmd | metadataLength | metadata | useSupervision |
sessionId` of length `W + cmdLength + metadataLength + 4` fits the buffer is
offered to the command queue, and the result is the result of that call:
`false` with the queue unchanged when it is full, `true` with the frame in the
slot at `requestIn` otherwise. An accepted package with 16-bit node IDs and
`cmdLength = BUF_SIZE_TX - (5 + metadata length)` makes the builder write
outside the work buffer, and no frame is offered. -/
theorem relay_result_and_layout (cfg : Config) (p : SRequestEncryption) (m : Machine)
    (hB : cfg.BUF_SIZE_TX < 256) (hbuf : m.compl_workbuf.length = cfg.BUF_SIZE_TX)
    (h5 : 5 + cfg.PROTOCOL_METADATA_LENGTH ≤ cfg.BUF_SIZE_TX)
    (hc : p.payloadLength < 256) (hk : p.protocolMetadataLength < 256)
    (hsrc : p.payloadLength ≤ p.Payload.length)
    (hmsrc : p.protocolMetadataLength ≤ p.protocolMetadata.length)
    (hin : m.commandQueue.requestIn < 8) (hlen : m.commandQueue.requestQueue.length = 8) :
    (p.protocolMetadataLength ≠ cfg.PROTOCOL_METADATA_LENGTH ∨
        p.payloadLength > cfg.BUF_SIZE_TX - (5 + p.protocolMetadataLength) →
      request_protocol_cc_encryption cfg p m = .ok (false, m)) ∧
    (p.protocolMetadataLength = cfg.PROTOCOL_METADATA_LENGTH →
      p.payloadLength ≤ cfg.BUF_SIZE_TX - (5 + p.protocolMetadataLength) →
      relayFrameLength cfg m.nodeIdBaseType p ≤ cfg.BUF_SIZE_TX →
      ∃ b, b.take (relayFrameLength cfg m.nodeIdBaseType p)
          = relayFrame cfg m.nodeIdBaseType m.sessionId p ∧
        request_protocol_cc_encryption cfg p m
          = RequestUnsolicited cfg cfg.FUNC_ID_ZW_REQUEST_PROTOCOL_CC_ENCRYPTION b
              (relayFrameLength cfg m.nodeIdBaseType p)
              { m with compl_workbuf := b, sessionId := m.sessionId % 255 + 1 } ∧
        (8 ≤ m.commandQueue.requestCnt →
          request_protocol_cc_encryption cfg p m
            = .ok (false, { m with compl_workbuf := b, sessionId := m.sessionId % 255 + 1 })) ∧
        (m.commandQueue.requestCnt < 8 →
          ∃ m1 e, request_protocol_cc_encryption cfg p m = .ok (true, m1) ∧
            m1.commandQueue.requestQueue[m.commandQueue.requestIn]? = some e ∧
            m1.commandQueue.requestCnt = m.commandQueue.requestCnt + 1 ∧
            e.wCmd = cfg.FUNC_ID_ZW_REQUEST_PROTOCOL_CC_ENCRYPTION ∧
            e.wLen = relayFrameLength cfg m.nodeIdBaseType p ∧
            e.wBuf.take e.wLen = relayFrame cfg m.nodeIdBaseType m.sessionId p)) ∧
    (p.protocolMetadataLength = cfg.PROTOCOL_METADATA_LENGTH →
      cfg.SERIAL_API_SETUP_NODEID_BASE_TYPE_16_BIT = m.nodeIdBaseType →
      p.payloadLength + (5 + p.protocolMetadataLength) = cfg.BUF_SIZE_TX →
      request_protocol_cc_encryption cfg p m = .outOfBounds) := by
  have hiff := relayRejects_eq_false_iff cfg p hB h5 hc hk
  refine ⟨?_, ?_, ?_⟩
  · intro hrej
    have hr : relayRejects cfg p = true := by
      cases hv : relayRejects cfg p with
      | true => rfl
      | false =>
        obtain ⟨a1, a2⟩ := hiff.mp hv
        rcases hrej with h | h
        · exact absurd a1 h
        · omega
    unfold request_protocol_cc_encryption
    rw [if_pos hr]
  · intro hm hle hfit
    have hacc : relayRejects cfg p = false := hiff.mpr ⟨hm, hle⟩
    obtain ⟨b, hwb, hbl, hpay⟩ := request_protocol_cc_encryption_workbuf_spec cfg
      m.nodeIdBaseType m.sessionId p m.compl_workbuf hB hbuf hfit hsrc hmsrc
    have hsid : (m.sessionId % 255 % 256 + 1) % 256 = m.sessionId % 255 + 1 := by omega
    have hrun : request_protocol_cc_encryption cfg p m
        = RequestUnsolicited cfg cfg.FUNC_ID_ZW_REQUEST_PROTOCOL_CC_ENCRYPTION b
            (relayFrameLength cfg m.nodeIdBaseType p)
            { m with compl_workbuf := b, sessionId := m.sessionId % 255 + 1 } := by
      unfold request_protocol_cc_encryption
      rw [hacc, hwb, hsid]
      rfl
    refine ⟨b, hpay, hrun, ?_, ?_⟩
    · intro hfull
      rw [hrun]
      exact RequestUnsolicited_of_full _ _ _ _ _ (by unfold MAX_UNSOLICITED_QUEUE; exact hfull)
    · intro hroom
      have hlt : m.commandQueue.requestIn < m.commandQueue.requestQueue.length := by omega
      have hR := RequestUnsolicited_accept cfg cfg.FUNC_ID_ZW_REQUEST_PROTOCOL_CC_ENCRYPTION b
        (relayFrameLength cfg m.nodeIdBaseType p)
        { m with compl_workbuf := b, sessionId := m.sessionId % 255 + 1 } _
        (by show m.commandQueue.requestCnt < 8; exact hroom)
        (List.getElem?_eq_getElem hlt) (Or.inl (by rw [Nat.mod_eq_of_lt hB]; exact hfit))
      rw [Nat.mod_eq_of_lt hB, Nat.min_eq_left hfit] at hR
      rw [hrun, hR]
      refine ⟨_, _, rfl, List.getElem?_set_self hlt, rfl, rfl, rfl, ?_⟩
      simp only
      rw [memcpy_take _ _ _ (by rw [hbl, hbuf]; exact hfit), hpay]
  · intro hm h16 hedge
    exact (show request_protocol_cc_encryption cfg p m = .outOfBounds by
      have hacc : relayRejects cfg p = false := hiff.mpr ⟨hm, by omega⟩
      unfold request_protocol_cc_encryption
      rw [hacc, request_protocol_cc_encryption_workbuf_overrun cfg m.nodeIdBaseType m.sessionId
        p m.compl_workbuf hB hbuf h16 hedge hsrc hmsrc]
      rfl)

/-- C33 at concrete inputs, with a 100-byte buffer and 16-bit node IDs: a
command of three bytes is queued with the claimed layout, a command of 87
bytes (the largest accepted) ends in a write outside the buffer. -/
theorem relay_result_and_layout_witness :
    (∃ m1 e, request_protocol_cc_encryption cfg100 (sampleRequest 3)
          { initMachine cfg100 with nodeIdBaseType := 2 } = .ok (true, m1) ∧
        m1.commandQueue.requestQueue[0]? = some e ∧
        m1.commandQueue.requestCnt = 0 + 1 ∧
        e.wCmd = 0x6C ∧
        e.wLen = 2 + 3 + 8 + 4 ∧
        e.wBuf.take e.wLen
          = [0x01, 0x02, 3, 0, 1, 2, 8, 100, 101, 102, 103, 104, 105, 106, 107, 1, 0]) ∧
    request_protocol_cc_encryption cfg100 (sampleRequest 87)
      { initMachine cfg100 with nodeIdBaseType := 2 } = .outOfBounds := by
  refine ⟨?_, ?_⟩
  · obtain ⟨_, hfits, _⟩ := relay_result_and_layout cfg100 (sampleRequest 3)
      { initMachine cfg100 with nodeIdBaseType := 2 } (by decide) (by simp [initMachine])
      (by decide) (by decide) (by decide) (by simp [sampleRequest, countingBytes]) (by decide)
      (by decide) (by decide)
    obtain ⟨b, _, _, _, hroom⟩ := hfits (by decide) (by decide) (by decide)
    exact hroom (by decide)
  · exact (relay_result_and_layout cfg100 (sampleRequest 87)
      { initMachine cfg100 with nodeIdBaseType := 2 } (by decide) (by simp [initMachine])
      (by decide) (by decide) (by decide) (by simp [sampleRequest, countingBytes]) (by decide)
      (by decide) (by decide)).2.2 (by decide) (by decide) (by decide)

/-! ## The session identifier of the relay -/

theorem sessionIdOf_succ (k : Nat) : sessionIdOf (k + 1) = sessionIdOf k % 255 + 1 := by
  unfold sessionIdOf
  by_cases h : k = 0
  · subst h
    rfl
  · rw [if_neg (Nat.succ_ne_zero k), if_neg h]
    omega

theorem sessionIdOf_lt (k : Nat) : sessionIdOf k < 256 := by
  unfold sessionIdOf
  split <;> omega

/-- The identifiers of the accepted calls, from a counter that stands at the
identifier number `j`, are the identifiers number `j`, `j + 1`, ... -/
theorem sessionTrace_closed (cfg : Config) (ps : List SRequestEncryption) :
    ∀ j, (sessionTrace cfg (sessionIdOf j) ps).filterMap id
      = (List.range (acceptedCount cfg ps)).map fun i => sessionIdOf (j + i) := by
  induction ps with
  | nil =>
    intro j
    rfl
  | cons p ps ih =>
    intro j
    unfold sessionTrace acceptedCount
    rw [List.countP_cons]
    by_cases hr : relayRejects cfg p = true
    · rw [if_pos hr]
      simp only [List.filterMap_cons, id]
      rw [ih j]
      simp [hr, acceptedCount]
    · rw [if_neg hr]
      simp only [List.filterMap_cons, id]
      rw [← sessionIdOf_succ, ih (j + 1)]
      have hb : (!relayRejects cfg p) = true := by simp [hr]
      rw [if_pos hb, List.range_succ_eq_map, List.map_cons, List.map_map]
      simp only [acceptedCount, Nat.add_zero, List.cons.injEq, true_and]
      apply List.map_congr_left
      intro i _
      simp only [Function.comp, Nat.succ_eq_add_one]
      congr 1
      omega

/-- The last byte of a buffer prefix that ends in two known bytes. -/
theorem last_of_take (b front : List Nat) (x y L : Nat)
    (h : b.take L = front ++ [x, y]) (hL : L = front.length + 2) : b[L - 1]? = some y := by
  rw [← List.getElem?_take_of_lt (show L - 1 < L by omega), h,
    List.getElem?_append_right (by omega)]
  have : L - 1 - front.length = 1 := by omega
  rw [this]
  rfl

/-- One accepted call of the relay whose frame fits: the call returns, the
work buffer ends in the session identifier the counter held, the counter has
moved on, and the shape of the machine is kept. On a full queue the call
reports `false` and the queue stays full. -/
theorem relay_accepted_step (cfg : Config) (p : SRequestEncryption) (m : Machine)
    (hB : cfg.BUF_SIZE_TX < 256) (hbuf : m.compl_workbuf.length = cfg.BUF_SIZE_TX)
    (hacc : relayRejects cfg p = false)
    (hfit : relayFrameLength cfg m.nodeIdBaseType p ≤ cfg.BUF_SIZE_TX)
    (hsrc : p.payloadLength ≤ p.Payload.length)
    (hmsrc : p.protocolMetadataLength ≤ p.protocolMetadata.length)
    (hs : m.sessionId < 256)
    (hin : m.commandQueue.requestIn < 8) (hlen : m.commandQueue.requestQueue.length = 8) :
    ∃ st m1, request_protocol_cc_encryption cfg p m = .ok (st, m1) ∧
      m1.compl_workbuf[relayFrameLength cfg m.nodeIdBaseType p - 1]? = some m.sessionId ∧
      m1.sessionId = m.sessionId % 255 + 1 ∧
      m1.compl_workbuf.length = cfg.BUF_SIZE_TX ∧
      m1.nodeIdBaseType = m.nodeIdBaseType ∧
      m1.commandQueue.requestIn < 8 ∧ m1.commandQueue.requestQueue.length = 8 ∧
      (8 ≤ m.commandQueue.requestCnt → st = false ∧ 8 ≤ m1.commandQueue.requestCnt) := by
  obtain ⟨b, hwb, hbl, hpay⟩ := request_protocol_cc_encryption_workbuf_spec cfg
    m.nodeIdBaseType m.sessionId p m.compl_workbuf hB hbuf hfit hsrc hmsrc
  have hsid : (m.sessionId % 255 % 256 + 1) % 256 = m.sessionId % 255 + 1 := by omega
  have hrun : request_protocol_cc_encryption cfg p m
      = RequestUnsolicited cfg cfg.FUNC_ID_ZW_REQUEST_PROTOCOL_CC_ENCRYPTION b
          (relayFrameLength cfg m.nodeIdBaseType p)
          { m with compl_workbuf := b, sessionId := m.sessionId % 255 + 1 } := by
    unfold request_protocol_cc_encryption
    rw [hacc, hwb, hsid]
    rfl
  obtain ⟨st, m1, hR, e1, e2, e3, e4, e5, hfull, _⟩ := RequestUnsolicited_total cfg
    cfg.FUNC_ID_ZW_REQUEST_PROTOCOL_CC_ENCRYPTION b (relayFrameLength cfg m.nodeIdBaseType p)
    { m with compl_workbuf := b, sessionId := m.sessionId % 255 + 1 } hB hfit hin hlen
  have hlast : b[relayFrameLength cfg m.nodeIdBaseType p - 1]? = some m.sessionId := by
    have hfl : relayFrameLength cfg m.nodeIdBaseType p
        = (nodeIdBytes cfg m.nodeIdBaseType p.destNodeID ++ [p.payloadLength]
            ++ (p.Payload.take p.payloadLength).map (· % 256)
            ++ [p.protocolMetadataLength]
            ++ (p.protocolMetadata.take p.protocolMetadataLength).map (· % 256)).length + 2 := by
      simp only [relayFrameLength, List.length_append, nodeIdBytes_length, List.length_map,
        List.length_take, List.length_singleton, Nat.min_eq_left hsrc, Nat.min_eq_left hmsrc]
      omega
    have h := last_of_take b _ (p.useSupervision % 256) (m.sessionId % 256) _
      (by rw [hpay]; rfl) hfl
    rw [h, Nat.mod_eq_of_lt hs]
  refine ⟨st, m1, by rw [hrun, hR], by rw [e2]; exact hlast, e1, by rw [e2]; exact hbl.trans hbuf,
    e3, e4, e5, ?_⟩
  intro h8
  obtain ⟨a1, a2⟩ := hfull h8
  refine ⟨a1, ?_⟩
  rw [a2]
  exact h8

/-- A run of the relay over packages that are each rejected or fit the work
buffer: it returns, its record of session identifiers is `sessionTrace` from
the value the counter had, and on a full queue every call reports `false`. -/
theorem relayRun_trace (cfg : Config) (t : Nat) (hB : cfg.BUF_SIZE_TX < 256) :
    ∀ (ps : List SRequestEncryption) (m : Machine),
      m.compl_workbuf.length = cfg.BUF_SIZE_TX → m.nodeIdBaseType = t → m.sessionId < 256 →
      m.commandQueue.requestIn < 8 → m.commandQueue.requestQueue.length = 8 →
      (∀ p ∈ ps, p.payloadLength ≤ p.Payload.length ∧
        p.protocolMetadataLength ≤ p.protocolMetadata.length ∧
        (relayRejects cfg p = true ∨ relayFrameLength cfg t p ≤ cfg.BUF_SIZE_TX)) →
      ∃ out m1, relayRun cfg ps m = .ok (out, m1) ∧
        out.map (·.2) = sessionTrace cfg m.sessionId ps ∧
        (8 ≤ m.commandQueue.requestCnt → ∀ x ∈ out, x.1 = false) := by
  intro ps
  induction ps with
  | nil =>
    intro m _ _ _ _ _ _
    exact ⟨[], m, rfl, rfl, fun _ x hx => absurd hx (List.not_mem_nil x)⟩
  | cons p ps ih =>
    intro m hbuf ht hs hin hlen hadm
    obtain ⟨hsrc, hmsrc, hcase⟩ := hadm p (List.mem_cons_self p ps)
    have hrest : ∀ q ∈ ps, q.payloadLength ≤ q.Payload.length ∧
        q.protocolMetadataLength ≤ q.protocolMetadata.length ∧
        (relayRejects cfg q = true ∨ relayFrameLength cfg t q ≤ cfg.BUF_SIZE_TX) :=
      fun q hq => hadm q (List.mem_cons_of_mem p hq)
    by_cases hr : relayRejects cfg p = true
    · obtain ⟨out, m1, hrun, htr, hfull⟩ := ih m hbuf ht hs hin hlen hrest
      have hcall : request_protocol_cc_encryption cfg p m = .ok (false, m) := by
        unfold request_protocol_cc_encryption
        rw [if_pos hr]
      refine ⟨(false, none) :: out, m1, ?_, ?_, ?_⟩
      · unfold relayRun
        simp only [hcall, Outcome.bind, hrun, hr, if_true]
      · unfold sessionTrace
        rw [if_pos hr, List.map_cons, htr]
      · intro h8 x hx
        rcases List.mem_cons.mp hx with h | h
        · rw [h]
        · exact hfull h8 x h
    · have hacc : relayRejects cfg p = false := by
        cases hv : relayRejects cfg p with
        | true => exact absurd hv hr
        | false => rfl
      have hfit : relayFrameLength cfg m.nodeIdBaseType p ≤ cfg.BUF_SIZE_TX := by
        rcases hcase with h | h
        · exact absurd h hr
        · rw [ht]
          exact h
      obtain ⟨st, m1, hcall, hbyte, hsid, hbuf1, ht1, hin1, hlen1, hfull1⟩ :=
        relay_accepted_step cfg p m hB hbuf hacc hfit hsrc hmsrc hs hin hlen
      obtain ⟨out, m2, hrun, htr, hfull⟩ := ih m1 hbuf1 (ht1.trans ht)
        (by rw [hsid]; omega) hin1 hlen1 hrest
      refine ⟨(st, some m.sessionId) :: out, m2, ?_, ?_, ?_⟩
      · unfold relayRun
        simp [hcall, Outcome.bind, hrun, hacc, hbyte]
      · unfold sessionTrace
        rw [if_neg hr, List.map_cons, htr, hsid]
      · intro h8 x hx
        obtain ⟨a1, a2⟩ := hfull1 h8
        rcases List.mem_cons.mp hx with h | h
        · rw [h]
          exact a1
        · exact hfull a2 x h

/-- An accepted package whose frame does not fit the work buffer is the
package with 16-bit node IDs and the largest command the guard lets through,
and the call writes outside the work buffer. -/
theorem relay_call_overrun (cfg : Config) (p : SRequestEncryption) (m : Machine)
    (hB : cfg.BUF_SIZE_TX < 256) (hbuf : m.compl_workbuf.length = cfg.BUF_SIZE_TX)
    (h5 : 5 + cfg.PROTOCOL_METADATA_LENGTH ≤ cfg.BUF_SIZE_TX)
    (hc : p.payloadLength < 256) (hk : p.protocolMetadataLength < 256)
    (hsrc : p.payloadLength ≤ p.Payload.length)
    (hmsrc : p.protocolMetadataLength ≤ p.protocolMetadata.length)
    (hacc : relayRejects cfg p = false)
    (hnf : cfg.BUF_SIZE_TX < relayFrameLength cfg m.nodeIdBaseType p) :
    request_protocol_cc_encryption cfg p m = .outOfBounds ∧
      cfg.SERIAL_API_SETUP_NODEID_BASE_TYPE_16_BIT = m.nodeIdBaseType ∧
      p.payloadLength + (5 + p.protocolMetadataLength) = cfg.BUF_SIZE_TX := by
  obtain ⟨a1, a2⟩ := (relayRejects_eq_false_iff cfg p hB h5 hc hk).mp hacc
  unfold relayFrameLength nodeIdWidth at hnf
  by_cases h16 : cfg.SERIAL_API_SETUP_NODEID_BASE_TYPE_16_BIT = m.nodeIdBaseType
  · rw [if_pos h16] at hnf
    have hedge : p.payloadLength + (5 + p.protocolMetadataLength) = cfg.BUF_SIZE_TX := by omega
    refine ⟨?_, h16, hedge⟩
    unfold request_protocol_cc_encryption
    rw [hacc, request_protocol_cc_encryption_workbuf_overrun cfg m.nodeIdBaseType m.sessionId
      p m.compl_workbuf hB hbuf h16 hedge hsrc hmsrc]
    rfl
  · rw [if_neg h16] at hnf
    omega

/-- A run of the relay that holds an accepted package whose frame does not fit
the work buffer ends in a write outside the buffer. -/
theorem relayRun_overrun (cfg : Config) (t : Nat) (hB : cfg.BUF_SIZE_TX < 256)
    (h5 : 5 + cfg.PROTOCOL_METADATA_LENGTH ≤ cfg.BUF_SIZE_TX) :
    ∀ (ps : List SRequestEncryption) (m : Machine),
      m.compl_workbuf.length = cfg.BUF_SIZE_TX → m.nodeIdBaseType = t → m.sessionId < 256 →
      m.commandQueue.requestIn < 8 → m.commandQueue.requestQueue.length = 8 →
      (∀ p ∈ ps, p.payloadLength < 256 ∧ p.protocolMetadataLength < 256 ∧
        p.payloadLength ≤ p.Payload.length ∧
        p.protocolMetadataLength ≤ p.protocolMetadata.length) →
      (∃ q ∈ ps, relayRejects cfg q = false ∧ cfg.BUF_SIZE_TX < relayFrameLength cfg t q) →
      relayRun cfg ps m = .outOfBounds := by
  intro ps
  induction ps with
  | nil =>
    intro m _ _ _ _ _ _ hbad
    obtain ⟨q, hq, _⟩ := hbad
    exact absurd hq (List.not_mem_nil q)
  | cons p ps ih =>
    intro m hbuf ht hs hin hlen hpk hbad
    obtain ⟨hc, hk, hsrc, hmsrc⟩ := hpk p (List.mem_cons_self p ps)
    have hrest : ∀ q ∈ ps, q.payloadLength < 256 ∧ q.protocolMetadataLength < 256 ∧
        q.payloadLength ≤ q.Payload.length ∧
        q.protocolMetadataLength ≤ q.protocolMetadata.length :=
      fun q hq => hpk q (List.mem_cons_of_mem p hq)
    obtain ⟨q, hq, hqacc, hqnf⟩ := hbad
    by_cases hr : relayRejects cfg p = true
    · have hqps : q ∈ ps := by
        rcases List.mem_cons.mp hq with h | h
        · rw [h, hr] at hqacc
          cases hqacc
        · exact h
      have hcall : request_protocol_cc_encryption cfg p m = .ok (false, m) := by
        unfold request_protocol_cc_encryption
        rw [if_pos hr]
      unfold relayRun
      simp only [hcall, Outcome.bind, ih m hbuf ht hs hin hlen hrest ⟨q, hqps, hqacc, hqnf⟩]
    · have hacc : relayRejects cfg p = false := by
        cases hv : relayRejects cfg p with
        | true => exact absurd hv hr
        | false => rfl
      by_cases hfit : relayFrameLength cfg m.nodeIdBaseType p ≤ cfg.BUF_SIZE_TX
      · have hqps : q ∈ ps := by
          rcases List.mem_cons.mp hq with h | h
          · rw [h, ← ht] at hqnf
            omega
          · exact h
        obtain ⟨st, m1, hcall, _, hsid, hbuf1, ht1, hin1, hlen1, _⟩ :=
          relay_accepted_step cfg p m hB hbuf hacc hfit hsrc hmsrc hs hin hlen
        unfold relayRun
        simp only [hcall, Outcome.bind, ih m1 hbuf1 (ht1.trans ht) (by rw [hsid]; omega) hin1
          hlen1 hrest ⟨q, hqps, hqacc, hqnf⟩]
      · have hcall := (relay_call_overrun cfg p m hB hbuf h5 hc hk hsrc hmsrc hacc
          (by omega)).1
        unfold relayRun
        simp only [hcall, Outcome.bind]

/-- C40 (what the code does over every sequence of calls). Take a sequence of
calls of `request_protocol_cc_encryption` that starts with the counter at 0,
whatever the fill of the command queue. If each package is rejected by the
guard or has a frame that fits the work buffer, the run returns and the
`SessionID` bytes it stores are those of `sessionTrace`: none for a rejected
call, which leaves the counter, and the counter value for an accepted call,
which moves the counter to `s % 255 + 1`; over the accepted calls the bytes are
`sessionIdOf 0, sessionIdOf 1, ...`, that is 0, then 1, 2, ..., 255, 1, 2, ...,
never 0 again; on a full queue every call reports `false` and the identifiers
advance all the same. If the sequence holds an accepted package whose frame
does not fit, the run ends in a write outside the work buffer: the session byte
of that call is stored at index `BUF_SIZE_TX`. The packages of that kind are
those with 16-bit node IDs and `cmdLength = BUF_SIZE_TX - (5 + metadata
length)`. -/
theorem relay_session_ids (cfg : Config) (ps : List SRequestEncryption) (m : Machine)
    (hB : cfg.BUF_SIZE_TX < 256) (hbuf : m.compl_workbuf.length = cfg.BUF_SIZE_TX)
    (h5 : 5 + cfg.PROTOCOL_METADATA_LENGTH ≤ cfg.BUF_SIZE_TX)
    (hs : m.sessionId = 0)
    (hin : m.commandQueue.requestIn < 8) (hlen : m.commandQueue.requestQueue.length = 8)
    (hpk : ∀ p ∈ ps, p.payloadLength < 256 ∧ p.protocolMetadataLength < 256 ∧
      p.payloadLength ≤ p.Payload.length ∧
      p.protocolMetadataLength ≤ p.protocolMetadata.length) :
    ((∀ p ∈ ps, relayRejects cfg p = true ∨
          relayFrameLength cfg m.nodeIdBaseType p ≤ cfg.BUF_SIZE_TX) →
      ∃ out m1, relayRun cfg ps m = .ok (out, m1) ∧
        out.map (·.2) = sessionTrace cfg 0 ps ∧
        (out.map (·.2)).filterMap id = (List.range (acceptedCount cfg ps)).map sessionIdOf ∧
        (∀ k, 0 < k → 1 ≤ sessionIdOf k ∧ sessionIdOf k ≤ 255 ∧
          sessionIdOf (k + 255) = sessionIdOf k) ∧
        (8 ≤ m.commandQueue.requestCnt → ∀ x ∈ out, x.1 = false)) ∧
    ((∃ p ∈ ps, relayRejects cfg p = false ∧
          cfg.BUF_SIZE_TX < relayFrameLength cfg m.nodeIdBaseType p) →
      relayRun cfg ps m = .outOfBounds) ∧
    (∀ p ∈ ps, (relayRejects cfg p = false ∧
          cfg.BUF_SIZE_TX < relayFrameLength cfg m.nodeIdBaseType p) ↔
        (cfg.SERIAL_API_SETUP_NODEID_BASE_TYPE_16_BIT = m.nodeIdBaseType ∧
          p.protocolMetadataLength = cfg.PROTOCOL_METADATA_LENGTH ∧
          p.payloadLength + (5 + p.protocolMetadataLength) = cfg.BUF_SIZE_TX)) := by
  refine ⟨fun hfit => ?_, fun hbad => ?_, fun p hp => ?_⟩
  · obtain ⟨out, m1, hrun, htr, hfull⟩ := relayRun_trace cfg m.nodeIdBaseType hB ps m hbuf rfl
      (by omega) hin hlen (fun p hp => ⟨(hpk p hp).2.2.1, (hpk p hp).2.2.2, hfit p hp⟩)
    rw [hs] at htr
    refine ⟨out, m1, hrun, htr, ?_, ?_, hfull⟩
    · rw [htr]
      have h := sessionTrace_closed cfg ps 0
      simp only [Nat.zero_add] at h
      exact h
    · intro k hk
      unfold sessionIdOf
      rw [if_neg (by omega), if_neg (by omega)]
      omega
  · exact relayRun_overrun cfg m.nodeIdBaseType hB h5 ps m hbuf rfl (by omega) hin hlen hpk hbad
  · obtain ⟨hc, hk, hsrc, hmsrc⟩ := hpk p hp
    constructor
    · intro h
      have h2 := relay_call_overrun cfg p m hB hbuf h5 hc hk hsrc hmsrc h.1 h.2
      exact ⟨h2.2.1, ((relayRejects_eq_false_iff cfg p hB h5 hc hk).mp h.1).1, h2.2.2⟩
    · intro h
      obtain ⟨h16, hm, hedge⟩ := h
      refine ⟨(relayRejects_eq_false_iff cfg p hB h5 hc hk).mpr ⟨hm, by omega⟩, ?_⟩
      unfold relayFrameLength nodeIdWidth
      rw [if_pos h16]
      omega

/-- C40 at concrete runs with a 100-byte buffer. With 8-bit node IDs an
accepted call, a call rejected for its metadata length and another accepted
call store the session identifiers 0 and 1. With 16-bit node IDs the run in
which the second call carries a command of 87 bytes ends in a write outside the
buffer. -/
theorem relay_session_ids_witness :
    (∃ out m1, relayRun cfg100
        [sampleRequest 3, { sampleRequest 3 with protocolMetadataLength := 7 }, sampleRequest 5]
        (initMachine cfg100) = .ok (out, m1) ∧
      out.map (·.2) = [some 0, none, some 1] ∧
      (out.map (·.2)).filterMap id = [0, 1]) ∧
    relayRun cfg100 [sampleRequest 3, sampleRequest 87, sampleRequest 5]
      { initMachine cfg100 with nodeIdBaseType := 2 } = .outOfBounds := by
  refine ⟨?_, ?_⟩
  · obtain ⟨out, m1, h1, h2, h3, _, _⟩ := (relay_session_ids cfg100
      [sampleRequest 3, { sampleRequest 3 with protocolMetadataLength := 7 }, sampleRequest 5]
      (initMachine cfg100) (by decide) (by simp [initMachine]) (by decide) rfl (by decide)
      (by decide)
      (by
        intro p hp
        simp only [List.mem_cons, List.mem_singleton, List.not_mem_nil, or_false] at hp
        rcases hp with h | h | h <;> subst h <;>
          exact ⟨by decide, by decide, by simp [sampleRequest, countingBytes], by decide⟩)).1
      (by
        intro p hp
        simp only [List.mem_cons, List.mem_singleton, List.not_mem_nil, or_false] at hp
        rcases hp with h | h | h <;> subst h
        · exact Or.inr (by decide)
        · exact Or.inl (by decide)
        · exact Or.inr (by decide))
    exact ⟨out, m1, h1, h2.trans (by decide), h3.trans (by decide)⟩
  · exact (relay_session_ids cfg100 [sampleRequest 3, sampleRequest 87, sampleRequest 5]
      { initMachine cfg100 with nodeIdBaseType := 2 } (by decide) (by simp [initMachine])
      (by decide) rfl (by decide) (by decide)
      (by
        intro p hp
        simp only [List.mem_cons, List.mem_singleton, List.not_mem_nil, or_false] at hp
        rcases hp with h | h | h <;> subst h <;>
          exact ⟨by decide, by decide, by simp [sampleRequest, countingBytes], by decide⟩)).2.1
      ⟨sampleRequest 87, by simp, by decide, by decide⟩

/-! ## C31: the first runs of the state handler -/

/-- With the startup notification compiled in, a command-class list that fits
the buffer and room in the callback queue, `ApplicationInitSW` returns with one
more callback entry, stored at `requestIn` with the command
`FUNC_ID_SERIAL_API_STARTED`; `requestOut`, the command queue, the state and
the transmit log stay. -/
theorem ApplicationInitSW_enqueue (cfg : Config) (inp : StartupInputs) (m : Machine)
    (hS : cfg.SUPPORT_SERIAL_API_STARTUP_NOTIFICATION = true)
    (hB : cfg.BUF_SIZE_TX < 256) (hbuf : m.compl_workbuf.length = cfg.BUF_SIZE_TX)
    (hn : inp.iListLength ≤ inp.pCommandClasses.length)
    (hfit : (if inp.resetInfo = none then 7 else 11) + inp.iListLength ≤ cfg.BUF_SIZE_TX)
    (hq : m.callbackQueue.requestCnt < 8 ∧ m.callbackQueue.requestIn < 8 ∧
      m.callbackQueue.requestQueue.length = 8) :
    ∃ m1 e, ApplicationInitSW cfg inp m = .ok m1 ∧
      m1.callbackQueue.requestQueue[m.callbackQueue.requestIn]? = some e ∧
      m1.callbackQueue.requestOut = m.callbackQueue.requestOut ∧
      m1.callbackQueue.requestCnt = m.callbackQueue.requestCnt + 1 ∧
      m1.commandQueue = m.commandQueue ∧ m1.state = m.state ∧ m1.txLog = m.txLog ∧
      e.wCmd = cfg.FUNC_ID_SERIAL_API_STARTED ∧
      e.wLen = (if inp.resetInfo = none then 7 else 11) + inp.iListLength := by
  obtain ⟨c1, c2, c3⟩ := hq
  obtain ⟨n, hndef⟩ : ∃ n, inp.iListLength = n := ⟨_, rfl⟩
  rw [hndef] at hn hfit ⊢
  have h7 : 7 + n ≤ cfg.BUF_SIZE_TX := by
    split at hfit <;> omega
  have hmodB : cfg.BUF_SIZE_TX % 256 = cfg.BUF_SIZE_TX := Nat.mod_eq_of_lt hB
  have hlt : m.callbackQueue.requestIn < m.callbackQueue.requestQueue.length := by omega
  obtain ⟨b0, w0, l0, _⟩ := writeByte_prefix m.compl_workbuf 0 inp.g_eApplResetReason (by omega)
  obtain ⟨b1, w1, l1, _⟩ := writeByte_prefix b0 1
    (if cfg.SUPPORT_ZW_WATCHDOG then inp.bWatchdogStarted else 0) (by omega)
  obtain ⟨b2, w2, l2, _⟩ := writeByte_prefix b1 2 inp.DeviceOptionsMask (by omega)
  obtain ⟨b3, w3, l3, _⟩ := writeByte_prefix b2 3 inp.generic (by omega)
  obtain ⟨b4, w4, l4, _⟩ := writeByte_prefix b3 4 inp.specific (by omega)
  obtain ⟨b5, w5, l5, _⟩ := writeByte_prefix b4 5 n (by omega)
  obtain ⟨b6, w6, l6, _⟩ := forCopy_prefix 6 inp.pCommandClasses n 0 b5 (by omega) (by omega)
  obtain ⟨b7, w7, l7, _⟩ := writeByte_prefix b6 (6 + n)
    (if inp.isLongRangeRegion then cfg.SERIAL_API_STARTED_CAPABILITIES_L0NG_RANGE else 0)
    (by omega)
  unfold ApplicationInitSW
  simp only [hS, if_true, hndef]
  have hproj : (extCall ExtCall.comm_interface_init m).compl_workbuf = m.compl_workbuf := rfl
  simp only [hproj, w0, w1, w2, w3, w4, w5, w6, w7, Outcome.bind]
  cases hri : inp.resetInfo with
  | none =>
    have hm7 : (7 + n) % 256 = 7 + n := Nat.mod_eq_of_lt (by omega)
    have hR := Request_accept cfg cfg.FUNC_ID_SERIAL_API_STARTED b7 (7 + n)
      { ({ extCall ExtCall.comm_interface_init m with
            bTxStatusReportEnabled := cfg.SUPPORT_SEND_DATA_TIMING } : Machine) with
          compl_workbuf := b7 } _
      (by show m.callbackQueue.requestCnt < 8; exact c1)
      (List.getElem?_eq_getElem hlt) (Or.inl (by rw [hmodB]; exact h7))
    rw [hmodB, Nat.min_eq_left h7] at hR
    simp only [hm7, hR, Outcome.bind]
    exact ⟨_, _, rfl, List.getElem?_set_self hlt, rfl, rfl, rfl, rfl, rfl, rfl, by simp⟩
  | some v =>
    rw [hri] at hfit
    have h11 : 11 + n ≤ cfg.BUF_SIZE_TX := by
      simpa using hfit
    obtain ⟨b8, w8, l8, _⟩ := writeByte_prefix b7 (7 + n) (v / 2 ^ 24) (by omega)
    obtain ⟨b9, w9, l9, _⟩ := writeByte_prefix b8 (8 + n) (v / 2 ^ 16) (by omega)
    obtain ⟨b10, w10, l10, _⟩ := writeByte_prefix b9 (9 + n) (v / 2 ^ 8) (by omega)
    obtain ⟨b11, w11, l11, _⟩ := writeByte_prefix b10 (10 + n) v (by omega)
    have hm11 : (11 + n) % 256 = 11 + n := Nat.mod_eq_of_lt (by omega)
    have hR := Request_accept cfg cfg.FUNC_ID_SERIAL_API_STARTED b11 (11 + n)
      { ({ extCall ExtCall.comm_interface_init m with
            bTxStatusReportEnabled := cfg.SUPPORT_SEND_DATA_TIMING } : Machine) with
          compl_workbuf := b11 } _
      (by show m.callbackQueue.requestCnt < 8; exact c1)
      (List.getElem?_eq_getElem hlt) (Or.inl (by rw [hmodB]; exact h11))
    rw [hmodB, Nat.min_eq_left h11] at hR
    simp only [w8, w9, w10, w11, hm11, hR, Outcome.bind]
    exact ⟨_, _, rfl, List.getElem?_set_self hlt, rfl, rfl, rfl, rfl, rfl, rfl, by simp⟩

/-- C31. From `stateStartup` with both queues empty, the startup notification
compiled in and a command-class list that fits the buffer, one run of
`SerialAPIStateHandler` returns in `stateIdle` for every answer of the
collaborators, without transmitting, with the command queue still empty and
the `FUNC_ID_SERIAL_API_STARTED` entry as the only callback entry, at
`requestOut`; the run after it, whatever its collaborators answer, transmits
that entry as a `REQUEST` frame (`requestFrameOf`) and enters
`stateCallbackTxSerial`. From a
state value that is none of the six named states, one run moves to `stateIdle`
and transmits nothing. -/
theorem startup_and_unnamed_state (cfg : Config) (env env2 : Env) (m : Machine) :
    (m.state = .stateStartup →
      cfg.SUPPORT_SERIAL_API_STARTUP_NOTIFICATION = true →
      cfg.BUF_SIZE_TX < 256 → m.compl_workbuf.length = cfg.BUF_SIZE_TX →
      env.startup.iListLength ≤ env.startup.pCommandClasses.length →
      (if env.startup.resetInfo = none then 7 else 11) + env.startup.iListLength
        ≤ cfg.BUF_SIZE_TX →
      m.callbackQueue.requestCnt = 0 → m.callbackQueue.requestIn = m.callbackQueue.requestOut →
      m.callbackQueue.requestIn < 8 → m.callbackQueue.requestQueue.length = 8 →
      m.commandQueue.requestCnt = 0 →
      ∃ m1 e, SerialAPIStateHandler cfg env m = .ok m1 ∧
        m1.state = .stateIdle ∧ m1.txLog = m.txLog ∧
        m1.callbackQueue.requestCnt = 1 ∧ m1.commandQueue.requestCnt = 0 ∧
        m1.callbackQueue.requestQueue[m1.callbackQueue.requestOut]? = some e ∧
        e.wCmd = cfg.FUNC_ID_SERIAL_API_STARTED ∧
        e.wLen = (if env.startup.resetInfo = none then 7 else 11) + env.startup.iListLength ∧
        ∃ m2, SerialAPIStateHandler cfg env2 m1 = .ok m2 ∧
          m2.state = .stateCallbackTxSerial ∧
          m2.txLog = m.txLog ++ [requestFrameOf e]) ∧
    (∀ v, m.state = .other v →
      ∃ m1, SerialAPIStateHandler cfg env m = .ok m1 ∧
        m1.state = .stateIdle ∧ m1.txLog = m.txLog ∧
        m1.callbackQueue = m.callbackQueue ∧ m1.commandQueue = m.commandQueue) := by
  refine ⟨?_, ?_⟩
  · intro hst hS hB hbuf hn hfit hc0 hio hin hlen hd0
    obtain ⟨m0, e, hA, a1, a2, a3, a4, a5, a6, a7, a8⟩ := ApplicationInitSW_enqueue cfg
      env.startup m hS hB hbuf hn hfit ⟨by omega, hin, hlen⟩
    have hne : (extCall (.SetRFReceiveMode 1) m0).state ≠ SerialState.stateIdle := by
      show m0.state ≠ SerialState.stateIdle
      rw [a5, hst]
      exact fun h => by cases h
    have hrun : SerialAPIStateHandler cfg env m
        = .ok { extCall (.SetRFReceiveMode 1) m0 with
            notifyCnt := m0.notifyCnt + 1, state := .stateIdle } := by
      unfold SerialAPIStateHandler
      simp only [hst, hA, Outcome.bind]
      unfold set_state_and_notify
      rw [if_pos hne]
      rfl
    have hcnt : m0.callbackQueue.requestCnt = 1 := by
      rw [a3, hc0]
    have hslot : m0.callbackQueue.requestQueue[m0.callbackQueue.requestOut]? = some e := by
      rw [a2, ← hio]
      exact a1
    have hstep := idle_step_callback cfg env2
      { extCall (.SetRFReceiveMode 1) m0 with
        notifyCnt := m0.notifyCnt + 1, state := .stateIdle } e rfl
      (by show m0.callbackQueue.requestCnt ≠ 0; omega) hslot
    refine ⟨_, e, hrun, rfl, a6, hcnt, by show m0.commandQueue.requestCnt = 0; rw [a4]; exact hd0,
      hslot, a7, a8, _, hstep, rfl, ?_⟩
    show m0.txLog ++ [requestFrameOf e] = _
    rw [a6]
  · intro v hv
    have hne : m.state ≠ SerialState.stateIdle := by
      rw [hv]
      exact fun h => by cases h
    refine ⟨{ m with notifyCnt := m.notifyCnt + 1, state := .stateIdle }, ?_, rfl, rfl, rfl, rfl⟩
    unfold SerialAPIStateHandler
    simp only [hv]
    unfold set_state_and_notify
    rw [if_pos hne]

/-- C31 at concrete machines with a 100-byte buffer: the start machine, whose
state value `0xff` is none of the named states, moves to `stateIdle`; the
machine in `stateStartup` queues the notification of 13 bytes, and the run
after it transmits `FUNC_ID_SERIAL_API_STARTED`. -/
theorem startup_and_unnamed_state_witness :
    (∃ m1 e, SerialAPIStateHandler cfg100
          { envOf (.other 0) with startup := sampleStartup (some 0x01020304) }
          { initMachine cfg100 with state := .stateStartup } = .ok m1 ∧
        m1.state = .stateIdle ∧ m1.callbackQueue.requestCnt = 1 ∧
        e.wCmd = 10 ∧ e.wLen = 13 ∧
        ∃ m2, SerialAPIStateHandler cfg100 (envOf .PARSE_FRAME_RECEIVED) m1 = .ok m2 ∧
          m2.state = .stateCallbackTxSerial ∧
          m2.txLog = [requestFrameOf e] ∧ (requestFrameOf e).cmd = 10 ∧
          (requestFrameOf e).type = .REQUEST ∧ (requestFrameOf e).len = 13) ∧
    ∃ m1, SerialAPIStateHandler cfg100 (envOf (.other 0)) (initMachine cfg100) = .ok m1 ∧
      m1.state = .stateIdle ∧ m1.txLog = [] := by
  refine ⟨?_, ?_⟩
  · obtain ⟨m1, e, h1, h2, _, h4, _, _, h7, h8, m2, h9, h10, h11⟩ :=
      (startup_and_unnamed_state cfg100
        { envOf (.other 0) with startup := sampleStartup (some 0x01020304) }
        (envOf .PARSE_FRAME_RECEIVED)
        { initMachine cfg100 with state := .stateStartup }).1 rfl (by decide) (by decide)
        (by simp [initMachine]) (by decide) (by decide) (by decide) (by decide) (by decide)
        (by decide) (by decide)
    exact ⟨m1, e, h1, h2, h4, h7, h8, m2, h9, h10, h11, h7, rfl, h8⟩
  · obtain ⟨m1, h1, h2, h3, _⟩ :=
      (startup_and_unnamed_state cfg100 (envOf (.other 0)) (envOf (.other 0))
        (initMachine cfg100)).2 0xff rfl
    exact ⟨m1, h1, h2, h3⟩

/-! ## C29: the input bytes a known subcommand reads -/

end SerialAPI
